import Mathlib

/-!
# OpenLara `Controller` (src/controller.h): embedding and verified properties

The per-entity simulation kernel of `controller.h` is embedded as pure functions
over explicit state.

* C++ `float` values are rationals (`ℚ`). Every float operation of the
  animation clock, of the command loop and of the sprite timer rounds its exact
  result to single precision, to nearest with ties to even (`f32`, with the
  operations `fadd`, `fmul`, `fdiv`); overflow to infinity and NaN are not
  modelled, no clock value comes near them. `int(f)` is truncation toward zero.
  A conversion of an `int` to `float` is the integer itself, which is exact for
  values below 2^24.
* C++ `int` values are integers (`Int`); the `int` arithmetic of `getOverlap`
  wraps to 32 bits (`wrap32`), as the compiled code does.
* Level tables (`level->anims[i]`, ...) are total maps from the index to the
  element, so every index the code forms can be read.
* Pointers to `ActionCommand` nodes and to controllers are addresses (`Nat`) into
  a heap; `NULL` is `none`.
* Virtual member functions are a table of hooks (`Hooks`), one table per
  controller object; `Controller.base` is the table of the base class.
* What `format.h`, `utils.h` and libm declare (enum values, flag constants,
  `PI`, `sinf`, `cosf`, `vec3::rotateY`, `TR::Box::contains`) is not part of the
  file and is taken as a parameter (`Defs`).
* Loops and recursions whose end depends on the data (`activateNext`, the
  overlap list of `getOverlap`) take fuel; `none` is a run that the fuel does
  not cover.
-/

set_option autoImplicit false

/-- The C++ conversion `int(f)` of a float to an integer: truncation toward zero. -/
def truncToInt (q : ℚ) : Int := if 0 ≤ q then ⌊q⌋ else ⌈q⌉

/-- The C++ `fabsf`. -/
def fabsf (q : ℚ) : ℚ := if q < 0 then -q else q

/-- Rounding to the nearest integer, ties to the even one. -/
def roundEven (q : ℚ) : Int :=
  if q - ⌊q⌋ < 1 / 2 then ⌊q⌋
  else if 1 / 2 < q - ⌊q⌋ then ⌊q⌋ + 1
  else if ⌊q⌋ % 2 = 0 then ⌊q⌋ else ⌊q⌋ + 1

/-- The binary exponent of the single precision binade of `q`: the `e` with
`2^e ≤ |q| < 2^(e+1)`, and -126 in the subnormal range. -/
def f32exp (q : ℚ) : Int := max (Int.log 2 |q|) (-126)

/-- Rounding to single precision (IEEE 754 binary32: 24 significant bits, to
nearest, ties to even): the value a `float` operation stores for the exact
result `q`. -/
def f32 (q : ℚ) : ℚ := roundEven (q / 2 ^ (f32exp q - 23)) * 2 ^ (f32exp q - 23)

/-- The `float` sum `a + b`. -/
def fadd (a b : ℚ) : ℚ := f32 (a + b)

/-- The `float` product `a * b`. -/
def fmul (a b : ℚ) : ℚ := f32 (a * b)

/-- The `float` quotient `a / b`. -/
def fdiv (a b : ℚ) : ℚ := f32 (a / b)

/-- The value a 32-bit `int` holds for the integer `x`: `x` modulo `2^32`, in
the range from `-2^31` to `2^31 - 1`. -/
def wrap32 (x : Int) : Int := (x + 2147483648) % 4294967296 - 2147483648

/-- The three-component float vector of `utils.h`. -/
structure vec3 where
  x : ℚ
  y : ℚ
  z : ℚ
deriving DecidableEq

/-- Component-wise `float` sum, `vec3::operator +`. -/
def vec3.add (a b : vec3) : vec3 := ⟨fadd a.x b.x, fadd a.y b.y, fadd a.z b.z⟩

namespace TR

/-- The action kinds `TR::Action` that `activateNext` switches over. -/
inductive Action where
  | ACTIVATE
  | CAMERA_SWITCH
  | CAMERA_TARGET
  | SECRET
  | FLOW
  | FLIP_MAP
  | FLIP_ON
  | FLIP_OFF
  | END
  | SOUNDTRACK
  | HARDCODE
  | CLEAR
  | CAMERA_FLYBY
  | CUTSCENE
deriving DecidableEq

/-- An animation clip `TR::Animation` (the fields `controller.h` reads). -/
structure Animation where
  frameStart : Int
  frameEnd : Int
  state : Int
  nextAnimation : Int
  nextFrame : Int
  scCount : Int
  scOffset : Int
  acCount : Int
  animCommand : Int
deriving DecidableEq

/-- A state-change record `TR::AnimState`. -/
structure AnimState where
  state : Int
  rangesCount : Int
  rangesOffset : Int
deriving DecidableEq

/-- A frame range `TR::AnimRange` of a state-change record. -/
structure AnimRange where
  low : Int
  high : Int
  nextAnimation : Int
  nextFrame : Int
deriving DecidableEq

/-- A level entity `TR::Entity`; `controller` is the address of its controller. -/
structure Entity where
  id : Int
  x : Int
  y : Int
  z : Int
  rotation : ℚ
  room : Int
  modelIndex : Int
  controller : Option Nat
deriving DecidableEq

/-- A room `TR::Room` (its flag word). -/
structure Room where
  flags : Nat
deriving DecidableEq

/-- The answer `TR::Level::FloorInfo` of the topology query. -/
structure FloorInfo where
  floor : Int
  ceiling : Int
  roomNext : Int
  roomBelow : Int
  roomAbove : Int
deriving DecidableEq

/-- A sector `TR::Room::Sector` (its box index). -/
structure Sector where
  boxIndex : Int
deriving DecidableEq

/-- A navigation box `TR::Box`. -/
structure Box where
  minZ : Int
  maxZ : Int
  minX : Int
  maxX : Int
  floor : Int
  overlap : Nat
deriving DecidableEq

/-- An entry `TR::Overlap` of a box's overlap list. -/
structure Overlap where
  boxIndex : Int
  last : Bool
deriving DecidableEq

/-- A sprite sequence `TR::SpriteSequence` (its frame count). -/
structure SpriteSequence where
  sCount : Int
deriving DecidableEq

/-- A model `TR::Model` (the index of its first animation clip). -/
structure Model where
  animation : Int
deriving DecidableEq

/-- The level `TR::Level`: the read-only tables, the topology queries, and the
mutable entity records, secret flags and camera controller. -/
structure Level where
  anims : Int → Animation
  states : Int → AnimState
  ranges : Int → AnimRange
  commands : Int → Int
  rooms : Int → Room
  boxes : Int → Box
  overlaps : Int → Overlap
  spriteSequences : Int → SpriteSequence
  models : Int → Model
  getFloorInfo : Int → Int → Int → FloorInfo
  getSector : Int → Int → Int → Sector
  entities : Int → Entity
  secrets : Int → Bool
  cameraController : Option Nat

end TR

/-- What the headers outside `controller.h` declare and the code uses by name:
enum values and flags of `format.h`, the member `TR::Box::contains`, and the
float helpers of `utils.h`/libm.
The labels of one `switch` are pairwise different, as C++ requires. -/
structure Defs where
  ANIM_CMD_MOVE : Int
  ANIM_CMD_SPEED : Int
  ANIM_CMD_EMPTY : Int
  ANIM_CMD_KILL : Int
  ANIM_CMD_SOUND : Int
  ANIM_CMD_SPECIAL : Int
  ANIM_CMD_SPECIAL_FLIP : Int
  ANIM_CMD_SPECIAL_BUBBLE : Int
  ANIM_CMD_SPECIAL_CTRL : Int
  ROOM_FLAG_WATER : Nat
  SND_SECRET : Int
  SND_BUBBLE : Int
  ENEMY_BAT : Int
  PI : ℚ
  sinf : ℚ → ℚ
  cosf : ℚ → ℚ
  rotateY : vec3 → ℚ → vec3
  boxContains : TR.Box → Int → Int → Bool
  cmdLabels : [ANIM_CMD_MOVE, ANIM_CMD_SPEED, ANIM_CMD_EMPTY, ANIM_CMD_KILL,
    ANIM_CMD_SOUND, ANIM_CMD_SPECIAL].Nodup
  specialLabels : [ANIM_CMD_SPECIAL_FLIP, ANIM_CMD_SPECIAL_BUBBLE,
    ANIM_CMD_SPECIAL_CTRL].Nodup

/-- The stand classification `Controller::Stand`. -/
inductive Stand where
  | STAND_AIR
  | STAND_GROUND
  | STAND_UNDERWATER
  | STAND_ONWATER
deriving DecidableEq

/-- A node `Controller::ActionCommand` of an action chain; `next` is the address
of the following node. -/
structure ActionCommand where
  action : TR.Action
  value : Int
  timer : ℚ
  next : Option Nat
deriving DecidableEq

/-- The data members of `struct Controller` (`level` is passed separately). -/
structure Controller where
  entity : Int
  stand : Stand
  state : Int
  mask : Int
  animTime : ℚ
  animIndex : Int
  animPrevFrame : Int
  pos : vec3
  velocity : vec3
  angle : vec3
  angleExt : ℚ
  health : Int
  turnTime : ℚ
  actionCommand : Option Nat
deriving DecidableEq

/-- The virtual member functions of `Controller`, as functions of the level and
of the object they are called on. `activate` returns the object after the call
and the call's result. -/
structure Hooks where
  activate : TR.Level → Controller → Nat → Controller × Bool
  updateVelocity : TR.Level → Controller → Controller
  move : TR.Level → Controller → Controller
  updateState : TR.Level → Controller → Controller
  getStand : TR.Level → Controller → Stand
  getHeight : TR.Level → Controller → Int
  getStateAir : TR.Level → Controller → Int
  getStateGround : TR.Level → Controller → Int
  getStateUnderwater : TR.Level → Controller → Int
  getStateOnwater : TR.Level → Controller → Int
  getStateDeath : TR.Level → Controller → Int
  getStateDefault : TR.Level → Controller → Int
  getInputMask : TR.Level → Controller → Int

/-- One `playSound(id)` call. `site` is the loop index of the animation command
that issued it (`none` for a call issued outside the command loop); it is
bookkeeping that no code reads. -/
structure SoundCall where
  id : Int
  site : Option Nat
deriving DecidableEq

/-- The simulation state: the level, the controller objects and the action
command nodes by address, and the `playSound` calls made so far, oldest first. -/
structure World where
  level : TR.Level
  controllers : Nat → Controller
  cmds : Nat → ActionCommand
  sounds : List SoundCall

namespace TR.Level

/-- Write `level->entities[i] = e`. -/
def setEntity (lv : TR.Level) (i : Int) (e : TR.Entity) : TR.Level :=
  { lv with entities := Function.update lv.entities i e }

/-- Write `level->secrets[i] = b`. -/
def setSecret (lv : TR.Level) (i : Int) (b : Bool) : TR.Level :=
  { lv with secrets := Function.update lv.secrets i b }

end TR.Level

namespace Controller

/-- The flag `Controller::DEATH` of the status mask, `1 << 9`. -/
def DEATH : Int := 512

/-- The macro `NO_OVERLAP`. -/
def NO_OVERLAP : Int := 0x7FFFFFFF

/-- The entity record `getEntity()`. -/
def getEntity (lv : TR.Level) (c : Controller) : TR.Entity := lv.entities c.entity

/-- The member `updateEntity()`: copy position and yaw into the entity record. -/
def updateEntity (lv : TR.Level) (c : Controller) : TR.Level :=
  lv.setEntity c.entity
    { getEntity lv c with
      x := truncToInt c.pos.x
      y := truncToInt c.pos.y
      z := truncToInt c.pos.z
      rotation := c.angle.y }

/-- The member `setAnimation(index, frame)`; the returned state is the field
`state` of the result. The `ASSERT` does not change the object; the condition it
checks is `frameStart ≤ frameEnd` of the clip entered. -/
def setAnimation (lv : TR.Level) (c : Controller) (index : Int) (frame : Int) : Controller :=
  let anim := lv.anims index
  { c with
    animIndex := index
    animTime := if frame = -1 then 0 else fdiv ((frame - anim.frameStart : Int) : ℚ) 30
    animPrevFrame := -1
    state := anim.state }

/-- The inner loop of `setState` over the frame ranges of record `s`: the first
range (in stored order) containing the absolute frame switches the clip and
ends the loop. `anim` is the clip that was active when `setState` was entered. -/
def setStateRanges (lv : TR.Level) (anim : TR.Animation) (fIndex : Int) (s : TR.AnimState)
    (c : Controller) : Controller :=
  match (List.range s.rangesCount.toNat).find? (fun j =>
      let range := lv.ranges (s.rangesOffset + j)
      decide (anim.frameStart + fIndex ≥ range.low) && decide (anim.frameStart + fIndex ≤ range.high)) with
  | some j =>
    let range := lv.ranges (s.rangesOffset + j)
    setAnimation lv c range.nextAnimation range.nextFrame
  | none => c

/-- The body of the outer loop of `setState` for record index `i`, on the pair
(`exists`, object). -/
def setStateRecord (lv : TR.Level) (anim : TR.Animation) (fIndex : Int) (state : Int)
    (acc : Bool × Controller) (i : Nat) : Bool × Controller :=
  let s := lv.states (anim.scOffset + i)
  if s.state = state then (true, setStateRanges lv anim fIndex s acc.2) else acc

/-- The member `setState(state)`: the result of the call and the object after it. -/
def setState (lv : TR.Level) (c : Controller) (state : Int) : Bool × Controller :=
  let anim := lv.anims c.animIndex
  if state = anim.state then (true, c)
  else
    let fIndex := truncToInt (fmul c.animTime 30)
    (List.range anim.scCount.toNat).foldl (setStateRecord lv anim fIndex state) (false, c)

/-- Store `c` as the controller object at address `i`. -/
def setController (w : World) (i : Nat) (c : Controller) : World :=
  { w with controllers := Function.update w.controllers i c }

/-- The assignment `actionCommand = p` in the controller at address `self`. -/
def setActionCommand (w : World) (self : Nat) (p : Option Nat) : World :=
  setController w self { w.controllers self with actionCommand := p }

/-- The member `playSound(id)`: its effect is in the sound engine only; the call
is recorded. -/
def playSound (w : World) (id : Int) (site : Option Nat) : World :=
  { w with sounds := w.sounds ++ [⟨id, site⟩] }

/-- The base implementation of the virtual `activate(cmd)`. -/
def activate (_lv : TR.Level) (c : Controller) (cmd : Nat) : Controller × Bool :=
  ({ c with actionCommand := some cmd }, true)

/-- The virtual table of the base class `Controller`. -/
def base : Hooks where
  activate := activate
  updateVelocity := fun _ c => c
  move := fun _ c => c
  updateState := fun _ c => c
  getStand := fun _ _ => Stand.STAND_AIR
  getHeight := fun _ _ => 0
  getStateAir := fun _ c => c.state
  getStateGround := fun _ c => c.state
  getStateUnderwater := fun _ c => c.state
  getStateOnwater := fun _ c => c.state
  getStateDeath := fun _ c => c.state
  getStateDefault := fun _ c => c.state
  getInputMask := fun _ _ => 0

/-- The topology answer `info` that `collide()` queries on entry. -/
def collideInfo (lv : TR.Level) (c : Controller) : TR.FloorInfo :=
  lv.getFloorInfo (getEntity lv c).room (getEntity lv c).x (getEntity lv c).z

/-- The first part of `collide()`, up to the end of the floor step: the room
crossing, then the floor test. -/
def collideFloor (lv : TR.Level) (c : Controller) : TR.Level × Controller :=
  let info := collideInfo lv c
  let lv1 :=
    if info.roomNext ≠ 0xFF then
      lv.setEntity c.entity { getEntity lv c with room := info.roomNext }
    else lv
  if (getEntity lv1 c).y ≥ info.floor then
    if info.roomBelow = 0xFF then
      (lv1.setEntity c.entity { getEntity lv1 c with y := info.floor },
        { c with
          pos := { c.pos with y := (info.floor : ℚ) }
          velocity := { c.velocity with y := 0 } })
    else
      (lv1.setEntity c.entity { getEntity lv1 c with room := info.roomBelow }, c)
  else (lv1, c)

/-- The member `collide()`, on the level (whose entity record it writes) and the
object: the part up to the floor step, then the ceiling step. -/
def collide (d : Defs) (hk : Hooks) (lv : TR.Level) (c : Controller) : TR.Level × Controller :=
  let info := collideInfo lv c
  let lv2 := (collideFloor lv c).1
  let c2 := (collideFloor lv c).2
  let height := hk.getHeight lv2 c2
  if (getEntity lv2 c2).y - hk.getHeight lv2 c2 < info.ceiling then
    if info.roomAbove = 0xFF then
      (lv2.setEntity c2.entity { getEntity lv2 c2 with y := info.ceiling + height },
        { c2 with
          pos := { c2.pos with y := ((info.ceiling + height : Int) : ℚ) }
          velocity := { c2.velocity with y := fabsf c2.velocity.y } })
    else if c2.stand = Stand.STAND_UNDERWATER ∧
        (lv2.rooms info.roomAbove).flags &&& d.ROOM_FLAG_WATER = 0 then
      (lv2,
        { c2 with
          stand := Stand.STAND_ONWATER
          velocity := { c2.velocity with y := 0 }
          pos := { c2.pos with y := (info.ceiling : ℚ) } })
    else if c2.stand ≠ Stand.STAND_ONWATER ∧ (getEntity lv2 c2).y < info.ceiling then
      (lv2.setEntity c2.entity { getEntity lv2 c2 with room := info.roomAbove }, c2)
    else (lv2, c2)
  else (lv2, c2)

/-- The tail of `activateNext` after the `switch`: hand the link at address
`next` to `controller`, or drop the chain when there is no controller. -/
def handOff (hk : Nat → Hooks) (self : Nat) (next : Nat) (controller : Option Nat)
    (w : World) : World :=
  match controller with
  | some t =>
    let r := (hk t).activate w.level (w.controllers t) next
    let w1 := setController w t r.1
    if r.2 then setActionCommand w1 self none else w1
  | none => setActionCommand w self none

/-- The SECRET case of `activateNext` for the link at address `next`, up to the
recursive call: set the flag and play the sound if the secret is new, then move
the cursor to the link. -/
def secretLink (d : Defs) (self : Nat) (next : Nat) (w : World) : World :=
  let w1 :=
    if w.level.secrets (w.cmds next).value = false then
      playSound { w with level := w.level.setSecret (w.cmds next).value true }
        d.SND_SECRET none
    else w
  setActionCommand w1 self (some next)

/-- The member `activateNext()` of the controller at address `self`. Every call,
the recursive one included, takes one unit of `fuel`; `none` is a call tree
deeper than the fuel. -/
def activateNext (d : Defs) (hk : Nat → Hooks) (self : Nat) : Nat → World → Option World
  | 0, _ => none
  | fuel + 1, w =>
    match (w.controllers self).actionCommand with
    | none => some (setActionCommand w self none)
    | some a =>
      match (w.cmds a).next with
      | none => some (setActionCommand w self none)
      | some n =>
        match (w.cmds n).action with
        | TR.Action.ACTIVATE =>
          some (handOff hk self n (w.level.entities (w.cmds n).value).controller w)
        | TR.Action.CAMERA_SWITCH => some (handOff hk self n w.level.cameraController w)
        | TR.Action.CAMERA_TARGET => some (handOff hk self n w.level.cameraController w)
        | TR.Action.SECRET => activateNext d hk self fuel (secretLink d self n w)
        | TR.Action.FLOW => some (handOff hk self n none w)
        | TR.Action.FLIP_MAP => some (handOff hk self n none w)
        | TR.Action.FLIP_ON => some (handOff hk self n none w)
        | TR.Action.FLIP_OFF => some (handOff hk self n none w)
        | TR.Action.END => some (handOff hk self n none w)
        | TR.Action.SOUNDTRACK => some (handOff hk self n none w)
        | TR.Action.HARDCODE => some (handOff hk self n none w)
        | TR.Action.CLEAR => some (handOff hk self n none w)
        | TR.Action.CAMERA_FLYBY => some (handOff hk self n none w)
        | TR.Action.CUTSCENE => some (handOff hk self n none w)

/-- One pass of the body of the command loop of `updateAnimation`, for loop
index `i` with `ptr` at the command word: the pointer after the record and the
state after it. `x & 0x3FFF` on a two's-complement `x` is `x` modulo `2^14`. -/
def animCommand (d : Defs) (self : Nat) (anim : TR.Animation) (frameIndex : Int)
    (endFrame : Bool) (i : Nat) (ptr : Int) (w : World) : Int × World :=
  let cmd := w.level.commands ptr
  let ptr := ptr + 1
  let c := w.controllers self
  if cmd = d.ANIM_CMD_MOVE then
    let sx := w.level.commands ptr
    let sy := w.level.commands (ptr + 1)
    let sz := w.level.commands (ptr + 2)
    (ptr + 3,
      if endFrame then
        let c1 := { c with pos := c.pos.add (d.rotateY ⟨sx, sy, sz⟩ c.angle.y) }
        { setController w self c1 with level := updateEntity w.level c1 }
      else w)
  else if cmd = d.ANIM_CMD_SPEED then
    let sy := w.level.commands ptr
    let sz := w.level.commands (ptr + 1)
    (ptr + 2,
      if endFrame then
        setController w self
          { c with
            velocity := ⟨fmul (d.sinf c.angleExt) sz, sy, fmul (d.cosf c.angleExt) sz⟩
            stand := Stand.STAND_AIR }
      else w)
  else if cmd = d.ANIM_CMD_EMPTY then (ptr, w)
  else if cmd = d.ANIM_CMD_KILL then (ptr, w)
  else if cmd = d.ANIM_CMD_SOUND then
    let frame := w.level.commands ptr
    let id := w.level.commands (ptr + 1) % 0x4000
    let idx := frame - anim.frameStart
    (ptr + 2,
      if idx > c.animPrevFrame ∧ idx ≤ frameIndex then
        if (getEntity w.level c).id ≠ d.ENEMY_BAT then playSound w id (some i) else w
      else w)
  else if cmd = d.ANIM_CMD_SPECIAL then
    (ptr + 2,
      if frameIndex ≠ c.animPrevFrame ∧ frameIndex + anim.frameStart = w.level.commands ptr then
        if w.level.commands (ptr + 1) = d.ANIM_CMD_SPECIAL_FLIP then
          setController w self { c with angle := { c.angle with y := fadd c.angle.y d.PI } }
        else if w.level.commands (ptr + 1) = d.ANIM_CMD_SPECIAL_BUBBLE then
          playSound w d.SND_BUBBLE (some i)
        else w
      else w)
  else (ptr, w)

/-- The command loop of `updateAnimation`: `n` more passes, the next one with
loop index `i` and `ptr` at its command word. -/
def animCommands (d : Defs) (self : Nat) (anim : TR.Animation) (frameIndex : Int)
    (endFrame : Bool) : Nat → Nat → Int → World → World
  | 0, _, _, w => w
  | n + 1, i, ptr, w =>
    let r := animCommand d self anim frameIndex endFrame i ptr w
    animCommands d self anim frameIndex endFrame n (i + 1) r.1 r.2

/-- The frame index `int((animTime += Core::deltaTime) * 30.0f)` that
`updateAnimation` computes. -/
def tickFrame (c : Controller) (deltaTime : ℚ) : Int :=
  truncToInt (fmul (fadd c.animTime deltaTime) 30)

/-- The flag `endFrame` that `updateAnimation` computes. -/
def tickEnd (lv : TR.Level) (c : Controller) (deltaTime : ℚ) : Bool :=
  decide (tickFrame c deltaTime >
    (lv.anims c.animIndex).frameEnd - (lv.anims c.animIndex).frameStart)

/-- The first part of `updateAnimation(commands)`, up to the end of the command
loop: advance the animation clock by `deltaTime`, then run the clip's command
loop when `commands` is set. -/
def animPass (d : Defs) (self : Nat) (commands : Bool) (deltaTime : ℚ) (w : World) : World :=
  let w0 := setController w self
    { w.controllers self with animTime := fadd (w.controllers self).animTime deltaTime }
  let frameIndex := truncToInt (fmul (w0.controllers self).animTime 30)
  let anim := w0.level.anims (w0.controllers self).animIndex
  let endFrame := decide (frameIndex > anim.frameEnd - anim.frameStart)
  if commands then
    animCommands d self anim frameIndex endFrame anim.acCount.toNat 0 anim.animCommand w0
  else w0

/-- The member `updateAnimation(commands)` of the controller at address `self`,
with `Core::deltaTime` as a parameter; `fuel` bounds the calls of
`activateNext`. `anim` is the clip that was active on entry. -/
def updateAnimation (d : Defs) (hk : Nat → Hooks) (self : Nat) (fuel : Nat)
    (commands : Bool) (deltaTime : ℚ) (w : World) : Option World :=
  let frameIndex := tickFrame (w.controllers self) deltaTime
  let anim := w.level.anims (w.controllers self).animIndex
  let endFrame := tickEnd w.level (w.controllers self) deltaTime
  let w1 := animPass d self commands deltaTime w
  if endFrame then
    activateNext d hk self fuel
      (setController w1 self
        (setAnimation w1.level (w1.controllers self) anim.nextAnimation anim.nextFrame))
  else
    some (setController w1 self { w1.controllers self with animPrevFrame := frameIndex })

/-- A run of `updateAnimation(commands)` calls of the controller at address
`self`, one for each tick delta of the list, oldest first. -/
def runTicks (d : Defs) (hk : Nat → Hooks) (self : Nat) (fuel : Nat) (commands : Bool) :
    List ℚ → World → Option World
  | [], w => some w
  | dt :: rest, w =>
    match updateAnimation d hk self fuel commands dt w with
    | some w1 => runTicks d hk self fuel commands rest w1
    | none => none

/-- What the command loop of `updateAnimation` leaves as it was, between two
states: the clip tables, the secret flags, the action commands, the animation
cursor, state, entity index and chain cursor of the controller at `self`, the
kind of its entity, and every other controller. -/
def PassKeeps (self : Nat) (w w1 : World) : Prop :=
  w1.level.anims = w.level.anims ∧ w1.level.commands = w.level.commands ∧
  w1.level.secrets = w.level.secrets ∧ w1.cmds = w.cmds ∧
  (w1.controllers self).animIndex = (w.controllers self).animIndex ∧
  (w1.controllers self).animTime = (w.controllers self).animTime ∧
  (w1.controllers self).animPrevFrame = (w.controllers self).animPrevFrame ∧
  (w1.controllers self).state = (w.controllers self).state ∧
  (w1.controllers self).entity = (w.controllers self).entity ∧
  (w1.controllers self).actionCommand = (w.controllers self).actionCommand ∧
  (w1.level.entities (w.controllers self).entity).id =
    (w.level.entities (w.controllers self).entity).id ∧
  (∀ k, k ≠ self → w1.controllers k = w.controllers k)

/-- The selection rule in the words of the specification of `setState` (first
match wins), for comparison with `setState`: the frame range the rule selects is
the first containing range of the first record of the desired state that has a
containing range. -/
def setState_spec_range (lv : TR.Level) (c : Controller) (state : Int) : Option TR.AnimRange :=
  let anim := lv.anims c.animIndex
  let frame := anim.frameStart + truncToInt (fmul c.animTime 30)
  (List.range anim.scCount.toNat).findSome? (fun i =>
    let s := lv.states (anim.scOffset + i)
    if s.state = state then
      ((List.range s.rangesCount.toNat).map (fun j => lv.ranges (s.rangesOffset + j))).find?
        (fun range => decide (range.low ≤ frame) && decide (frame ≤ range.high))
    else none)

/-- The switch in the words of the specification of `setState`, for comparison
with `setState`: the object after a switch decided by the first match. -/
def setState_spec (lv : TR.Level) (c : Controller) (state : Int) : Controller :=
  if state = (lv.anims c.animIndex).state then c
  else
    match setState_spec_range lv c state with
    | some range => setAnimation lv c range.nextAnimation range.nextFrame
    | none => c

/-- The chain of action commands that starts at address `p` reaches `NULL`
within `n` links. -/
def chainEnds (cmds : Nat → ActionCommand) : Nat → Option Nat → Bool
  | _, none => true
  | 0, some _ => false
  | n + 1, some a => chainEnds cmds n (cmds a).next

/-- An `activate` implementation that leaves the animation cursor of the object
it is called on as it was. -/
def KeepsClip (f : TR.Level → Controller → Nat → Controller × Bool) : Prop :=
  ∀ lv c n, (f lv c n).1.animIndex = c.animIndex ∧ (f lv c n).1.animTime = c.animTime ∧
    (f lv c n).1.animPrevFrame = c.animPrevFrame

/-- The pointer after the record whose command word is at `ptr`, as the command
loop of `updateAnimation` moves it: past the command word and its operands. -/
def nextPtr (d : Defs) (commands : Int → Int) (ptr : Int) : Int :=
  if commands ptr = d.ANIM_CMD_MOVE then ptr + 1 + 3
  else if commands ptr = d.ANIM_CMD_SPEED then ptr + 1 + 2
  else if commands ptr = d.ANIM_CMD_EMPTY then ptr + 1
  else if commands ptr = d.ANIM_CMD_KILL then ptr + 1
  else if commands ptr = d.ANIM_CMD_SOUND then ptr + 1 + 2
  else if commands ptr = d.ANIM_CMD_SPECIAL then ptr + 1 + 2
  else ptr + 1

/-- The pointer at which the command loop that starts at `start` reads the
command word of its pass with loop index `i`. -/
def cmdPtr (d : Defs) (commands : Int → Int) (start : Int) : Nat → Int
  | 0 => start
  | i + 1 => nextPtr d commands (cmdPtr d commands start i)

/-- The number of recorded `playSound` calls issued by the animation command
with loop index `i`. -/
def siteCount (i : Nat) (sounds : List SoundCall) : Nat :=
  sounds.countP (fun s => decide (s.site = some i))

/-- The frame indices that successive `updateAnimation` calls compute from clock
value `t` for the tick deltas of the list, while the clip is not left. -/
def tickFrames (t : ℚ) : List ℚ → List Int
  | [] => []
  | dt :: rest => truncToInt (fmul (fadd t dt) 30) :: tickFrames (fadd t dt) rest

/-- The animation command with loop index `i` of the active clip of the
controller at `self` is a record SOUND for frame `F`, and the controller's
entity is not the (muted) bat. -/
def SoundRecord (d : Defs) (self : Nat) (w : World) (i : Nat) (F : Int) : Prop :=
  i < (w.level.anims (w.controllers self).animIndex).acCount.toNat ∧
  w.level.commands (cmdPtr d w.level.commands
    (w.level.anims (w.controllers self).animIndex).animCommand i) = d.ANIM_CMD_SOUND ∧
  w.level.commands (cmdPtr d w.level.commands
    (w.level.anims (w.controllers self).animIndex).animCommand i + 1) = F ∧
  (getEntity w.level (w.controllers self)).id ≠ d.ENEMY_BAT

/-- The value of the local `state` of `getState(stand)` after the dispatch to
the hooks: the state that `getState` passes to its first `setState`. -/
def getStateDesired (hk : Hooks) (lv : TR.Level) (c : Controller) (stand : Stand) : Int :=
  if Int.land c.mask DEATH ≠ 0 then hk.getStateDeath lv c
  else if stand = Stand.STAND_GROUND then hk.getStateGround lv c
  else if stand = Stand.STAND_AIR then hk.getStateAir lv c
  else if stand = Stand.STAND_UNDERWATER then hk.getStateUnderwater lv c
  else hk.getStateOnwater lv c

/-- The virtual member `getState(stand)`, base implementation: the value it
returns and the object after the call. The hooks are called on the object as it
is at the point of the call; the result of the second `setState` is not used. -/
def getState (hk : Hooks) (lv : TR.Level) (c : Controller) (stand : Stand) : Int × Controller :=
  let r := setState lv c (getStateDesired hk lv c stand)
  let c1 := if r.1 = false then (setState lv r.2 (hk.getStateDefault lv r.2)).2 else r.2
  ((lv.anims c1.animIndex).state, c1)

/-- The constructor `Controller(level, entity)`. The members it does not
initialise (`mask`, `angleExt`) keep the values `raw` of the memory the object
is built in. -/
def construct (lv : TR.Level) (entity : Int) (raw : Controller) : Controller :=
  let e := lv.entities entity
  let animIndex := if e.modelIndex > 0 then (lv.models (e.modelIndex - 1)).animation else 0
  { raw with
    entity := entity
    velocity := ⟨0, 0, 0⟩
    animTime := 0
    animPrevFrame := 0
    health := 100
    turnTime := 0
    actionCommand := none
    pos := ⟨(e.x : ℚ), (e.y : ℚ), (e.z : ℚ)⟩
    angle := ⟨0, e.rotation, 0⟩
    stand := Stand.STAND_GROUND
    animIndex := animIndex
    state := (lv.anims animIndex).state }

/-- The local `d = abs(ob.floor - fromY)` of `getOverlap`, a 32-bit `int`
difference and its 32-bit `abs`. -/
def floorDist (floor fromY : Int) : Int := wrap32 |wrap32 (floor - fromY)|

/-- The loop of `getOverlap` over the overlap list, from the entry at index `o`
with the best floor and distance so far; the result is the pair of `floor` and
`delta` when the loop is left. Every pass takes one unit of `fuel`; `none` is a
list with no entry flagged `end` within the fuel. -/
def overlapLoop (d : Defs) (lv : TR.Level) (fromY toX toZ : Int) :
    Nat → Int → Int → Int → Option (Int × Int)
  | 0, _, _, _ => none
  | fuel + 1, o, floor, delta =>
    let ob := lv.boxes (lv.overlaps o).boxIndex
    let r : Int × Int :=
      if d.boxContains ob toX toZ = true then
        if floorDist ob.floor fromY < delta then (ob.floor, floorDist ob.floor fromY)
        else (floor, delta)
      else (floor, delta)
    if (lv.overlaps o).last = true then some r
    else overlapLoop d lv fromY toX toZ fuel (o + 1) r.1 r.2

/-- The member `getOverlap(fromX, fromY, fromZ, toX, toZ, delta)`: the value it
returns and the value of the reference parameter `delta` after the call; the
final `delta = floor - b.floor` is a 32-bit `int` difference. -/
def getOverlap (d : Defs) (lv : TR.Level) (c : Controller) (fuel : Nat)
    (fromX fromY fromZ toX toZ : Int) (delta : Int) : Option (Int × Int) :=
  let s := lv.getSector (getEntity lv c).room fromX fromZ
  if s.boxIndex = 0xFFFF then some (NO_OVERLAP, delta)
  else
    let b := lv.boxes s.boxIndex
    if d.boxContains b toX toZ = true then some (b.floor, 0)
    else
      match overlapLoop d lv fromY toX toZ fuel ((b.overlap &&& 0x7FFF : Nat) : Int)
          NO_OVERLAP NO_OVERLAP with
      | some r => some (r.1, wrap32 (r.1 - b.floor))
      | none => none

/-- The virtual member `updateBegin()`, base implementation. -/
def updateBegin (hk : Hooks) (lv : TR.Level) (c : Controller) : Controller :=
  let c1 := { c with mask := hk.getInputMask lv c }
  let c2 := { c1 with stand := hk.getStand lv c1 }
  let r := getState hk lv c2 c2.stand
  { r.2 with state := r.1 }

/-- The virtual member `updateEnd()`, base implementation: `move()`, `collide()`,
`updateEntity()`. -/
def updateEnd (d : Defs) (hk : Hooks) (lv : TR.Level) (c : Controller) : TR.Level × Controller :=
  let r := collide d hk lv (hk.move lv c)
  (updateEntity r.1 r.2, r.2)

/-- The virtual member `update()`, base implementation, of the controller at
address `self`: one full tick with `Core::deltaTime` as a parameter. -/
def update (d : Defs) (hk : Nat → Hooks) (self : Nat) (fuel : Nat) (deltaTime : ℚ)
    (w : World) : Option World :=
  let w1 := setController w self (updateBegin (hk self) w.level (w.controllers self))
  let w2 := setController w1 self ((hk self).updateState w1.level (w1.controllers self))
  match updateAnimation d hk self fuel true deltaTime w2 with
  | none => none
  | some w3 =>
    let w4 := setController w3 self ((hk self).updateVelocity w3.level (w3.controllers self))
    let r := updateEnd d (hk self) w4.level (w4.controllers self)
    some (setController { w4 with level := r.1 } self r.2)

/-- The state/clip consistency predicate: the current state id is the intrinsic
state of the active clip, `state == level->anims[animIndex].state`. -/
def StateInv (lv : TR.Level) (c : Controller) : Prop :=
  c.state = (lv.anims c.animIndex).state

end Controller

/-- The class `SpriteController`: a `Controller` with the members `frame`,
`instant` and `animated`. -/
structure SpriteController extends Controller where
  frame : Int
  instant : Bool
  animated : Bool
deriving DecidableEq

namespace SpriteController

/-- The member `getSequence()`. -/
def getSequence (lv : TR.Level) (s : SpriteController) : TR.SpriteSequence :=
  lv.spriteSequences (-((Controller.getEntity lv s.toController).modelIndex + 1))

/-- The member `SpriteController::update()` with `Core::deltaTime` as a
parameter: the object after the assignments and the value of the local `remove`.
When `remove` is set the code calls `level->entityRemove(entity)` and deletes the
object. The literal `0.1f` is the decimal 0.1 rounded to single precision, and
`%` is the C++ remainder, truncated toward zero; `frame %= 0` is a division by
zero, on which the program stops: the result is `none`. -/
def update (lv : TR.Level) (deltaTime : ℚ) (s : SpriteController) :
    Option (SpriteController × Bool) :=
  let s1 := { s with animTime := fadd s.animTime deltaTime }
  if s1.animated = true then
    let s2 := { s1 with frame := truncToInt (fmul s1.animTime 10) }
    if s2.instant = true ∧ s2.frame ≥ (getSequence lv s2).sCount then some (s2, true)
    else if (getSequence lv s2).sCount = 0 then none
    else some ({ s2 with frame := Int.tmod s2.frame (getSequence lv s2).sCount }, false)
  else if s1.instant = true ∧ s1.animTime ≥ f32 (1 / 10) then some (s1, true)
  else some (s1, false)

end SpriteController

namespace Controller

/-- The state of `updateAnimation(true)` after the first `k` passes of its
command loop, the clock being advanced by `deltaTime` before the loop. -/
def loopState (d : Defs) (self : Nat) (deltaTime : ℚ) (w : World) (k : Nat) : World :=
  let w0 := setController w self
    { w.controllers self with animTime := fadd (w.controllers self).animTime deltaTime }
  let frameIndex := truncToInt (fmul (w0.controllers self).animTime 30)
  let anim := w0.level.anims (w0.controllers self).animIndex
  let endFrame := decide (frameIndex > anim.frameEnd - anim.frameStart)
  animCommands d self anim frameIndex endFrame k 0 anim.animCommand w0

/-- The animation command with loop index `i` of the active clip of the
controller at `self` is a record SPECIAL for frame `F` with operation `op`. -/
def SpecialRecord (d : Defs) (self : Nat) (w : World) (i : Nat) (F op : Int) : Prop :=
  i < (w.level.anims (w.controllers self).animIndex).acCount.toNat ∧
  w.level.commands (cmdPtr d w.level.commands
    (w.level.anims (w.controllers self).animIndex).animCommand i) = d.ANIM_CMD_SPECIAL ∧
  w.level.commands (cmdPtr d w.level.commands
    (w.level.anims (w.controllers self).animIndex).animCommand i + 1) = F ∧
  w.level.commands (cmdPtr d w.level.commands
    (w.level.anims (w.controllers self).animIndex).animCommand i + 1 + 1) = op

/-- The test `frameIndex != animPrevFrame && frameIndex + anim->frameStart ==
ptr[0]` of the case ANIM_CMD_SPECIAL, for a record of frame `F`, on the tick of
`deltaTime` of controller `c`. -/
def specialHit (lv : TR.Level) (c : Controller) (deltaTime : ℚ) (F : Int) : Bool :=
  decide (tickFrame c deltaTime ≠ c.animPrevFrame ∧
    tickFrame c deltaTime + (lv.anims c.animIndex).frameStart = F)

/-- The box of entry `k` of the overlap list that starts at index `start` of
the table `level->overlaps`. -/
def listedBox (lv : TR.Level) (start : Int) (k : Nat) : TR.Box :=
  lv.boxes (lv.overlaps (start + k)).boxIndex

/-- Entry `m` is the first entry flagged `end` of the overlap list that starts
at index `start`. -/
def ListEnds (lv : TR.Level) (start : Int) (m : Nat) : Prop :=
  (lv.overlaps (start + m)).last = true ∧ ∀ k, k < m → (lv.overlaps (start + k)).last = false

/-- An `activate` implementation that leaves position, velocity, stand and
angles of the object it is called on as they were. -/
def KeepsBody (f : TR.Level → Controller → Nat → Controller × Bool) : Prop :=
  ∀ lv c n, (f lv c n).1.pos = c.pos ∧ (f lv c n).1.velocity = c.velocity ∧
    (f lv c n).1.stand = c.stand ∧ (f lv c n).1.angle = c.angle

/-- In the run of `updateAnimation(commands)` ticks `l` of the controller at
`self` from state `w`, the tick with index `j` is the first end-of-clip tick: no
earlier tick is one and each of them returns on the clip; tick `j` is one and
returns the result of one `activateNext` call on the state with the clip's
`nextAnimation` entered at `nextFrame`, which leaves the controller on that clip
at its entry time with no frame processed. -/
def EndOfClipOn (d : Defs) (hk : Nat → Hooks) (self fuel : Nat) (commands : Bool) (w : World)
    (l : List ℚ) (j : Nat) : Prop :=
  (∀ i, i < j →
    ∃ wi, runTicks d hk self fuel commands (l.take i) w = some wi ∧
      (wi.controllers self).animIndex = (w.controllers self).animIndex ∧
      tickEnd wi.level (wi.controllers self) (l.getD i 0) = false) ∧
  ∃ wb wa, runTicks d hk self fuel commands (l.take j) w = some wb ∧
    (wb.controllers self).animIndex = (w.controllers self).animIndex ∧
    tickEnd wb.level (wb.controllers self) (l.getD j 0) = true ∧
    runTicks d hk self fuel commands (l.take (j + 1)) w = some wa ∧
    activateNext d hk self fuel
      (setController (animPass d self commands (l.getD j 0) wb) self
        (setAnimation (animPass d self commands (l.getD j 0) wb).level
          ((animPass d self commands (l.getD j 0) wb).controllers self)
          (w.level.anims (w.controllers self).animIndex).nextAnimation
          (w.level.anims (w.controllers self).animIndex).nextFrame)) = some wa ∧
    (wa.controllers self).animIndex =
      (w.level.anims (w.controllers self).animIndex).nextAnimation ∧
    (wa.controllers self).animTime =
      (setAnimation w.level (w.controllers self)
        (w.level.anims (w.controllers self).animIndex).nextAnimation
        (w.level.anims (w.controllers self).animIndex).nextFrame).animTime ∧
    (wa.controllers self).animPrevFrame = -1 ∧
    wa.level.anims = w.level.anims

end Controller

/-! ## Example data -/

/-- A level with every table zeroed, no room link in the topology and no
controller attached to an entity. -/
def TR.Level.blank : TR.Level where
  anims := fun _ => ⟨0, 0, 0, 0, 0, 0, 0, 0, 0⟩
  states := fun _ => ⟨0, 0, 0⟩
  ranges := fun _ => ⟨0, 0, 0, 0⟩
  commands := fun _ => 0
  rooms := fun _ => ⟨0⟩
  boxes := fun _ => ⟨0, 0, 0, 0, 0, 0⟩
  overlaps := fun _ => ⟨0, true⟩
  spriteSequences := fun _ => ⟨0⟩
  models := fun _ => ⟨0⟩
  getFloorInfo := fun _ _ _ => ⟨0, 0, 0xFF, 0xFF, 0xFF⟩
  getSector := fun _ _ _ => ⟨0xFFFF⟩
  entities := fun _ => ⟨0, 0, 0, 0, 0, 0, 0, none⟩
  secrets := fun _ => false
  cameraController := none

/-- A controller at time 0 of clip 0, with no pending chain. -/
def Controller.blank : Controller where
  entity := 0
  stand := Stand.STAND_GROUND
  state := 0
  mask := 0
  animTime := 0
  animIndex := 0
  animPrevFrame := 0
  pos := ⟨0, 0, 0⟩
  velocity := ⟨0, 0, 0⟩
  angle := ⟨0, 0, 0⟩
  angleExt := 0
  health := 100
  turnTime := 0
  actionCommand := none

/-- Clip 0 (frames 0..10, state 1) lists state 5 in two records: record 0 leads
to clip 7 at frame 70, record 1 to clip 8 at frame 80; both ranges are 0..10. -/
def dupLevel : TR.Level :=
  { TR.Level.blank with
    anims := fun i =>
      if i = 0 then ⟨0, 10, 1, 0, 0, 2, 0, 0, 0⟩
      else if i = 7 then ⟨70, 79, 5, 7, 70, 0, 0, 0, 0⟩
      else if i = 8 then ⟨80, 89, 5, 8, 80, 0, 0, 0, 0⟩
      else ⟨0, 0, 0, 0, 0, 0, 0, 0, 0⟩
    states := fun i =>
      if i = 0 then ⟨5, 1, 0⟩ else if i = 1 then ⟨5, 1, 1⟩ else ⟨0, 0, 0⟩
    ranges := fun i =>
      if i = 0 then ⟨0, 10, 7, 70⟩ else if i = 1 then ⟨0, 10, 8, 80⟩ else ⟨0, 0, 0, 0⟩ }

/-- A controller on clip 0 of `dupLevel`, in the clip's state 1, at time 0. -/
def dupCtl : Controller := { Controller.blank with state := 1 }

/-- Sample values for the declarations of the other headers: the command tags
and flags with the values of the level format, `PI` as its single-precision
value, and polynomial stand-ins for `sinf` and `cosf`. -/
def Defs.sample : Defs where
  ANIM_CMD_MOVE := 1
  ANIM_CMD_SPEED := 2
  ANIM_CMD_EMPTY := 3
  ANIM_CMD_KILL := 4
  ANIM_CMD_SOUND := 5
  ANIM_CMD_SPECIAL := 6
  ANIM_CMD_SPECIAL_FLIP := 0
  ANIM_CMD_SPECIAL_BUBBLE := 3
  ANIM_CMD_SPECIAL_CTRL := 12
  ROOM_FLAG_WATER := 1
  SND_SECRET := 13
  SND_BUBBLE := 37
  ENEMY_BAT := 9
  PI := 13176795 / 4194304
  sinf := fun a => a - a * a * a / 6
  cosf := fun a => 1 - a * a / 2
  rotateY := fun v a =>
    ⟨v.x * (1 - a * a / 2) - v.z * (a - a * a * a / 6), v.y,
      v.x * (a - a * a * a / 6) + v.z * (1 - a * a / 2)⟩
  boxContains := fun b x z =>
    decide (z ≥ b.minZ) && decide (z ≤ b.maxZ) && decide (x ≥ b.minX) && decide (x ≤ b.maxX)
  cmdLabels := by decide
  specialLabels := by decide

/-- Hooks of a controller 60 units high. -/
def tallHooks : Hooks := { Controller.base with getHeight := fun _ _ => 60 }

/-- Floor 100, ceiling 50 and no adjacent room, with the entity at y = 105: the
gap is lower than a controller of height 60. -/
def lowLevel : TR.Level :=
  { TR.Level.blank with
    getFloorInfo := fun _ _ _ => ⟨100, 50, 0xFF, 0xFF, 0xFF⟩
    entities := fun _ => ⟨0, 0, 105, 0, 0, 0, 0, none⟩ }

/-- Floor 100, ceiling -1000 and no adjacent room, with the entity at y = 105. -/
def openLevel : TR.Level :=
  { TR.Level.blank with
    getFloorInfo := fun _ _ _ => ⟨100, -1000, 0xFF, 0xFF, 0xFF⟩
    entities := fun _ => ⟨0, 0, 105, 0, 0, 0, 0, none⟩ }

/-- A controller at y = 105 with vertical velocity -10. -/
def risingCtl : Controller :=
  { Controller.blank with pos := ⟨0, 105, 0⟩, velocity := ⟨0, -10, 0⟩ }

/-- Floor 1000, ceiling 100 and no adjacent room, with the entity at y = 0,
above the ceiling. -/
def ceilingLevel : TR.Level :=
  { TR.Level.blank with getFloorInfo := fun _ _ _ => ⟨1000, 100, 0xFF, 0xFF, 0xFF⟩ }

/-- A controller at y = 0 with vertical velocity +10. -/
def fallingCtl : Controller := { Controller.blank with velocity := ⟨0, 10, 0⟩ }

/-- A controller at y = 0 with vertical velocity -10. -/
def climbingCtl : Controller := { Controller.blank with velocity := ⟨0, -10, 0⟩ }

/-- Floor 1000, ceiling 100, room 3 above (not water-flagged), with the entity
at y = 0 in room 0. -/
def surfaceLevel : TR.Level :=
  { TR.Level.blank with getFloorInfo := fun _ _ _ => ⟨1000, 100, 0xFF, 0xFF, 3⟩ }

/-- A swimming controller at y = 0 with vertical velocity -10. -/
def swimCtl : Controller :=
  { Controller.blank with stand := Stand.STAND_UNDERWATER, velocity := ⟨0, -10, 0⟩ }

/-- A world on the blank level whose controllers are all `Controller.blank` and
whose action commands are all unlinked `END` nodes. -/
def World.blank : World where
  level := TR.Level.blank
  controllers := fun _ => Controller.blank
  cmds := fun _ => ⟨TR.Action.END, 0, 0, none⟩
  sounds := []

/-- The chain 0 -> 1 -> 2 with a FLOW link at address 1 and an ACTIVATE link for
entity 5 at address 2; controller 0 holds the cursor at node 0 and controller 1
belongs to entity 5. -/
def flowWorld : World :=
  { World.blank with
    level := { TR.Level.blank with
      entities := fun i =>
        if i = 5 then ⟨0, 0, 0, 0, 0, 0, 0, some 1⟩ else ⟨0, 0, 0, 0, 0, 0, 0, none⟩ }
    controllers := fun k =>
      if k = 0 then { Controller.blank with actionCommand := some 0 } else Controller.blank
    cmds := fun a =>
      if a = 0 then ⟨TR.Action.ACTIVATE, 0, 0, some 1⟩
      else if a = 1 then ⟨TR.Action.FLOW, 0, 0, some 2⟩
      else if a = 2 then ⟨TR.Action.ACTIVATE, 5, 0, none⟩
      else ⟨TR.Action.END, 0, 0, none⟩ }

/-- The chain 0 -> 1 whose link at address 1 activates entity 5; controller 0
holds the cursor at node 0 and is itself the controller of entity 5. -/
def selfWorld : World :=
  { World.blank with
    level := { TR.Level.blank with
      entities := fun i =>
        if i = 5 then ⟨0, 0, 0, 0, 0, 0, 0, some 0⟩ else ⟨0, 0, 0, 0, 0, 0, 0, none⟩ }
    controllers := fun k =>
      if k = 0 then { Controller.blank with actionCommand := some 0 } else Controller.blank
    cmds := fun a =>
      if a = 0 then ⟨TR.Action.ACTIVATE, 0, 0, some 1⟩
      else if a = 1 then ⟨TR.Action.ACTIVATE, 5, 0, none⟩
      else ⟨TR.Action.END, 0, 0, none⟩ }

/-- As `selfWorld`, with entity 5 owned by controller 1 instead. -/
def otherWorld : World :=
  { selfWorld with
    level := { TR.Level.blank with
      entities := fun i =>
        if i = 5 then ⟨0, 0, 0, 0, 0, 0, 0, some 1⟩ else ⟨0, 0, 0, 0, 0, 0, 0, none⟩ } }

/-- The chain 0 -> 1 -> 2 whose links at addresses 1 and 2 are both SECRET 4;
controller 0 holds the cursor at node 0 and no secret is found yet. -/
def secretWorld : World :=
  { World.blank with
    controllers := fun k =>
      if k = 0 then { Controller.blank with actionCommand := some 0 } else Controller.blank
    cmds := fun a =>
      if a = 0 then ⟨TR.Action.ACTIVATE, 0, 0, some 1⟩
      else if a = 1 then ⟨TR.Action.SECRET, 4, 0, some 2⟩
      else if a = 2 then ⟨TR.Action.SECRET, 4, 0, none⟩
      else ⟨TR.Action.END, 0, 0, none⟩ }

/-- Every controller object is of the base class. -/
def baseHooks : Nat → Hooks := fun _ => Controller.base

/-- The controller at address 1 refuses every activation and stays as it is;
the other controllers are of the base class. -/
def refuseHooks : Nat → Hooks := fun k =>
  if k = 1 then { Controller.base with activate := fun _ c _ => (c, false) }
  else Controller.base

/-- Clip 0 is the single frame 0 and is followed by itself at frame 0.
Controller 0 is at time 0 of clip 0, with no pending chain. -/
def loopWorld : World :=
  { World.blank with
    level := { TR.Level.blank with
      anims := fun i =>
        if i = 0 then ⟨0, 0, 0, 0, 0, 0, 0, 0, 0⟩ else ⟨5, 9, 1, 0, 0, 0, 0, 0, 0⟩ } }

/-- Clip 0 has frames 0..2 and is followed by clip 1 at frame 10; clip 1 is the
single frame 10 and is followed by itself at frame 10. Controller 0 is at time 0
of clip 0, with no pending chain. -/
def shortWorld : World :=
  { World.blank with
    level := { TR.Level.blank with
      anims := fun i =>
        if i = 0 then ⟨0, 2, 0, 1, 10, 0, 0, 0, 0⟩
        else if i = 1 then ⟨10, 10, 1, 1, 10, 0, 0, 0, 0⟩
        else ⟨0, 0, 0, 0, 0, 0, 0, 0, 0⟩ } }

/-- Clip 0 has frames 0..2 and is followed by clip 1 at frame 10; clip 1 has
frames 10..15. Controller 0 is at time 0 of clip 0, with no pending chain. -/
def longWorld : World :=
  { World.blank with
    level := { TR.Level.blank with
      anims := fun i =>
        if i = 0 then ⟨0, 2, 0, 1, 10, 0, 0, 0, 0⟩
        else if i = 1 then ⟨10, 15, 1, 1, 10, 0, 0, 0, 0⟩
        else ⟨0, 0, 0, 0, 0, 0, 0, 0, 0⟩ } }

/-- Clip 0 has frames 0..10 and one animation command, the record SOUND for
frame 2 with sound id 7 at offset 0 of the command stream. Controller 0 has just
entered clip 0 (time 0, no frame processed); its entity is not the bat. -/
def soundWorld : World :=
  { World.blank with
    level := { TR.Level.blank with
      anims := fun i =>
        if i = 0 then ⟨0, 10, 0, 0, 0, 0, 0, 1, 0⟩ else ⟨0, 0, 0, 0, 0, 0, 0, 0, 0⟩
      commands := fun p => if p = 0 then 5 else if p = 1 then 2 else if p = 2 then 7 else 0 }
    controllers := fun _ => { Controller.blank with animPrevFrame := -1 } }

/-- Hooks of a controller kind whose ground state is 5, whose death state is 7
and whose default state is 6; the other hooks are those of the base class. -/
def wishHooks : Hooks :=
  { Controller.base with
    getStateGround := fun _ _ => 5
    getStateDeath := fun _ _ => 7
    getStateDefault := fun _ _ => 6 }

/-- A controller on clip 0 of the blank level whose status mask has the DEATH
bit set. -/
def deadCtl : Controller := { Controller.blank with mask := 512 }

/-- The node at address 0 is a SECRET link whose `next` is node 0 itself, and
controller 0 holds the cursor at node 0: a cyclic chain. -/
def cycleWorld : World :=
  { World.blank with
    controllers := fun _ => { Controller.blank with actionCommand := some 0 }
    cmds := fun _ => ⟨TR.Action.SECRET, 4, 0, some 0⟩ }

/-- An animated, instant sprite at time 0 whose entity has model index -1, so
that its sequence is `spriteSequences[0]`. -/
def sparkSprite : SpriteController :=
  { Controller.blank with frame := 0, instant := true, animated := true }

/-- The blank level with a sprite sequence of 4 frames at index 0 and entities
of model index -1. -/
def sparkLevel : TR.Level :=
  { TR.Level.blank with
    spriteSequences := fun _ => ⟨4⟩
    entities := fun _ => ⟨0, 0, 0, 0, 0, 0, -1, none⟩ }

/-- Clip 0 is the single frame 0, followed by itself at frame 0, with two
animation commands at offset 0 of the command stream: the record SPEED with
vy = -30 and vz = 10, then the record MOVE with the vector (1, 2, 3).
Controller 0 is at time 0 of clip 0 with yaw 0 and auxiliary yaw 0. -/
def jumpWorld : World :=
  { World.blank with
    level := { TR.Level.blank with
      anims := fun _ => ⟨0, 0, 0, 0, 0, 0, 0, 2, 0⟩
      commands := fun p =>
        if p = 0 then 2 else if p = 1 then -30 else if p = 2 then 10
        else if p = 3 then 1 else if p = 4 then 1 else if p = 5 then 2
        else if p = 6 then 3 else 0 } }

/-- Clip 0 has frames 0..10 and one animation command, the record SPECIAL for
frame 2 with the operation FLIP at offset 0 of the command stream. Controller 0
has just entered clip 0 (time 0, no frame processed) with yaw 0. -/
def flipWorld : World :=
  { World.blank with
    level := { TR.Level.blank with
      anims := fun i =>
        if i = 0 then ⟨0, 10, 0, 0, 0, 0, 0, 1, 0⟩ else ⟨0, 0, 0, 0, 0, 0, 0, 0, 0⟩
      commands := fun p => if p = 0 then 6 else if p = 1 then 2 else 0 }
    controllers := fun _ => { Controller.blank with animPrevFrame := -1 } }

/-- The sector of every position has box 0, the box with x and z in 0..0, floor
0 and the overlap list at index 0. The list has one entry, box 1, which has x
and z in 10..20 and floor 0. -/
def farLevel : TR.Level :=
  { TR.Level.blank with
    getSector := fun _ _ _ => ⟨0⟩
    boxes := fun i => if i = 1 then ⟨10, 20, 10, 20, 0, 0⟩ else ⟨0, 0, 0, 0, 0, 0⟩
    overlaps := fun _ => ⟨1, true⟩ }

/-- The sector of every position has box 0, the box with x and z in 0..0, floor
0 and the overlap list at index 0. The list has the entries box 1, box 2 and
box 3, the last one flagged `end`; box 1 has x and z in 10..20 and floor 300,
box 2 has x and z in 10..20 and floor -200, box 3 has x and z in 10..20 and
floor 200. -/
def stepLevel : TR.Level :=
  { TR.Level.blank with
    getSector := fun _ _ _ => ⟨0⟩
    boxes := fun i =>
      if i = 1 then ⟨10, 20, 10, 20, 300, 0⟩
      else if i = 2 then ⟨10, 20, 10, 20, -200, 0⟩
      else if i = 3 then ⟨10, 20, 10, 20, 200, 0⟩
      else ⟨0, 0, 0, 0, 0, 0⟩
    overlaps := fun i =>
      if i = 0 then ⟨1, false⟩ else if i = 1 then ⟨2, false⟩ else ⟨3, true⟩ }

/-- Clip 0 (frames 0..10, state 1) lists state 5 in two records: record 0 has the
one range 50..60 and leads to clip 7 at frame 70, record 1 has the one range
0..10 and leads to clip 8 at frame 80. -/
def dup2Level : TR.Level :=
  { TR.Level.blank with
    anims := fun i =>
      if i = 0 then ⟨0, 10, 1, 0, 0, 2, 0, 0, 0⟩
      else if i = 7 then ⟨70, 79, 5, 7, 70, 0, 0, 0, 0⟩
      else if i = 8 then ⟨80, 89, 5, 8, 80, 0, 0, 0, 0⟩
      else ⟨0, 0, 0, 0, 0, 0, 0, 0, 0⟩
    states := fun i =>
      if i = 0 then ⟨5, 1, 0⟩ else if i = 1 then ⟨5, 1, 1⟩ else ⟨0, 0, 0⟩
    ranges := fun i =>
      if i = 0 then ⟨50, 60, 7, 70⟩ else if i = 1 then ⟨0, 10, 8, 80⟩ else ⟨0, 0, 0, 0⟩ }

/-- Clip 0 (frames 0..10, state 1) lists state 5 in its one record, whose one
range 50..60 leads to clip 7 at frame 70. -/
def gapLevel : TR.Level :=
  { TR.Level.blank with
    anims := fun i =>
      if i = 0 then ⟨0, 10, 1, 0, 0, 1, 0, 0, 0⟩
      else if i = 7 then ⟨70, 79, 5, 7, 70, 0, 0, 0, 0⟩
      else ⟨0, 0, 0, 0, 0, 0, 0, 0, 0⟩
    states := fun i => if i = 0 then ⟨5, 1, 0⟩ else ⟨0, 0, 0⟩
    ranges := fun i => if i = 0 then ⟨50, 60, 7, 70⟩ else ⟨0, 0, 0, 0⟩ }

/-- Clip 0 has frames 0..100 and state 0. -/
def reelLevel : TR.Level :=
  { TR.Level.blank with anims := fun _ => ⟨0, 100, 0, 0, 0, 0, 0, 0, 0⟩ }

/-- The blank level with a sprite sequence of 7 frames at index 0 and entities
of model index -1. -/
def sevenLevel : TR.Level :=
  { TR.Level.blank with
    spriteSequences := fun _ => ⟨7⟩
    entities := fun _ => ⟨0, 0, 0, 0, 0, 0, -1, none⟩ }

/-- Clip 0 has frames 0..43 and is followed by clip 1 at frame 50; clip 1 has
frames 50..60. Controller 0 has just entered clip 0 (time 0, no frame
processed), with no pending chain. -/
def reelWorld : World :=
  { World.blank with
    level := { TR.Level.blank with
      anims := fun i =>
        if i = 0 then ⟨0, 43, 0, 1, 50, 0, 0, 0, 0⟩
        else if i = 1 then ⟨50, 60, 1, 1, 50, 0, 0, 0, 0⟩
        else ⟨0, 0, 0, 0, 0, 0, 0, 0, 0⟩ }
    controllers := fun _ => { Controller.blank with animPrevFrame := -1 } }

/-- The sector of every position has box 0, the box with x and z in 0..0, floor
-5 and the overlap list at index 0. The list has one entry, box 1, which has x
and z in 10..20 and floor 0. -/
def pitLevel : TR.Level :=
  { TR.Level.blank with
    getSector := fun _ _ _ => ⟨0⟩
    boxes := fun i => if i = 1 then ⟨10, 20, 10, 20, 0, 0⟩ else ⟨0, 0, 0, 0, -5, 0⟩
    overlaps := fun _ => ⟨1, true⟩ }

/-! ## Theorems -/

/-- The nearest integer within one half is the value of `roundEven`. -/
theorem roundEven_of_near (s : ℚ) (n : Int) (h1 : (n : ℚ) - 1 / 2 < s) (h2 : s < n + 1 / 2) :
    roundEven s = n := by
  unfold roundEven
  have hf1 : (⌊s⌋ : ℚ) ≤ s := Int.floor_le s
  have hf2 : s < ⌊s⌋ + 1 := Int.lt_floor_add_one s
  split_ifs with a b c
  · have : ((n : ℚ) - 1) < ⌊s⌋ ∧ (⌊s⌋ : ℚ) < n + 1 := by constructor <;> linarith
    have h3 : n - 1 < ⌊s⌋ := by exact_mod_cast this.1
    have h4 : ⌊s⌋ < n + 1 := by exact_mod_cast this.2
    omega
  · have : ((n : ℚ) - 2) < ⌊s⌋ ∧ (⌊s⌋ : ℚ) < n := by constructor <;> linarith
    have h3 : n - 2 < ⌊s⌋ := by exact_mod_cast this.1
    have h4 : ⌊s⌋ < n := by exact_mod_cast this.2
    omega
  · have e : s - ⌊s⌋ = 1 / 2 := le_antisymm (not_lt.mp b) (not_lt.mp a)
    have : ((n : ℚ) - 1) < ⌊s⌋ ∧ (⌊s⌋ : ℚ) < n := by constructor <;> linarith
    have h3 : n - 1 < ⌊s⌋ := by exact_mod_cast this.1
    have h4 : ⌊s⌋ < n := by exact_mod_cast this.2
    omega
  · have e : s - ⌊s⌋ = 1 / 2 := le_antisymm (not_lt.mp b) (not_lt.mp a)
    have : ((n : ℚ) - 1) < ⌊s⌋ ∧ (⌊s⌋ : ℚ) < n := by constructor <;> linarith
    have h3 : n - 1 < ⌊s⌋ := by exact_mod_cast this.1
    have h4 : ⌊s⌋ < n := by exact_mod_cast this.2
    omega

/-- Rounding to the nearest integer moves a value by one half at most. -/
theorem abs_roundEven_sub_le (s : ℚ) : |(roundEven s : ℚ) - s| ≤ 1 / 2 := by
  unfold roundEven
  have hf1 : (⌊s⌋ : ℚ) ≤ s := Int.floor_le s
  have hf2 : s < ⌊s⌋ + 1 := Int.lt_floor_add_one s
  rw [abs_le]
  split_ifs with a b c <;> push_cast <;> constructor <;> linarith

/-- The exponent of a value in the binade `[2^e, 2^(e+1))` of the normal range. -/
theorem f32exp_eq (q : ℚ) (e : Int) (h1 : (2 : ℚ) ^ e ≤ |q|) (h2 : |q| < 2 ^ (e + 1))
    (he : -126 ≤ e) : f32exp q = e := by
  have hpos : 0 < |q| := lt_of_lt_of_le (zpow_pos (by norm_num) e) h1
  have a : e ≤ Int.log 2 |q| :=
    (Int.zpow_le_iff_le_log (b := 2) (by norm_num) hpos (x := e)).mp (by exact_mod_cast h1)
  have b : Int.log 2 |q| < e + 1 :=
    (Int.lt_zpow_iff_log_lt (b := 2) (by norm_num) hpos (x := e + 1)).mp (by exact_mod_cast h2)
  unfold f32exp
  have : Int.log 2 |q| = e := by omega
  rw [this]; exact max_eq_left he

/-- The single precision value of a positive `q` of the binade `[2^e, 2^(e+1))`
whose nearest multiple of `2^(e-23)` is the `n`-th one. -/
theorem f32_eval (q : ℚ) (e n : Int) (v : ℚ) (he : -126 ≤ e) (h1 : (2 : ℚ) ^ e ≤ q)
    (h2 : q < 2 ^ (e + 1)) (h3 : ((n : ℚ) - 1 / 2) * 2 ^ (e - 23) < q)
    (h4 : q < ((n : ℚ) + 1 / 2) * 2 ^ (e - 23)) (hv : (n : ℚ) * 2 ^ (e - 23) = v) :
    f32 q = v := by
  have hq : 0 < q := lt_of_lt_of_le (zpow_pos (by norm_num) e) h1
  unfold f32
  rw [f32exp_eq q e (by rw [abs_of_pos hq]; exact h1) (by rw [abs_of_pos hq]; exact h2) he]
  have hp : (0 : ℚ) < 2 ^ (e - 23) := zpow_pos (by norm_num) _
  rw [roundEven_of_near _ n ((lt_div_iff₀ hp).mpr h3) ((div_lt_iff₀ hp).mpr h4)]
  exact hv

/-- Zero is a single precision value. -/
theorem f32_zero : f32 0 = 0 := by
  simp [f32, roundEven]

/-- In the normal range rounding to single precision has a relative error of
`2^-24` at most. -/
theorem f32_rel (q : ℚ) (h : (2 : ℚ) ^ (-126 : Int) ≤ |q|) :
    |f32 q - q| ≤ |q| * 2 ^ (-24 : Int) := by
  have hpos : 0 < |q| := lt_of_lt_of_le (zpow_pos (by norm_num) _) h
  have he : -126 ≤ Int.log 2 |q| :=
    (Int.zpow_le_iff_le_log (b := 2) (by norm_num) hpos (x := -126)).mp (by exact_mod_cast h)
  have hle : (2 : ℚ) ^ (Int.log 2 |q|) ≤ |q| := by
    have := Int.zpow_log_le_self (b := 2) (by norm_num) hpos
    exact_mod_cast this
  unfold f32
  have hx : f32exp q = Int.log 2 |q| := max_eq_left he
  rw [hx]
  have hp : (0 : ℚ) < 2 ^ (Int.log 2 |q| - 23) := zpow_pos (by norm_num) _
  have hr := abs_roundEven_sub_le (q / 2 ^ (Int.log 2 |q| - 23))
  have key : (roundEven (q / 2 ^ (Int.log 2 |q| - 23)) : ℚ) * 2 ^ (Int.log 2 |q| - 23) - q =
      ((roundEven (q / 2 ^ (Int.log 2 |q| - 23)) : ℚ) - q / 2 ^ (Int.log 2 |q| - 23)) *
        2 ^ (Int.log 2 |q| - 23) := by
    field_simp
  rw [key, abs_mul, abs_of_pos hp]
  have h24 : (2 : ℚ) ^ (Int.log 2 |q| - 23) * (1 / 2) =
      2 ^ (Int.log 2 |q|) * 2 ^ (-24 : Int) := by
    have : (1 / 2 : ℚ) = 2 ^ (-1 : Int) := by norm_num
    rw [this, ← zpow_add₀ (by norm_num : (2 : ℚ) ≠ 0),
      ← zpow_add₀ (by norm_num : (2 : ℚ) ≠ 0)]
    congr 1; ring
  calc |(roundEven (q / 2 ^ (Int.log 2 |q| - 23)) : ℚ) - q / 2 ^ (Int.log 2 |q| - 23)| *
        2 ^ (Int.log 2 |q| - 23)
      ≤ 1 / 2 * 2 ^ (Int.log 2 |q| - 23) := by gcongr
    _ = 2 ^ (Int.log 2 |q|) * 2 ^ (-24 : Int) := by rw [mul_comm]; exact h24
    _ ≤ |q| * 2 ^ (-24 : Int) := by gcongr

/-- The `float` sum of two values with a positive exact sum. -/
theorem fadd_eval (a b : ℚ) (e n : Int) (v : ℚ) (he : -126 ≤ e) (h1 : (2 : ℚ) ^ e ≤ a + b)
    (h2 : a + b < 2 ^ (e + 1)) (h3 : ((n : ℚ) - 1 / 2) * 2 ^ (e - 23) < a + b)
    (h4 : a + b < ((n : ℚ) + 1 / 2) * 2 ^ (e - 23)) (hv : (n : ℚ) * 2 ^ (e - 23) = v) :
    fadd a b = v :=
  f32_eval (a + b) e n v he h1 h2 h3 h4 hv

/-- The `float` product of two values with a positive exact product. -/
theorem fmul_eval (a b : ℚ) (e n : Int) (v : ℚ) (he : -126 ≤ e) (h1 : (2 : ℚ) ^ e ≤ a * b)
    (h2 : a * b < 2 ^ (e + 1)) (h3 : ((n : ℚ) - 1 / 2) * 2 ^ (e - 23) < a * b)
    (h4 : a * b < ((n : ℚ) + 1 / 2) * 2 ^ (e - 23)) (hv : (n : ℚ) * 2 ^ (e - 23) = v) :
    fmul a b = v :=
  f32_eval (a * b) e n v he h1 h2 h3 h4 hv

/-- The `float` quotient of two values with a positive exact quotient. -/
theorem fdiv_eval (a b : ℚ) (e n : Int) (v : ℚ) (he : -126 ≤ e) (h1 : (2 : ℚ) ^ e ≤ a / b)
    (h2 : a / b < 2 ^ (e + 1)) (h3 : ((n : ℚ) - 1 / 2) * 2 ^ (e - 23) < a / b)
    (h4 : a / b < ((n : ℚ) + 1 / 2) * 2 ^ (e - 23)) (hv : (n : ℚ) * 2 ^ (e - 23) = v) :
    fdiv a b = v :=
  f32_eval (a / b) e n v he h1 h2 h3 h4 hv

/-- The `float` product with zero on the left is zero. -/
theorem fmul_zero_left (b : ℚ) : fmul 0 b = 0 := by
  simp [fmul, f32_zero]

/-- The `float` sum of zero and zero is zero. -/
theorem fadd_zero_zero : fadd 0 0 = 0 := by
  simp [fadd, f32_zero]

/-- Truncation of a non-negative value between `n` and `n + 1`. -/
theorem truncToInt_eval (q : ℚ) (n : Int) (h1 : (n : ℚ) ≤ q) (h2 : q < n + 1) (h0 : 0 ≤ q) :
    truncToInt q = n := by
  unfold truncToInt
  rw [if_pos h0]
  exact Int.floor_eq_iff.mpr ⟨h1, h2⟩

/-- The `float` quotient of zero is zero. -/
theorem fdiv_zero_left (b : ℚ) : fdiv 0 b = 0 := by
  simp [fdiv, f32_zero]

/-- A value half way between two integers rounds to the even one. -/
theorem roundEven_of_tie (s : ℚ) (n : Int) (h : s = (n : ℚ) - 1 / 2 ∨ s = (n : ℚ) + 1 / 2)
    (hev : n % 2 = 0) : roundEven s = n := by
  unfold roundEven
  have hf1 : (⌊s⌋ : ℚ) ≤ s := Int.floor_le s
  have hf2 : s < ⌊s⌋ + 1 := Int.lt_floor_add_one s
  rcases h with h | h
  · have hfl : ⌊s⌋ = n - 1 := by
      apply Int.floor_eq_iff.mpr
      rw [h]; push_cast; constructor <;> linarith
    have hr : s - ((n - 1 : Int) : ℚ) = 1 / 2 := by rw [h]; push_cast; ring
    rw [hfl, hr]
    have hodd : ¬ (n - 1) % 2 = 0 := by omega
    simp only [lt_self_iff_false, if_false, hodd]
    omega
  · have hfl : ⌊s⌋ = n := by
      apply Int.floor_eq_iff.mpr
      rw [h]; constructor <;> linarith
    have hr : s - (n : ℚ) = 1 / 2 := by rw [h]; ring
    rw [hfl, hr]
    simp only [lt_self_iff_false, if_false, hev, if_true]

/-- The single precision value of a positive `q` of the binade `[2^e, 2^(e+1))`
that lies half way between two neighbours: the one with the even significand. -/
theorem f32_eval_tie (q : ℚ) (e n : Int) (v : ℚ) (he : -126 ≤ e) (h1 : (2 : ℚ) ^ e ≤ q)
    (h2 : q < 2 ^ (e + 1))
    (h3 : q = ((n : ℚ) - 1 / 2) * 2 ^ (e - 23) ∨ q = ((n : ℚ) + 1 / 2) * 2 ^ (e - 23))
    (hev : n % 2 = 0) (hv : (n : ℚ) * 2 ^ (e - 23) = v) : f32 q = v := by
  have hq : 0 < q := lt_of_lt_of_le (zpow_pos (by norm_num) e) h1
  unfold f32
  rw [f32exp_eq q e (by rw [abs_of_pos hq]; exact h1) (by rw [abs_of_pos hq]; exact h2) he]
  have hp : (0 : ℚ) < 2 ^ (e - 23) := zpow_pos (by norm_num) _
  rw [roundEven_of_tie _ n (by
    rcases h3 with h | h
    · left; rw [h, mul_div_assoc, div_self (ne_of_gt hp), mul_one]
    · right; rw [h, mul_div_assoc, div_self (ne_of_gt hp), mul_one]) hev]
  exact hv

/-- The `float` product of two values whose exact product is positive and half
way between two neighbours. -/
theorem fmul_eval_tie (a b : ℚ) (e n : Int) (v : ℚ) (he : -126 ≤ e) (h1 : (2 : ℚ) ^ e ≤ a * b)
    (h2 : a * b < 2 ^ (e + 1))
    (h3 : a * b = ((n : ℚ) - 1 / 2) * 2 ^ (e - 23) ∨ a * b = ((n : ℚ) + 1 / 2) * 2 ^ (e - 23))
    (hev : n % 2 = 0) (hv : (n : ℚ) * 2 ^ (e - 23) = v) : fmul a b = v :=
  f32_eval_tie (a * b) e n v he h1 h2 h3 hev hv

/-- The `float` sum of two values whose exact sum is positive and half way
between two neighbours. -/
theorem fadd_eval_tie (a b : ℚ) (e n : Int) (v : ℚ) (he : -126 ≤ e) (h1 : (2 : ℚ) ^ e ≤ a + b)
    (h2 : a + b < 2 ^ (e + 1))
    (h3 : a + b = ((n : ℚ) - 1 / 2) * 2 ^ (e - 23) ∨ a + b = ((n : ℚ) + 1 / 2) * 2 ^ (e - 23))
    (hev : n % 2 = 0) (hv : (n : ℚ) * 2 ^ (e - 23) = v) : fadd a b = v :=
  f32_eval_tie (a + b) e n v he h1 h2 h3 hev hv

/-- The value of `roundEven` is the floor or the integer after it. -/
theorem roundEven_floor (s : ℚ) : roundEven s = ⌊s⌋ ∨ (roundEven s = ⌊s⌋ + 1 ∧ (⌊s⌋ : ℚ) < s) := by
  unfold roundEven
  split_ifs with a b c
  · exact Or.inl rfl
  · exact Or.inr ⟨rfl, by linarith⟩
  · exact Or.inl rfl
  · exact Or.inr ⟨rfl, by linarith⟩

/-- Rounding a value that is at most the integer `N` gives at most `N`. -/
theorem roundEven_le_of_le (s : ℚ) (N : Int) (h : s ≤ N) : roundEven s ≤ N := by
  have hf : ⌊s⌋ ≤ N := by
    have h1 : (⌊s⌋ : ℚ) ≤ N := le_trans (Int.floor_le s) h
    exact_mod_cast h1
  rcases roundEven_floor s with h1 | ⟨h1, h2⟩
  · omega
  · have : (⌊s⌋ : ℚ) < N := lt_of_lt_of_le h2 h
    have : ⌊s⌋ < N := by exact_mod_cast this
    omega

/-- Rounding to single precision keeps a value non-negative. -/
theorem f32_nonneg (q : ℚ) (h : 0 ≤ q) : 0 ≤ f32 q := by
  unfold f32
  have hp : (0 : ℚ) < 2 ^ (f32exp q - 23) := zpow_pos (by norm_num) _
  have hs : 0 ≤ q / 2 ^ (f32exp q - 23) := div_nonneg h (le_of_lt hp)
  have hfl : 0 ≤ ⌊q / 2 ^ (f32exp q - 23)⌋ := Int.floor_nonneg.mpr hs
  have hr : 0 ≤ roundEven (q / 2 ^ (f32exp q - 23)) := by
    rcases roundEven_floor (q / 2 ^ (f32exp q - 23)) with h1 | ⟨h1, _⟩ <;> omega
  have : (0 : ℚ) ≤ (roundEven (q / 2 ^ (f32exp q - 23)) : ℚ) := by exact_mod_cast hr
  positivity

/-- The literal `0.1f`. -/
theorem f32_tenth : f32 (1 / 10) = 13421773 / 134217728 :=
  f32_eval (1 / 10) (-4) 13421773 (13421773 / 134217728) (by norm_num) (by norm_num)
    (by norm_num) (by norm_num) (by norm_num) (by norm_num)

/-- No single precision value lies between the decimal 0.1 and the literal
`0.1f`: a `float` is at least `0.1f` exactly when it is at least 0.1. -/
theorem f32_ge_tenth (x : ℚ) : f32 x ≥ f32 (1 / 10) ↔ f32 x ≥ 1 / 10 := by
  rw [f32_tenth]
  constructor
  · intro h
    have : (1 / 10 : ℚ) ≤ 13421773 / 134217728 := by norm_num
    exact le_trans this h
  · intro h
    unfold f32 at h ⊢
    have hp : (0 : ℚ) < 2 ^ (f32exp x - 23) := zpow_pos (by norm_num) _
    by_cases hE : -4 ≤ f32exp x
    · obtain ⟨k, hk⟩ : ∃ k : Nat, f32exp x + 4 = k := Int.eq_ofNat_of_zero_le (by omega)
      have hpow : (2 : ℚ) ^ (f32exp x - 23) = ((2 ^ k : Nat) : ℚ) / 134217728 := by
        have e1 : f32exp x - 23 = (k : Int) + (-27) := by omega
        rw [e1, zpow_add₀ (by norm_num : (2 : ℚ) ≠ 0), zpow_natCast]
        norm_num
        ring
      rw [hpow] at h ⊢
      have hM : (1 / 10 : ℚ) * 134217728 ≤
          ((roundEven (x / (((2 ^ k : Nat) : ℚ) / 134217728)) * (2 ^ k : Nat) : Int) : ℚ) := by
        push_cast
        push_cast at h
        linarith
      have hM2 : (13421772 : ℚ) <
          ((roundEven (x / (((2 ^ k : Nat) : ℚ) / 134217728)) * (2 ^ k : Nat) : Int) : ℚ) := by
        have : (13421772 : ℚ) < (1 / 10 : ℚ) * 134217728 := by norm_num
        linarith
      have hM3 : (13421772 : Int) <
          roundEven (x / (((2 ^ k : Nat) : ℚ) / 134217728)) * (2 ^ k : Nat) := by
        exact_mod_cast hM2
      have hM4 : ((13421773 : Int) : ℚ) ≤
          ((roundEven (x / (((2 ^ k : Nat) : ℚ) / 134217728)) * (2 ^ k : Nat) : Int) : ℚ) := by
        exact_mod_cast (show (13421773 : Int) ≤ _ from hM3)
      push_cast at hM4
      push_cast
      linarith
    · exfalso
      have hE2 : f32exp x ≤ -5 := by omega
      have hlog : Int.log 2 |x| ≤ f32exp x := le_max_left _ _
      have hx : |x| < 2 ^ (f32exp x + 1) := by
        rcases eq_or_lt_of_le (abs_nonneg x) with h0 | h0
        · rw [← h0]; exact zpow_pos (by norm_num) _
        · have h1 := Int.lt_zpow_succ_log_self (b := 2) (by norm_num) |x|
          have h2 : (2 : ℚ) ^ (Int.log 2 |x| + 1) ≤ 2 ^ (f32exp x + 1) :=
            zpow_le_zpow_right₀ (by norm_num) (by omega)
          exact lt_of_lt_of_le (by exact_mod_cast h1) h2
      have hs : x / 2 ^ (f32exp x - 23) ≤ ((16777216 : Int) : ℚ) := by
        rw [div_le_iff₀ hp]
        have e1 : ((16777216 : Int) : ℚ) * 2 ^ (f32exp x - 23) = 2 ^ (f32exp x + 1) := by
          have : ((16777216 : Int) : ℚ) = 2 ^ (24 : Int) := by norm_num
          rw [this, ← zpow_add₀ (by norm_num : (2 : ℚ) ≠ 0)]
          congr 1; ring
        rw [e1]
        exact le_trans (le_abs_self x) (le_of_lt hx)
      have hr := roundEven_le_of_le _ _ hs
      have hr2 : (roundEven (x / 2 ^ (f32exp x - 23)) : ℚ) ≤ 16777216 := by exact_mod_cast hr
      have hy : (roundEven (x / 2 ^ (f32exp x - 23)) : ℚ) * 2 ^ (f32exp x - 23) ≤
          2 ^ (f32exp x + 1) := by
        have e1 : (16777216 : ℚ) * 2 ^ (f32exp x - 23) = 2 ^ (f32exp x + 1) := by
          have : (16777216 : ℚ) = 2 ^ (24 : Int) := by norm_num
          rw [this, ← zpow_add₀ (by norm_num : (2 : ℚ) ≠ 0)]
          congr 1; ring
        rw [← e1]
        exact mul_le_mul_of_nonneg_right hr2 (le_of_lt hp)
      have hsmall : (2 : ℚ) ^ (f32exp x + 1) ≤ 2 ^ (-4 : Int) :=
        zpow_le_zpow_right₀ (by norm_num) (by omega)
      have h16 : (2 : ℚ) ^ (-4 : Int) = 1 / 16 := by norm_num
      rw [h16] at hsmall
      linarith

namespace Controller

/-- The result flag of the outer loop of `setState` over the record indices `l`:
it is set as soon as one record has the desired state. -/
theorem setState_foldl_fst (lv : TR.Level) (anim : TR.Animation) (fIndex state : Int)
    (l : List Nat) (acc : Bool × Controller) :
    (l.foldl (setStateRecord lv anim fIndex state) acc).1 =
      (acc.1 || l.any (fun i => decide ((lv.states (anim.scOffset + i)).state = state))) := by
  induction l generalizing acc with
  | nil => simp
  | cons i l ih =>
    rw [List.foldl_cons, ih]
    by_cases h : (lv.states (anim.scOffset + i)).state = state
    · simp [setStateRecord, h]
    · simp [setStateRecord, h]

end Controller

/-- C1 (fails on the code): on `dupLevel`, whose clip 0 lists state 5 twice, the
first matching record and range select clip 7 at frame 70, but `setState(5)`
ends on clip 8: the `break` leaves only the range loop, the record loop goes on
and the later record overrides the first match. -/
theorem setState_later_record_overrides :
    Controller.setState_spec_range dupLevel dupCtl 5 = some ⟨0, 10, 7, 70⟩ ∧
    (Controller.setState_spec dupLevel dupCtl 5).animIndex = 7 ∧
    (Controller.setState dupLevel dupCtl 5).1 = true ∧
    (Controller.setState dupLevel dupCtl 5).2.animIndex = 8 ∧
    (Controller.setState dupLevel dupCtl 5).2.animTime = 0 ∧
    (Controller.setState dupLevel dupCtl 5).2 ≠ Controller.setState_spec dupLevel dupCtl 5 := by
  have h1 : Controller.setState_spec_range dupLevel dupCtl 5 = some ⟨0, 10, 7, 70⟩ := by
    simp [Controller.setState_spec_range, dupLevel, dupCtl, Controller.blank, truncToInt,
        fmul_zero_left, fdiv_zero_left, List.range_succ, List.findSome?, List.find?]
  have h2 : (Controller.setState_spec dupLevel dupCtl 5).animIndex = 7 := by
    rw [Controller.setState_spec, h1]
    simp [dupLevel, dupCtl, Controller.blank, Controller.setAnimation]
  have h3 : (Controller.setState dupLevel dupCtl 5).2.animIndex = 8 := by
    simp [Controller.setState, dupLevel, dupCtl, Controller.blank, truncToInt, fmul_zero_left,
        fdiv_zero_left, List.range_succ, Controller.setStateRecord, Controller.setStateRanges,
        Controller.setAnimation, List.find?]
  refine ⟨h1, h2, ?_, h3, ?_, ?_⟩
  · simp [Controller.setState, dupLevel, dupCtl, Controller.blank, truncToInt, fmul_zero_left,
      fdiv_zero_left, List.range_succ, Controller.setStateRecord]
  · simp [Controller.setState, dupLevel, dupCtl, Controller.blank, truncToInt, fmul_zero_left,
      fdiv_zero_left, List.range_succ, Controller.setStateRecord, Controller.setStateRanges,
      Controller.setAnimation, List.find?]
  · intro h
    rw [h] at h3
    rw [h2] at h3
    exact absurd h3 (by decide)

/-- C10: `setState(desired)` returns false if and only if `desired` differs from
the active clip's own state and none of the clip's `scCount` state-change
records has state `desired`. -/
theorem setState_false_iff (lv : TR.Level) (c : Controller) (desired : Int) :
    (Controller.setState lv c desired).1 = false ↔
      (desired ≠ (lv.anims c.animIndex).state ∧
        ∀ i : Nat, (i : Int) < (lv.anims c.animIndex).scCount →
          (lv.states ((lv.anims c.animIndex).scOffset + i)).state ≠ desired) := by
  unfold Controller.setState
  by_cases h : desired = (lv.anims c.animIndex).state
  · simp [h]
  · simp only [h, if_false, ne_eq, not_false_eq_true, true_and]
    rw [Controller.setState_foldl_fst]
    simp [List.any_eq_true, Int.lt_toNat]

namespace Controller

/-- Reading back the entity record just written. -/
theorem getEntity_setEntity (lv : TR.Level) (c : Controller) (e : TR.Entity) :
    getEntity (lv.setEntity c.entity e) c = e := by
  simp [getEntity, TR.Level.setEntity]

/-- The entity's `y` value after the floor step of `collide`. -/
theorem collideFloor_y (lv : TR.Level) (c : Controller) :
    (getEntity (collideFloor lv c).1 c).y =
      if (getEntity lv c).y ≥ (collideInfo lv c).floor ∧ (collideInfo lv c).roomBelow = 0xFF
      then (collideInfo lv c).floor else (getEntity lv c).y := by
  simp only [collideFloor, getEntity, TR.Level.setEntity]
  split_ifs <;> simp_all

/-- The object after the floor step of `collide`. -/
theorem collideFloor_snd (lv : TR.Level) (c : Controller) :
    (collideFloor lv c).2 =
      if (getEntity lv c).y ≥ (collideInfo lv c).floor ∧ (collideInfo lv c).roomBelow = 0xFF
      then { c with
        pos := { c.pos with y := ((collideInfo lv c).floor : ℚ) }
        velocity := { c.velocity with y := 0 } }
      else c := by
  simp only [collideFloor, getEntity, TR.Level.setEntity]
  split_ifs <;> simp_all

/-- The floor step of `collide` keeps the object's entity index. -/
theorem collideFloor_entity (lv : TR.Level) (c : Controller) :
    (collideFloor lv c).2.entity = c.entity := by
  rw [collideFloor_snd]
  split_ifs <;> rfl

/-- The floor step of `collide` keeps the object's stand classification. -/
theorem collideFloor_stand (lv : TR.Level) (c : Controller) :
    (collideFloor lv c).2.stand = c.stand := by
  rw [collideFloor_snd]
  split_ifs <;> rfl

/-- The floor step of `collide` leaves the room table alone. -/
theorem collideFloor_rooms (lv : TR.Level) (c : Controller) :
    (collideFloor lv c).1.rooms = lv.rooms := by
  simp only [collideFloor, getEntity, TR.Level.setEntity]
  split_ifs <;> rfl

/-- The entity record read through the object after the floor step is the one
read through the object before it. -/
theorem getEntity_collideFloor (lv lv1 : TR.Level) (c : Controller) :
    getEntity lv1 (collideFloor lv c).2 = getEntity lv1 c := by
  simp [getEntity, collideFloor_entity]

end Controller

/-- C4 (fails as stated): with floor 100, ceiling 50, no adjacent room and a
controller of height 60 at y = 105, the floor step clamps to 100 and the ceiling
step that follows moves the entity to ceiling + height = 110, not the floor. -/
theorem collide_ground_then_ceiling_clamp :
    (Controller.getEntity lowLevel risingCtl).y ≥
      (Controller.collideInfo lowLevel risingCtl).floor ∧
    (Controller.collideInfo lowLevel risingCtl).roomBelow = 0xFF ∧
    (Controller.collide Defs.sample tallHooks lowLevel risingCtl).2.pos.y = 110 ∧
    (Controller.getEntity (Controller.collide Defs.sample tallHooks lowLevel risingCtl).1
      risingCtl).y = 110 ∧
    (Controller.collide Defs.sample tallHooks lowLevel risingCtl).2.pos.y ≠
      (Controller.collideInfo lowLevel risingCtl).floor := by
  simp [Controller.collide, Controller.collideFloor, Controller.collideInfo,
    Controller.getEntity, lowLevel, risingCtl, tallHooks, Controller.blank, TR.Level.blank,
    TR.Level.setEntity, Controller.base]

/-- C4 (amended): when the entity is at or below the floor and there is no room
below, `collide` ends with `velocity.y = 0`; and when the ceiling step does not
reposition the entity (floor - height is not above the ceiling, or there is a
room above and the controller is not surfacing), it ends with
`pos.y = entity.y = floor`. -/
theorem collide_ground_contact (d : Defs) (hk : Hooks) (lv : TR.Level) (c : Controller)
    (hy : (Controller.getEntity lv c).y ≥ (Controller.collideInfo lv c).floor)
    (hb : (Controller.collideInfo lv c).roomBelow = 0xFF) :
    (Controller.collide d hk lv c).2.velocity.y = 0 ∧
    ((¬ ((Controller.collideInfo lv c).floor -
          hk.getHeight (Controller.collideFloor lv c).1 (Controller.collideFloor lv c).2 <
            (Controller.collideInfo lv c).ceiling) ∨
       ((Controller.collideInfo lv c).roomAbove ≠ 0xFF ∧
          ¬ (c.stand = Stand.STAND_UNDERWATER ∧
            (lv.rooms (Controller.collideInfo lv c).roomAbove).flags &&&
              d.ROOM_FLAG_WATER = 0))) →
      (Controller.collide d hk lv c).2.pos.y = (Controller.collideInfo lv c).floor ∧
      (Controller.getEntity (Controller.collide d hk lv c).1 c).y =
        (Controller.collideInfo lv c).floor) := by
  have hy2 : (Controller.getEntity (Controller.collideFloor lv c).1 c).y =
      (Controller.collideInfo lv c).floor := by
    rw [Controller.collideFloor_y, if_pos ⟨hy, hb⟩]
  have hc2 : (Controller.collideFloor lv c).2 =
      { c with
        pos := { c.pos with y := ((Controller.collideInfo lv c).floor : ℚ) }
        velocity := { c.velocity with y := 0 } } := by
    rw [Controller.collideFloor_snd, if_pos ⟨hy, hb⟩]
  have hv : (Controller.collideFloor lv c).2.velocity.y = 0 := by rw [hc2]
  have hp : (Controller.collideFloor lv c).2.pos.y = (Controller.collideInfo lv c).floor := by
    rw [hc2]
  have hs := Controller.collideFloor_stand lv c
  have hr := Controller.collideFloor_rooms lv c
  have he := Controller.collideFloor_entity lv c
  constructor
  · simp only [Controller.collide]
    split_ifs <;> simp [fabsf, hv]
  · intro h
    simp only [Controller.collide, Controller.getEntity_collideFloor, hy2, hs, hr]
    split_ifs with h1 h2 h3 h4
    · exact absurd h2 (by rcases h with h | h; exact absurd h1 h; exact h.1)
    · exact absurd h3 (by rcases h with h | h; exact absurd h1 h; exact h.2)
    · refine ⟨hp, ?_⟩
      simp [Controller.getEntity, TR.Level.setEntity, he]
    · exact ⟨hp, hy2⟩
    · exact ⟨hp, hy2⟩

/-- C4 (amended), on the scenario of the specification: y = 105, floor = 100,
`velocity.y = -10` and an open ceiling. -/
theorem collide_ground_contact_witness :
    (Controller.collide Defs.sample Controller.base openLevel risingCtl).2.velocity.y = 0 ∧
    (Controller.collide Defs.sample Controller.base openLevel risingCtl).2.pos.y = 100 ∧
    (Controller.getEntity (Controller.collide Defs.sample Controller.base openLevel
      risingCtl).1 risingCtl).y = 100 := by
  have h := collide_ground_contact Defs.sample Controller.base openLevel risingCtl
    (by simp [Controller.getEntity, Controller.collideInfo, openLevel, risingCtl,
      Controller.blank])
    (by simp [Controller.collideInfo, openLevel])
  refine ⟨h.1, ?_⟩
  have h2 := h.2 (Or.inl (by
    simp [Controller.collideInfo, openLevel, Controller.base]))
  simpa [Controller.collideInfo, openLevel] using h2

namespace Controller

/-- The floor step of `collide` never raises the entity's `y` value, so a
ceiling test that holds for the `y` value on entry holds at the ceiling step. -/
theorem collideFloor_y_le (lv : TR.Level) (c : Controller) :
    (getEntity (collideFloor lv c).1 c).y ≤ (getEntity lv c).y := by
  rw [collideFloor_y]
  split_ifs with h
  · exact h.1
  · exact le_refl _

/-- The entity's room after the floor step of `collide`. -/
theorem collideFloor_room (lv : TR.Level) (c : Controller) :
    (getEntity (collideFloor lv c).1 c).room =
      if (getEntity lv c).y ≥ (collideInfo lv c).floor ∧ (collideInfo lv c).roomBelow ≠ 0xFF
      then (collideInfo lv c).roomBelow
      else if (collideInfo lv c).roomNext ≠ 0xFF then (collideInfo lv c).roomNext
      else (getEntity lv c).room := by
  simp only [collideFloor, getEntity, TR.Level.setEntity]
  split_ifs <;> simp_all

end Controller

/-- C5 (fails as stated): an entity at y = 0 under a ceiling at 100 with no room
above and `velocity.y = +10` is clamped to the ceiling and keeps
`velocity.y = +10`; the sign is not inverted. -/
theorem collide_ceiling_keeps_positive_velocity :
    (Controller.getEntity ceilingLevel fallingCtl).y -
        Controller.base.getHeight ceilingLevel fallingCtl <
      (Controller.collideInfo ceilingLevel fallingCtl).ceiling ∧
    (Controller.collideInfo ceilingLevel fallingCtl).roomAbove = 0xFF ∧
    (Controller.collideFloor ceilingLevel fallingCtl).2.velocity.y = 10 ∧
    (Controller.collide Defs.sample Controller.base ceilingLevel fallingCtl).2.pos.y = 100 ∧
    (Controller.collide Defs.sample Controller.base ceilingLevel fallingCtl).2.velocity.y = 10 ∧
    (Controller.collide Defs.sample Controller.base ceilingLevel fallingCtl).2.velocity.y ≠
      -(Controller.collideFloor ceilingLevel fallingCtl).2.velocity.y := by
  simp [Controller.collide, Controller.collideFloor, Controller.collideInfo,
    Controller.getEntity, ceilingLevel, fallingCtl, Controller.blank, TR.Level.blank,
    TR.Level.setEntity, Controller.base, fabsf]
  norm_num

/-- C5 (amended): when the entity minus its height is above the ceiling at the
ceiling step and there is no room above, `collide` sets
`pos.y = entity.y = ceiling + height` and replaces the vertical velocity `v` held
just before the ceiling step by `fabsf(v)`: the result is never negative, and it
is the negation of `v` exactly when `v ≤ 0`. -/
theorem collide_ceiling_bounce (d : Defs) (hk : Hooks) (lv : TR.Level) (c : Controller)
    (hc : (Controller.getEntity (Controller.collideFloor lv c).1 c).y -
        hk.getHeight (Controller.collideFloor lv c).1 (Controller.collideFloor lv c).2 <
      (Controller.collideInfo lv c).ceiling)
    (ha : (Controller.collideInfo lv c).roomAbove = 0xFF) :
    (Controller.collide d hk lv c).2.pos.y =
      (((Controller.collideInfo lv c).ceiling +
        hk.getHeight (Controller.collideFloor lv c).1 (Controller.collideFloor lv c).2 : Int) : ℚ) ∧
    (Controller.getEntity (Controller.collide d hk lv c).1 c).y =
      (Controller.collideInfo lv c).ceiling +
        hk.getHeight (Controller.collideFloor lv c).1 (Controller.collideFloor lv c).2 ∧
    (Controller.collide d hk lv c).2.velocity.y =
      fabsf (Controller.collideFloor lv c).2.velocity.y ∧
    0 ≤ (Controller.collide d hk lv c).2.velocity.y ∧
    ((Controller.collide d hk lv c).2.velocity.y =
        -(Controller.collideFloor lv c).2.velocity.y ↔
      (Controller.collideFloor lv c).2.velocity.y ≤ 0) := by
  have he := Controller.collideFloor_entity lv c
  have hcol : Controller.collide d hk lv c =
      ((Controller.collideFloor lv c).1.setEntity (Controller.collideFloor lv c).2.entity
        { Controller.getEntity (Controller.collideFloor lv c).1 (Controller.collideFloor lv c).2 with
          y := (Controller.collideInfo lv c).ceiling +
            hk.getHeight (Controller.collideFloor lv c).1 (Controller.collideFloor lv c).2 },
        { (Controller.collideFloor lv c).2 with
          pos := { (Controller.collideFloor lv c).2.pos with
            y := (((Controller.collideInfo lv c).ceiling +
              hk.getHeight (Controller.collideFloor lv c).1 (Controller.collideFloor lv c).2 : Int) : ℚ) }
          velocity := { (Controller.collideFloor lv c).2.velocity with
            y := fabsf (Controller.collideFloor lv c).2.velocity.y } }) := by
    simp only [Controller.collide, Controller.getEntity_collideFloor]
    rw [if_pos hc, if_pos ha]
  rw [hcol]
  refine ⟨rfl, ?_, rfl, ?_, ?_⟩
  · simp [Controller.getEntity, TR.Level.setEntity, he]
  · simp only [fabsf]
    split_ifs with h
    · linarith
    · linarith
  · simp only [fabsf]
    split_ifs with h
    · constructor
      · intro _; linarith
      · intro _; trivial
    · constructor
      · intro h2; linarith
      · intro h2; linarith

/-- C5 (amended), on an entity at y = 0 under a ceiling at 100 with
`velocity.y = -10`: it is clamped to y = 100 and leaves with `velocity.y = +10`. -/
theorem collide_ceiling_bounce_witness :
    (Controller.collide Defs.sample Controller.base ceilingLevel climbingCtl).2.pos.y = 100 ∧
    (Controller.collide Defs.sample Controller.base ceilingLevel climbingCtl).2.velocity.y =
      10 := by
  have h := collide_ceiling_bounce Defs.sample Controller.base ceilingLevel climbingCtl
    (by simp [Controller.collideFloor, Controller.collideInfo, Controller.getEntity,
      ceilingLevel, climbingCtl, Controller.blank, TR.Level.blank, Controller.base])
    (by simp [Controller.collideInfo, ceilingLevel])
  constructor
  · rw [h.1]
    simp [Controller.collideInfo, ceilingLevel, Controller.base]
  · rw [h.2.2.1]
    simp [Controller.collideFloor, Controller.collideInfo, Controller.getEntity,
      ceilingLevel, climbingCtl, Controller.blank, TR.Level.blank, fabsf]

/-- C6: when the controller is UNDERWATER, the entity minus its height is above
the ceiling at the ceiling step, a room above exists and it is not water-flagged,
`collide` ends with `stand = ON_WATER`, `velocity.y = 0` and `pos.y = ceiling`,
and the ceiling step writes nothing to the level: the entity's room is the one
the room-crossing and floor steps left, not reassigned to the room above. -/
theorem collide_water_surfacing (d : Defs) (hk : Hooks) (lv : TR.Level) (c : Controller)
    (hs : c.stand = Stand.STAND_UNDERWATER)
    (hc : (Controller.getEntity (Controller.collideFloor lv c).1 c).y -
        hk.getHeight (Controller.collideFloor lv c).1 (Controller.collideFloor lv c).2 <
      (Controller.collideInfo lv c).ceiling)
    (ha : (Controller.collideInfo lv c).roomAbove ≠ 0xFF)
    (hw : (lv.rooms (Controller.collideInfo lv c).roomAbove).flags &&& d.ROOM_FLAG_WATER = 0) :
    (Controller.collide d hk lv c).2.stand = Stand.STAND_ONWATER ∧
    (Controller.collide d hk lv c).2.velocity.y = 0 ∧
    (Controller.collide d hk lv c).2.pos.y = (Controller.collideInfo lv c).ceiling ∧
    (Controller.collide d hk lv c).1 = (Controller.collideFloor lv c).1 ∧
    (Controller.getEntity (Controller.collide d hk lv c).1 c).room =
      (if (Controller.getEntity lv c).y ≥ (Controller.collideInfo lv c).floor ∧
          (Controller.collideInfo lv c).roomBelow ≠ 0xFF
        then (Controller.collideInfo lv c).roomBelow
        else if (Controller.collideInfo lv c).roomNext ≠ 0xFF
          then (Controller.collideInfo lv c).roomNext
          else (Controller.getEntity lv c).room) := by
  have hcol : Controller.collide d hk lv c =
      ((Controller.collideFloor lv c).1,
        { (Controller.collideFloor lv c).2 with
          stand := Stand.STAND_ONWATER
          velocity := { (Controller.collideFloor lv c).2.velocity with y := 0 }
          pos := { (Controller.collideFloor lv c).2.pos with
            y := ((Controller.collideInfo lv c).ceiling : ℚ) } }) := by
    simp only [Controller.collide, Controller.getEntity_collideFloor,
      Controller.collideFloor_stand, Controller.collideFloor_rooms]
    rw [if_pos hc, if_neg ha, if_pos ⟨hs, hw⟩]
  rw [hcol]
  exact ⟨rfl, rfl, rfl, rfl, Controller.collideFloor_room lv c⟩

/-- C6 on a swimmer at y = 0 under a ceiling at 100 with the dry room 3 above:
it surfaces at y = 100 and stays in room 0. -/
theorem collide_water_surfacing_witness :
    (Controller.collide Defs.sample Controller.base surfaceLevel swimCtl).2.stand =
      Stand.STAND_ONWATER ∧
    (Controller.collide Defs.sample Controller.base surfaceLevel swimCtl).2.velocity.y = 0 ∧
    (Controller.collide Defs.sample Controller.base surfaceLevel swimCtl).2.pos.y = 100 ∧
    (Controller.getEntity (Controller.collide Defs.sample Controller.base surfaceLevel
      swimCtl).1 swimCtl).room = 0 := by
  have h := collide_water_surfacing Defs.sample Controller.base surfaceLevel swimCtl rfl
    (by simp [Controller.collideFloor, Controller.collideInfo, Controller.getEntity,
      surfaceLevel, swimCtl, Controller.blank, TR.Level.blank, Controller.base])
    (by simp [Controller.collideInfo, surfaceLevel])
    (by simp [Controller.collideInfo, surfaceLevel, TR.Level.blank, Defs.sample])
  refine ⟨h.1, h.2.1, ?_, ?_⟩
  · rw [h.2.2.1]
    simp [Controller.collideInfo, surfaceLevel]
  · rw [h.2.2.2.2]
    simp [Controller.collideInfo, Controller.getEntity, surfaceLevel, swimCtl,
      Controller.blank, TR.Level.blank]

namespace Controller

/-- The hand-off at the end of `activateNext` leaves the level alone. -/
theorem handOff_level (hk : Nat → Hooks) (self next : Nat) (ctl : Option Nat) (w : World) :
    (handOff hk self next ctl w).level = w.level := by
  unfold handOff
  cases ctl with
  | none => rfl
  | some t =>
    simp only
    split_ifs <;> rfl

/-- The hand-off at the end of `activateNext` plays no sound. -/
theorem handOff_sounds (hk : Nat → Hooks) (self next : Nat) (ctl : Option Nat) (w : World) :
    (handOff hk self next ctl w).sounds = w.sounds := by
  unfold handOff
  cases ctl with
  | none => rfl
  | some t =>
    simp only
    split_ifs <;> rfl

/-- The hand-off at the end of `activateNext` leaves the action commands alone. -/
theorem handOff_cmds (hk : Nat → Hooks) (self next : Nat) (ctl : Option Nat) (w : World) :
    (handOff hk self next ctl w).cmds = w.cmds := by
  unfold handOff
  cases ctl with
  | none => rfl
  | some t =>
    simp only
    split_ifs <;> rfl

/-- One unfolding of `activateNext` at a SECRET link. -/
theorem activateNext_secret_step (d : Defs) (hk : Nat → Hooks) (self fuel : Nat) (w : World)
    (a n : Nat) (ha : (w.controllers self).actionCommand = some a)
    (hn : (w.cmds a).next = some n) (hs : (w.cmds n).action = TR.Action.SECRET) :
    activateNext d hk self (fuel + 1) w =
      activateNext d hk self fuel (secretLink d self n w) := by
  rw [activateNext]
  simp only [ha, hn, hs]

/-- The secret flags after the SECRET case: the link's flag is set, the others
are as before. -/
theorem secretLink_secrets (d : Defs) (self n : Nat) (w : World) :
    (secretLink d self n w).level.secrets =
      Function.update w.level.secrets (w.cmds n).value true := by
  unfold secretLink
  by_cases hv : w.level.secrets (w.cmds n).value = false
  · rw [if_pos hv]; rfl
  · rw [if_neg hv]
    have hv2 : w.level.secrets (w.cmds n).value = true := by simpa using hv
    simp only [setActionCommand, setController]
    rw [← hv2, Function.update_eq_self]

/-- The sounds after the SECRET case: one secret sound more if the flag was
clear, none otherwise. -/
theorem secretLink_sounds (d : Defs) (self n : Nat) (w : World) :
    (secretLink d self n w).sounds =
      if w.level.secrets (w.cmds n).value = false then w.sounds ++ [⟨d.SND_SECRET, none⟩]
      else w.sounds := by
  unfold secretLink
  by_cases hv : w.level.secrets (w.cmds n).value = false
  · rw [if_pos hv, if_pos hv]; rfl
  · rw [if_neg hv, if_neg hv]; rfl

/-- The SECRET case leaves the action commands alone. -/
theorem secretLink_cmds (d : Defs) (self n : Nat) (w : World) :
    (secretLink d self n w).cmds = w.cmds := by
  unfold secretLink
  by_cases hv : w.level.secrets (w.cmds n).value = false
  · rw [if_pos hv]; rfl
  · rw [if_neg hv]; rfl

/-- The SECRET case moves the cursor to the link. -/
theorem secretLink_cursor (d : Defs) (self n : Nat) (w : World) :
    ((secretLink d self n w).controllers self).actionCommand = some n := by
  unfold secretLink
  by_cases hv : w.level.secrets (w.cmds n).value = false
  · rw [if_pos hv]; simp [setActionCommand, setController, playSound]
  · rw [if_neg hv]; simp [setActionCommand, setController]

/-- One unfolding of `activateNext` at a link that is not SECRET: the call
returns after the hand-off to the controller the `switch` selected. -/
theorem activateNext_other_step (d : Defs) (hk : Nat → Hooks) (self fuel : Nat) (w : World)
    (a n : Nat) (ha : (w.controllers self).actionCommand = some a)
    (hn : (w.cmds a).next = some n) (hs : (w.cmds n).action ≠ TR.Action.SECRET) :
    activateNext d hk self (fuel + 1) w =
      some (handOff hk self n
        (match (w.cmds n).action with
          | TR.Action.ACTIVATE => (w.level.entities (w.cmds n).value).controller
          | TR.Action.CAMERA_SWITCH => w.level.cameraController
          | TR.Action.CAMERA_TARGET => w.level.cameraController
          | _ => none) w) := by
  rw [activateNext]
  simp only [ha, hn]
  cases h : (w.cmds n).action <;> simp_all

/-- A call of `activateNext` clears no secret flag, only appends to the record
of sounds, and leaves the action commands alone. -/
theorem activateNext_grows (d : Defs) (hk : Nat → Hooks) (self : Nat) (fuel : Nat) :
    ∀ (w w' : World), activateNext d hk self fuel w = some w' →
      (∀ u, w.level.secrets u = true → w'.level.secrets u = true) ∧
      (∃ rest, w'.sounds = w.sounds ++ rest) ∧ w'.cmds = w.cmds := by
  induction fuel with
  | zero => intro w w' h; simp [activateNext] at h
  | succ fuel ih =>
    intro w w' h
    cases ha : (w.controllers self).actionCommand with
    | none =>
      rw [activateNext] at h
      simp only [ha] at h
      cases h
      exact ⟨fun _ hu => hu, ⟨[], by simp [setActionCommand, setController]⟩, rfl⟩
    | some a =>
      cases hn : (w.cmds a).next with
      | none =>
        rw [activateNext] at h
        simp only [ha, hn] at h
        cases h
        exact ⟨fun _ hu => hu, ⟨[], by simp [setActionCommand, setController]⟩, rfl⟩
      | some n =>
        by_cases hs : (w.cmds n).action = TR.Action.SECRET
        · rw [activateNext_secret_step d hk self fuel w a n ha hn hs] at h
          obtain ⟨h1, ⟨rest, h2⟩, h3⟩ := ih _ _ h
          refine ⟨?_, ?_, ?_⟩
          · intro u hu
            apply h1
            rw [secretLink_secrets]
            by_cases hu2 : u = (w.cmds n).value
            · rw [hu2, Function.update_same]
            · rw [Function.update_noteq hu2]
              exact hu
          · rw [secretLink_sounds] at h2
            by_cases hv : w.level.secrets (w.cmds n).value = false
            · rw [if_pos hv] at h2
              exact ⟨[⟨d.SND_SECRET, none⟩] ++ rest, by rw [h2]; simp⟩
            · rw [if_neg hv] at h2
              exact ⟨_, h2⟩
          · rw [h3, secretLink_cmds]
        · rw [activateNext_other_step d hk self fuel w a n ha hn hs] at h
          cases h
          rw [handOff_level, handOff_sounds, handOff_cmds]
          exact ⟨fun _ hu => hu, ⟨[], by simp⟩, rfl⟩

/-- A call of `activateNext` returns when the chain from the cursor ends within
`n` links and the fuel is `n + 1`. -/
theorem activateNext_returns (d : Defs) (hk : Nat → Hooks) (self : Nat) (n : Nat) :
    ∀ (w : World), chainEnds w.cmds n (w.controllers self).actionCommand = true →
      ∃ w', activateNext d hk self (n + 1) w = some w' := by
  induction n with
  | zero =>
    intro w h
    cases ha : (w.controllers self).actionCommand with
    | none => exact ⟨setActionCommand w self none, by rw [activateNext]; simp only [ha]⟩
    | some a => rw [ha] at h; simp [chainEnds] at h
  | succ m ih =>
    intro w h
    cases ha : (w.controllers self).actionCommand with
    | none => exact ⟨setActionCommand w self none, by rw [activateNext]; simp only [ha]⟩
    | some a =>
      rw [ha] at h
      simp only [chainEnds] at h
      cases hn : (w.cmds a).next with
      | none => exact ⟨setActionCommand w self none, by rw [activateNext]; simp only [ha, hn]⟩
      | some b =>
        by_cases hs : (w.cmds b).action = TR.Action.SECRET
        · rw [activateNext_secret_step d hk self (m + 1) w a b ha hn hs]
          apply ih
          rw [hn] at h
          rw [secretLink_cmds, secretLink_cursor]
          exact h
        · exact ⟨_, activateNext_other_step d hk self (m + 1) w a b ha hn hs⟩

end Controller

/-- C7: when `activateNext` reaches a SECRET link `n` with id `v`, the link's
effect is `secretLink`: `secrets[v]` is set and the other flags are as before,
the secret sound is appended iff `secrets[v]` was false, and the cursor is on
the link; the call goes on with the following link (`activateNext` on that
state). With a chain that ends, the call returns, with `secrets[v]` true, no
flag cleared and the sounds only extended. When the following link is a SECRET
with the same id, it adds no sound and changes no flag, and the call goes on
after it. -/
theorem activateNext_secret (d : Defs) (hk : Nat → Hooks) (self m : Nat) (w : World)
    (a n : Nat) (ha : (w.controllers self).actionCommand = some a)
    (hn : (w.cmds a).next = some n) (hs : (w.cmds n).action = TR.Action.SECRET)
    (hfin : Controller.chainEnds w.cmds (m + 1) (some n) = true) :
    (Controller.secretLink d self n w).level.secrets =
      Function.update w.level.secrets (w.cmds n).value true ∧
    (Controller.secretLink d self n w).sounds =
      (if w.level.secrets (w.cmds n).value = false
        then w.sounds ++ [⟨d.SND_SECRET, none⟩] else w.sounds) ∧
    ((Controller.secretLink d self n w).controllers self).actionCommand = some n ∧
    Controller.activateNext d hk self (m + 3) w =
      Controller.activateNext d hk self (m + 2) (Controller.secretLink d self n w) ∧
    (∃ w', Controller.activateNext d hk self (m + 3) w = some w' ∧
      w'.level.secrets (w.cmds n).value = true ∧
      (∀ u, w.level.secrets u = true → w'.level.secrets u = true) ∧
      ∃ rest, w'.sounds = (Controller.secretLink d self n w).sounds ++ rest) ∧
    (∀ n2, (w.cmds n).next = some n2 → (w.cmds n2).action = TR.Action.SECRET →
      (w.cmds n2).value = (w.cmds n).value →
      (Controller.secretLink d self n2 (Controller.secretLink d self n w)).sounds =
        (Controller.secretLink d self n w).sounds ∧
      (Controller.secretLink d self n2 (Controller.secretLink d self n w)).level.secrets =
        (Controller.secretLink d self n w).level.secrets ∧
      Controller.activateNext d hk self (m + 3) w =
        Controller.activateNext d hk self (m + 1)
          (Controller.secretLink d self n2 (Controller.secretLink d self n w))) := by
  have hstep := Controller.activateNext_secret_step d hk self (m + 2) w a n ha hn hs
  refine ⟨Controller.secretLink_secrets d self n w, Controller.secretLink_sounds d self n w,
    Controller.secretLink_cursor d self n w, hstep, ?_, ?_⟩
  · have hret := Controller.activateNext_returns d hk self (m + 1)
      (Controller.secretLink d self n w) (by
        rw [Controller.secretLink_cmds, Controller.secretLink_cursor]; exact hfin)
    obtain ⟨w', hw'⟩ := hret
    obtain ⟨h1, h2, _⟩ := Controller.activateNext_grows d hk self (m + 2) _ _ hw'
    refine ⟨w', by rw [hstep, hw'], ?_, ?_, h2⟩
    · apply h1
      rw [Controller.secretLink_secrets, Function.update_same]
    · intro u hu
      apply h1
      rw [Controller.secretLink_secrets]
      by_cases hu2 : u = (w.cmds n).value
      · rw [hu2, Function.update_same]
      · rw [Function.update_noteq hu2]
        exact hu
  · intro n2 hn2 hs2 hv2
    have hset : (Controller.secretLink d self n w).level.secrets
        ((Controller.secretLink d self n w).cmds n2).value = true := by
      rw [Controller.secretLink_cmds, hv2, Controller.secretLink_secrets,
        Function.update_same]
    refine ⟨?_, ?_, ?_⟩
    · rw [Controller.secretLink_sounds, if_neg (by rw [hset]; decide)]
    · rw [Controller.secretLink_secrets]
      rw [← hset, Function.update_eq_self]
    · rw [hstep]
      exact Controller.activateNext_secret_step d hk self (m + 1) _ n n2
        (Controller.secretLink_cursor d self n w)
        (by rw [Controller.secretLink_cmds]; exact hn2)
        (by rw [Controller.secretLink_cmds]; exact hs2)

/-- C7 on `secretWorld`, whose chain reaches SECRET 4 twice: the call returns
with secret 4 found and exactly one secret sound played. -/
theorem activateNext_secret_witness :
    ∃ w', Controller.activateNext Defs.sample baseHooks 0 4 secretWorld = some w' ∧
      w'.level.secrets 4 = true ∧
      w'.sounds = [⟨13, none⟩] ∧
      (w'.controllers 0).actionCommand = none := by
  have h := activateNext_secret Defs.sample baseHooks 0 1 secretWorld 0 1
    (by simp [secretWorld]) (by simp [secretWorld]) (by simp [secretWorld])
    (by simp [secretWorld, Controller.chainEnds])
  have h2 := h.2.2.2.2.2 2 (by simp [secretWorld]) (by simp [secretWorld])
    (by simp [secretWorld])
  have h3 : Controller.activateNext Defs.sample baseHooks 0 4 secretWorld =
      Controller.activateNext Defs.sample baseHooks 0 2
        (Controller.secretLink Defs.sample 0 2
          (Controller.secretLink Defs.sample 0 1 secretWorld)) := h2.2.2
  refine ⟨Controller.setActionCommand (Controller.secretLink Defs.sample 0 2
    (Controller.secretLink Defs.sample 0 1 secretWorld)) 0 none, ?_, ?_, ?_, ?_⟩
  · rw [h3]
    simp [Controller.activateNext, Controller.secretLink, secretWorld,
      Controller.setActionCommand, Controller.setController, Controller.playSound,
      World.blank, TR.Level.blank, TR.Level.setSecret]
  · simp [Controller.setActionCommand, Controller.setController, Controller.secretLink,
      secretWorld, World.blank, TR.Level.blank, TR.Level.setSecret, Controller.playSound]
  · simp [Controller.setActionCommand, Controller.setController, Controller.secretLink,
      secretWorld, World.blank, TR.Level.blank, TR.Level.setSecret, Controller.playSound,
      Defs.sample]
  · simp [Controller.setActionCommand, Controller.setController]

/-- C8 (fails as stated): on `flowWorld` the link after the cursor is a FLOW
link at address 1, followed by an ACTIVATE link for controller 1. After
`activateNext` the cursor is `NULL`, not at the FLOW link, and a later call does
not reach the ACTIVATE link: controller 1 is never handed the chain. -/
theorem activateNext_flow_drops_chain :
    (flowWorld.cmds 1).action = TR.Action.FLOW ∧
    ∃ w', Controller.activateNext Defs.sample baseHooks 0 1 flowWorld = some w' ∧
      (w'.controllers 0).actionCommand = none ∧
      (w'.controllers 0).actionCommand ≠ some 1 ∧
      ∃ w'', Controller.activateNext Defs.sample baseHooks 0 1 w' = some w'' ∧
        (w''.controllers 0).actionCommand = none ∧
        (w''.controllers 1).actionCommand = none := by
  refine ⟨by simp [flowWorld], Controller.setActionCommand flowWorld 0 none, ?_, ?_, ?_,
    Controller.setActionCommand flowWorld 0 none, ?_, ?_, ?_⟩
  · simp [Controller.activateNext, flowWorld, Controller.handOff]
  · simp [Controller.setActionCommand, Controller.setController]
  · simp [Controller.setActionCommand, Controller.setController]
  · simp [Controller.activateNext, flowWorld, Controller.setActionCommand,
      Controller.setController]
  · simp [Controller.setActionCommand, Controller.setController]
  · simp [Controller.setActionCommand, Controller.setController, flowWorld, World.blank,
      Controller.blank]

/-- C8 (amended): when the link after the cursor has kind FLOW, FLIP_MAP,
FLIP_ON, FLIP_OFF, END, SOUNDTRACK, HARDCODE, CLEAR, CAMERA_FLYBY or CUTSCENE,
`activateNext` returns and its only effect is `actionCommand = NULL` in the
calling controller; a later call finds no cursor and changes nothing. -/
theorem activateNext_inert_clears (d : Defs) (hk : Nat → Hooks) (self fuel : Nat) (w : World)
    (a n : Nat) (ha : (w.controllers self).actionCommand = some a)
    (hn : (w.cmds a).next = some n)
    (hi : (w.cmds n).action ∈ [TR.Action.FLOW, TR.Action.FLIP_MAP, TR.Action.FLIP_ON,
      TR.Action.FLIP_OFF, TR.Action.END, TR.Action.SOUNDTRACK, TR.Action.HARDCODE,
      TR.Action.CLEAR, TR.Action.CAMERA_FLYBY, TR.Action.CUTSCENE]) :
    Controller.activateNext d hk self (fuel + 1) w =
      some (Controller.setActionCommand w self none) ∧
    Controller.activateNext d hk self (fuel + 1) (Controller.setActionCommand w self none) =
      some (Controller.setActionCommand w self none) := by
  constructor
  · rw [Controller.activateNext]
    simp only [ha, hn]
    cases h : (w.cmds n).action <;> simp_all [Controller.handOff]
  · rw [Controller.activateNext]
    simp [Controller.setActionCommand, Controller.setController]

/-- C8 (amended) on `flowWorld`: the FLOW link clears the cursor of
controller 0. -/
theorem activateNext_inert_clears_witness :
    Controller.activateNext Defs.sample baseHooks 0 1 flowWorld =
      some (Controller.setActionCommand flowWorld 0 none) :=
  (activateNext_inert_clears Defs.sample baseHooks 0 0 flowWorld 0 1
    (by simp [flowWorld]) (by simp [flowWorld]) (by simp [flowWorld])).1

/-- C9 (fails as stated): on `selfWorld` the ACTIVATE link after the cursor of
controller 0 resolves to controller 0 itself. The base `activate` accepts and
stores the link, and `activateNext` then clears the cursor: the target's pending
chain is `NULL`, not the link. -/
theorem activateNext_self_target_clears :
    (selfWorld.cmds 1).action = TR.Action.ACTIVATE ∧
    (selfWorld.level.entities (selfWorld.cmds 1).value).controller = some 0 ∧
    ((baseHooks 0).activate selfWorld.level (selfWorld.controllers 0) 1).2 = true ∧
    ∃ w', Controller.activateNext Defs.sample baseHooks 0 1 selfWorld = some w' ∧
      (w'.controllers 0).actionCommand = none ∧
      (w'.controllers 0).actionCommand ≠ some 1 := by
  refine ⟨by simp [selfWorld], by simp [selfWorld], by simp [baseHooks, Controller.base,
    Controller.activate], Controller.setActionCommand selfWorld 0 none, ?_, ?_, ?_⟩
  · simp [Controller.activateNext, selfWorld, Controller.handOff, baseHooks, Controller.base,
      Controller.activate, Controller.setActionCommand, Controller.setController]
  · simp [Controller.setActionCommand, Controller.setController]
  · simp [Controller.setActionCommand, Controller.setController]

/-- C9 (amended): when the link `n` after the cursor has kind ACTIVATE (or a
camera kind) and resolves to a target controller `t` other than the caller,
`activateNext` returns after calling the target's `activate` with that link: the
target is what `activate` left, which for the base `activate` has
`actionCommand = n`. If `activate` returns false the caller is unchanged, its
cursor included; if it returns true only the caller's cursor changes, to `NULL`.
Level, action commands, sounds and all other controllers are unchanged. -/
theorem activateNext_hand_off (d : Defs) (hk : Nat → Hooks) (self fuel : Nat) (w : World)
    (a n t : Nat) (ha : (w.controllers self).actionCommand = some a)
    (hn : (w.cmds a).next = some n)
    (ht : ((w.cmds n).action = TR.Action.ACTIVATE ∧
          (w.level.entities (w.cmds n).value).controller = some t) ∨
        (((w.cmds n).action = TR.Action.CAMERA_SWITCH ∨
          (w.cmds n).action = TR.Action.CAMERA_TARGET) ∧ w.level.cameraController = some t))
    (hne : t ≠ self) :
    ∃ w', Controller.activateNext d hk self (fuel + 1) w = some w' ∧
      w'.controllers t = ((hk t).activate w.level (w.controllers t) n).1 ∧
      ((hk t).activate = Controller.activate → (w'.controllers t).actionCommand = some n) ∧
      (((hk t).activate w.level (w.controllers t) n).2 = false →
        w'.controllers self = w.controllers self ∧
        (w'.controllers self).actionCommand = some a) ∧
      (((hk t).activate w.level (w.controllers t) n).2 = true →
        w'.controllers self = { w.controllers self with actionCommand := none }) ∧
      w'.level = w.level ∧ w'.cmds = w.cmds ∧ w'.sounds = w.sounds ∧
      (∀ k, k ≠ t → k ≠ self → w'.controllers k = w.controllers k) := by
  have hcall : Controller.activateNext d hk self (fuel + 1) w =
      some (Controller.handOff hk self n (some t) w) := by
    rw [Controller.activateNext]
    simp only [ha, hn]
    rcases ht with ⟨h1, h2⟩ | ⟨h1 | h1, h2⟩ <;> simp only [h1, h2]
  have hst : self ≠ t := fun h => hne h.symm
  refine ⟨_, hcall, ?_, ?_, ?_, ?_, ?_, ?_, ?_, ?_⟩
  · simp only [Controller.handOff]
    split_ifs <;>
      simp [Controller.setActionCommand, Controller.setController, Function.update_noteq hne]
  · intro hbase
    simp only [Controller.handOff, hbase, Controller.activate]
    simp [Controller.setActionCommand, Controller.setController, Function.update_noteq hne]
  · intro hfalse
    simp only [Controller.handOff, hfalse]
    simp [Controller.setController, Function.update_noteq hst, ha]
  · intro htrue
    simp only [Controller.handOff, htrue]
    simp [Controller.setActionCommand, Controller.setController, Function.update_noteq hst]
  · rw [Controller.handOff_level]
  · rw [Controller.handOff_cmds]
  · rw [Controller.handOff_sounds]
  · intro k hkt hks
    simp only [Controller.handOff]
    split_ifs <;>
      simp [Controller.setActionCommand, Controller.setController, Function.update_noteq hkt,
        Function.update_noteq hks]

/-- C9 (amended) on `otherWorld`, where the ACTIVATE link of controller 0
resolves to controller 1: with the base `activate` controller 1 gets the link as
its pending chain; with an `activate` that refuses, controller 0 keeps its
cursor at node 0. -/
theorem activateNext_hand_off_witness :
    (∃ w', Controller.activateNext Defs.sample baseHooks 0 1 otherWorld = some w' ∧
      (w'.controllers 1).actionCommand = some 1) ∧
    (∃ w', Controller.activateNext Defs.sample refuseHooks 0 1 otherWorld = some w' ∧
      w'.controllers 0 = otherWorld.controllers 0 ∧
      (w'.controllers 0).actionCommand = some 0) := by
  constructor
  · obtain ⟨w', h1, _, h3, _⟩ := activateNext_hand_off Defs.sample baseHooks 0 0 otherWorld
      0 1 1 (by simp [otherWorld, selfWorld]) (by simp [otherWorld, selfWorld])
      (Or.inl (by simp [otherWorld, selfWorld])) (by decide)
    exact ⟨w', h1, h3 rfl⟩
  · obtain ⟨w', h1, _, _, h4, _⟩ := activateNext_hand_off Defs.sample refuseHooks 0 0
      otherWorld 0 1 1 (by simp [otherWorld, selfWorld]) (by simp [otherWorld, selfWorld])
      (Or.inl (by simp [otherWorld, selfWorld])) (by decide)
    exact ⟨w', h1, h4 (by simp [refuseHooks])⟩

namespace Controller

/-- Nothing changed: the trivial case of `PassKeeps`. -/
theorem PassKeeps.rfl (self : Nat) (w : World) : PassKeeps self w w :=
  ⟨Eq.refl _, Eq.refl _, Eq.refl _, Eq.refl _, Eq.refl _, Eq.refl _, Eq.refl _, Eq.refl _,
    Eq.refl _, Eq.refl _, Eq.refl _, fun _ _ => Eq.refl _⟩

/-- Two steps that keep the animation cursor compose. -/
theorem PassKeeps.trans {self : Nat} {w w1 w2 : World} (h1 : PassKeeps self w w1)
    (h2 : PassKeeps self w1 w2) : PassKeeps self w w2 := by
  obtain ⟨a1, a2, a3, a4, a5, a6, a7, a8, a9, a10, a11, a12⟩ := h1
  obtain ⟨b1, b2, b3, b4, b5, b6, b7, b8, b9, b10, b11, b12⟩ := h2
  refine ⟨b1.trans a1, b2.trans a2, b3.trans a3, b4.trans a4, b5.trans a5, b6.trans a6,
    b7.trans a7, b8.trans a8, b9.trans a9, b10.trans a10, ?_, fun k hk => (b12 k hk).trans (a12 k hk)⟩
  rw [a9] at b11
  exact b11.trans a11

/-- One pass of the command loop keeps the animation cursor. -/
theorem animCommand_keeps (d : Defs) (self : Nat) (anim : TR.Animation) (frameIndex : Int)
    (endFrame : Bool) (i : Nat) (ptr : Int) (w : World) :
    PassKeeps self w (animCommand d self anim frameIndex endFrame i ptr w).2 := by
  unfold animCommand
  simp only
  split_ifs <;>
    simp [PassKeeps, setController, playSound, updateEntity, getEntity, TR.Level.setEntity] <;>
    intro k hk <;>
    exact Function.update_noteq hk _ _

/-- The command loop keeps the animation cursor. -/
theorem animCommands_keeps (d : Defs) (self : Nat) (anim : TR.Animation) (frameIndex : Int)
    (endFrame : Bool) (n : Nat) :
    ∀ (i : Nat) (ptr : Int) (w : World),
      PassKeeps self w (animCommands d self anim frameIndex endFrame n i ptr w) := by
  induction n with
  | zero => intro i ptr w; exact PassKeeps.rfl self w
  | succ n ih =>
    intro i ptr w
    rw [animCommands]
    exact PassKeeps.trans (animCommand_keeps d self anim frameIndex endFrame i ptr w)
      (ih _ _ _)

end Controller

/-- Truncation of an integer-valued float is that integer. -/
theorem truncToInt_intCast (n : Int) : truncToInt (n : ℚ) = n := by
  unfold truncToInt
  split_ifs <;> simp

namespace Controller

/-- The base `activate` leaves the animation cursor alone. -/
theorem keepsClip_activate : KeepsClip activate := by
  intro lv c n
  exact ⟨rfl, rfl, rfl⟩

/-- The state after the first part of `updateAnimation`: the clock is advanced
and the rest of the animation cursor is as before. -/
theorem animPass_keeps (d : Defs) (self : Nat) (commands : Bool) (dt : ℚ) (w : World) :
    PassKeeps self
      (setController w self
        { w.controllers self with animTime := fadd (w.controllers self).animTime dt })
      (animPass d self commands dt w) := by
  unfold animPass
  simp only
  split_ifs
  · exact animCommands_keeps _ _ _ _ _ _ _ _ _
  · exact PassKeeps.rfl _ _

/-- The animation cursor and the tables after the first part of
`updateAnimation`. -/
theorem animPass_cursor (d : Defs) (self : Nat) (commands : Bool) (dt : ℚ) (w : World) :
    (animPass d self commands dt w).level.anims = w.level.anims ∧
    (animPass d self commands dt w).cmds = w.cmds ∧
    ((animPass d self commands dt w).controllers self).animIndex =
      (w.controllers self).animIndex ∧
    ((animPass d self commands dt w).controllers self).animTime =
      fadd (w.controllers self).animTime dt ∧
    ((animPass d self commands dt w).controllers self).animPrevFrame =
      (w.controllers self).animPrevFrame ∧
    ((animPass d self commands dt w).controllers self).actionCommand =
      (w.controllers self).actionCommand := by
  obtain ⟨h1, _, _, h4, h5, h6, h7, _, _, h10, _, _⟩ := animPass_keeps d self commands dt w
  refine ⟨h1, h4, ?_, ?_, ?_, ?_⟩
  · rw [h5]; simp [setController]
  · rw [h6]; simp [setController]
  · rw [h7]; simp [setController]
  · rw [h10]; simp [setController]

/-- A tick that is not end-of-clip: the result of `updateAnimation`. -/
theorem updateAnimation_of_not_end (d : Defs) (hk : Nat → Hooks) (self fuel : Nat)
    (commands : Bool) (dt : ℚ) (w : World)
    (h : tickEnd w.level (w.controllers self) dt = false) :
    updateAnimation d hk self fuel commands dt w =
      some (setController (animPass d self commands dt w) self
        { (animPass d self commands dt w).controllers self with
          animPrevFrame := tickFrame (w.controllers self) dt }) := by
  unfold updateAnimation
  simp [h]

/-- An end-of-clip tick: the result of `updateAnimation`. -/
theorem updateAnimation_of_end (d : Defs) (hk : Nat → Hooks) (self fuel : Nat)
    (commands : Bool) (dt : ℚ) (w : World)
    (h : tickEnd w.level (w.controllers self) dt = true) :
    updateAnimation d hk self fuel commands dt w =
      activateNext d hk self fuel
        (setController (animPass d self commands dt w) self
          (setAnimation (animPass d self commands dt w).level
            ((animPass d self commands dt w).controllers self)
            (w.level.anims (w.controllers self).animIndex).nextAnimation
            (w.level.anims (w.controllers self).animIndex).nextFrame)) := by
  unfold updateAnimation
  simp [h]

/-- The hand-off of `activateNext` keeps the animation cursor of the caller when
the caller's own `activate` does. -/
theorem handOff_keepsClip (hk : Nat → Hooks) (self next : Nat) (ctl : Option Nat) (w : World)
    (hact : KeepsClip (hk self).activate) :
    ((handOff hk self next ctl w).controllers self).animIndex =
      (w.controllers self).animIndex ∧
    ((handOff hk self next ctl w).controllers self).animTime =
      (w.controllers self).animTime ∧
    ((handOff hk self next ctl w).controllers self).animPrevFrame =
      (w.controllers self).animPrevFrame := by
  unfold handOff
  cases ctl with
  | none => simp [setActionCommand, setController]
  | some t =>
    simp only
    by_cases hts : t = self
    · subst hts
      have := hact w.level (w.controllers t) next
      split_ifs <;> simp [setActionCommand, setController, this]
    · have hst : self ≠ t := fun h => hts h.symm
      split_ifs <;> simp [setActionCommand, setController, Function.update_noteq hst]

/-- A call of `activateNext` keeps the animation cursor of the caller, when the
caller's own `activate` does, and the clip table. -/
theorem activateNext_keepsClip (d : Defs) (hk : Nat → Hooks) (self : Nat)
    (hact : KeepsClip (hk self).activate) (fuel : Nat) :
    ∀ (w w' : World), activateNext d hk self fuel w = some w' →
      w'.level.anims = w.level.anims ∧
      (w'.controllers self).animIndex = (w.controllers self).animIndex ∧
      (w'.controllers self).animTime = (w.controllers self).animTime ∧
      (w'.controllers self).animPrevFrame = (w.controllers self).animPrevFrame := by
  induction fuel with
  | zero => intro w w' h; simp [activateNext] at h
  | succ fuel ih =>
    intro w w' h
    cases ha : (w.controllers self).actionCommand with
    | none =>
      rw [activateNext] at h
      simp only [ha] at h
      cases h
      simp [setActionCommand, setController]
    | some a =>
      cases hn : (w.cmds a).next with
      | none =>
        rw [activateNext] at h
        simp only [ha, hn] at h
        cases h
        simp [setActionCommand, setController]
      | some n =>
        by_cases hs : (w.cmds n).action = TR.Action.SECRET
        · rw [activateNext_secret_step d hk self fuel w a n ha hn hs] at h
          obtain ⟨h1, h2, h3, h4⟩ := ih _ _ h
          rw [h1, h2, h3, h4]
          unfold secretLink
          split_ifs <;>
            simp [setActionCommand, setController, playSound, TR.Level.setSecret]
        · rw [activateNext_other_step d hk self fuel w a n ha hn hs] at h
          cases h
          rw [handOff_level]
          exact ⟨rfl, handOff_keepsClip hk self n _ w hact⟩

/-- A run over two lists of ticks is the run over the first followed by the run
over the second. -/
theorem runTicks_append (d : Defs) (hk : Nat → Hooks) (self fuel : Nat) (commands : Bool)
    (l1 l2 : List ℚ) :
    ∀ w, runTicks d hk self fuel commands (l1 ++ l2) w =
      (runTicks d hk self fuel commands l1 w).bind (runTicks d hk self fuel commands l2) := by
  induction l1 with
  | nil => intro w; rfl
  | cons dt l1 ih =>
    intro w
    simp only [List.cons_append, runTicks]
    cases updateAnimation d hk self fuel commands dt w with
    | none => rfl
    | some w1 => exact ih w1

/-- The pointer a pass of the command loop returns is `nextPtr`. -/
theorem animCommand_fst (d : Defs) (self : Nat) (anim : TR.Animation) (frameIndex : Int)
    (endFrame : Bool) (i : Nat) (ptr : Int) (w : World) :
    (animCommand d self anim frameIndex endFrame i ptr w).1 = nextPtr d w.level.commands ptr := by
  unfold animCommand nextPtr
  simp only
  split_ifs <;> rfl

/-- A pass of the command loop with loop index `j` records no call for another
loop index `i`. -/
theorem animCommand_site_ne (d : Defs) (self : Nat) (anim : TR.Animation) (frameIndex : Int)
    (endFrame : Bool) (i j : Nat) (hij : j ≠ i) (ptr : Int) (w : World) :
    siteCount i (animCommand d self anim frameIndex endFrame j ptr w).2.sounds =
      siteCount i w.sounds := by
  unfold animCommand
  simp only
  split_ifs <;> simp [siteCount, playSound, setController, List.countP_append, hij]

/-- The calls recorded by a pass of the command loop at a SOUND record: one call,
for the pass's own loop index, when the record's frame is in the window and the
entity is not the bat. -/
theorem animCommand_sound (d : Defs) (self : Nat) (anim : TR.Animation) (frameIndex : Int)
    (endFrame : Bool) (i : Nat) (ptr : Int) (w : World)
    (hs : w.level.commands ptr = d.ANIM_CMD_SOUND) :
    (animCommand d self anim frameIndex endFrame i ptr w).2.sounds =
      if (w.level.commands (ptr + 1) - anim.frameStart > (w.controllers self).animPrevFrame ∧
          w.level.commands (ptr + 1) - anim.frameStart ≤ frameIndex) ∧
          (getEntity w.level (w.controllers self)).id ≠ d.ENEMY_BAT
      then w.sounds ++ [⟨w.level.commands (ptr + 1 + 1) % 0x4000, some i⟩]
      else w.sounds := by
  have hl := d.cmdLabels
  simp only [List.nodup_cons, List.mem_cons, List.mem_singleton, not_or] at hl
  obtain ⟨⟨_, _, _, h1, _⟩, ⟨_, _, h2, _⟩, ⟨_, h3, _⟩, ⟨h4, _⟩, _⟩ := hl
  unfold animCommand
  simp only [hs, Ne.symm h1, Ne.symm h2, Ne.symm h3, Ne.symm h4, if_false, if_true]
  split_ifs <;> simp_all [playSound]

/-- The calls that the command loop records for loop index `i`, a SOUND record
for frame `F`: one call if the loop reaches index `i` and `F - frameStart` is in
the window from the last processed frame (exclusive) to the frame index
(inclusive), none otherwise. -/
theorem animCommands_siteCount (d : Defs) (self : Nat) (anim : TR.Animation)
    (frameIndex : Int) (endFrame : Bool) (start : Int) (i : Nat) (F : Int) (n : Nat) :
    ∀ (i0 : Nat) (w : World),
      w.level.commands (cmdPtr d w.level.commands start i) = d.ANIM_CMD_SOUND →
      w.level.commands (cmdPtr d w.level.commands start i + 1) = F →
      (getEntity w.level (w.controllers self)).id ≠ d.ENEMY_BAT →
      siteCount i (animCommands d self anim frameIndex endFrame n i0
          (cmdPtr d w.level.commands start i0) w).sounds =
        siteCount i w.sounds +
          (if (i0 ≤ i ∧ i < i0 + n) ∧ (w.controllers self).animPrevFrame < F - anim.frameStart ∧
              F - anim.frameStart ≤ frameIndex then 1 else 0) := by
  induction n with
  | zero =>
    intro i0 w _ _ _
    have : ¬ (i0 ≤ i ∧ i < i0 + 0) := by omega
    simp [animCommands, this]
  | succ n ih =>
    intro i0 w h1 h2 h3
    rw [animCommands]
    obtain ⟨_, k2, _, _, _, _, k7, _, k9, _, k11, _⟩ :=
      animCommand_keeps d self anim frameIndex endFrame i0
        (cmdPtr d w.level.commands start i0) w
    have hptr : (animCommand d self anim frameIndex endFrame i0
        (cmdPtr d w.level.commands start i0) w).1 =
        cmdPtr d (animCommand d self anim frameIndex endFrame i0
          (cmdPtr d w.level.commands start i0) w).2.level.commands start (i0 + 1) := by
      rw [animCommand_fst, k2]; rfl
    rw [hptr, ih (i0 + 1) _ (by rw [k2]; exact h1) (by rw [k2]; exact h2)
      (by simp only [getEntity] at h3 ⊢; rw [k9, k11]; exact h3), k7]
    by_cases hi : i0 = i
    · subst hi
      rw [animCommand_sound d self anim frameIndex endFrame i0 _ w h1, h2]
      have hno : ¬ (i0 + 1 ≤ i0 ∧ i0 < i0 + 1 + n) := by omega
      have hyes : i0 ≤ i0 ∧ i0 < i0 + (n + 1) := by omega
      simp only [hno, hyes, false_and, true_and, if_false, add_zero, h3, ne_eq,
        not_false_eq_true, and_true, gt_iff_lt]
      split_ifs <;> simp [siteCount, List.countP_append]
    · rw [animCommand_site_ne d self anim frameIndex endFrame i i0 hi]
      have hiff : (i0 + 1 ≤ i ∧ i < i0 + 1 + n) ↔ (i0 ≤ i ∧ i < i0 + (n + 1)) := by omega
      simp only [hiff]

/-- A call of `activateNext` records no call for an animation command. -/
theorem activateNext_siteCount (d : Defs) (hk : Nat → Hooks) (self i : Nat) (fuel : Nat) :
    ∀ (w w' : World), activateNext d hk self fuel w = some w' →
      siteCount i w'.sounds = siteCount i w.sounds := by
  induction fuel with
  | zero => intro w w' h; simp [activateNext] at h
  | succ fuel ih =>
    intro w w' h
    cases ha : (w.controllers self).actionCommand with
    | none =>
      rw [activateNext] at h
      simp only [ha] at h
      cases h
      rfl
    | some a =>
      cases hn : (w.cmds a).next with
      | none =>
        rw [activateNext] at h
        simp only [ha, hn] at h
        cases h
        rfl
      | some n =>
        by_cases hs : (w.cmds n).action = TR.Action.SECRET
        · rw [activateNext_secret_step d hk self fuel w a n ha hn hs] at h
          rw [ih _ _ h, secretLink_sounds]
          split_ifs <;> simp [siteCount, List.countP_append]
        · rw [activateNext_other_step d hk self fuel w a n ha hn hs] at h
          cases h
          rw [handOff_sounds]

/-- The calls that the first part of `updateAnimation(true)` records for a SOUND
record of the active clip. -/
theorem animPass_siteCount (d : Defs) (self : Nat) (dt : ℚ) (w : World) (i : Nat) (F : Int)
    (hr : SoundRecord d self w i F) :
    siteCount i (animPass d self true dt w).sounds =
      siteCount i w.sounds +
        (if (w.controllers self).animPrevFrame <
              F - (w.level.anims (w.controllers self).animIndex).frameStart ∧
            F - (w.level.anims (w.controllers self).animIndex).frameStart ≤
              tickFrame (w.controllers self) dt then 1 else 0) := by
  obtain ⟨h1, h2, h3, h4⟩ := hr
  unfold animPass
  simp only [if_true, setController, Function.update_same]
  have := animCommands_siteCount d self (w.level.anims (w.controllers self).animIndex)
    (truncToInt (fmul (fadd (w.controllers self).animTime dt) 30))
    (decide (truncToInt (fmul (fadd (w.controllers self).animTime dt) 30) >
      (w.level.anims (w.controllers self).animIndex).frameEnd -
        (w.level.anims (w.controllers self).animIndex).frameStart))
    (w.level.anims (w.controllers self).animIndex).animCommand i F
    (w.level.anims (w.controllers self).animIndex).acCount.toNat 0
    (setController w self
      { w.controllers self with animTime := fadd (w.controllers self).animTime dt })
    h2 h3 (by simpa [getEntity, setController] using h4)
  simp only [cmdPtr, setController, Function.update_same] at this
  rw [this]
  have hi : (0 ≤ i ∧ i < 0 + (w.level.anims (w.controllers self).animIndex).acCount.toNat) := by
    omega
  simp only [hi, true_and, tickFrame]

/-- A call of `updateAnimation` returns when the chain from the cursor ends
within `n` links and the fuel is `n + 1`. -/
theorem updateAnimation_returns (d : Defs) (hk : Nat → Hooks) (self n : Nat) (commands : Bool)
    (dt : ℚ) (w : World)
    (hfin : chainEnds w.cmds n (w.controllers self).actionCommand = true) :
    ∃ w', updateAnimation d hk self (n + 1) commands dt w = some w' := by
  by_cases hend : tickEnd w.level (w.controllers self) dt = true
  · rw [updateAnimation_of_end d hk self (n + 1) commands dt w hend]
    apply activateNext_returns
    obtain ⟨_, p2, _, _, _, p6⟩ := animPass_cursor d self commands dt w
    simp only [setController, Function.update_same, setAnimation]
    rw [p2, p6]
    exact hfin
  · have hne : tickEnd w.level (w.controllers self) dt = false := by simpa using hend
    exact ⟨_, updateAnimation_of_not_end d hk self (n + 1) commands dt w hne⟩

/-- The calls that one `updateAnimation(true)` tick records for a SOUND record of
the active clip: one call exactly when `F - frameStart` is in the window from
`animPrevFrame` (exclusive) to the tick's frame index (inclusive). -/
theorem updateAnimation_siteCount (d : Defs) (hk : Nat → Hooks) (self fuel : Nat) (dt : ℚ)
    (w w' : World) (i : Nat) (F : Int) (hr : SoundRecord d self w i F)
    (h : updateAnimation d hk self fuel true dt w = some w') :
    siteCount i w'.sounds =
      siteCount i w.sounds +
        (if (w.controllers self).animPrevFrame <
              F - (w.level.anims (w.controllers self).animIndex).frameStart ∧
            F - (w.level.anims (w.controllers self).animIndex).frameStart ≤
              tickFrame (w.controllers self) dt then 1 else 0) := by
  rw [← animPass_siteCount d self dt w i F hr]
  by_cases hend : tickEnd w.level (w.controllers self) dt = true
  · rw [updateAnimation_of_end d hk self fuel true dt w hend] at h
    rw [activateNext_siteCount d hk self i fuel _ _ h]
    rfl
  · have hne : tickEnd w.level (w.controllers self) dt = false := by simpa using hend
    rw [updateAnimation_of_not_end d hk self fuel true dt w hne] at h
    cases h
    rfl

/-- A tick that is not end-of-clip stays on the clip: the state it returns has
the clock advanced, the tick's frame index as last processed frame, and the same
clip, tables, SOUND record, chain cursor and action commands. -/
theorem updateAnimation_stay (d : Defs) (hk : Nat → Hooks) (self fuel : Nat) (dt : ℚ)
    (w : World) (i : Nat) (F : Int) (hr : SoundRecord d self w i F)
    (hne : tickEnd w.level (w.controllers self) dt = false) :
    ∃ w1, updateAnimation d hk self fuel true dt w = some w1 ∧
      SoundRecord d self w1 i F ∧
      (w1.controllers self).animTime = fadd (w.controllers self).animTime dt ∧
      (w1.controllers self).animPrevFrame = tickFrame (w.controllers self) dt ∧
      w1.level.anims = w.level.anims ∧
      (w1.controllers self).animIndex = (w.controllers self).animIndex ∧
      w1.cmds = w.cmds ∧
      (w1.controllers self).actionCommand = (w.controllers self).actionCommand := by
  refine ⟨_, updateAnimation_of_not_end d hk self fuel true dt w hne, ?_⟩
  obtain ⟨k1, k2, _, k4, k5, k6, _, _, k9, k10, k11, _⟩ := animPass_keeps d self true dt w
  simp only [setController, Function.update_same] at k5 k6 k9 k10 k11
  obtain ⟨h1, h2, h3, h4⟩ := hr
  refine ⟨⟨?_, ?_, ?_, ?_⟩, ?_, ?_, k1, ?_, k4, ?_⟩
  · simp only [setController, Function.update_same]; rw [k1, k5]; exact h1
  · simp only [setController, Function.update_same]; rw [k1, k2, k5]; exact h2
  · simp only [setController, Function.update_same]; rw [k1, k2, k5]; exact h3
  · simp only [getEntity, setController, Function.update_same] at h4 ⊢
    rw [k9, k11]; exact h4
  · simp only [setController, Function.update_same]; exact k6
  · simp only [setController, Function.update_same]
  · simp only [setController, Function.update_same]; exact k5
  · simp only [setController, Function.update_same]; exact k10

/-- Two adjacent windows of a non-decreasing frame sequence join: a frame in the
first window or beyond it and reached later is a frame beyond `f0` reached by
some tick. -/
theorem window_split (f0 f1 idx : Int) (P : Prop) [Decidable P] (h : f0 ≤ f1) :
    ((if f0 < idx ∧ idx ≤ f1 then 1 else 0) +
      (if f1 < idx ∧ (idx ≤ f1 ∨ P) then 1 else 0) : Nat) =
      (if f0 < idx ∧ (idx ≤ f0 ∨ idx ≤ f1 ∨ P) then 1 else 0) := by
  by_cases h1 : idx ≤ f0
  · have h2 : ¬ f0 < idx := by omega
    have h3 : ¬ f1 < idx := by omega
    simp [h2, h3]
  · by_cases h2 : idx ≤ f1
    · have h3 : f0 < idx := by omega
      have h4 : ¬ f1 < idx := by omega
      simp [h2, h3, h4]
    · have h3 : f0 < idx := by omega
      have h4 : f1 < idx := by omega
      by_cases hP : P <;> simp [h1, h2, h3, h4, hP]

/-- The SOUND calls of a run of `updateAnimation(true)` ticks on one clip. The
frame indices of the run are non-decreasing, no tick but the last may be an
end-of-clip tick, and the chain ends. Then the run returns; each tick records a
call for the SOUND record exactly when `F - frameStart` is in the tick's window
(last processed frame, frame index]; and the run records one call in all if
`F - frameStart` is in the first tick's window or lies beyond the first frame
index and is reached by some tick, none otherwise. -/
theorem runTicks_sound (d : Defs) (hk : Nat → Hooks) (self n i : Nat) (F : Int) :
    ∀ (rest : List ℚ) (dt : ℚ) (w : World),
      SoundRecord d self w i F →
      (tickFrames (w.controllers self).animTime (dt :: rest)).Pairwise (· ≤ ·) →
      (∀ f ∈ (tickFrames (w.controllers self).animTime (dt :: rest)).dropLast,
        f ≤ (w.level.anims (w.controllers self).animIndex).frameEnd -
          (w.level.anims (w.controllers self).animIndex).frameStart) →
      chainEnds w.cmds n (w.controllers self).actionCommand = true →
      (∃ wf, runTicks d hk self (n + 1) true (dt :: rest) w = some wf ∧
        siteCount i wf.sounds =
          siteCount i w.sounds +
            (if (w.controllers self).animPrevFrame <
                  F - (w.level.anims (w.controllers self).animIndex).frameStart ∧
                F - (w.level.anims (w.controllers self).animIndex).frameStart ≤
                  tickFrame (w.controllers self) dt then 1 else 0) +
            (if tickFrame (w.controllers self) dt <
                  F - (w.level.anims (w.controllers self).animIndex).frameStart ∧
                (tickFrames (w.controllers self).animTime (dt :: rest)).any (fun f =>
                  decide (F - (w.level.anims (w.controllers self).animIndex).frameStart ≤ f)) =
                  true then 1 else 0)) ∧
      (∀ j, j < (dt :: rest).length →
        ∃ wb wa,
          runTicks d hk self (n + 1) true ((dt :: rest).take j) w = some wb ∧
          runTicks d hk self (n + 1) true ((dt :: rest).take (j + 1)) w = some wa ∧
          (wb.controllers self).animPrevFrame =
            (if j = 0 then (w.controllers self).animPrevFrame
             else (tickFrames (w.controllers self).animTime (dt :: rest)).getD (j - 1) 0) ∧
          tickFrame (wb.controllers self) ((dt :: rest).getD j 0) =
            (tickFrames (w.controllers self).animTime (dt :: rest)).getD j 0 ∧
          (wb.level.anims (wb.controllers self).animIndex).frameStart =
            (w.level.anims (w.controllers self).animIndex).frameStart ∧
          siteCount i wa.sounds =
            siteCount i wb.sounds +
              (if (wb.controllers self).animPrevFrame <
                    F - (wb.level.anims (wb.controllers self).animIndex).frameStart ∧
                  F - (wb.level.anims (wb.controllers self).animIndex).frameStart ≤
                    tickFrame (wb.controllers self) ((dt :: rest).getD j 0) then 1 else 0)) := by
  intro rest
  induction rest with
  | nil =>
    intro dt w hr _ _ hfin
    obtain ⟨w', hw'⟩ := updateAnimation_returns d hk self n true dt w hfin
    have hcount := updateAnimation_siteCount d hk self (n + 1) dt w w' i F hr hw'
    have hrun : runTicks d hk self (n + 1) true [dt] w = some w' := by
      simp only [runTicks, hw']
    constructor
    · refine ⟨w', hrun, ?_⟩
      rw [hcount]
      have hno : ¬ (tickFrame (w.controllers self) dt <
            F - (w.level.anims (w.controllers self).animIndex).frameStart ∧
          (tickFrames (w.controllers self).animTime [dt]).any (fun f =>
            decide (F - (w.level.anims (w.controllers self).animIndex).frameStart ≤ f)) =
            true) := by
        simp only [tickFrames, List.any_cons, List.any_nil, Bool.or_false, decide_eq_true_eq,
          tickFrame]
        omega
      rw [if_neg hno, Nat.add_zero]
    · intro j hj
      have hj0 : j = 0 := by simpa using hj
      subst hj0
      refine ⟨w, w', rfl, hrun, by simp, by simp [tickFrames, tickFrame], rfl, ?_⟩
      simpa using hcount
  | cons dt2 rest ih =>
    intro dt w hr hmono hspan hfin
    have hf0 : tickFrame (w.controllers self) dt ≤
        (w.level.anims (w.controllers self).animIndex).frameEnd -
          (w.level.anims (w.controllers self).animIndex).frameStart := by
      apply hspan
      simp [tickFrames, tickFrame]
    have hne : tickEnd w.level (w.controllers self) dt = false := by
      unfold tickEnd
      simp only [decide_eq_false_iff_not]
      omega
    obtain ⟨w1, hw1, hr1, q1, q2, q3, q4, q5, q6⟩ :=
      updateAnimation_stay d hk self (n + 1) dt w i F hr hne
    have hcount := updateAnimation_siteCount d hk self (n + 1) dt w w1 i F hr hw1
    have hframes : tickFrames (w.controllers self).animTime (dt :: dt2 :: rest) =
        tickFrame (w.controllers self) dt ::
          tickFrames (w1.controllers self).animTime (dt2 :: rest) := by
      rw [q1]; rfl
    rw [hframes] at hmono hspan
    have hmono1 := (List.pairwise_cons.mp hmono).2
    have hle1 : tickFrame (w.controllers self) dt ≤ tickFrame (w1.controllers self) dt2 := by
      apply (List.pairwise_cons.mp hmono).1
      simp [tickFrames, tickFrame]
    obtain ⟨⟨wf, hwf, hcf⟩, hticks⟩ := ih dt2 w1 hr1 hmono1 (by
        intro f hf
        rw [q3, q4]
        apply hspan
        simp only [tickFrames, List.dropLast_cons₂] at hf ⊢
        exact List.mem_cons_of_mem _ hf) (by rw [q5, q6]; exact hfin)
    constructor
    · refine ⟨wf, by simp only [runTicks, hw1]; exact hwf, ?_⟩
      rw [hcf, hcount, hframes, q2, q3, q4]
      have hsplit := window_split (tickFrame (w.controllers self) dt)
        (tickFrame (w1.controllers self) dt2)
        (F - (w.level.anims (w.controllers self).animIndex).frameStart)
        ((tickFrames (fadd (w1.controllers self).animTime dt2) rest).any (fun f =>
          decide (F - (w.level.anims (w.controllers self).animIndex).frameStart ≤ f)) = true)
        hle1
      simp only [tickFrames, List.any_cons, Bool.or_eq_true, decide_eq_true_eq, tickFrame]
        at hsplit ⊢
      rw [Nat.add_assoc, hsplit]
    · intro j hj
      cases j with
      | zero =>
        refine ⟨w, w1, rfl, by simp only [List.take, runTicks, hw1], by simp,
          by simp [tickFrames, tickFrame], rfl, ?_⟩
        simpa using hcount
      | succ j =>
        obtain ⟨wb, wa, r1, r2, r3, r4, r5, r6⟩ := hticks j (by simpa using hj)
        refine ⟨wb, wa, ?_, ?_, ?_, ?_, ?_, ?_⟩
        · simp only [List.take_succ_cons, runTicks, hw1]; exact r1
        · simp only [List.take_succ_cons, runTicks, hw1]; exact r2
        · rw [r3, hframes, q2]
          cases j with
          | zero => simp
          | succ j => simp
        · rw [hframes]
          simpa using r4
        · rw [r5, q3, q4]
        · simpa using r6

/-- There is one frame index for each tick of a run. -/
theorem tickFrames_length (l : List ℚ) : ∀ t, (tickFrames t l).length = l.length := by
  induction l with
  | nil => intro t; rfl
  | cons dt l ih => intro t; simp [tickFrames, ih]

end Controller

/-- C3: a run of `updateAnimation(true)` ticks on one clip, entered with
`animPrevFrame = -1`, whose frame indices are non-decreasing, with no end-of-clip
tick before the last one and a chain that ends; `i` is a SOUND record for frame
`F` of the clip and the entity is not the bat. Every tick returns and records a
`playSound` call of the record iff `animPrevFrame < F - frameStart ≤ frameIndex`
on that tick, and at most one; when `0 ≤ F - frameStart` that is the first tick
whose frame index reaches `F - frameStart`. The run records at most one call of
the record, and exactly one whenever `0 ≤ F - frameStart ≤` the last frame index
of the run. -/
theorem updateAnimation_sound_once (d : Defs) (hk : Nat → Hooks) (self n i : Nat) (F : Int)
    (dt : ℚ) (rest : List ℚ) (w : World)
    (hprev : (w.controllers self).animPrevFrame = -1)
    (hr : Controller.SoundRecord d self w i F)
    (hmono : (Controller.tickFrames (w.controllers self).animTime (dt :: rest)).Pairwise
      (· ≤ ·))
    (hspan : ∀ f ∈ (Controller.tickFrames (w.controllers self).animTime (dt :: rest)).dropLast,
      f ≤ (w.level.anims (w.controllers self).animIndex).frameEnd -
        (w.level.anims (w.controllers self).animIndex).frameStart)
    (hfin : Controller.chainEnds w.cmds n (w.controllers self).actionCommand = true) :
    (∀ j, j < (dt :: rest).length →
      ∃ wb wa,
        Controller.runTicks d hk self (n + 1) true ((dt :: rest).take j) w = some wb ∧
        Controller.runTicks d hk self (n + 1) true ((dt :: rest).take (j + 1)) w = some wa ∧
        (Controller.siteCount i wa.sounds = Controller.siteCount i wb.sounds + 1 ↔
          (wb.controllers self).animPrevFrame <
              F - (wb.level.anims (wb.controllers self).animIndex).frameStart ∧
            F - (wb.level.anims (wb.controllers self).animIndex).frameStart ≤
              Controller.tickFrame (wb.controllers self) ((dt :: rest).getD j 0)) ∧
        (Controller.siteCount i wa.sounds = Controller.siteCount i wb.sounds ∨
          Controller.siteCount i wa.sounds = Controller.siteCount i wb.sounds + 1) ∧
        (0 ≤ F - (w.level.anims (w.controllers self).animIndex).frameStart →
          (Controller.siteCount i wa.sounds = Controller.siteCount i wb.sounds + 1 ↔
            F - (w.level.anims (w.controllers self).animIndex).frameStart ≤
                (Controller.tickFrames (w.controllers self).animTime (dt :: rest)).getD j 0 ∧
              ∀ j', j' < j →
                (Controller.tickFrames (w.controllers self).animTime (dt :: rest)).getD j' 0 <
                  F - (w.level.anims (w.controllers self).animIndex).frameStart))) ∧
    ∃ wf, Controller.runTicks d hk self (n + 1) true (dt :: rest) w = some wf ∧
      Controller.siteCount i wf.sounds ≤ Controller.siteCount i w.sounds + 1 ∧
      (0 ≤ F - (w.level.anims (w.controllers self).animIndex).frameStart ∧
          F - (w.level.anims (w.controllers self).animIndex).frameStart ≤
            (Controller.tickFrames (w.controllers self).animTime (dt :: rest)).getD
              rest.length 0 →
        Controller.siteCount i wf.sounds = Controller.siteCount i w.sounds + 1) := by
  obtain ⟨⟨wf, hwf, hcf⟩, hticks⟩ :=
    Controller.runTicks_sound d hk self n i F rest dt w hr hmono hspan hfin
  have hlen := Controller.tickFrames_length (dt :: rest) (w.controllers self).animTime
  have hpw := List.pairwise_iff_getElem.mp hmono
  constructor
  · intro j hj
    obtain ⟨wb, wa, r1, r2, r3, r4, r5, r6⟩ := hticks j hj
    have hjl : j < (Controller.tickFrames (w.controllers self).animTime (dt :: rest)).length := by
      rw [hlen]; exact hj
    have hfire : ∀ (P : Prop) [Decidable P],
        (Controller.siteCount i wb.sounds + (if P then 1 else 0) =
          Controller.siteCount i wb.sounds + 1 ↔ P) := by
      intro P _
      by_cases hc : P
      · rw [if_pos hc]; exact ⟨fun _ => hc, fun _ => rfl⟩
      · rw [if_neg hc]; exact ⟨fun h => absurd h (by omega), fun h => absurd h hc⟩
    refine ⟨wb, wa, r1, r2, ?_, ?_, ?_⟩
    · rw [r6]
      exact hfire _
    · rw [r6]
      split_ifs
      · exact Or.inr rfl
      · exact Or.inl rfl
    · intro h0
      rw [r6, r5, r4, r3]
      rw [hfire]
      cases j with
      | zero =>
        simp only [if_true, hprev]
        constructor
        · intro h
          exact ⟨h.2, fun j' hj' => absurd hj' (Nat.not_lt_zero _)⟩
        · intro h
          exact ⟨by omega, h.1⟩
      | succ j =>
        have hjl' : j < (Controller.tickFrames (w.controllers self).animTime
            (dt :: rest)).length := by omega
        simp only [Nat.succ_ne_zero, if_false, Nat.add_sub_cancel]
        constructor
        · intro h
          refine ⟨h.2, fun j' hj' => ?_⟩
          have hj'l : j' < (Controller.tickFrames (w.controllers self).animTime
              (dt :: rest)).length := by omega
          rw [List.getD_eq_getElem _ 0 hjl'] at h
          rw [List.getD_eq_getElem _ 0 hj'l]
          by_cases hjj : j' = j
          · subst hjj; exact h.1
          · have := hpw j' j hj'l hjl' (by omega)
            omega
        · intro h
          exact ⟨h.2 j (Nat.lt_succ_self j), h.1⟩
  · refine ⟨wf, hwf, ?_, ?_⟩
    · rw [hcf]
      split_ifs <;> omega
    · intro h
      rw [hcf, hprev]
      have hlast : rest.length <
          (Controller.tickFrames (w.controllers self).animTime (dt :: rest)).length := by
        rw [hlen]; simp
      have hany : (Controller.tickFrames (w.controllers self).animTime (dt :: rest)).any
          (fun f => decide (F - (w.level.anims (w.controllers self).animIndex).frameStart ≤ f)) =
          true := by
        rw [List.any_eq_true]
        refine ⟨_, List.getElem_mem hlast, ?_⟩
        rw [← List.getD_eq_getElem _ 0 hlast]
        simpa using h.2
      simp only [hany, and_true]
      split_ifs <;> omega

/-- Three ticks of 1/30 s from clock 0 compute the frame indices 1, 2, 3. -/
theorem tickFrames_three :
    Controller.tickFrames 0 [1 / 30, 1 / 30, 1 / 30] = [1, 2, 3] := by
  simp only [Controller.tickFrames]
  rw [show fadd 0 (1 / 30) = 8947849 / 268435456 from
    fadd_eval 0 (1 / 30) (-5) 8947849 (8947849 / 268435456) (by norm_num) (by norm_num)
      (by norm_num) (by norm_num) (by norm_num) (by norm_num)]
  rw [show fmul (8947849 / 268435456) 30 = 1 from
    fmul_eval (8947849 / 268435456) 30 0 8388608 1 (by norm_num) (by norm_num) (by norm_num)
      (by norm_num) (by norm_num) (by norm_num)]
  rw [show truncToInt 1 = 1 from
    truncToInt_eval 1 1 (by norm_num) (by norm_num) (by norm_num)]
  rw [show fadd (8947849 / 268435456) (1 / 30) = 8947849 / 134217728 from
    fadd_eval (8947849 / 268435456) (1 / 30) (-4) 8947849 (8947849 / 134217728) (by norm_num)
      (by norm_num) (by norm_num) (by norm_num) (by norm_num) (by norm_num)]
  rw [show fmul (8947849 / 134217728) 30 = 2 from
    fmul_eval (8947849 / 134217728) 30 1 8388608 2 (by norm_num) (by norm_num) (by norm_num)
      (by norm_num) (by norm_num) (by norm_num)]
  rw [show truncToInt 2 = 2 from
    truncToInt_eval 2 2 (by norm_num) (by norm_num) (by norm_num)]
  rw [show fadd (8947849 / 134217728) (1 / 30) = 13421773 / 134217728 from
    fadd_eval (8947849 / 134217728) (1 / 30) (-4) 13421773 (13421773 / 134217728) (by norm_num)
      (by norm_num) (by norm_num) (by norm_num) (by norm_num) (by norm_num)]
  rw [show fmul (13421773 / 134217728) 30 = 3 from
    fmul_eval (13421773 / 134217728) 30 1 12582912 3 (by norm_num) (by norm_num) (by norm_num)
      (by norm_num) (by norm_num) (by norm_num)]
  rw [show truncToInt 3 = 3 from
    truncToInt_eval 3 3 (by norm_num) (by norm_num) (by norm_num)]

/-- C3 on `soundWorld`: three ticks of 1/30 s compute frame indices 1, 2, 3 on a
clip of frames 0..10 whose command 0 is SOUND for frame 2; the run records
exactly one call for it. -/
theorem updateAnimation_sound_once_witness :
    ∃ wf, Controller.runTicks Defs.sample baseHooks 0 1 true [1 / 30, 1 / 30, 1 / 30]
        soundWorld = some wf ∧
      Controller.siteCount 0 wf.sounds = Controller.siteCount 0 soundWorld.sounds + 1 := by
  have ht : (soundWorld.controllers 0).animTime = 0 := by
    simp [soundWorld, World.blank, Controller.blank]
  obtain ⟨_, wf, h1, _, h3⟩ := updateAnimation_sound_once Defs.sample baseHooks 0 0 0 2
    (1 / 30) [1 / 30, 1 / 30] soundWorld
    (by simp [soundWorld])
    (by
      refine ⟨?_, ?_, ?_, ?_⟩ <;>
      simp [soundWorld, World.blank, Controller.blank, TR.Level.blank, Controller.cmdPtr,
        Defs.sample, Controller.getEntity])
    (by rw [ht, tickFrames_three]; simp)
    (by
      rw [ht, tickFrames_three]
      simp [soundWorld, World.blank, Controller.blank, TR.Level.blank])
    (by simp [soundWorld, World.blank, Controller.blank, Controller.chainEnds])
  refine ⟨wf, h1, h3 ?_⟩
  rw [ht, tickFrames_three]
  simp [soundWorld, World.blank, Controller.blank, TR.Level.blank]

namespace Controller

/-- The range loop of `setState` leaves the object alone when no range of the
record contains the absolute frame. -/
theorem setStateRanges_none (lv : TR.Level) (anim : TR.Animation) (fIndex : Int)
    (s : TR.AnimState) (c : Controller)
    (h : ∀ j : Nat, (j : Int) < s.rangesCount →
      ¬ ((lv.ranges (s.rangesOffset + j)).low ≤ anim.frameStart + fIndex ∧
        anim.frameStart + fIndex ≤ (lv.ranges (s.rangesOffset + j)).high)) :
    setStateRanges lv anim fIndex s c = c := by
  unfold setStateRanges
  split
  · rename_i j hj
    have hmem := List.mem_of_find?_eq_some hj
    have hp := List.find?_some hj
    simp at hmem
    obtain ⟨a, ha, rfl⟩ := hmem
    exfalso
    apply h a ha
    simpa using hp
  · rfl

/-- The record loop of `setState` leaves the object alone when no record of the
desired state among the indices `l` has a range that contains the absolute
frame. -/
theorem setState_foldl_snd (lv : TR.Level) (anim : TR.Animation) (fIndex state : Int)
    (l : List Nat)
    (h : ∀ i ∈ l, (lv.states (anim.scOffset + i)).state = state →
      ∀ j : Nat, (j : Int) < (lv.states (anim.scOffset + i)).rangesCount →
        ¬ ((lv.ranges ((lv.states (anim.scOffset + i)).rangesOffset + j)).low ≤
            anim.frameStart + fIndex ∧
          anim.frameStart + fIndex ≤
            (lv.ranges ((lv.states (anim.scOffset + i)).rangesOffset + j)).high))
    (acc : Bool × Controller) :
    (l.foldl (setStateRecord lv anim fIndex state) acc).2 = acc.2 := by
  induction l generalizing acc with
  | nil => rfl
  | cons i l ih =>
    rw [List.foldl_cons, ih (fun k hk => h k (List.mem_cons_of_mem _ hk))]
    unfold setStateRecord
    by_cases hs : (lv.states (anim.scOffset + i)).state = state
    · simp only [hs, if_true]
      exact setStateRanges_none lv anim fIndex _ _ (h i (List.mem_cons_self _ _) hs)
    · simp only [hs, if_false]

/-- A failed `setState` leaves the object as it was. -/
theorem setState_snd_of_false (lv : TR.Level) (c : Controller) (desired : Int)
    (h : (setState lv c desired).1 = false) : (setState lv c desired).2 = c := by
  unfold setState at h ⊢
  by_cases hd : desired = (lv.anims c.animIndex).state
  · simp [hd] at h
  · simp only [hd, if_false] at h ⊢
    rw [setState_foldl_fst] at h
    apply setState_foldl_snd
    intro i hi hs
    exfalso
    have : (List.range (lv.anims c.animIndex).scCount.toNat).any (fun i =>
        decide ((lv.states ((lv.anims c.animIndex).scOffset + i)).state = desired)) = true := by
      rw [List.any_eq_true]
      exact ⟨i, hi, by simpa using hs⟩
    simp [this] at h

end Controller

/-- C11 (amended): `setState(desired)` performs no switch and leaves the whole
object, so also `animIndex`, `animTime`, `animPrevFrame` and `state`, as it was
when `desired` is the active clip's own state, or when no range of any record of
state `desired` among the clip's `scCount` records contains the current absolute
frame; the latter covers a state absent from all records and a state whose
records all lack a containing range. With the clip's own state the call is
idempotent: it returns true and the object, however often it is called. -/
theorem setState_no_switch (lv : TR.Level) (c : Controller) (desired : Int)
    (h : desired = (lv.anims c.animIndex).state ∨
      ∀ i : Nat, (i : Int) < (lv.anims c.animIndex).scCount →
        (lv.states ((lv.anims c.animIndex).scOffset + i)).state = desired →
        ∀ j : Nat, (j : Int) < (lv.states ((lv.anims c.animIndex).scOffset + i)).rangesCount →
          ¬ ((lv.ranges ((lv.states ((lv.anims c.animIndex).scOffset + i)).rangesOffset + j)).low ≤
              (lv.anims c.animIndex).frameStart + truncToInt (fmul c.animTime 30) ∧
            (lv.anims c.animIndex).frameStart + truncToInt (fmul c.animTime 30) ≤
              (lv.ranges ((lv.states ((lv.anims c.animIndex).scOffset + i)).rangesOffset + j)).high)) :
    (Controller.setState lv c desired).2 = c ∧
    (Controller.setState lv c desired).2.animIndex = c.animIndex ∧
    (Controller.setState lv c desired).2.animTime = c.animTime ∧
    (Controller.setState lv c desired).2.animPrevFrame = c.animPrevFrame ∧
    (Controller.setState lv c desired).2.state = c.state ∧
    (desired = (lv.anims c.animIndex).state →
      Controller.setState lv c desired = (true, c) ∧
      Controller.setState lv (Controller.setState lv c desired).2 desired =
        Controller.setState lv c desired) := by
  have hmain : (Controller.setState lv c desired).2 = c := by
    by_cases hd : desired = (lv.anims c.animIndex).state
    · simp [Controller.setState, hd]
    · rcases h with h | h
      · exact absurd h hd
      · unfold Controller.setState
        simp only [hd, if_false]
        apply Controller.setState_foldl_snd
        intro i hi hs j hj
        have hi1 : i < (lv.anims c.animIndex).scCount.toNat := List.mem_range.mp hi
        exact h i (Int.lt_toNat.mp hi1) hs j hj
  refine ⟨hmain, by rw [hmain], by rw [hmain], by rw [hmain], by rw [hmain], ?_⟩
  intro hd
  have h1 : Controller.setState lv c desired = (true, c) := by
    simp [Controller.setState, hd]
  exact ⟨h1, by rw [h1]; exact h1⟩

/-- C11 (fails as stated): on `dup2Level` record 0 of clip 0 lists state 5 and
its only range 50..60 does not contain the current absolute frame 0, yet
`setState(5)` switches: record 1 lists state 5 too, its range 0..10 contains the
frame, and the call ends on clip 8 at frame 80 in state 5. -/
theorem setState_switches_on_other_record :
    (dup2Level.states ((dup2Level.anims dupCtl.animIndex).scOffset + 0)).state = 5 ∧
    (dup2Level.states ((dup2Level.anims dupCtl.animIndex).scOffset + 0)).rangesCount = 1 ∧
    (dup2Level.anims dupCtl.animIndex).frameStart + truncToInt (fmul dupCtl.animTime 30) = 0 ∧
    ¬ ((dup2Level.ranges
          ((dup2Level.states ((dup2Level.anims dupCtl.animIndex).scOffset + 0)).rangesOffset +
            0)).low ≤ 0 ∧
      0 ≤ (dup2Level.ranges
          ((dup2Level.states ((dup2Level.anims dupCtl.animIndex).scOffset + 0)).rangesOffset +
            0)).high) ∧
    (Controller.setState dup2Level dupCtl 5).1 = true ∧
    (Controller.setState dup2Level dupCtl 5).2.animIndex = 8 ∧
    (Controller.setState dup2Level dupCtl 5).2.state = 5 ∧
    (Controller.setState dup2Level dupCtl 5).2 ≠ dupCtl := by
  have h3 : (Controller.setState dup2Level dupCtl 5).2.animIndex = 8 := by
    simp [Controller.setState, dup2Level, dupCtl, Controller.blank, truncToInt, fmul_zero_left,
      fdiv_zero_left, List.range_succ, Controller.setStateRecord, Controller.setStateRanges,
      Controller.setAnimation, List.find?]
  refine ⟨?_, ?_, ?_, ?_, ?_, h3, ?_, ?_⟩
  · simp [dup2Level, dupCtl, Controller.blank]
  · simp [dup2Level, dupCtl, Controller.blank]
  · simp [dup2Level, dupCtl, Controller.blank, truncToInt, fmul_zero_left]
  · simp [dup2Level, dupCtl, Controller.blank]
  · simp [Controller.setState, dup2Level, dupCtl, Controller.blank, truncToInt, fmul_zero_left,
      List.range_succ, Controller.setStateRecord]
  · simp [Controller.setState, dup2Level, dupCtl, Controller.blank, truncToInt, fmul_zero_left,
      fdiv_zero_left, List.range_succ, Controller.setStateRecord, Controller.setStateRanges,
      Controller.setAnimation, List.find?]
  · intro h
    rw [h] at h3
    exact absurd h3 (by simp [dupCtl, Controller.blank])

/-- C11 (amended) on `dupLevel` and `gapLevel`: on clip 0 (own state 1)
`setState(1)` and `setState(9)`, a state that no record lists, leave the
controller as it was, and so does `setState(5)` on `gapLevel`, where the one
record of state 5 has the range 50..60 and the current absolute frame is 0. -/
theorem setState_no_switch_witness :
    (Controller.setState dupLevel dupCtl 1).2 = dupCtl ∧
    (Controller.setState dupLevel dupCtl 9).2 = dupCtl ∧
    (gapLevel.states ((gapLevel.anims dupCtl.animIndex).scOffset + 0)).state = 5 ∧
    (Controller.setState gapLevel dupCtl 5).2 = dupCtl :=
  ⟨(setState_no_switch dupLevel dupCtl 1 (Or.inl (by simp [dupLevel, dupCtl,
      Controller.blank]))).1,
    (setState_no_switch dupLevel dupCtl 9 (Or.inr (by
      intro i hi hs
      exfalso
      have hi2 : i < 2 := by
        have : (i : Int) < 2 := by simpa [dupLevel, dupCtl, Controller.blank] using hi
        omega
      interval_cases i <;> simp [dupLevel, dupCtl, Controller.blank] at hs))).1,
    by simp [gapLevel, dupCtl, Controller.blank],
    (setState_no_switch gapLevel dupCtl 5 (Or.inr (by
      intro i hi _ j hj
      have hi2 : i = 0 := by
        have : (i : Int) < 1 := by simpa [gapLevel, dupCtl, Controller.blank] using hi
        omega
      subst hi2
      have hj2 : j = 0 := by
        have : (j : Int) < 1 := by simpa [gapLevel, dupCtl, Controller.blank] using hj
        omega
      subst hj2
      simp [gapLevel, dupCtl, Controller.blank, truncToInt, fmul_zero_left]))).1⟩

/-- Multiplying back a `float` quotient by 30: for an integer `k` from 0 to
`2^22` the frame index `int((k / 30.0f) * 30.0f)` is `k` or `k - 1`. -/
theorem truncToInt_fmul_fdiv (k : Int) (h0 : 0 ≤ k) (h1 : k < 4194304) :
    k - 1 ≤ truncToInt (fmul (fdiv (k : ℚ) 30) 30) ∧
      truncToInt (fmul (fdiv (k : ℚ) 30) 30) ≤ k := by
  rcases eq_or_lt_of_le h0 with hk | hk
  · rw [← hk]
    simp [fdiv_zero_left, fmul_zero_left, truncToInt]
  · have hk1 : (1 : ℚ) ≤ k := by exact_mod_cast hk
    have hk2 : (k : ℚ) < 4194304 := by exact_mod_cast h1
    have hu : (2 : ℚ) ^ (-24 : Int) = 1 / 16777216 := by norm_num
    have hsmall : (2 : ℚ) ^ (-126 : Int) ≤ 1 / 64 := by
      have h6 : (1 / 64 : ℚ) = 2 ^ (-6 : Int) := by norm_num
      rw [h6]
      exact zpow_le_zpow_right₀ (by norm_num) (by norm_num)
    have hq : (0 : ℚ) < (k : ℚ) / 30 := by positivity
    have e1 := f32_rel ((k : ℚ) / 30) (by
      rw [abs_of_pos hq]
      have : (1 / 64 : ℚ) ≤ (k : ℚ) / 30 := by linarith
      exact le_trans hsmall this)
    rw [abs_of_pos hq, hu, abs_le] at e1
    have hx : (0 : ℚ) < f32 ((k : ℚ) / 30) := by nlinarith [e1.1]
    have hx30 : (0 : ℚ) < f32 ((k : ℚ) / 30) * 30 := by positivity
    have e2 := f32_rel (f32 ((k : ℚ) / 30) * 30) (by
      rw [abs_of_pos hx30]
      have : (1 / 64 : ℚ) ≤ f32 ((k : ℚ) / 30) * 30 := by nlinarith [e1.1]
      exact le_trans hsmall this)
    rw [abs_of_pos hx30, hu, abs_le] at e2
    have hy0 : (0 : ℚ) ≤ f32 (f32 ((k : ℚ) / 30) * 30) := by nlinarith [e2.1]
    have hlo : ((k - 1 : Int) : ℚ) ≤ f32 (f32 ((k : ℚ) / 30) * 30) := by
      push_cast
      nlinarith [e1.1, e2.1]
    have hhi : f32 (f32 ((k : ℚ) / 30) * 30) < ((k + 1 : Int) : ℚ) := by
      push_cast
      nlinarith [e1.2, e2.2]
    unfold fmul fdiv truncToInt
    rw [if_pos hy0]
    constructor
    · exact Int.le_floor.mpr hlo
    · have := Int.floor_lt.mpr hhi
      omega

/-- Multiplying back a `float` quotient by 30 is exact for the integers from 0
to 62: the frame index `int((k / 30.0f) * 30.0f)` is `k`. -/
theorem truncToInt_fmul_fdiv_small (k : Nat) (h : k ≤ 62) :
    truncToInt (fmul (fdiv (k : ℚ) 30) 30) = k := by
  interval_cases k
  · simp [fdiv_zero_left, fmul_zero_left, truncToInt]
  · rw [show fdiv ((1 : Nat) : ℚ) 30 = 8947849 / 268435456 from by
        norm_num
        exact fdiv_eval 1 30 (-5) 8947849 (8947849 / 268435456) (by norm_num) (by norm_num)
            (by norm_num) (by norm_num) (by norm_num) (by norm_num)]
    rw [show fmul (8947849 / 268435456) 30 = 1 from
      fmul_eval (8947849 / 268435456) 30 0 8388608 1 (by norm_num) (by norm_num) (by norm_num)
        (by norm_num) (by norm_num) (by norm_num)]
    exact truncToInt_eval 1 1 (by norm_num) (by norm_num) (by norm_num)
  · rw [show fdiv ((2 : Nat) : ℚ) 30 = 8947849 / 134217728 from by
        norm_num
        exact fdiv_eval 2 30 (-4) 8947849 (8947849 / 134217728) (by norm_num) (by norm_num)
            (by norm_num) (by norm_num) (by norm_num) (by norm_num)]
    rw [show fmul (8947849 / 134217728) 30 = 2 from
      fmul_eval (8947849 / 134217728) 30 1 8388608 2 (by norm_num) (by norm_num) (by norm_num)
        (by norm_num) (by norm_num) (by norm_num)]
    exact truncToInt_eval 2 2 (by norm_num) (by norm_num) (by norm_num)
  · rw [show fdiv ((3 : Nat) : ℚ) 30 = 13421773 / 134217728 from by
        norm_num
        exact fdiv_eval 3 30 (-4) 13421773 (13421773 / 134217728) (by norm_num) (by norm_num)
            (by norm_num) (by norm_num) (by norm_num) (by norm_num)]
    rw [show fmul (13421773 / 134217728) 30 = 3 from
      fmul_eval (13421773 / 134217728) 30 1 12582912 3 (by norm_num) (by norm_num) (by norm_num)
        (by norm_num) (by norm_num) (by norm_num)]
    exact truncToInt_eval 3 3 (by norm_num) (by norm_num) (by norm_num)
  · rw [show fdiv ((4 : Nat) : ℚ) 30 = 8947849 / 67108864 from by
        norm_num
        exact fdiv_eval 4 30 (-3) 8947849 (8947849 / 67108864) (by norm_num) (by norm_num)
            (by norm_num) (by norm_num) (by norm_num) (by norm_num)]
    rw [show fmul (8947849 / 67108864) 30 = 4 from
      fmul_eval (8947849 / 67108864) 30 2 8388608 4 (by norm_num) (by norm_num) (by norm_num)
        (by norm_num) (by norm_num) (by norm_num)]
    exact truncToInt_eval 4 4 (by norm_num) (by norm_num) (by norm_num)
  · rw [show fdiv ((5 : Nat) : ℚ) 30 = 11184811 / 67108864 from by
        norm_num
        exact fdiv_eval 5 30 (-3) 11184811 (11184811 / 67108864) (by norm_num) (by norm_num)
            (by norm_num) (by norm_num) (by norm_num) (by norm_num)]
    rw [show fmul (11184811 / 67108864) 30 = 5 from
      fmul_eval (11184811 / 67108864) 30 2 10485760 5 (by norm_num) (by norm_num) (by norm_num)
        (by norm_num) (by norm_num) (by norm_num)]
    exact truncToInt_eval 5 5 (by norm_num) (by norm_num) (by norm_num)
  · rw [show fdiv ((6 : Nat) : ℚ) 30 = 13421773 / 67108864 from by
        norm_num
        exact fdiv_eval 6 30 (-3) 13421773 (13421773 / 67108864) (by norm_num) (by norm_num)
            (by norm_num) (by norm_num) (by norm_num) (by norm_num)]
    rw [show fmul (13421773 / 67108864) 30 = 6 from
      fmul_eval (13421773 / 67108864) 30 2 12582912 6 (by norm_num) (by norm_num) (by norm_num)
        (by norm_num) (by norm_num) (by norm_num)]
    exact truncToInt_eval 6 6 (by norm_num) (by norm_num) (by norm_num)
  · rw [show fdiv ((7 : Nat) : ℚ) 30 = 15658735 / 67108864 from by
        norm_num
        exact fdiv_eval 7 30 (-3) 15658735 (15658735 / 67108864) (by norm_num) (by norm_num)
            (by norm_num) (by norm_num) (by norm_num) (by norm_num)]
    rw [show fmul (15658735 / 67108864) 30 = 7 from
      fmul_eval (15658735 / 67108864) 30 2 14680064 7 (by norm_num) (by norm_num) (by norm_num)
        (by norm_num) (by norm_num) (by norm_num)]
    exact truncToInt_eval 7 7 (by norm_num) (by norm_num) (by norm_num)
  · rw [show fdiv ((8 : Nat) : ℚ) 30 = 8947849 / 33554432 from by
        norm_num
        exact fdiv_eval 8 30 (-2) 8947849 (8947849 / 33554432) (by norm_num) (by norm_num)
            (by norm_num) (by norm_num) (by norm_num) (by norm_num)]
    rw [show fmul (8947849 / 33554432) 30 = 8 from
      fmul_eval (8947849 / 33554432) 30 3 8388608 8 (by norm_num) (by norm_num) (by norm_num)
        (by norm_num) (by norm_num) (by norm_num)]
    exact truncToInt_eval 8 8 (by norm_num) (by norm_num) (by norm_num)
  · rw [show fdiv ((9 : Nat) : ℚ) 30 = 5033165 / 16777216 from by
        norm_num
        exact fdiv_eval 9 30 (-2) 10066330 (5033165 / 16777216) (by norm_num) (by norm_num)
            (by norm_num) (by norm_num) (by norm_num) (by norm_num)]
    rw [show fmul (5033165 / 16777216) 30 = 9 from
      fmul_eval (5033165 / 16777216) 30 3 9437184 9 (by norm_num) (by norm_num) (by norm_num)
        (by norm_num) (by norm_num) (by norm_num)]
    exact truncToInt_eval 9 9 (by norm_num) (by norm_num) (by norm_num)
  · rw [show fdiv ((10 : Nat) : ℚ) 30 = 11184811 / 33554432 from by
        norm_num
        exact fdiv_eval 10 30 (-2) 11184811 (11184811 / 33554432) (by norm_num) (by norm_num)
            (by norm_num) (by norm_num) (by norm_num) (by norm_num)]
    rw [show fmul (11184811 / 33554432) 30 = 10 from
      fmul_eval (11184811 / 33554432) 30 3 10485760 10 (by norm_num) (by norm_num) (by norm_num)
        (by norm_num) (by norm_num) (by norm_num)]
    exact truncToInt_eval 10 10 (by norm_num) (by norm_num) (by norm_num)
  · rw [show fdiv ((11 : Nat) : ℚ) 30 = 3075823 / 8388608 from by
        norm_num
        exact fdiv_eval 11 30 (-2) 12303292 (3075823 / 8388608) (by norm_num) (by norm_num)
            (by norm_num) (by norm_num) (by norm_num) (by norm_num)]
    rw [show fmul (3075823 / 8388608) 30 = 11 from
      fmul_eval (3075823 / 8388608) 30 3 11534336 11 (by norm_num) (by norm_num) (by norm_num)
        (by norm_num) (by norm_num) (by norm_num)]
    exact truncToInt_eval 11 11 (by norm_num) (by norm_num) (by norm_num)
  · rw [show fdiv ((12 : Nat) : ℚ) 30 = 13421773 / 33554432 from by
        norm_num
        exact fdiv_eval 12 30 (-2) 13421773 (13421773 / 33554432) (by norm_num) (by norm_num)
            (by norm_num) (by norm_num) (by norm_num) (by norm_num)]
    rw [show fmul (13421773 / 33554432) 30 = 12 from
      fmul_eval (13421773 / 33554432) 30 3 12582912 12 (by norm_num) (by norm_num) (by norm_num)
        (by norm_num) (by norm_num) (by norm_num)]
    exact truncToInt_eval 12 12 (by norm_num) (by norm_num) (by norm_num)
  · rw [show fdiv ((13 : Nat) : ℚ) 30 = 7270127 / 16777216 from by
        norm_num
        exact fdiv_eval 13 30 (-2) 14540254 (7270127 / 16777216) (by norm_num) (by norm_num)
            (by norm_num) (by norm_num) (by norm_num) (by norm_num)]
    rw [show fmul (7270127 / 16777216) 30 = 13 from
      fmul_eval (7270127 / 16777216) 30 3 13631488 13 (by norm_num) (by norm_num) (by norm_num)
        (by norm_num) (by norm_num) (by norm_num)]
    exact truncToInt_eval 13 13 (by norm_num) (by norm_num) (by norm_num)
  · rw [show fdiv ((14 : Nat) : ℚ) 30 = 15658735 / 33554432 from by
        norm_num
        exact fdiv_eval 14 30 (-2) 15658735 (15658735 / 33554432) (by norm_num) (by norm_num)
            (by norm_num) (by norm_num) (by norm_num) (by norm_num)]
    rw [show fmul (15658735 / 33554432) 30 = 14 from
      fmul_eval (15658735 / 33554432) 30 3 14680064 14 (by norm_num) (by norm_num) (by norm_num)
        (by norm_num) (by norm_num) (by norm_num)]
    exact truncToInt_eval 14 14 (by norm_num) (by norm_num) (by norm_num)
  · rw [show fdiv ((15 : Nat) : ℚ) 30 = 1 / 2 from by
        norm_num
        exact fdiv_eval 15 30 (-1) 8388608 (1 / 2) (by norm_num) (by norm_num) (by norm_num)
            (by norm_num) (by norm_num) (by norm_num)]
    rw [show fmul (1 / 2) 30 = 15 from
      fmul_eval (1 / 2) 30 3 15728640 15 (by norm_num) (by norm_num) (by norm_num) (by norm_num)
        (by norm_num) (by norm_num)]
    exact truncToInt_eval 15 15 (by norm_num) (by norm_num) (by norm_num)
  · rw [show fdiv ((16 : Nat) : ℚ) 30 = 8947849 / 16777216 from by
        norm_num
        exact fdiv_eval 16 30 (-1) 8947849 (8947849 / 16777216) (by norm_num) (by norm_num)
            (by norm_num) (by norm_num) (by norm_num) (by norm_num)]
    rw [show fmul (8947849 / 16777216) 30 = 16 from
      fmul_eval (8947849 / 16777216) 30 4 8388608 16 (by norm_num) (by norm_num) (by norm_num)
        (by norm_num) (by norm_num) (by norm_num)]
    exact truncToInt_eval 16 16 (by norm_num) (by norm_num) (by norm_num)
  · rw [show fdiv ((17 : Nat) : ℚ) 30 = 9507089 / 16777216 from by
        norm_num
        exact fdiv_eval 17 30 (-1) 9507089 (9507089 / 16777216) (by norm_num) (by norm_num)
            (by norm_num) (by norm_num) (by norm_num) (by norm_num)]
    rw [show fmul (9507089 / 16777216) 30 = 17 from
      fmul_eval (9507089 / 16777216) 30 4 8912896 17 (by norm_num) (by norm_num) (by norm_num)
        (by norm_num) (by norm_num) (by norm_num)]
    exact truncToInt_eval 17 17 (by norm_num) (by norm_num) (by norm_num)
  · rw [show fdiv ((18 : Nat) : ℚ) 30 = 5033165 / 8388608 from by
        norm_num
        exact fdiv_eval 18 30 (-1) 10066330 (5033165 / 8388608) (by norm_num) (by norm_num)
            (by norm_num) (by norm_num) (by norm_num) (by norm_num)]
    rw [show fmul (5033165 / 8388608) 30 = 18 from
      fmul_eval (5033165 / 8388608) 30 4 9437184 18 (by norm_num) (by norm_num) (by norm_num)
        (by norm_num) (by norm_num) (by norm_num)]
    exact truncToInt_eval 18 18 (by norm_num) (by norm_num) (by norm_num)
  · rw [show fdiv ((19 : Nat) : ℚ) 30 = 5312785 / 8388608 from by
        norm_num
        exact fdiv_eval 19 30 (-1) 10625570 (5312785 / 8388608) (by norm_num) (by norm_num)
            (by norm_num) (by norm_num) (by norm_num) (by norm_num)]
    rw [show fmul (5312785 / 8388608) 30 = 19 from
      fmul_eval (5312785 / 8388608) 30 4 9961472 19 (by norm_num) (by norm_num) (by norm_num)
        (by norm_num) (by norm_num) (by norm_num)]
    exact truncToInt_eval 19 19 (by norm_num) (by norm_num) (by norm_num)
  · rw [show fdiv ((20 : Nat) : ℚ) 30 = 11184811 / 16777216 from by
        norm_num
        exact fdiv_eval 20 30 (-1) 11184811 (11184811 / 16777216) (by norm_num) (by norm_num)
            (by norm_num) (by norm_num) (by norm_num) (by norm_num)]
    rw [show fmul (11184811 / 16777216) 30 = 20 from
      fmul_eval (11184811 / 16777216) 30 4 10485760 20 (by norm_num) (by norm_num) (by norm_num)
        (by norm_num) (by norm_num) (by norm_num)]
    exact truncToInt_eval 20 20 (by norm_num) (by norm_num) (by norm_num)
  · rw [show fdiv ((21 : Nat) : ℚ) 30 = 11744051 / 16777216 from by
        norm_num
        exact fdiv_eval 21 30 (-1) 11744051 (11744051 / 16777216) (by norm_num) (by norm_num)
            (by norm_num) (by norm_num) (by norm_num) (by norm_num)]
    rw [show fmul (11744051 / 16777216) 30 = 21 from
      fmul_eval (11744051 / 16777216) 30 4 11010048 21 (by norm_num) (by norm_num) (by norm_num)
        (by norm_num) (by norm_num) (by norm_num)]
    exact truncToInt_eval 21 21 (by norm_num) (by norm_num) (by norm_num)
  · rw [show fdiv ((22 : Nat) : ℚ) 30 = 3075823 / 4194304 from by
        norm_num
        exact fdiv_eval 22 30 (-1) 12303292 (3075823 / 4194304) (by norm_num) (by norm_num)
            (by norm_num) (by norm_num) (by norm_num) (by norm_num)]
    rw [show fmul (3075823 / 4194304) 30 = 22 from
      fmul_eval (3075823 / 4194304) 30 4 11534336 22 (by norm_num) (by norm_num) (by norm_num)
        (by norm_num) (by norm_num) (by norm_num)]
    exact truncToInt_eval 22 22 (by norm_num) (by norm_num) (by norm_num)
  · rw [show fdiv ((23 : Nat) : ℚ) 30 = 3215633 / 4194304 from by
        norm_num
        exact fdiv_eval 23 30 (-1) 12862532 (3215633 / 4194304) (by norm_num) (by norm_num)
            (by norm_num) (by norm_num) (by norm_num) (by norm_num)]
    rw [show fmul (3215633 / 4194304) 30 = 23 from
      fmul_eval (3215633 / 4194304) 30 4 12058624 23 (by norm_num) (by norm_num) (by norm_num)
        (by norm_num) (by norm_num) (by norm_num)]
    exact truncToInt_eval 23 23 (by norm_num) (by norm_num) (by norm_num)
  · rw [show fdiv ((24 : Nat) : ℚ) 30 = 13421773 / 16777216 from by
        norm_num
        exact fdiv_eval 24 30 (-1) 13421773 (13421773 / 16777216) (by norm_num) (by norm_num)
            (by norm_num) (by norm_num) (by norm_num) (by norm_num)]
    rw [show fmul (13421773 / 16777216) 30 = 24 from
      fmul_eval (13421773 / 16777216) 30 4 12582912 24 (by norm_num) (by norm_num) (by norm_num)
        (by norm_num) (by norm_num) (by norm_num)]
    exact truncToInt_eval 24 24 (by norm_num) (by norm_num) (by norm_num)
  · rw [show fdiv ((25 : Nat) : ℚ) 30 = 13981013 / 16777216 from by
        norm_num
        exact fdiv_eval 25 30 (-1) 13981013 (13981013 / 16777216) (by norm_num) (by norm_num)
            (by norm_num) (by norm_num) (by norm_num) (by norm_num)]
    rw [show fmul (13981013 / 16777216) 30 = 25 from
      fmul_eval (13981013 / 16777216) 30 4 13107200 25 (by norm_num) (by norm_num) (by norm_num)
        (by norm_num) (by norm_num) (by norm_num)]
    exact truncToInt_eval 25 25 (by norm_num) (by norm_num) (by norm_num)
  · rw [show fdiv ((26 : Nat) : ℚ) 30 = 7270127 / 8388608 from by
        norm_num
        exact fdiv_eval 26 30 (-1) 14540254 (7270127 / 8388608) (by norm_num) (by norm_num)
            (by norm_num) (by norm_num) (by norm_num) (by norm_num)]
    rw [show fmul (7270127 / 8388608) 30 = 26 from
      fmul_eval (7270127 / 8388608) 30 4 13631488 26 (by norm_num) (by norm_num) (by norm_num)
        (by norm_num) (by norm_num) (by norm_num)]
    exact truncToInt_eval 26 26 (by norm_num) (by norm_num) (by norm_num)
  · rw [show fdiv ((27 : Nat) : ℚ) 30 = 7549747 / 8388608 from by
        norm_num
        exact fdiv_eval 27 30 (-1) 15099494 (7549747 / 8388608) (by norm_num) (by norm_num)
            (by norm_num) (by norm_num) (by norm_num) (by norm_num)]
    rw [show fmul (7549747 / 8388608) 30 = 27 from
      fmul_eval (7549747 / 8388608) 30 4 14155776 27 (by norm_num) (by norm_num) (by norm_num)
        (by norm_num) (by norm_num) (by norm_num)]
    exact truncToInt_eval 27 27 (by norm_num) (by norm_num) (by norm_num)
  · rw [show fdiv ((28 : Nat) : ℚ) 30 = 15658735 / 16777216 from by
        norm_num
        exact fdiv_eval 28 30 (-1) 15658735 (15658735 / 16777216) (by norm_num) (by norm_num)
            (by norm_num) (by norm_num) (by norm_num) (by norm_num)]
    rw [show fmul (15658735 / 16777216) 30 = 28 from
      fmul_eval (15658735 / 16777216) 30 4 14680064 28 (by norm_num) (by norm_num) (by norm_num)
        (by norm_num) (by norm_num) (by norm_num)]
    exact truncToInt_eval 28 28 (by norm_num) (by norm_num) (by norm_num)
  · rw [show fdiv ((29 : Nat) : ℚ) 30 = 16217975 / 16777216 from by
        norm_num
        exact fdiv_eval 29 30 (-1) 16217975 (16217975 / 16777216) (by norm_num) (by norm_num)
            (by norm_num) (by norm_num) (by norm_num) (by norm_num)]
    rw [show fmul (16217975 / 16777216) 30 = 29 from
      fmul_eval (16217975 / 16777216) 30 4 15204352 29 (by norm_num) (by norm_num) (by norm_num)
        (by norm_num) (by norm_num) (by norm_num)]
    exact truncToInt_eval 29 29 (by norm_num) (by norm_num) (by norm_num)
  · rw [show fdiv ((30 : Nat) : ℚ) 30 = 1 from by
        norm_num
        exact fdiv_eval 30 30 0 8388608 1 (by norm_num) (by norm_num) (by norm_num) (by norm_num)
            (by norm_num) (by norm_num)]
    rw [show fmul 1 30 = 30 from
      fmul_eval 1 30 4 15728640 30 (by norm_num) (by norm_num) (by norm_num) (by norm_num)
        (by norm_num) (by norm_num)]
    exact truncToInt_eval 30 30 (by norm_num) (by norm_num) (by norm_num)
  · rw [show fdiv ((31 : Nat) : ℚ) 30 = 2167057 / 2097152 from by
        norm_num
        exact fdiv_eval 31 30 0 8668228 (2167057 / 2097152) (by norm_num) (by norm_num)
            (by norm_num) (by norm_num) (by norm_num) (by norm_num)]
    rw [show fmul (2167057 / 2097152) 30 = 31 from
      fmul_eval_tie (2167057 / 2097152) 30 4 16252928 31 (by norm_num) (by norm_num)
        (by norm_num) (by norm_num) (by norm_num) (by norm_num)]
    exact truncToInt_eval 31 31 (by norm_num) (by norm_num) (by norm_num)
  · rw [show fdiv ((32 : Nat) : ℚ) 30 = 8947849 / 8388608 from by
        norm_num
        exact fdiv_eval 32 30 0 8947849 (8947849 / 8388608) (by norm_num) (by norm_num)
            (by norm_num) (by norm_num) (by norm_num) (by norm_num)]
    rw [show fmul (8947849 / 8388608) 30 = 32 from
      fmul_eval (8947849 / 8388608) 30 5 8388608 32 (by norm_num) (by norm_num) (by norm_num)
        (by norm_num) (by norm_num) (by norm_num)]
    exact truncToInt_eval 32 32 (by norm_num) (by norm_num) (by norm_num)
  · rw [show fdiv ((33 : Nat) : ℚ) 30 = 9227469 / 8388608 from by
        norm_num
        exact fdiv_eval 33 30 0 9227469 (9227469 / 8388608) (by norm_num) (by norm_num)
            (by norm_num) (by norm_num) (by norm_num) (by norm_num)]
    rw [show fmul (9227469 / 8388608) 30 = 33 from
      fmul_eval (9227469 / 8388608) 30 5 8650752 33 (by norm_num) (by norm_num) (by norm_num)
        (by norm_num) (by norm_num) (by norm_num)]
    exact truncToInt_eval 33 33 (by norm_num) (by norm_num) (by norm_num)
  · rw [show fdiv ((34 : Nat) : ℚ) 30 = 9507089 / 8388608 from by
        norm_num
        exact fdiv_eval 34 30 0 9507089 (9507089 / 8388608) (by norm_num) (by norm_num)
            (by norm_num) (by norm_num) (by norm_num) (by norm_num)]
    rw [show fmul (9507089 / 8388608) 30 = 34 from
      fmul_eval (9507089 / 8388608) 30 5 8912896 34 (by norm_num) (by norm_num) (by norm_num)
        (by norm_num) (by norm_num) (by norm_num)]
    exact truncToInt_eval 34 34 (by norm_num) (by norm_num) (by norm_num)
  · rw [show fdiv ((35 : Nat) : ℚ) 30 = 9786709 / 8388608 from by
        norm_num
        exact fdiv_eval 35 30 0 9786709 (9786709 / 8388608) (by norm_num) (by norm_num)
            (by norm_num) (by norm_num) (by norm_num) (by norm_num)]
    rw [show fmul (9786709 / 8388608) 30 = 35 from
      fmul_eval (9786709 / 8388608) 30 5 9175040 35 (by norm_num) (by norm_num) (by norm_num)
        (by norm_num) (by norm_num) (by norm_num)]
    exact truncToInt_eval 35 35 (by norm_num) (by norm_num) (by norm_num)
  · rw [show fdiv ((36 : Nat) : ℚ) 30 = 5033165 / 4194304 from by
        norm_num
        exact fdiv_eval 36 30 0 10066330 (5033165 / 4194304) (by norm_num) (by norm_num)
            (by norm_num) (by norm_num) (by norm_num) (by norm_num)]
    rw [show fmul (5033165 / 4194304) 30 = 36 from
      fmul_eval (5033165 / 4194304) 30 5 9437184 36 (by norm_num) (by norm_num) (by norm_num)
        (by norm_num) (by norm_num) (by norm_num)]
    exact truncToInt_eval 36 36 (by norm_num) (by norm_num) (by norm_num)
  · rw [show fdiv ((37 : Nat) : ℚ) 30 = 5172975 / 4194304 from by
        norm_num
        exact fdiv_eval 37 30 0 10345950 (5172975 / 4194304) (by norm_num) (by norm_num)
            (by norm_num) (by norm_num) (by norm_num) (by norm_num)]
    rw [show fmul (5172975 / 4194304) 30 = 37 from
      fmul_eval (5172975 / 4194304) 30 5 9699328 37 (by norm_num) (by norm_num) (by norm_num)
        (by norm_num) (by norm_num) (by norm_num)]
    exact truncToInt_eval 37 37 (by norm_num) (by norm_num) (by norm_num)
  · rw [show fdiv ((38 : Nat) : ℚ) 30 = 5312785 / 4194304 from by
        norm_num
        exact fdiv_eval 38 30 0 10625570 (5312785 / 4194304) (by norm_num) (by norm_num)
            (by norm_num) (by norm_num) (by norm_num) (by norm_num)]
    rw [show fmul (5312785 / 4194304) 30 = 38 from
      fmul_eval (5312785 / 4194304) 30 5 9961472 38 (by norm_num) (by norm_num) (by norm_num)
        (by norm_num) (by norm_num) (by norm_num)]
    exact truncToInt_eval 38 38 (by norm_num) (by norm_num) (by norm_num)
  · rw [show fdiv ((39 : Nat) : ℚ) 30 = 5452595 / 4194304 from by
        norm_num
        exact fdiv_eval 39 30 0 10905190 (5452595 / 4194304) (by norm_num) (by norm_num)
            (by norm_num) (by norm_num) (by norm_num) (by norm_num)]
    rw [show fmul (5452595 / 4194304) 30 = 39 from
      fmul_eval (5452595 / 4194304) 30 5 10223616 39 (by norm_num) (by norm_num) (by norm_num)
        (by norm_num) (by norm_num) (by norm_num)]
    exact truncToInt_eval 39 39 (by norm_num) (by norm_num) (by norm_num)
  · rw [show fdiv ((40 : Nat) : ℚ) 30 = 11184811 / 8388608 from by
        norm_num
        exact fdiv_eval 40 30 0 11184811 (11184811 / 8388608) (by norm_num) (by norm_num)
            (by norm_num) (by norm_num) (by norm_num) (by norm_num)]
    rw [show fmul (11184811 / 8388608) 30 = 40 from
      fmul_eval (11184811 / 8388608) 30 5 10485760 40 (by norm_num) (by norm_num) (by norm_num)
        (by norm_num) (by norm_num) (by norm_num)]
    exact truncToInt_eval 40 40 (by norm_num) (by norm_num) (by norm_num)
  · rw [show fdiv ((41 : Nat) : ℚ) 30 = 11464431 / 8388608 from by
        norm_num
        exact fdiv_eval 41 30 0 11464431 (11464431 / 8388608) (by norm_num) (by norm_num)
            (by norm_num) (by norm_num) (by norm_num) (by norm_num)]
    rw [show fmul (11464431 / 8388608) 30 = 41 from
      fmul_eval (11464431 / 8388608) 30 5 10747904 41 (by norm_num) (by norm_num) (by norm_num)
        (by norm_num) (by norm_num) (by norm_num)]
    exact truncToInt_eval 41 41 (by norm_num) (by norm_num) (by norm_num)
  · rw [show fdiv ((42 : Nat) : ℚ) 30 = 11744051 / 8388608 from by
        norm_num
        exact fdiv_eval 42 30 0 11744051 (11744051 / 8388608) (by norm_num) (by norm_num)
            (by norm_num) (by norm_num) (by norm_num) (by norm_num)]
    rw [show fmul (11744051 / 8388608) 30 = 42 from
      fmul_eval (11744051 / 8388608) 30 5 11010048 42 (by norm_num) (by norm_num) (by norm_num)
        (by norm_num) (by norm_num) (by norm_num)]
    exact truncToInt_eval 42 42 (by norm_num) (by norm_num) (by norm_num)
  · rw [show fdiv ((43 : Nat) : ℚ) 30 = 12023671 / 8388608 from by
        norm_num
        exact fdiv_eval 43 30 0 12023671 (12023671 / 8388608) (by norm_num) (by norm_num)
            (by norm_num) (by norm_num) (by norm_num) (by norm_num)]
    rw [show fmul (12023671 / 8388608) 30 = 43 from
      fmul_eval (12023671 / 8388608) 30 5 11272192 43 (by norm_num) (by norm_num) (by norm_num)
        (by norm_num) (by norm_num) (by norm_num)]
    exact truncToInt_eval 43 43 (by norm_num) (by norm_num) (by norm_num)
  · rw [show fdiv ((44 : Nat) : ℚ) 30 = 3075823 / 2097152 from by
        norm_num
        exact fdiv_eval 44 30 0 12303292 (3075823 / 2097152) (by norm_num) (by norm_num)
            (by norm_num) (by norm_num) (by norm_num) (by norm_num)]
    rw [show fmul (3075823 / 2097152) 30 = 44 from
      fmul_eval (3075823 / 2097152) 30 5 11534336 44 (by norm_num) (by norm_num) (by norm_num)
        (by norm_num) (by norm_num) (by norm_num)]
    exact truncToInt_eval 44 44 (by norm_num) (by norm_num) (by norm_num)
  · rw [show fdiv ((45 : Nat) : ℚ) 30 = 3 / 2 from by
        norm_num
        exact fdiv_eval 45 30 0 12582912 (3 / 2) (by norm_num) (by norm_num) (by norm_num)
            (by norm_num) (by norm_num) (by norm_num)]
    rw [show fmul (3 / 2) 30 = 45 from
      fmul_eval (3 / 2) 30 5 11796480 45 (by norm_num) (by norm_num) (by norm_num) (by norm_num)
        (by norm_num) (by norm_num)]
    exact truncToInt_eval 45 45 (by norm_num) (by norm_num) (by norm_num)
  · rw [show fdiv ((46 : Nat) : ℚ) 30 = 3215633 / 2097152 from by
        norm_num
        exact fdiv_eval 46 30 0 12862532 (3215633 / 2097152) (by norm_num) (by norm_num)
            (by norm_num) (by norm_num) (by norm_num) (by norm_num)]
    rw [show fmul (3215633 / 2097152) 30 = 46 from
      fmul_eval (3215633 / 2097152) 30 5 12058624 46 (by norm_num) (by norm_num) (by norm_num)
        (by norm_num) (by norm_num) (by norm_num)]
    exact truncToInt_eval 46 46 (by norm_num) (by norm_num) (by norm_num)
  · rw [show fdiv ((47 : Nat) : ℚ) 30 = 13142153 / 8388608 from by
        norm_num
        exact fdiv_eval 47 30 0 13142153 (13142153 / 8388608) (by norm_num) (by norm_num)
            (by norm_num) (by norm_num) (by norm_num) (by norm_num)]
    rw [show fmul (13142153 / 8388608) 30 = 47 from
      fmul_eval (13142153 / 8388608) 30 5 12320768 47 (by norm_num) (by norm_num) (by norm_num)
        (by norm_num) (by norm_num) (by norm_num)]
    exact truncToInt_eval 47 47 (by norm_num) (by norm_num) (by norm_num)
  · rw [show fdiv ((48 : Nat) : ℚ) 30 = 13421773 / 8388608 from by
        norm_num
        exact fdiv_eval 48 30 0 13421773 (13421773 / 8388608) (by norm_num) (by norm_num)
            (by norm_num) (by norm_num) (by norm_num) (by norm_num)]
    rw [show fmul (13421773 / 8388608) 30 = 48 from
      fmul_eval (13421773 / 8388608) 30 5 12582912 48 (by norm_num) (by norm_num) (by norm_num)
        (by norm_num) (by norm_num) (by norm_num)]
    exact truncToInt_eval 48 48 (by norm_num) (by norm_num) (by norm_num)
  · rw [show fdiv ((49 : Nat) : ℚ) 30 = 13701393 / 8388608 from by
        norm_num
        exact fdiv_eval 49 30 0 13701393 (13701393 / 8388608) (by norm_num) (by norm_num)
            (by norm_num) (by norm_num) (by norm_num) (by norm_num)]
    rw [show fmul (13701393 / 8388608) 30 = 49 from
      fmul_eval (13701393 / 8388608) 30 5 12845056 49 (by norm_num) (by norm_num) (by norm_num)
        (by norm_num) (by norm_num) (by norm_num)]
    exact truncToInt_eval 49 49 (by norm_num) (by norm_num) (by norm_num)
  · rw [show fdiv ((50 : Nat) : ℚ) 30 = 13981013 / 8388608 from by
        norm_num
        exact fdiv_eval 50 30 0 13981013 (13981013 / 8388608) (by norm_num) (by norm_num)
            (by norm_num) (by norm_num) (by norm_num) (by norm_num)]
    rw [show fmul (13981013 / 8388608) 30 = 50 from
      fmul_eval (13981013 / 8388608) 30 5 13107200 50 (by norm_num) (by norm_num) (by norm_num)
        (by norm_num) (by norm_num) (by norm_num)]
    exact truncToInt_eval 50 50 (by norm_num) (by norm_num) (by norm_num)
  · rw [show fdiv ((51 : Nat) : ℚ) 30 = 7130317 / 4194304 from by
        norm_num
        exact fdiv_eval 51 30 0 14260634 (7130317 / 4194304) (by norm_num) (by norm_num)
            (by norm_num) (by norm_num) (by norm_num) (by norm_num)]
    rw [show fmul (7130317 / 4194304) 30 = 51 from
      fmul_eval (7130317 / 4194304) 30 5 13369344 51 (by norm_num) (by norm_num) (by norm_num)
        (by norm_num) (by norm_num) (by norm_num)]
    exact truncToInt_eval 51 51 (by norm_num) (by norm_num) (by norm_num)
  · rw [show fdiv ((52 : Nat) : ℚ) 30 = 7270127 / 4194304 from by
        norm_num
        exact fdiv_eval 52 30 0 14540254 (7270127 / 4194304) (by norm_num) (by norm_num)
            (by norm_num) (by norm_num) (by norm_num) (by norm_num)]
    rw [show fmul (7270127 / 4194304) 30 = 52 from
      fmul_eval (7270127 / 4194304) 30 5 13631488 52 (by norm_num) (by norm_num) (by norm_num)
        (by norm_num) (by norm_num) (by norm_num)]
    exact truncToInt_eval 52 52 (by norm_num) (by norm_num) (by norm_num)
  · rw [show fdiv ((53 : Nat) : ℚ) 30 = 7409937 / 4194304 from by
        norm_num
        exact fdiv_eval 53 30 0 14819874 (7409937 / 4194304) (by norm_num) (by norm_num)
            (by norm_num) (by norm_num) (by norm_num) (by norm_num)]
    rw [show fmul (7409937 / 4194304) 30 = 53 from
      fmul_eval (7409937 / 4194304) 30 5 13893632 53 (by norm_num) (by norm_num) (by norm_num)
        (by norm_num) (by norm_num) (by norm_num)]
    exact truncToInt_eval 53 53 (by norm_num) (by norm_num) (by norm_num)
  · rw [show fdiv ((54 : Nat) : ℚ) 30 = 7549747 / 4194304 from by
        norm_num
        exact fdiv_eval 54 30 0 15099494 (7549747 / 4194304) (by norm_num) (by norm_num)
            (by norm_num) (by norm_num) (by norm_num) (by norm_num)]
    rw [show fmul (7549747 / 4194304) 30 = 54 from
      fmul_eval (7549747 / 4194304) 30 5 14155776 54 (by norm_num) (by norm_num) (by norm_num)
        (by norm_num) (by norm_num) (by norm_num)]
    exact truncToInt_eval 54 54 (by norm_num) (by norm_num) (by norm_num)
  · rw [show fdiv ((55 : Nat) : ℚ) 30 = 15379115 / 8388608 from by
        norm_num
        exact fdiv_eval 55 30 0 15379115 (15379115 / 8388608) (by norm_num) (by norm_num)
            (by norm_num) (by norm_num) (by norm_num) (by norm_num)]
    rw [show fmul (15379115 / 8388608) 30 = 55 from
      fmul_eval (15379115 / 8388608) 30 5 14417920 55 (by norm_num) (by norm_num) (by norm_num)
        (by norm_num) (by norm_num) (by norm_num)]
    exact truncToInt_eval 55 55 (by norm_num) (by norm_num) (by norm_num)
  · rw [show fdiv ((56 : Nat) : ℚ) 30 = 15658735 / 8388608 from by
        norm_num
        exact fdiv_eval 56 30 0 15658735 (15658735 / 8388608) (by norm_num) (by norm_num)
            (by norm_num) (by norm_num) (by norm_num) (by norm_num)]
    rw [show fmul (15658735 / 8388608) 30 = 56 from
      fmul_eval (15658735 / 8388608) 30 5 14680064 56 (by norm_num) (by norm_num) (by norm_num)
        (by norm_num) (by norm_num) (by norm_num)]
    exact truncToInt_eval 56 56 (by norm_num) (by norm_num) (by norm_num)
  · rw [show fdiv ((57 : Nat) : ℚ) 30 = 15938355 / 8388608 from by
        norm_num
        exact fdiv_eval 57 30 0 15938355 (15938355 / 8388608) (by norm_num) (by norm_num)
            (by norm_num) (by norm_num) (by norm_num) (by norm_num)]
    rw [show fmul (15938355 / 8388608) 30 = 57 from
      fmul_eval (15938355 / 8388608) 30 5 14942208 57 (by norm_num) (by norm_num) (by norm_num)
        (by norm_num) (by norm_num) (by norm_num)]
    exact truncToInt_eval 57 57 (by norm_num) (by norm_num) (by norm_num)
  · rw [show fdiv ((58 : Nat) : ℚ) 30 = 16217975 / 8388608 from by
        norm_num
        exact fdiv_eval 58 30 0 16217975 (16217975 / 8388608) (by norm_num) (by norm_num)
            (by norm_num) (by norm_num) (by norm_num) (by norm_num)]
    rw [show fmul (16217975 / 8388608) 30 = 58 from
      fmul_eval (16217975 / 8388608) 30 5 15204352 58 (by norm_num) (by norm_num) (by norm_num)
        (by norm_num) (by norm_num) (by norm_num)]
    exact truncToInt_eval 58 58 (by norm_num) (by norm_num) (by norm_num)
  · rw [show fdiv ((59 : Nat) : ℚ) 30 = 4124399 / 2097152 from by
        norm_num
        exact fdiv_eval 59 30 0 16497596 (4124399 / 2097152) (by norm_num) (by norm_num)
            (by norm_num) (by norm_num) (by norm_num) (by norm_num)]
    rw [show fmul (4124399 / 2097152) 30 = 59 from
      fmul_eval (4124399 / 2097152) 30 5 15466496 59 (by norm_num) (by norm_num) (by norm_num)
        (by norm_num) (by norm_num) (by norm_num)]
    exact truncToInt_eval 59 59 (by norm_num) (by norm_num) (by norm_num)
  · rw [show fdiv ((60 : Nat) : ℚ) 30 = 2 from by
        norm_num
        exact fdiv_eval 60 30 1 8388608 2 (by norm_num) (by norm_num) (by norm_num) (by norm_num)
            (by norm_num) (by norm_num)]
    rw [show fmul 2 30 = 60 from
      fmul_eval 2 30 5 15728640 60 (by norm_num) (by norm_num) (by norm_num) (by norm_num)
        (by norm_num) (by norm_num)]
    exact truncToInt_eval 60 60 (by norm_num) (by norm_num) (by norm_num)
  · rw [show fdiv ((61 : Nat) : ℚ) 30 = 4264209 / 2097152 from by
        norm_num
        exact fdiv_eval 61 30 1 8528418 (4264209 / 2097152) (by norm_num) (by norm_num)
            (by norm_num) (by norm_num) (by norm_num) (by norm_num)]
    rw [show fmul (4264209 / 2097152) 30 = 61 from
      fmul_eval (4264209 / 2097152) 30 5 15990784 61 (by norm_num) (by norm_num) (by norm_num)
        (by norm_num) (by norm_num) (by norm_num)]
    exact truncToInt_eval 61 61 (by norm_num) (by norm_num) (by norm_num)
  · rw [show fdiv ((62 : Nat) : ℚ) 30 = 2167057 / 1048576 from by
        norm_num
        exact fdiv_eval 62 30 1 8668228 (2167057 / 1048576) (by norm_num) (by norm_num)
            (by norm_num) (by norm_num) (by norm_num) (by norm_num)]
    rw [show fmul (2167057 / 1048576) 30 = 62 from
      fmul_eval_tie (2167057 / 1048576) 30 5 16252928 62 (by norm_num) (by norm_num)
        (by norm_num) (by norm_num) (by norm_num) (by norm_num)]
    exact truncToInt_eval 62 62 (by norm_num) (by norm_num) (by norm_num)

/-- C12 (fails as stated): on `reelLevel`, whose clip 0 has frames 0..100,
`setAnimation(0, 63)` stores the `float` quotient 63 / 30.0f = 4404019 / 2^21,
a value below 2.1; multiplied by 30.0f it gives 16515071 / 2^18, a value below
63, and the recomputed frame is 62, not 63. -/
theorem setAnimation_frame_63_reads_62 :
    (reelLevel.anims 0).frameStart ≤ (reelLevel.anims 0).frameEnd ∧
    (Controller.setAnimation reelLevel Controller.blank 0 63).animTime = 4404019 / 2097152 ∧
    (reelLevel.anims (Controller.setAnimation reelLevel Controller.blank 0 63).animIndex).frameStart +
      truncToInt (fmul (Controller.setAnimation reelLevel Controller.blank 0 63).animTime 30) =
        62 := by
  have ht : (Controller.setAnimation reelLevel Controller.blank 0 63).animTime =
      4404019 / 2097152 := by
    simp only [Controller.setAnimation, reelLevel]
    norm_num
    exact fdiv_eval 63 30 1 8808038 (4404019 / 2097152) (by norm_num) (by norm_num)
      (by norm_num) (by norm_num) (by norm_num) (by norm_num)
  refine ⟨by simp [reelLevel], ht, ?_⟩
  rw [ht]
  rw [show fmul (4404019 / 2097152) 30 = 16515071 / 262144 from
    fmul_eval (4404019 / 2097152) 30 5 16515071 (16515071 / 262144) (by norm_num) (by norm_num)
      (by norm_num) (by norm_num) (by norm_num) (by norm_num)]
  rw [show truncToInt (16515071 / 262144) = 62 from
    truncToInt_eval (16515071 / 262144) 62 (by norm_num) (by norm_num) (by norm_num)]
  simp [Controller.setAnimation, reelLevel]

/-- C12 (amended): immediately after `setAnimation(i, f)` the clip is `i`, the
state is the clip's state and no frame is processed; with a frame `f` other than
the sentinel -1, at an offset from 0 to `2^22` from `frameStart`, the absolute
frame recomputed as `frameStart + int(animTime * 30.0f)` is `f` or `f - 1`, within
the 1/30 s tolerance, and it is `f` at the offsets from 0 to 62; with `f = -1` the
elapsed time is 0 and the recomputed frame is `frameStart`. -/
theorem setAnimation_round_trip (lv : TR.Level) (c : Controller) (i f : Int) :
    (Controller.setAnimation lv c i f).animIndex = i ∧
    (Controller.setAnimation lv c i f).state = (lv.anims i).state ∧
    (Controller.setAnimation lv c i f).animPrevFrame = -1 ∧
    (f ≠ -1 → (lv.anims i).frameStart ≤ f → f - (lv.anims i).frameStart < 4194304 →
      f - 1 ≤ (lv.anims (Controller.setAnimation lv c i f).animIndex).frameStart +
          truncToInt (fmul (Controller.setAnimation lv c i f).animTime 30) ∧
        (lv.anims (Controller.setAnimation lv c i f).animIndex).frameStart +
          truncToInt (fmul (Controller.setAnimation lv c i f).animTime 30) ≤ f) ∧
    (f ≠ -1 → (lv.anims i).frameStart ≤ f → f - (lv.anims i).frameStart ≤ 62 →
      (lv.anims (Controller.setAnimation lv c i f).animIndex).frameStart +
        truncToInt (fmul (Controller.setAnimation lv c i f).animTime 30) = f) ∧
    (Controller.setAnimation lv c i (-1)).animTime = 0 ∧
    (lv.anims (Controller.setAnimation lv c i (-1)).animIndex).frameStart +
      truncToInt (fmul (Controller.setAnimation lv c i (-1)).animTime 30) =
        (lv.anims i).frameStart := by
  refine ⟨rfl, rfl, rfl, ?_, ?_, ?_, ?_⟩
  · intro hf h0 h1
    have hk := truncToInt_fmul_fdiv (f - (lv.anims i).frameStart) (by omega) h1
    simp only [Controller.setAnimation, if_neg hf]
    omega
  · intro hf h0 h1
    obtain ⟨k, hk⟩ : ∃ k : Nat, f - (lv.anims i).frameStart = k :=
      Int.eq_ofNat_of_zero_le (by omega)
    have hs := truncToInt_fmul_fdiv_small k (by omega)
    simp only [Controller.setAnimation, if_neg hf]
    rw [hk, Int.cast_natCast, hs]
    omega
  · simp [Controller.setAnimation]
  · simp [Controller.setAnimation, fmul_zero_left, truncToInt]

/-- C12 (amended) on `dupLevel`: clip 7 has frames 70..79; after
`setAnimation(7, 75)` the recomputed frame is 74 or 75, and at this offset of
5 frames it is 75. -/
theorem setAnimation_round_trip_witness :
    (74 ≤ (dupLevel.anims (Controller.setAnimation dupLevel dupCtl 7 75).animIndex).frameStart +
        truncToInt (fmul (Controller.setAnimation dupLevel dupCtl 7 75).animTime 30) ∧
      (dupLevel.anims (Controller.setAnimation dupLevel dupCtl 7 75).animIndex).frameStart +
        truncToInt (fmul (Controller.setAnimation dupLevel dupCtl 7 75).animTime 30) ≤ 75) ∧
    (dupLevel.anims (Controller.setAnimation dupLevel dupCtl 7 75).animIndex).frameStart +
      truncToInt (fmul (Controller.setAnimation dupLevel dupCtl 7 75).animTime 30) = 75 := by
  refine ⟨(setAnimation_round_trip dupLevel dupCtl 7 75).2.2.2.1 (by decide)
    (by simp [dupLevel]) (by simp [dupLevel]),
    (setAnimation_round_trip dupLevel dupCtl 7 75).2.2.2.2.1 (by decide)
      (by simp [dupLevel]) (by simp [dupLevel])⟩

/-- C14: the state that `getState(stand)` passes to its first `setState`
(`getStateDesired`) is the death hook's value whenever `mask & DEATH` is not 0,
whatever the stand, so that `getState` gives the same result for any two stands;
otherwise it is the ground hook's value for GROUND, the air hook's for AIR, the
underwater hook's for UNDERWATER and the on-water hook's for ON_WATER. For the
base class and an object with `state = anims[animIndex].state`, `getState`
returns the current state and leaves the object as it was. -/
theorem getState_selection (hk : Hooks) (lv : TR.Level) (c : Controller) :
    (∀ stand, (Controller.getState hk lv c stand).2 =
      (if (Controller.setState lv c (Controller.getStateDesired hk lv c stand)).1 = false then
        (Controller.setState lv
          (Controller.setState lv c (Controller.getStateDesired hk lv c stand)).2
          (hk.getStateDefault lv
            (Controller.setState lv c (Controller.getStateDesired hk lv c stand)).2)).2
       else (Controller.setState lv c (Controller.getStateDesired hk lv c stand)).2)) ∧
    (Int.land c.mask Controller.DEATH ≠ 0 →
      (∀ stand, Controller.getStateDesired hk lv c stand = hk.getStateDeath lv c) ∧
      ∀ s1 s2, Controller.getState hk lv c s1 = Controller.getState hk lv c s2) ∧
    (Int.land c.mask Controller.DEATH = 0 →
      Controller.getStateDesired hk lv c Stand.STAND_GROUND = hk.getStateGround lv c ∧
      Controller.getStateDesired hk lv c Stand.STAND_AIR = hk.getStateAir lv c ∧
      Controller.getStateDesired hk lv c Stand.STAND_UNDERWATER = hk.getStateUnderwater lv c ∧
      Controller.getStateDesired hk lv c Stand.STAND_ONWATER = hk.getStateOnwater lv c) ∧
    (c.state = (lv.anims c.animIndex).state →
      ∀ stand, Controller.getState Controller.base lv c stand = (c.state, c)) := by
  refine ⟨fun _ => rfl, ?_, ?_, ?_⟩
  · intro hd
    have h1 : ∀ stand, Controller.getStateDesired hk lv c stand = hk.getStateDeath lv c := by
      intro stand
      simp only [Controller.getStateDesired, hd, ne_eq, not_false_eq_true, if_true]
    refine ⟨h1, fun s1 s2 => ?_⟩
    simp only [Controller.getState, h1]
  · intro hd
    refine ⟨?_, ?_, ?_, ?_⟩ <;> simp [Controller.getStateDesired, hd]
  · intro hinv stand
    have hdes : Controller.getStateDesired Controller.base lv c stand = c.state := by
      simp only [Controller.getStateDesired, Controller.base]
      split_ifs <;> rfl
    have hset : Controller.setState lv c c.state = (true, c) := by
      simp [Controller.setState, hinv]
    simp only [Controller.getState, hdes, hset]
    simp [hinv]

/-- C14 on a controller with the DEATH bit set and hooks with death state 7 and
ground state 5: the state passed to `setState` is 7 for GROUND and for AIR. -/
theorem getState_selection_witness :
    Controller.getStateDesired wishHooks TR.Level.blank deadCtl Stand.STAND_GROUND = 7 ∧
    Controller.getStateDesired wishHooks TR.Level.blank deadCtl Stand.STAND_AIR = 7 ∧
    Controller.getState wishHooks TR.Level.blank deadCtl Stand.STAND_GROUND =
      Controller.getState wishHooks TR.Level.blank deadCtl Stand.STAND_AIR := by
  have h := (getState_selection wishHooks TR.Level.blank deadCtl).2.1 (by decide)
  exact ⟨h.1 _, h.1 _, h.2 _ _⟩

/-- C16 (fails as stated): on the blank level clip 0 has no state-change record.
With hooks that ask for state 5 on the ground and give 6 as default state, both
`setState` calls report failure, and `getState` returns normally: its value is
the clip's state 0 and the object is unchanged. -/
theorem getState_returns_after_two_failures :
    (Controller.setState TR.Level.blank Controller.blank
      (Controller.getStateDesired wishHooks TR.Level.blank Controller.blank
        Stand.STAND_GROUND)).1 = false ∧
    (Controller.setState TR.Level.blank Controller.blank
      (wishHooks.getStateDefault TR.Level.blank Controller.blank)).1 = false ∧
    Controller.getState wishHooks TR.Level.blank Controller.blank Stand.STAND_GROUND =
      (0, Controller.blank) := by
  have h0 : Int.land 0 512 = 0 := by decide
  refine ⟨?_, ?_, ?_⟩ <;>
  simp [Controller.getState, Controller.getStateDesired, Controller.setState, wishHooks,
    Controller.base, TR.Level.blank, Controller.blank, Controller.DEATH, h0]

/-- C16 (amended): when `setState(desired)` reports failure, `getState` calls
`setState` with the default hook's value on the unchanged object and returns the
state of the clip that is active after that call, whatever that call reports;
when it reports failure too, `getState` returns the state of the unchanged
active clip and leaves the object as it was. -/
theorem getState_default_fallback (hk : Hooks) (lv : TR.Level) (c : Controller) (stand : Stand)
    (hfail : (Controller.setState lv c (Controller.getStateDesired hk lv c stand)).1 = false) :
    Controller.getState hk lv c stand =
      ((lv.anims (Controller.setState lv c (hk.getStateDefault lv c)).2.animIndex).state,
        (Controller.setState lv c (hk.getStateDefault lv c)).2) ∧
    ((Controller.setState lv c (hk.getStateDefault lv c)).1 = false →
      Controller.getState hk lv c stand = ((lv.anims c.animIndex).state, c)) := by
  have h2 := Controller.setState_snd_of_false lv c _ hfail
  have h1 : Controller.getState hk lv c stand =
      ((lv.anims (Controller.setState lv c (hk.getStateDefault lv c)).2.animIndex).state,
        (Controller.setState lv c (hk.getStateDefault lv c)).2) := by
    simp only [Controller.getState, hfail, if_true, h2]
  refine ⟨h1, fun hfail2 => ?_⟩
  rw [h1, Controller.setState_snd_of_false lv c _ hfail2]

/-- C16 (amended) on the blank level with hooks asking for state 5 and giving 6
as default: `getState` returns the state 0 of the unchanged clip 0. -/
theorem getState_default_fallback_witness :
    Controller.getState wishHooks TR.Level.blank Controller.blank Stand.STAND_GROUND =
      ((TR.Level.blank.anims Controller.blank.animIndex).state, Controller.blank) :=
  (getState_default_fallback wishHooks TR.Level.blank Controller.blank Stand.STAND_GROUND
    (by
      have h0 : Int.land 0 512 = 0 := by decide
      simp [Controller.getStateDesired, Controller.setState, wishHooks, Controller.base,
        TR.Level.blank, Controller.blank, Controller.DEATH, h0])).2
    (by simp [Controller.setState, wishHooks, Controller.base, TR.Level.blank,
      Controller.blank])

namespace Controller

/-- The consistency predicate reads the clip table, the state and the clip index
only. -/
theorem StateInv.congr {lv lv1 : TR.Level} {c c1 : Controller} (h : StateInv lv c)
    (ha : lv1.anims = lv.anims) (hs : c1.state = c.state) (hi : c1.animIndex = c.animIndex) :
    StateInv lv1 c1 := by
  unfold StateInv at h ⊢
  rw [ha, hs, hi, h]

/-- A property of the object that every `setAnimation` call keeps is kept by
`setState`. -/
theorem setState_keeps (lv : TR.Level) (P : Controller → Prop)
    (hP : ∀ c i f, P c → P (setAnimation lv c i f)) (c : Controller) (state : Int)
    (hc : P c) : P (setState lv c state).2 := by
  unfold setState
  by_cases hd : state = (lv.anims c.animIndex).state
  · simp only [hd, if_true]; exact hc
  · simp only [hd, if_false]
    have hfold : ∀ (l : List Nat) (acc : Bool × Controller), P acc.2 →
        P (l.foldl (setStateRecord lv (lv.anims c.animIndex) (truncToInt (fmul c.animTime 30))
          state) acc).2 := by
      intro l
      induction l with
      | nil => intro acc h; exact h
      | cons i l ih =>
        intro acc h
        rw [List.foldl_cons]
        apply ih
        simp only [setStateRecord]
        split_ifs
        · simp only
          unfold setStateRanges
          split
          · exact hP _ _ _ h
          · exact h
        · exact h
    exact hfold _ _ hc

/-- `setAnimation` establishes the consistency predicate. -/
theorem stateInv_setAnimation (lv : TR.Level) (c : Controller) (i f : Int) :
    StateInv lv (setAnimation lv c i f) := rfl

/-- `setState` keeps the chain cursor. -/
theorem setState_actionCommand (lv : TR.Level) (c : Controller) (state : Int) :
    (setState lv c state).2.actionCommand = c.actionCommand :=
  setState_keeps lv (fun c1 => c1.actionCommand = c.actionCommand)
    (fun _ _ _ h => h) c state rfl

/-- `getState` returns the state of the clip that is active after the call, and
keeps the chain cursor. -/
theorem getState_spec (hk : Hooks) (lv : TR.Level) (c : Controller) (stand : Stand) :
    (getState hk lv c stand).1 = (lv.anims (getState hk lv c stand).2.animIndex).state ∧
    (getState hk lv c stand).2.actionCommand = c.actionCommand := by
  refine ⟨rfl, ?_⟩
  simp only [getState]
  split_ifs
  · rw [setState_actionCommand, setState_actionCommand]
  · rw [setState_actionCommand]

/-- `collide` leaves the clip table, the state and the clip index alone. -/
theorem collide_anim (d : Defs) (hk : Hooks) (lv : TR.Level) (c : Controller) :
    (collide d hk lv c).1.anims = lv.anims ∧ (collide d hk lv c).2.state = c.state ∧
    (collide d hk lv c).2.animIndex = c.animIndex := by
  have h1 : (collideFloor lv c).1.anims = lv.anims := by
    simp only [collideFloor, TR.Level.setEntity]
    split_ifs <;> rfl
  have h2 : (collideFloor lv c).2.state = c.state ∧
      (collideFloor lv c).2.animIndex = c.animIndex := by
    rw [collideFloor_snd]
    split_ifs <;> exact ⟨rfl, rfl⟩
  simp only [collide, TR.Level.setEntity]
  split_ifs <;> exact ⟨h1, h2.1, h2.2⟩

/-- The hand-off of `activateNext` keeps the consistency predicate of the caller
when the caller's own `activate` does. -/
theorem handOff_stateInv (hk : Nat → Hooks) (self next : Nat) (ctl : Option Nat) (w : World)
    (hact : ∀ lv c n, StateInv lv c → StateInv lv ((hk self).activate lv c n).1)
    (h : StateInv w.level (w.controllers self)) :
    StateInv (handOff hk self next ctl w).level ((handOff hk self next ctl w).controllers self) := by
  rw [handOff_level]
  cases ctl with
  | none =>
    unfold StateInv at h ⊢
    simpa [handOff, setActionCommand, setController] using h
  | some t =>
    by_cases hts : t = self
    · subst hts
      have h2 := hact w.level (w.controllers t) next h
      unfold StateInv at h2 ⊢
      simp only [handOff]
      split_ifs <;> simpa [setActionCommand, setController] using h2
    · have hst : self ≠ t := fun h => hts h.symm
      unfold StateInv at h ⊢
      simp only [handOff]
      split_ifs <;>
        simpa [setActionCommand, setController, Function.update_noteq hst] using h

/-- A call of `activateNext` keeps the consistency predicate of the caller when
the caller's own `activate` does. -/
theorem activateNext_stateInv (d : Defs) (hk : Nat → Hooks) (self : Nat)
    (hact : ∀ lv c n, StateInv lv c → StateInv lv ((hk self).activate lv c n).1)
    (fuel : Nat) :
    ∀ (w w' : World), activateNext d hk self fuel w = some w' →
      StateInv w.level (w.controllers self) → StateInv w'.level (w'.controllers self) := by
  induction fuel with
  | zero => intro w w' h; simp [activateNext] at h
  | succ fuel ih =>
    intro w w' h hinv
    cases ha : (w.controllers self).actionCommand with
    | none =>
      rw [activateNext] at h
      simp only [ha] at h
      cases h
      unfold StateInv at hinv ⊢
      simpa [setActionCommand, setController] using hinv
    | some a =>
      cases hn : (w.cmds a).next with
      | none =>
        rw [activateNext] at h
        simp only [ha, hn] at h
        cases h
        unfold StateInv at hinv ⊢
        simpa [setActionCommand, setController] using hinv
      | some n =>
        by_cases hs : (w.cmds n).action = TR.Action.SECRET
        · rw [activateNext_secret_step d hk self fuel w a n ha hn hs] at h
          apply ih _ _ h
          unfold StateInv at hinv ⊢
          unfold secretLink
          split_ifs <;>
            simpa [setActionCommand, setController, playSound, TR.Level.setSecret] using hinv
        · rw [activateNext_other_step d hk self fuel w a n ha hn hs] at h
          cases h
          exact handOff_stateInv hk self n _ w hact hinv

/-- A call of `updateAnimation` keeps the consistency predicate of the caller
when the caller's own `activate` does. -/
theorem updateAnimation_stateInv (d : Defs) (hk : Nat → Hooks) (self fuel : Nat)
    (commands : Bool) (dt : ℚ)
    (hact : ∀ lv c n, StateInv lv c → StateInv lv ((hk self).activate lv c n).1)
    (w w' : World) (h : updateAnimation d hk self fuel commands dt w = some w')
    (hinv : StateInv w.level (w.controllers self)) :
    StateInv w'.level (w'.controllers self) := by
  obtain ⟨k1, _, _, _, k5, _, _, k8, _, _, _, _⟩ := animPass_keeps d self commands dt w
  simp only [setController, Function.update_same] at k1 k5 k8
  by_cases hend : tickEnd w.level (w.controllers self) dt = true
  · rw [updateAnimation_of_end d hk self fuel commands dt w hend] at h
    apply activateNext_stateInv d hk self hact fuel _ _ h
    simp only [setController, Function.update_same]
    exact stateInv_setAnimation _ _ _ _
  · have hne : tickEnd w.level (w.controllers self) dt = false := by simpa using hend
    rw [updateAnimation_of_not_end d hk self fuel commands dt w hne] at h
    cases h
    simp only [setController, Function.update_same]
    exact hinv.congr k1 k8 k5

/-- The base `activate` keeps the consistency predicate. -/
theorem activate_stateInv (lv : TR.Level) (c : Controller) (n : Nat) (h : StateInv lv c) :
    StateInv lv (activate lv c n).1 := h

/-- `updateBegin` establishes the consistency predicate and keeps the chain
cursor, whatever the hooks return. -/
theorem updateBegin_spec (hk : Hooks) (lv : TR.Level) (c : Controller) :
    StateInv lv (updateBegin hk lv c) ∧ (updateBegin hk lv c).actionCommand = c.actionCommand := by
  constructor
  · exact (getState_spec hk lv _ _).1
  · simp only [updateBegin]
    rw [(getState_spec hk lv _ _).2]

/-- `updateEnd` leaves the clip table, the state and the clip index alone when
the `move` hook does nothing. -/
theorem updateEnd_anim (d : Defs) (H : Hooks) (lv : TR.Level) (c : Controller)
    (hmv : ∀ lv c, H.move lv c = c) :
    (updateEnd d H lv c).1.anims = lv.anims ∧ (updateEnd d H lv c).2.state = c.state ∧
    (updateEnd d H lv c).2.animIndex = c.animIndex := by
  obtain ⟨h1, h2, h3⟩ := collide_anim d H lv c
  simp only [updateEnd, hmv]
  exact ⟨h1, h2, h3⟩

/-- The `update` tick when the `updateState` and `updateVelocity` hooks do
nothing: `updateBegin`, `updateAnimation(true)`, `updateEnd`. -/
theorem update_eq (d : Defs) (hk : Nat → Hooks) (self fuel : Nat) (dt : ℚ) (w : World)
    (hus : ∀ lv c, (hk self).updateState lv c = c)
    (huv : ∀ lv c, (hk self).updateVelocity lv c = c) :
    update d hk self fuel dt w =
      (updateAnimation d hk self fuel true dt
        (setController w self (updateBegin (hk self) w.level (w.controllers self)))).map
        (fun w3 =>
          setController
            { w3 with level := (updateEnd d (hk self) w3.level (w3.controllers self)).1 } self
            (updateEnd d (hk self) w3.level (w3.controllers self)).2) := by
  have hid : ∀ (v : World), setController v self (v.controllers self) = v := by
    intro v
    simp [setController]
  unfold update
  simp only [hus, huv, hid]
  cases updateAnimation d hk self fuel true dt
    (setController w self (updateBegin (hk self) w.level (w.controllers self))) <;> rfl

/-- A full `update` tick returns, when the chain from the cursor ends, with the
consistency predicate, for a controller whose `updateState`, `updateVelocity`
and `move` hooks do nothing and whose `activate` keeps the predicate. -/
theorem update_stateInv (d : Defs) (hk : Nat → Hooks) (self n : Nat) (dt : ℚ) (w : World)
    (hus : ∀ lv c, (hk self).updateState lv c = c)
    (huv : ∀ lv c, (hk self).updateVelocity lv c = c)
    (hmv : ∀ lv c, (hk self).move lv c = c)
    (hact : ∀ lv c m, StateInv lv c → StateInv lv ((hk self).activate lv c m).1)
    (hfin : chainEnds w.cmds n (w.controllers self).actionCommand = true) :
    ∃ w', update d hk self (n + 1) dt w = some w' ∧ StateInv w'.level (w'.controllers self) := by
  obtain ⟨b1, b2⟩ := updateBegin_spec (hk self) w.level (w.controllers self)
  obtain ⟨w3, h3⟩ := updateAnimation_returns d hk self n true dt
    (setController w self (updateBegin (hk self) w.level (w.controllers self))) (by
      simp only [setController, Function.update_same]
      rw [b2]; exact hfin)
  have hinv3 : StateInv w3.level (w3.controllers self) := by
    apply updateAnimation_stateInv d hk self (n + 1) true dt hact _ _ h3
    simp only [setController, Function.update_same]
    exact b1
  obtain ⟨e1, e2, e3⟩ := updateEnd_anim d (hk self) w3.level (w3.controllers self) hmv
  rw [update_eq d hk self (n + 1) dt w hus huv, h3]
  refine ⟨_, rfl, ?_⟩
  unfold StateInv at hinv3 ⊢
  simp only [setController, Function.update_same]
  rw [e1, e2, e3]
  exact hinv3

end Controller

/-- C13: the predicate `state = anims[animIndex].state` (`StateInv`) holds after
construction and after `setAnimation`; `setState` and `collide` keep it;
`getState` returns the state of the clip active after it, so the predicate holds
after `updateBegin` whatever the hooks return; `activateNext` and
`updateAnimation` keep it for the calling controller as long as the controller's
own `activate` (called when a link resolves to the caller) keeps it, as the base
`activate` does; and a full `update` tick of a controller of the base class, with
a chain that ends, returns with the predicate. -/
theorem stateInv_preserved (d : Defs) (hk : Nat → Hooks) (self : Nat) :
    (∀ (lv : TR.Level) (entity : Int) (raw : Controller),
      Controller.StateInv lv (Controller.construct lv entity raw)) ∧
    (∀ (lv : TR.Level) (c : Controller) (i f : Int),
      Controller.StateInv lv (Controller.setAnimation lv c i f)) ∧
    (∀ (lv : TR.Level) (c : Controller) (s : Int),
      Controller.StateInv lv c → Controller.StateInv lv (Controller.setState lv c s).2) ∧
    (∀ (lv : TR.Level) (c : Controller),
      Controller.StateInv lv c →
        Controller.StateInv (Controller.collide d (hk self) lv c).1
          (Controller.collide d (hk self) lv c).2) ∧
    (∀ (lv : TR.Level) (c : Controller) (stand : Stand),
      (Controller.getState (hk self) lv c stand).1 =
        (lv.anims (Controller.getState (hk self) lv c stand).2.animIndex).state) ∧
    (∀ (lv : TR.Level) (c : Controller),
      Controller.StateInv lv (Controller.updateBegin (hk self) lv c)) ∧
    ((∀ lv c n, Controller.StateInv lv c →
        Controller.StateInv lv ((hk self).activate lv c n).1) →
      (∀ (fuel : Nat) (w w' : World), Controller.activateNext d hk self fuel w = some w' →
        Controller.StateInv w.level (w.controllers self) →
        Controller.StateInv w'.level (w'.controllers self)) ∧
      (∀ (fuel : Nat) (commands : Bool) (dt : ℚ) (w w' : World),
        Controller.updateAnimation d hk self fuel commands dt w = some w' →
        Controller.StateInv w.level (w.controllers self) →
        Controller.StateInv w'.level (w'.controllers self))) ∧
    (hk self = Controller.base →
      (∀ lv c n, Controller.StateInv lv c →
        Controller.StateInv lv ((hk self).activate lv c n).1) ∧
      ∀ (n : Nat) (dt : ℚ) (w : World),
        Controller.chainEnds w.cmds n (w.controllers self).actionCommand = true →
        ∃ w', Controller.update d hk self (n + 1) dt w = some w' ∧
          Controller.StateInv w'.level (w'.controllers self)) := by
  refine ⟨fun _ _ _ => rfl, fun lv c i f => Controller.stateInv_setAnimation lv c i f, ?_, ?_,
    fun lv c stand => (Controller.getState_spec (hk self) lv c stand).1,
    fun lv c => (Controller.updateBegin_spec (hk self) lv c).1, ?_, ?_⟩
  · intro lv c s h
    exact Controller.setState_keeps lv (Controller.StateInv lv)
      (fun c1 i f _ => Controller.stateInv_setAnimation lv c1 i f) c s h
  · intro lv c h
    obtain ⟨h1, h2, h3⟩ := Controller.collide_anim d (hk self) lv c
    exact h.congr h1 h2 h3
  · intro hact
    exact ⟨fun fuel w w' h hi => Controller.activateNext_stateInv d hk self hact fuel w w' h hi,
      fun fuel commands dt w w' h hi =>
        Controller.updateAnimation_stateInv d hk self fuel commands dt hact w w' h hi⟩
  · intro hbase
    have hact : ∀ lv c n, Controller.StateInv lv c →
        Controller.StateInv lv ((hk self).activate lv c n).1 := by
      rw [hbase]
      intro lv c m h
      exact Controller.activate_stateInv lv c m h
    refine ⟨hact, fun n dt w hfin => Controller.update_stateInv d hk self n dt w ?_ ?_ ?_ hact hfin⟩
    · rw [hbase]; intro _ _; rfl
    · rw [hbase]; intro _ _; rfl
    · rw [hbase]; intro _ _; rfl

/-- C13 on `longWorld`: a full `update` tick of the base controller 0 returns
with `state = anims[animIndex].state`. -/
theorem stateInv_preserved_witness :
    ∃ w', Controller.update Defs.sample baseHooks 0 1 (1 / 30) longWorld = some w' ∧
      Controller.StateInv w'.level (w'.controllers 0) :=
  ((stateInv_preserved Defs.sample baseHooks 0).2.2.2.2.2.2.2 rfl).2 0 (1 / 30) longWorld
    (by simp [longWorld, World.blank, Controller.blank, Controller.chainEnds])

namespace Controller

/-- On a chain whose SECRET link leads back to itself no amount of fuel lets
`activateNext` return. -/
theorem activateNext_cycle (d : Defs) (hk : Nat → Hooks) (self a : Nat) (fuel : Nat) :
    ∀ (w : World), (w.controllers self).actionCommand = some a →
      (w.cmds a).next = some a → (w.cmds a).action = TR.Action.SECRET →
      activateNext d hk self fuel w = none := by
  induction fuel with
  | zero => intro w _ _ _; rfl
  | succ fuel ih =>
    intro w h1 h2 h3
    rw [activateNext_secret_step d hk self fuel w a a h1 h2 h3]
    apply ih
    · exact secretLink_cursor d self a w
    · rw [secretLink_cmds]; exact h2
    · rw [secretLink_cmds]; exact h3

/-- A call of `activateNext` returns with fuel `n + 1` when at most `n` links
follow the cursor. -/
theorem activateNext_returns_links (d : Defs) (hk : Nat → Hooks) (self : Nat) (n : Nat) :
    ∀ (w : World),
      chainEnds w.cmds n ((w.controllers self).actionCommand.bind (fun a => (w.cmds a).next)) =
        true →
      ∃ w', activateNext d hk self (n + 1) w = some w' := by
  induction n with
  | zero =>
    intro w h
    cases ha : (w.controllers self).actionCommand with
    | none => exact ⟨setActionCommand w self none, by rw [activateNext]; simp only [ha]⟩
    | some a =>
      rw [ha] at h
      simp only [Option.bind] at h
      cases hn : (w.cmds a).next with
      | none => exact ⟨setActionCommand w self none, by rw [activateNext]; simp only [ha, hn]⟩
      | some b => rw [hn] at h; simp [chainEnds] at h
  | succ m ih =>
    intro w h
    cases ha : (w.controllers self).actionCommand with
    | none => exact ⟨setActionCommand w self none, by rw [activateNext]; simp only [ha]⟩
    | some a =>
      rw [ha] at h
      simp only [Option.bind] at h
      cases hn : (w.cmds a).next with
      | none => exact ⟨setActionCommand w self none, by rw [activateNext]; simp only [ha, hn]⟩
      | some b =>
        rw [hn] at h
        simp only [chainEnds] at h
        by_cases hs : (w.cmds b).action = TR.Action.SECRET
        · rw [activateNext_secret_step d hk self (m + 1) w a b ha hn hs]
          apply ih
          rw [secretLink_cmds, secretLink_cursor]
          exact h
        · exact ⟨_, activateNext_other_step d hk self (m + 1) w a b ha hn hs⟩

end Controller

/-- C17: `activateNext` returns on every chain that ends: when at most `n` links
follow the cursor (the chain from the link after the cursor reaches `NULL`
within `n` links), fuel `n + 1` is enough, that is the outer call and at most
`n` nested calls, whatever the secret flags are. The only recursive call is the
one of the SECRET case, and it starts with the cursor on the link that followed
the cursor; any other link ends the call without recursion. -/
theorem activateNext_terminates (d : Defs) (hk : Nat → Hooks) (self n : Nat) (w : World)
    (hfin : Controller.chainEnds w.cmds n
      ((w.controllers self).actionCommand.bind (fun a => (w.cmds a).next)) = true) :
    (∃ w', Controller.activateNext d hk self (n + 1) w = some w') ∧
    (∀ (fuel a m : Nat), (w.controllers self).actionCommand = some a →
      (w.cmds a).next = some m →
      ((w.cmds m).action = TR.Action.SECRET →
        Controller.activateNext d hk self (fuel + 1) w =
          Controller.activateNext d hk self fuel (Controller.secretLink d self m w) ∧
        ((Controller.secretLink d self m w).controllers self).actionCommand = some m ∧
        (Controller.secretLink d self m w).cmds = w.cmds) ∧
      ((w.cmds m).action ≠ TR.Action.SECRET →
        ∃ w', Controller.activateNext d hk self (fuel + 1) w = some w')) ∧
    (∀ fuel, (w.controllers self).actionCommand = none →
      Controller.activateNext d hk self (fuel + 1) w =
        some (Controller.setActionCommand w self none)) ∧
    (∀ (fuel a : Nat), (w.controllers self).actionCommand = some a → (w.cmds a).next = none →
      Controller.activateNext d hk self (fuel + 1) w =
        some (Controller.setActionCommand w self none)) := by
  refine ⟨Controller.activateNext_returns_links d hk self n w hfin, ?_, ?_, ?_⟩
  · intro fuel a m ha hn
    constructor
    · intro hs
      exact ⟨Controller.activateNext_secret_step d hk self fuel w a m ha hn hs,
        Controller.secretLink_cursor d self m w, Controller.secretLink_cmds d self m w⟩
    · intro hs
      exact ⟨_, Controller.activateNext_other_step d hk self fuel w a m ha hn hs⟩
  · intro fuel ha
    rw [Controller.activateNext]
    simp only [ha]
  · intro fuel a ha hn
    rw [Controller.activateNext]
    simp only [ha, hn]

/-- C17 on `secretWorld`, where two SECRET links follow the cursor: the call
returns with fuel 3, and fuel 2 is used up by the outer call and one nested call.
On the cyclic chain of `cycleWorld` the call does not return with fuel 5. -/
theorem activateNext_terminates_witness :
    (∃ w', Controller.activateNext Defs.sample baseHooks 0 3 secretWorld = some w') ∧
    Controller.activateNext Defs.sample baseHooks 0 2 secretWorld = none ∧
    Controller.activateNext Defs.sample baseHooks 0 5 cycleWorld = none := by
  refine ⟨(activateNext_terminates Defs.sample baseHooks 0 2 secretWorld
    (by simp [secretWorld, Controller.chainEnds])).1, ?_, ?_⟩
  · simp [Controller.activateNext, Controller.secretLink, secretWorld,
      Controller.setActionCommand, Controller.setController, Controller.playSound,
      World.blank, TR.Level.blank, TR.Level.setSecret]
  · exact Controller.activateNext_cycle Defs.sample baseHooks 0 0 5 cycleWorld
      (by simp [cycleWorld]) (by simp [cycleWorld]) (by simp [cycleWorld])

/-- C15: with `t` the `float` elapsed time after adding the tick delta,
`SpriteController::update` sets `remove` (releasing the entity slot and deleting
the object) if and only if the sprite is instant and either it is animated and
`int(t * 10.0f) ≥ sCount`, or it is static and `t ≥ 0.1` (for the `float` `t` the
same as `t ≥ 0.1f`); a sprite that is not instant is never removed. The call
returns unless it reaches `frame %= sCount` with `sCount = 0`; the clock it
leaves is `t`; an animated sprite with `sCount > 0` that is not removed ends with
`frame = int(t * 10.0f) % sCount`, the C++ remainder, which for `t ≥ 0` is the
remainder in `0 .. sCount - 1`. -/
theorem spriteUpdate_removal (lv : TR.Level) (dt : ℚ) (s : SpriteController) :
    ((SpriteController.update lv dt s).map Prod.snd = some true ↔
      s.instant = true ∧
        ((s.animated = true ∧
            truncToInt (fmul (fadd s.animTime dt) 10) ≥
              (SpriteController.getSequence lv s).sCount) ∨
          (s.animated = false ∧ fadd s.animTime dt ≥ 1 / 10))) ∧
    (s.instant = false → (SpriteController.update lv dt s).map Prod.snd ≠ some true) ∧
    (SpriteController.update lv dt s = none ↔
      s.animated = true ∧ (SpriteController.getSequence lv s).sCount = 0 ∧
        ¬ (s.instant = true ∧ truncToInt (fmul (fadd s.animTime dt) 10) ≥
          (SpriteController.getSequence lv s).sCount)) ∧
    (∀ r, SpriteController.update lv dt s = some r → r.1.animTime = fadd s.animTime dt) ∧
    (s.animated = true → 0 < (SpriteController.getSequence lv s).sCount →
      ¬ (s.instant = true ∧ truncToInt (fmul (fadd s.animTime dt) 10) ≥
        (SpriteController.getSequence lv s).sCount) →
      ∃ r, SpriteController.update lv dt s = some (r, false) ∧
        r.frame = Int.tmod (truncToInt (fmul (fadd s.animTime dt) 10))
          (SpriteController.getSequence lv s).sCount ∧
        (0 ≤ fadd s.animTime dt →
          r.frame = truncToInt (fmul (fadd s.animTime dt) 10) %
              (SpriteController.getSequence lv s).sCount ∧
            0 ≤ r.frame ∧ r.frame < (SpriteController.getSequence lv s).sCount)) := by
  have hten : fadd s.animTime dt ≥ f32 (1 / 10) ↔ fadd s.animTime dt ≥ 1 / 10 :=
    f32_ge_tenth (s.animTime + dt)
  refine ⟨?_, ?_, ?_, ?_, ?_⟩
  · cases hani : s.animated <;> cases hins : s.instant
    · simp [SpriteController.update, hani, hins]
    · simp only [SpriteController.update, hani, hins, Bool.false_eq_true, if_false, true_and,
        false_and, or_false, false_or]
      rw [← hten]
      split_ifs with h
      · simpa using h
      · simpa using h
    · simp only [SpriteController.update, hani, hins, if_true, Bool.false_eq_true, false_and,
        if_false]
      split_ifs <;> simp
    · simp only [SpriteController.update, hani, hins, if_true, true_and, and_true, false_and,
        or_false, Bool.true_eq_false]
      split_ifs with h h2
      · simpa [SpriteController.getSequence, Controller.getEntity] using h
      · simpa [SpriteController.getSequence, Controller.getEntity] using h
      · simpa [SpriteController.getSequence, Controller.getEntity] using h
  · intro hins
    cases hani : s.animated
    · simp [SpriteController.update, hani, hins]
    · simp only [SpriteController.update, hani, hins, if_true, Bool.false_eq_true, false_and,
        if_false]
      split_ifs <;> simp
  · cases hani : s.animated
    · simp only [SpriteController.update, hani, Bool.false_eq_true, if_false, false_and,
        iff_false]
      split_ifs <;> simp
    · simp only [SpriteController.update, hani, if_true, true_and]
      split_ifs with h h2
      · simp only [reduceCtorEq, false_iff, not_and, not_not]
        intro _
        simpa [SpriteController.getSequence, Controller.getEntity] using h
      · simp only [true_iff]
        exact ⟨by simpa [SpriteController.getSequence, Controller.getEntity] using h2,
          by simpa [SpriteController.getSequence, Controller.getEntity] using h⟩
      · simp only [reduceCtorEq, false_iff, not_and]
        intro h3
        exact absurd h3 (by simpa [SpriteController.getSequence, Controller.getEntity] using h2)
  · intro r hr
    simp only [SpriteController.update] at hr
    split_ifs at hr <;> cases hr <;> rfl
  · intro ha hpos hno
    refine ⟨{ s with
        animTime := fadd s.animTime dt
        frame := Int.tmod (truncToInt (fmul (fadd s.animTime dt) 10))
          (SpriteController.getSequence lv s).sCount }, ?_, ?_, ?_⟩
    · simp only [SpriteController.update]
      split_ifs
      all_goals first
        | rfl
        | (rename_i c; first
            | exact absurd c hno
            | exact absurd c (ne_of_gt hpos))
    · rfl
    · intro ht
      have hnn : 0 ≤ truncToInt (fmul (fadd s.animTime dt) 10) := by
        have h10 : 0 ≤ fmul (fadd s.animTime dt) 10 := f32_nonneg _ (by positivity)
        unfold truncToInt
        rw [if_pos h10]
        exact Int.floor_nonneg.mpr h10
      show Int.tmod _ _ = _ ∧ 0 ≤ Int.tmod _ _ ∧ Int.tmod _ _ < _
      rw [Int.tmod_eq_emod hnn (le_of_lt hpos)]
      exact ⟨rfl, Int.emod_nonneg _ (ne_of_gt hpos), Int.emod_lt_of_pos _ hpos⟩

/-- C15 on an animated, instant sprite. With a sequence of 4 frames, after 0.25 s
the frame is 2 and the sprite stays, and the tick that reaches 0.4 s removes it.
With a sequence of 7 frames the tick that reaches 0.7 s removes it: the `float`
product of 0.7f and 10.0f is 7. -/
theorem spriteUpdate_removal_witness :
    (∃ r, SpriteController.update sparkLevel (1 / 4) sparkSprite = some (r, false) ∧
      r.frame = 2) ∧
    (SpriteController.update sparkLevel (2 / 5) sparkSprite).map Prod.snd = some true ∧
    (SpriteController.update sevenLevel (7 / 10) sparkSprite).map Prod.snd = some true := by
  have a1 : fadd sparkSprite.animTime (1 / 4) = 1 / 4 := by
    simp only [sparkSprite, Controller.blank]
    exact fadd_eval 0 (1 / 4) (-2) 8388608 (1 / 4) (by norm_num) (by norm_num) (by norm_num)
      (by norm_num) (by norm_num) (by norm_num)
  have b1 : truncToInt (fmul (1 / 4) 10) = 2 := by
    rw [show fmul (1 / 4) 10 = 5 / 2 from
      fmul_eval (1 / 4) 10 1 10485760 (5 / 2) (by norm_num) (by norm_num) (by norm_num)
        (by norm_num) (by norm_num) (by norm_num)]
    exact truncToInt_eval (5 / 2) 2 (by norm_num) (by norm_num) (by norm_num)
  have a2 : fadd sparkSprite.animTime (2 / 5) = 13421773 / 33554432 := by
    simp only [sparkSprite, Controller.blank]
    exact fadd_eval 0 (2 / 5) (-2) 13421773 (13421773 / 33554432) (by norm_num) (by norm_num)
      (by norm_num) (by norm_num) (by norm_num) (by norm_num)
  have b2 : truncToInt (fmul (13421773 / 33554432) 10) = 4 := by
    rw [show fmul (13421773 / 33554432) 10 = 4 from
      fmul_eval (13421773 / 33554432) 10 2 8388608 4 (by norm_num) (by norm_num) (by norm_num)
        (by norm_num) (by norm_num) (by norm_num)]
    exact truncToInt_eval 4 4 (by norm_num) (by norm_num) (by norm_num)
  have a3 : fadd sparkSprite.animTime (7 / 10) = 11744051 / 16777216 := by
    simp only [sparkSprite, Controller.blank]
    exact fadd_eval 0 (7 / 10) (-1) 11744051 (11744051 / 16777216) (by norm_num) (by norm_num)
      (by norm_num) (by norm_num) (by norm_num) (by norm_num)
  have b3 : truncToInt (fmul (11744051 / 16777216) 10) = 7 := by
    rw [show fmul (11744051 / 16777216) 10 = 7 from
      fmul_eval (11744051 / 16777216) 10 2 14680064 7 (by norm_num) (by norm_num) (by norm_num)
        (by norm_num) (by norm_num) (by norm_num)]
    exact truncToInt_eval 7 7 (by norm_num) (by norm_num) (by norm_num)
  have s4 : (SpriteController.getSequence sparkLevel sparkSprite).sCount = 4 := by
    simp [SpriteController.getSequence, sparkLevel]
  have s7 : (SpriteController.getSequence sevenLevel sparkSprite).sCount = 7 := by
    simp [SpriteController.getSequence, sevenLevel]
  refine ⟨?_, ?_, ?_⟩
  · obtain ⟨r, h1, h2, _⟩ := (spriteUpdate_removal sparkLevel (1 / 4) sparkSprite).2.2.2.2 rfl
      (by rw [s4]; decide) (by rw [a1, b1, s4]; simp)
    refine ⟨r, h1, ?_⟩
    rw [h2, a1, b1, s4]
    decide
  · rw [(spriteUpdate_removal sparkLevel (2 / 5) sparkSprite).1, a2, b2, s4]
    simp [sparkSprite]
  · rw [(spriteUpdate_removal sevenLevel (7 / 10) sparkSprite).1, a3, b3, s7]
    simp [sparkSprite]

namespace Controller

/-- The command loop with one pass more is the loop followed by the pass with
the next loop index, at the pointer of that index. -/
theorem animCommands_succ (d : Defs) (self : Nat) (anim : TR.Animation) (frameIndex : Int)
    (endFrame : Bool) (start : Int) (n : Nat) :
    ∀ (i0 : Nat) (w : World),
      animCommands d self anim frameIndex endFrame (n + 1) i0
          (cmdPtr d w.level.commands start i0) w =
        (animCommand d self anim frameIndex endFrame (i0 + n)
          (cmdPtr d w.level.commands start (i0 + n))
          (animCommands d self anim frameIndex endFrame n i0
            (cmdPtr d w.level.commands start i0) w)).2 := by
  induction n with
  | zero => intro i0 w; rfl
  | succ n ih =>
    intro i0 w
    obtain ⟨_, k2, _⟩ := animCommand_keeps d self anim frameIndex endFrame i0
      (cmdPtr d w.level.commands start i0) w
    have hptr : (animCommand d self anim frameIndex endFrame i0
        (cmdPtr d w.level.commands start i0) w).1 =
        cmdPtr d (animCommand d self anim frameIndex endFrame i0
          (cmdPtr d w.level.commands start i0) w).2.level.commands start (i0 + 1) := by
      rw [animCommand_fst, k2]; rfl
    have h1 : ∀ m, animCommands d self anim frameIndex endFrame (m + 1) i0
        (cmdPtr d w.level.commands start i0) w =
        animCommands d self anim frameIndex endFrame m (i0 + 1)
          (cmdPtr d (animCommand d self anim frameIndex endFrame i0
            (cmdPtr d w.level.commands start i0) w).2.level.commands start (i0 + 1))
          (animCommand d self anim frameIndex endFrame i0
            (cmdPtr d w.level.commands start i0) w).2 := by
      intro m
      rw [animCommands, hptr]
    rw [h1 (n + 1), ih (i0 + 1), h1 n, k2]
    have : i0 + 1 + n = i0 + (n + 1) := by omega
    rw [this]

/-- The first part of `updateAnimation(true)` is the command loop run for the
clip's `acCount` passes. -/
theorem animPass_eq_loopState (d : Defs) (self : Nat) (dt : ℚ) (w : World) :
    animPass d self true dt w =
      loopState d self dt w (w.level.anims (w.controllers self).animIndex).acCount.toNat := by
  simp [animPass, loopState, setController]

/-- The passes of the command loop keep the animation cursor and the tables. -/
theorem loopState_keeps (d : Defs) (self : Nat) (dt : ℚ) (w : World) (k : Nat) :
    PassKeeps self
      (setController w self
        { w.controllers self with animTime := fadd (w.controllers self).animTime dt })
      (loopState d self dt w k) := by
  unfold loopState
  exact animCommands_keeps _ _ _ _ _ _ _ _ _

/-- The state after `k + 1` passes of the command loop is the state after `k`
passes followed by the pass with loop index `k`. -/
theorem loopState_succ (d : Defs) (self : Nat) (dt : ℚ) (w : World) (k : Nat) :
    loopState d self dt w (k + 1) =
      (animCommand d self (w.level.anims (w.controllers self).animIndex)
        (tickFrame (w.controllers self) dt) (tickEnd w.level (w.controllers self) dt) k
        (cmdPtr d w.level.commands (w.level.anims (w.controllers self).animIndex).animCommand k)
        (loopState d self dt w k)).2 := by
  have h := animCommands_succ d self (w.level.anims (w.controllers self).animIndex)
    (tickFrame (w.controllers self) dt) (tickEnd w.level (w.controllers self) dt)
    (w.level.anims (w.controllers self).animIndex).animCommand k 0
    (setController w self
      { w.controllers self with animTime := fadd (w.controllers self).animTime dt })
  simp only [cmdPtr, Nat.zero_add] at h
  simp only [loopState, setController, Function.update_same] at h ⊢
  exact h

/-- A pass of the command loop at a MOVE record: at end-of-clip it displaces the
position by the record's vector rotated by the yaw and writes the entity record,
otherwise it does nothing. -/
theorem animCommand_move (d : Defs) (self : Nat) (anim : TR.Animation) (frameIndex : Int)
    (endFrame : Bool) (i : Nat) (ptr : Int) (w : World)
    (hs : w.level.commands ptr = d.ANIM_CMD_MOVE) :
    (animCommand d self anim frameIndex endFrame i ptr w).2 =
      if endFrame = true then
        { setController w self
            { w.controllers self with
              pos := (w.controllers self).pos.add
                (d.rotateY ⟨w.level.commands (ptr + 1), w.level.commands (ptr + 1 + 1),
                  w.level.commands (ptr + 1 + 2)⟩ (w.controllers self).angle.y) } with
          level := updateEntity w.level
            { w.controllers self with
              pos := (w.controllers self).pos.add
                (d.rotateY ⟨w.level.commands (ptr + 1), w.level.commands (ptr + 1 + 1),
                  w.level.commands (ptr + 1 + 2)⟩ (w.controllers self).angle.y) } }
      else w := by
  unfold animCommand
  simp only [hs, if_true]

/-- A pass of the command loop on a tick that is not end-of-clip leaves position,
velocity and stand of the controller alone. -/
theorem animCommand_quiet (d : Defs) (self : Nat) (anim : TR.Animation) (frameIndex : Int)
    (i : Nat) (ptr : Int) (w : World) :
    ((animCommand d self anim frameIndex false i ptr w).2.controllers self).pos =
      (w.controllers self).pos ∧
    ((animCommand d self anim frameIndex false i ptr w).2.controllers self).velocity =
      (w.controllers self).velocity ∧
    ((animCommand d self anim frameIndex false i ptr w).2.controllers self).stand =
      (w.controllers self).stand := by
  unfold animCommand
  simp only
  split_ifs <;> first | contradiction | simp [setController, playSound]

/-- The command loop on a tick that is not end-of-clip leaves position, velocity
and stand of the controller alone. -/
theorem animCommands_quiet (d : Defs) (self : Nat) (anim : TR.Animation) (frameIndex : Int)
    (n : Nat) :
    ∀ (i : Nat) (ptr : Int) (w : World),
      ((animCommands d self anim frameIndex false n i ptr w).controllers self).pos =
        (w.controllers self).pos ∧
      ((animCommands d self anim frameIndex false n i ptr w).controllers self).velocity =
        (w.controllers self).velocity ∧
      ((animCommands d self anim frameIndex false n i ptr w).controllers self).stand =
        (w.controllers self).stand := by
  induction n with
  | zero => intro i ptr w; exact ⟨rfl, rfl, rfl⟩
  | succ n ih =>
    intro i ptr w
    rw [animCommands]
    obtain ⟨h1, h2, h3⟩ := ih (i + 1)
      (animCommand d self anim frameIndex false i ptr w).1
      (animCommand d self anim frameIndex false i ptr w).2
    obtain ⟨g1, g2, g3⟩ := animCommand_quiet d self anim frameIndex i ptr w
    exact ⟨h1.trans g1, h2.trans g2, h3.trans g3⟩

/-- A tick that is not end-of-clip returns and stays on the clip: the clock is
advanced, the tick's frame index is the last processed frame, and the clip and
the tables are the same. -/
theorem updateAnimation_stay_clip (d : Defs) (hk : Nat → Hooks) (self fuel : Nat)
    (commands : Bool) (dt : ℚ) (w : World)
    (hne : tickEnd w.level (w.controllers self) dt = false) :
    ∃ w1, updateAnimation d hk self fuel commands dt w = some w1 ∧
      (w1.controllers self).animTime = fadd (w.controllers self).animTime dt ∧
      (w1.controllers self).animPrevFrame = tickFrame (w.controllers self) dt ∧
      w1.level.anims = w.level.anims ∧ w1.level.commands = w.level.commands ∧
      (w1.controllers self).animIndex = (w.controllers self).animIndex := by
  refine ⟨_, updateAnimation_of_not_end d hk self fuel commands dt w hne, ?_⟩
  obtain ⟨k1, k2, _, _, k5, k6, _⟩ := animPass_keeps d self commands dt w
  simp only [setController, Function.update_same] at k5 k6
  simp only [setController, Function.update_same]
  exact ⟨k6, trivial, k1, k2, k5⟩

/-- The ticks of a run on one clip: when no tick but the last is an end-of-clip
tick, every proper prefix of the run returns, on the same clip and tables, with
the frame index of its last tick as last processed frame; the next tick computes
the next frame index of the run. -/
theorem runTicks_prefix (d : Defs) (hk : Nat → Hooks) (self fuel : Nat) (commands : Bool) :
    ∀ (l : List ℚ) (w : World),
      (∀ f ∈ (tickFrames (w.controllers self).animTime l).dropLast,
        f ≤ (w.level.anims (w.controllers self).animIndex).frameEnd -
          (w.level.anims (w.controllers self).animIndex).frameStart) →
      ∀ j, j < l.length →
        ∃ wb, runTicks d hk self fuel commands (l.take j) w = some wb ∧
          wb.level.anims = w.level.anims ∧ wb.level.commands = w.level.commands ∧
          (wb.controllers self).animIndex = (w.controllers self).animIndex ∧
          (wb.controllers self).animPrevFrame =
            (if j = 0 then (w.controllers self).animPrevFrame
             else (tickFrames (w.controllers self).animTime l).getD (j - 1) 0) ∧
          tickFrame (wb.controllers self) (l.getD j 0) =
            (tickFrames (w.controllers self).animTime l).getD j 0 := by
  intro l
  induction l with
  | nil => intro w _ j hj; simp at hj
  | cons dt rest ih =>
    intro w hstay j hj
    cases j with
    | zero =>
      refine ⟨w, rfl, rfl, rfl, rfl, by simp, ?_⟩
      simp [tickFrames, tickFrame]
    | succ j =>
      have hj' : j < rest.length := by simpa using hj
      obtain ⟨dt2, rest2, hrest⟩ : ∃ a b, rest = a :: b := by
        cases rest with
        | nil => simp at hj'
        | cons a b => exact ⟨a, b, rfl⟩
      have hne : tickEnd w.level (w.controllers self) dt = false := by
        unfold tickEnd
        apply decide_eq_false
        have := hstay (tickFrame (w.controllers self) dt)
          (by rw [hrest]; simp [tickFrames, tickFrame, List.dropLast])
        omega
      obtain ⟨w1, hw1, t1, t2, t3, t4, t5⟩ :=
        updateAnimation_stay_clip d hk self fuel commands dt w hne
      have hstay1 : ∀ f ∈ (tickFrames (w1.controllers self).animTime rest).dropLast,
          f ≤ (w1.level.anims (w1.controllers self).animIndex).frameEnd -
            (w1.level.anims (w1.controllers self).animIndex).frameStart := by
        intro f hf
        rw [t3, t5]
        apply hstay
        rw [t1] at hf
        rw [hrest] at hf ⊢
        simp only [tickFrames, List.dropLast] at hf ⊢
        exact List.mem_cons_of_mem _ hf
      obtain ⟨wb, r1, r2, r3, r4, r5, r6⟩ := ih w1 hstay1 j hj'
      refine ⟨wb, ?_, r2.trans t3, r3.trans t4, r4.trans t5, ?_, ?_⟩
      · simp only [List.take_succ_cons, runTicks, hw1]
        exact r1
      · rw [r5]
        simp only [Nat.succ_ne_zero, if_false, Nat.add_sub_cancel, tickFrames]
        cases j with
        | zero => simp [t2, tickFrame]
        | succ j => simp [t1]
      · rw [List.getD_cons_succ, r6, t1]
        simp [tickFrames]

end Controller

/-- In a non-decreasing list of integers an entry is at most every later one. -/
theorem pairwise_getD_le (fs : List Int) (h : fs.Pairwise (· ≤ ·)) (a b : Nat) (hab : a ≤ b)
    (hb : b < fs.length) : fs.getD a 0 ≤ fs.getD b 0 := by
  rcases Nat.eq_or_lt_of_le hab with rfl | hlt
  · exact le_refl _
  · rw [List.getD_eq_getElem fs 0 hb, List.getD_eq_getElem fs 0 (lt_trans hlt hb)]
    exact List.pairwise_iff_getElem.mp h a b (lt_trans hlt hb) hb hlt

namespace Controller

/-- A pass of the command loop at a SPEED record: at end-of-clip it sets the
velocity from the record and the stand to AIR, otherwise it does nothing. -/
theorem animCommand_speed (d : Defs) (self : Nat) (anim : TR.Animation) (frameIndex : Int)
    (endFrame : Bool) (i : Nat) (ptr : Int) (w : World)
    (hs : w.level.commands ptr = d.ANIM_CMD_SPEED) :
    (animCommand d self anim frameIndex endFrame i ptr w).2 =
      if endFrame = true then
        setController w self
          { w.controllers self with
            velocity := ⟨fmul (d.sinf (w.controllers self).angleExt)
                (w.level.commands (ptr + 1 + 1)),
              w.level.commands (ptr + 1),
              fmul (d.cosf (w.controllers self).angleExt) (w.level.commands (ptr + 1 + 1))⟩
            stand := Stand.STAND_AIR }
      else w := by
  have hl := d.cmdLabels
  simp only [List.nodup_cons, List.mem_cons, List.mem_singleton, not_or] at hl
  obtain ⟨⟨h1, _⟩, _⟩ := hl
  unfold animCommand
  simp only [hs, Ne.symm h1, if_false, if_true]

/-- A pass of the command loop at a SPECIAL record: it runs the record's
operation when the frame index differs from the last processed frame and the
absolute frame is the record's frame, otherwise it does nothing. -/
theorem animCommand_special (d : Defs) (self : Nat) (anim : TR.Animation) (frameIndex : Int)
    (endFrame : Bool) (i : Nat) (ptr : Int) (w : World)
    (hs : w.level.commands ptr = d.ANIM_CMD_SPECIAL) :
    (animCommand d self anim frameIndex endFrame i ptr w).2 =
      if frameIndex ≠ (w.controllers self).animPrevFrame ∧
          frameIndex + anim.frameStart = w.level.commands (ptr + 1) then
        if w.level.commands (ptr + 1 + 1) = d.ANIM_CMD_SPECIAL_FLIP then
          setController w self
            { w.controllers self with
              angle := { (w.controllers self).angle with
                y := fadd (w.controllers self).angle.y d.PI } }
        else if w.level.commands (ptr + 1 + 1) = d.ANIM_CMD_SPECIAL_BUBBLE then
          playSound w d.SND_BUBBLE (some i)
        else w
      else w := by
  have hl := d.cmdLabels
  simp only [List.nodup_cons, List.mem_cons, List.mem_singleton, not_or] at hl
  obtain ⟨⟨_, _, _, _, h1⟩, ⟨_, _, _, h2⟩, ⟨_, _, h3⟩, ⟨_, h4⟩, h5, _⟩ := hl
  unfold animCommand
  simp only [hs, Ne.symm h1.1, Ne.symm h2.1, Ne.symm h3.1, Ne.symm h4.1, Ne.symm h5.1, if_false,
    if_true]

/-- A pass of the command loop at a record that is not MOVE keeps the position. -/
theorem animCommand_pos (d : Defs) (self : Nat) (anim : TR.Animation) (frameIndex : Int)
    (endFrame : Bool) (i : Nat) (ptr : Int) (w : World)
    (hs : w.level.commands ptr ≠ d.ANIM_CMD_MOVE) :
    ((animCommand d self anim frameIndex endFrame i ptr w).2.controllers self).pos =
      (w.controllers self).pos := by
  unfold animCommand
  simp only [hs, if_false]
  split_ifs <;> simp [setController, playSound]

/-- A pass of the command loop at a record that is not SPEED keeps velocity and
stand. -/
theorem animCommand_velocity (d : Defs) (self : Nat) (anim : TR.Animation) (frameIndex : Int)
    (endFrame : Bool) (i : Nat) (ptr : Int) (w : World)
    (hs : w.level.commands ptr ≠ d.ANIM_CMD_SPEED) :
    ((animCommand d self anim frameIndex endFrame i ptr w).2.controllers self).velocity =
      (w.controllers self).velocity ∧
    ((animCommand d self anim frameIndex endFrame i ptr w).2.controllers self).stand =
      (w.controllers self).stand := by
  unfold animCommand
  simp only [hs, if_false]
  split_ifs <;> simp [setController, playSound]

/-- A pass of the command loop at a record that is not SPECIAL keeps the angles. -/
theorem animCommand_angle (d : Defs) (self : Nat) (anim : TR.Animation) (frameIndex : Int)
    (endFrame : Bool) (i : Nat) (ptr : Int) (w : World)
    (hs : w.level.commands ptr ≠ d.ANIM_CMD_SPECIAL) :
    ((animCommand d self anim frameIndex endFrame i ptr w).2.controllers self).angle =
      (w.controllers self).angle := by
  unfold animCommand
  simp only [hs, if_false]
  split_ifs <;> simp [setController, playSound]

/-- A pass of the command loop keeps the auxiliary yaw. -/
theorem animCommand_angleExt (d : Defs) (self : Nat) (anim : TR.Animation) (frameIndex : Int)
    (endFrame : Bool) (i : Nat) (ptr : Int) (w : World) :
    ((animCommand d self anim frameIndex endFrame i ptr w).2.controllers self).angleExt =
      (w.controllers self).angleExt := by
  unfold animCommand
  simp only
  split_ifs <;> simp [setController, playSound]

/-- Before the first pass of the command loop only the clock is advanced. -/
theorem loopState_zero (d : Defs) (self : Nat) (dt : ℚ) (w : World) :
    loopState d self dt w 0 =
      setController w self
        { w.controllers self with animTime := fadd (w.controllers self).animTime dt } := rfl

/-- What every pass of a range of passes keeps is kept by the range. -/
theorem loopState_range {α : Type} (φ : World → α) (d : Defs) (self : Nat) (dt : ℚ) (w : World)
    (a : Nat) :
    ∀ b, a ≤ b →
      (∀ j, a ≤ j → j < b → φ (loopState d self dt w (j + 1)) = φ (loopState d self dt w j)) →
      φ (loopState d self dt w b) = φ (loopState d self dt w a) := by
  intro b
  induction b with
  | zero =>
    intro h _
    have : a = 0 := by omega
    rw [this]
  | succ b ih =>
    intro h hkeep
    rcases Nat.eq_or_lt_of_le h with h1 | h1
    · rw [h1]
    · rw [hkeep b (by omega) (by omega)]
      exact ih (by omega) (fun j h2 h3 => hkeep j h2 (by omega))

/-- The command word of the record with loop index `j` is the same in every
state of the command loop. -/
theorem loopState_commands (d : Defs) (self : Nat) (dt : ℚ) (w : World) (k : Nat) :
    (loopState d self dt w k).level.commands = w.level.commands := by
  obtain ⟨_, k2, _⟩ := loopState_keeps d self dt w k
  simpa [setController] using k2

/-- The pass at a record that is not MOVE keeps the position. -/
theorem loopState_pos (d : Defs) (self : Nat) (dt : ℚ) (w : World) (j : Nat)
    (h : w.level.commands (cmdPtr d w.level.commands
      (w.level.anims (w.controllers self).animIndex).animCommand j) ≠ d.ANIM_CMD_MOVE) :
    ((loopState d self dt w (j + 1)).controllers self).pos =
      ((loopState d self dt w j).controllers self).pos := by
  rw [loopState_succ]
  exact animCommand_pos d self _ _ _ j _ _ (by rw [loopState_commands]; exact h)

/-- The pass at a record that is not SPEED keeps velocity and stand. -/
theorem loopState_velocity (d : Defs) (self : Nat) (dt : ℚ) (w : World) (j : Nat)
    (h : w.level.commands (cmdPtr d w.level.commands
      (w.level.anims (w.controllers self).animIndex).animCommand j) ≠ d.ANIM_CMD_SPEED) :
    ((loopState d self dt w (j + 1)).controllers self).velocity =
      ((loopState d self dt w j).controllers self).velocity ∧
    ((loopState d self dt w (j + 1)).controllers self).stand =
      ((loopState d self dt w j).controllers self).stand := by
  rw [loopState_succ]
  exact animCommand_velocity d self _ _ _ j _ _ (by rw [loopState_commands]; exact h)

/-- The pass at a record that is not SPECIAL keeps the angles. -/
theorem loopState_angle (d : Defs) (self : Nat) (dt : ℚ) (w : World) (j : Nat)
    (h : w.level.commands (cmdPtr d w.level.commands
      (w.level.anims (w.controllers self).animIndex).animCommand j) ≠ d.ANIM_CMD_SPECIAL) :
    ((loopState d self dt w (j + 1)).controllers self).angle =
      ((loopState d self dt w j).controllers self).angle := by
  rw [loopState_succ]
  exact animCommand_angle d self _ _ _ j _ _ (by rw [loopState_commands]; exact h)

/-- The command loop keeps the auxiliary yaw. -/
theorem loopState_angleExt (d : Defs) (self : Nat) (dt : ℚ) (w : World) (k : Nat) :
    ((loopState d self dt w k).controllers self).angleExt = (w.controllers self).angleExt := by
  have h := loopState_range (fun x => (x.controllers self).angleExt) d self dt w 0 k
    (Nat.zero_le k) (fun j _ _ => by
      simp only
      rw [loopState_succ]
      exact animCommand_angleExt d self _ _ _ j _ _)
  simp only at h
  rw [h, loopState_zero]
  simp [setController]

/-- The pass with loop index `j` records no call for another loop index `i`. -/
theorem loopState_site_ne (d : Defs) (self : Nat) (dt : ℚ) (w : World) (i j : Nat)
    (hij : j ≠ i) :
    siteCount i (loopState d self dt w (j + 1)).sounds =
      siteCount i (loopState d self dt w j).sounds := by
  rw [loopState_succ]
  exact animCommand_site_ne d self _ _ _ i j hij _ _

/-- The base `activate` leaves position, velocity, stand and angles alone. -/
theorem keepsBody_activate : KeepsBody activate := by
  intro lv c n
  exact ⟨rfl, rfl, rfl, rfl⟩

/-- The hand-off of `activateNext` keeps position, velocity, stand and angles of
the caller when the caller's own `activate` does. -/
theorem handOff_keepsBody (hk : Nat → Hooks) (self next : Nat) (ctl : Option Nat) (w : World)
    (hact : KeepsBody (hk self).activate) :
    ((handOff hk self next ctl w).controllers self).pos = (w.controllers self).pos ∧
    ((handOff hk self next ctl w).controllers self).velocity = (w.controllers self).velocity ∧
    ((handOff hk self next ctl w).controllers self).stand = (w.controllers self).stand ∧
    ((handOff hk self next ctl w).controllers self).angle = (w.controllers self).angle := by
  unfold handOff
  cases ctl with
  | none => simp [setActionCommand, setController]
  | some t =>
    simp only
    by_cases hts : t = self
    · subst hts
      have := hact w.level (w.controllers t) next
      split_ifs <;> simp [setActionCommand, setController, this]
    · have hst : self ≠ t := fun h => hts h.symm
      split_ifs <;> simp [setActionCommand, setController, Function.update_noteq hst]

/-- A call of `activateNext` keeps position, velocity, stand and angles of the
caller, when the caller's own `activate` does. -/
theorem activateNext_keepsBody (d : Defs) (hk : Nat → Hooks) (self : Nat)
    (hact : KeepsBody (hk self).activate) (fuel : Nat) :
    ∀ (w w' : World), activateNext d hk self fuel w = some w' →
      (w'.controllers self).pos = (w.controllers self).pos ∧
      (w'.controllers self).velocity = (w.controllers self).velocity ∧
      (w'.controllers self).stand = (w.controllers self).stand ∧
      (w'.controllers self).angle = (w.controllers self).angle := by
  induction fuel with
  | zero => intro w w' h; simp [activateNext] at h
  | succ fuel ih =>
    intro w w' h
    cases ha : (w.controllers self).actionCommand with
    | none =>
      rw [activateNext] at h
      simp only [ha] at h
      cases h
      simp [setActionCommand, setController]
    | some a =>
      cases hn : (w.cmds a).next with
      | none =>
        rw [activateNext] at h
        simp only [ha, hn] at h
        cases h
        simp [setActionCommand, setController]
      | some n =>
        by_cases hs : (w.cmds n).action = TR.Action.SECRET
        · rw [activateNext_secret_step d hk self fuel w a n ha hn hs] at h
          obtain ⟨h1, h2, h3, h4⟩ := ih _ _ h
          rw [h1, h2, h3, h4]
          unfold secretLink
          split_ifs <;>
            simp [setActionCommand, setController, playSound, TR.Level.setSecret]
        · rw [activateNext_other_step d hk self fuel w a n ha hn hs] at h
          cases h
          exact handOff_keepsBody hk self n _ w hact

/-- What `updateAnimation(true)` returns has position, velocity, stand and angles
of the controller as the command loop leaves them after the clip's `acCount`
passes, when the controller's own `activate` leaves them alone. -/
theorem updateAnimation_body (d : Defs) (hk : Nat → Hooks) (self fuel : Nat) (dt : ℚ)
    (w w1 : World) (hact : KeepsBody (hk self).activate)
    (h : updateAnimation d hk self fuel true dt w = some w1) :
    (w1.controllers self).pos =
      ((loopState d self dt w
        (w.level.anims (w.controllers self).animIndex).acCount.toNat).controllers self).pos ∧
    (w1.controllers self).velocity =
      ((loopState d self dt w
        (w.level.anims (w.controllers self).animIndex).acCount.toNat).controllers
          self).velocity ∧
    (w1.controllers self).stand =
      ((loopState d self dt w
        (w.level.anims (w.controllers self).animIndex).acCount.toNat).controllers self).stand ∧
    (w1.controllers self).angle =
      ((loopState d self dt w
        (w.level.anims (w.controllers self).animIndex).acCount.toNat).controllers self).angle := by
  rw [← animPass_eq_loopState]
  by_cases hend : tickEnd w.level (w.controllers self) dt = true
  · rw [updateAnimation_of_end d hk self fuel true dt w hend] at h
    obtain ⟨h1, h2, h3, h4⟩ := activateNext_keepsBody d hk self hact fuel _ _ h
    rw [h1, h2, h3, h4]
    simp [setController, setAnimation]
  · have hne : tickEnd w.level (w.controllers self) dt = false := by simpa using hend
    rw [updateAnimation_of_not_end d hk self fuel true dt w hne] at h
    cases h
    simp [setController]

/-- The pass at a SPEED record on an end-of-clip tick. -/
theorem loopState_speed (d : Defs) (self : Nat) (dt : ℚ) (w : World) (k : Nat)
    (hend : tickEnd w.level (w.controllers self) dt = true)
    (hs : w.level.commands (cmdPtr d w.level.commands
      (w.level.anims (w.controllers self).animIndex).animCommand k) = d.ANIM_CMD_SPEED) :
    ((loopState d self dt w (k + 1)).controllers self).velocity =
      ⟨fmul (d.sinf (w.controllers self).angleExt)
          (w.level.commands (cmdPtr d w.level.commands
            (w.level.anims (w.controllers self).animIndex).animCommand k + 1 + 1)),
        w.level.commands (cmdPtr d w.level.commands
          (w.level.anims (w.controllers self).animIndex).animCommand k + 1),
        fmul (d.cosf (w.controllers self).angleExt)
          (w.level.commands (cmdPtr d w.level.commands
            (w.level.anims (w.controllers self).animIndex).animCommand k + 1 + 1))⟩ ∧
    ((loopState d self dt w (k + 1)).controllers self).stand = Stand.STAND_AIR ∧
    ((loopState d self dt w (k + 1)).controllers self).pos =
      ((loopState d self dt w k).controllers self).pos := by
  have k2 := loopState_commands d self dt w k
  rw [loopState_succ,
    animCommand_speed d self _ _ _ k _ (loopState d self dt w k) (by rw [k2]; exact hs)]
  simp only [hend, if_true, k2, loopState_angleExt, setController, Function.update_same]
  exact ⟨trivial, trivial, trivial⟩

/-- The pass at a MOVE record on an end-of-clip tick. -/
theorem loopState_move (d : Defs) (self : Nat) (dt : ℚ) (w : World) (k : Nat)
    (hend : tickEnd w.level (w.controllers self) dt = true)
    (hs : w.level.commands (cmdPtr d w.level.commands
      (w.level.anims (w.controllers self).animIndex).animCommand k) = d.ANIM_CMD_MOVE) :
    ((loopState d self dt w (k + 1)).controllers self).pos =
      ((loopState d self dt w k).controllers self).pos.add
        (d.rotateY
          ⟨w.level.commands (cmdPtr d w.level.commands
              (w.level.anims (w.controllers self).animIndex).animCommand k + 1),
            w.level.commands (cmdPtr d w.level.commands
              (w.level.anims (w.controllers self).animIndex).animCommand k + 1 + 1),
            w.level.commands (cmdPtr d w.level.commands
              (w.level.anims (w.controllers self).animIndex).animCommand k + 1 + 2)⟩
          ((loopState d self dt w k).controllers self).angle.y) ∧
    ((loopState d self dt w (k + 1)).controllers self).velocity =
      ((loopState d self dt w k).controllers self).velocity ∧
    ((loopState d self dt w (k + 1)).controllers self).stand =
      ((loopState d self dt w k).controllers self).stand := by
  have k2 := loopState_commands d self dt w k
  rw [loopState_succ,
    animCommand_move d self _ _ _ k _ (loopState d self dt w k) (by rw [k2]; exact hs)]
  simp only [hend, if_true, k2, setController, Function.update_same]
  exact ⟨trivial, trivial, trivial⟩

/-- C18: MOVE and SPEED act only at end-of-clip. A tick of `updateAnimation(true)`
of a controller whose chain ends and whose own `activate` leaves position,
velocity, stand and angles alone returns, with these fields as the command loop
leaves them after the clip's `acCount` passes, the first pass starting from the
state with only the clock advanced. On a tick that is not end-of-clip position,
velocity, stand, clip index and state of the returned controller are as before,
whatever records the command stream holds. On an end-of-clip tick the pass at a
record SPEED(vy, vz) sets the velocity to (sin(angleExt) * vz, vy,
cos(angleExt) * vz) and the stand to AIR, and the pass at a record MOVE adds the
record's vector rotated by the yaw to the position; so the returned controller
has the velocity and stand of the clip's last SPEED record, and with a single
MOVE record that no SPECIAL record precedes its position is the old one plus the
rotated vector. -/
theorem updateAnimation_move_speed (d : Defs) (hk : Nat → Hooks) (self n : Nat) (dt : ℚ)
    (w : World) (hact : KeepsBody (hk self).activate)
    (hfin : chainEnds w.cmds n (w.controllers self).actionCommand = true) :
    ∃ w1, updateAnimation d hk self (n + 1) true dt w = some w1 ∧
      ((w1.controllers self).pos =
          ((loopState d self dt w
            (w.level.anims (w.controllers self).animIndex).acCount.toNat).controllers self).pos ∧
        (w1.controllers self).velocity =
          ((loopState d self dt w
            (w.level.anims (w.controllers self).animIndex).acCount.toNat).controllers
              self).velocity ∧
        (w1.controllers self).stand =
          ((loopState d self dt w
            (w.level.anims (w.controllers self).animIndex).acCount.toNat).controllers
              self).stand ∧
        loopState d self dt w 0 =
          setController w self
            { w.controllers self with animTime := fadd (w.controllers self).animTime dt }) ∧
      (tickEnd w.level (w.controllers self) dt = false →
        (w1.controllers self).pos = (w.controllers self).pos ∧
        (w1.controllers self).velocity = (w.controllers self).velocity ∧
        (w1.controllers self).stand = (w.controllers self).stand ∧
        (w1.controllers self).animIndex = (w.controllers self).animIndex ∧
        (w1.controllers self).state = (w.controllers self).state) ∧
      (tickEnd w.level (w.controllers self) dt = true →
        (∀ k, k < (w.level.anims (w.controllers self).animIndex).acCount.toNat →
          (w.level.commands (cmdPtr d w.level.commands
              (w.level.anims (w.controllers self).animIndex).animCommand k) =
              d.ANIM_CMD_SPEED →
            ((loopState d self dt w (k + 1)).controllers self).velocity =
              ⟨fmul (d.sinf (w.controllers self).angleExt)
                  (w.level.commands (cmdPtr d w.level.commands
                    (w.level.anims (w.controllers self).animIndex).animCommand k + 1 + 1)),
                w.level.commands (cmdPtr d w.level.commands
                  (w.level.anims (w.controllers self).animIndex).animCommand k + 1),
                fmul (d.cosf (w.controllers self).angleExt)
                  (w.level.commands (cmdPtr d w.level.commands
                    (w.level.anims (w.controllers self).animIndex).animCommand k + 1 + 1))⟩ ∧
            ((loopState d self dt w (k + 1)).controllers self).stand = Stand.STAND_AIR ∧
            ((loopState d self dt w (k + 1)).controllers self).pos =
              ((loopState d self dt w k).controllers self).pos ∧
            ((∀ j, k < j → j < (w.level.anims (w.controllers self).animIndex).acCount.toNat →
                w.level.commands (cmdPtr d w.level.commands
                  (w.level.anims (w.controllers self).animIndex).animCommand j) ≠
                  d.ANIM_CMD_SPEED) →
              (w1.controllers self).velocity =
                ⟨fmul (d.sinf (w.controllers self).angleExt)
                    (w.level.commands (cmdPtr d w.level.commands
                      (w.level.anims (w.controllers self).animIndex).animCommand k + 1 + 1)),
                  w.level.commands (cmdPtr d w.level.commands
                    (w.level.anims (w.controllers self).animIndex).animCommand k + 1),
                  fmul (d.cosf (w.controllers self).angleExt)
                    (w.level.commands (cmdPtr d w.level.commands
                      (w.level.anims (w.controllers self).animIndex).animCommand k + 1 + 1))⟩ ∧
              (w1.controllers self).stand = Stand.STAND_AIR)) ∧
          (w.level.commands (cmdPtr d w.level.commands
              (w.level.anims (w.controllers self).animIndex).animCommand k) =
              d.ANIM_CMD_MOVE →
            ((loopState d self dt w (k + 1)).controllers self).pos =
              ((loopState d self dt w k).controllers self).pos.add
                (d.rotateY
                  ⟨w.level.commands (cmdPtr d w.level.commands
                      (w.level.anims (w.controllers self).animIndex).animCommand k + 1),
                    w.level.commands (cmdPtr d w.level.commands
                      (w.level.anims (w.controllers self).animIndex).animCommand k + 1 + 1),
                    w.level.commands (cmdPtr d w.level.commands
                      (w.level.anims (w.controllers self).animIndex).animCommand k + 1 + 2)⟩
                  ((loopState d self dt w k).controllers self).angle.y) ∧
            ((loopState d self dt w (k + 1)).controllers self).velocity =
              ((loopState d self dt w k).controllers self).velocity ∧
            ((loopState d self dt w (k + 1)).controllers self).stand =
              ((loopState d self dt w k).controllers self).stand ∧
            ((∀ j, j < (w.level.anims (w.controllers self).animIndex).acCount.toNat → j ≠ k →
                w.level.commands (cmdPtr d w.level.commands
                  (w.level.anims (w.controllers self).animIndex).animCommand j) ≠
                  d.ANIM_CMD_MOVE) →
              (∀ j, j < k →
                w.level.commands (cmdPtr d w.level.commands
                  (w.level.anims (w.controllers self).animIndex).animCommand j) ≠
                  d.ANIM_CMD_SPECIAL) →
              (w1.controllers self).pos =
                (w.controllers self).pos.add
                  (d.rotateY
                    ⟨w.level.commands (cmdPtr d w.level.commands
                        (w.level.anims (w.controllers self).animIndex).animCommand k + 1),
                      w.level.commands (cmdPtr d w.level.commands
                        (w.level.anims (w.controllers self).animIndex).animCommand k + 1 + 1),
                      w.level.commands (cmdPtr d w.level.commands
                        (w.level.anims (w.controllers self).animIndex).animCommand k + 1 + 2)⟩
                    (w.controllers self).angle.y))))) := by
  obtain ⟨w1, hw1⟩ := updateAnimation_returns d hk self n true dt w hfin
  obtain ⟨b1, b2, b3, _⟩ := updateAnimation_body d hk self (n + 1) dt w w1 hact hw1
  refine ⟨w1, hw1, ⟨b1, b2, b3, rfl⟩, ?_, ?_⟩
  · intro hne
    have hw := hw1
    rw [updateAnimation_of_not_end d hk self (n + 1) true dt w hne] at hw
    cases hw
    obtain ⟨_, _, _, _, k5, _, _, k8, _⟩ := animPass_keeps d self true dt w
    simp only [setController, Function.update_same] at k5 k8
    have hq := animCommands_quiet d self (w.level.anims (w.controllers self).animIndex)
      (tickFrame (w.controllers self) dt)
      (w.level.anims (w.controllers self).animIndex).acCount.toNat 0
      (w.level.anims (w.controllers self).animIndex).animCommand
      (setController w self
        { w.controllers self with animTime := fadd (w.controllers self).animTime dt })
    have hp : animPass d self true dt w =
        animCommands d self (w.level.anims (w.controllers self).animIndex)
          (tickFrame (w.controllers self) dt) false
          (w.level.anims (w.controllers self).animIndex).acCount.toNat 0
          (w.level.anims (w.controllers self).animIndex).animCommand
          (setController w self
            { w.controllers self with animTime := fadd (w.controllers self).animTime dt }) := by
      unfold tickEnd at hne
      simp only [animPass, setController, Function.update_same, if_true]
      unfold tickFrame at hne ⊢
      rw [hne]
    rw [← hp] at hq
    simp only [setController, Function.update_same] at hq ⊢
    exact ⟨hq.1, hq.2.1, hq.2.2, k5, k8⟩
  · intro hend k hk1
    constructor
    · intro hs
      obtain ⟨e1, e2, e3⟩ := loopState_speed d self dt w k hend hs
      refine ⟨e1, e2, e3, ?_⟩
      intro hlast
      have r1 := loopState_range (fun x => (x.controllers self).velocity) d self dt w (k + 1)
        (w.level.anims (w.controllers self).animIndex).acCount.toNat (by omega)
        (fun j h1 h2 => (loopState_velocity d self dt w j (hlast j (by omega) h2)).1)
      have r2 := loopState_range (fun x => (x.controllers self).stand) d self dt w (k + 1)
        (w.level.anims (w.controllers self).animIndex).acCount.toNat (by omega)
        (fun j h1 h2 => (loopState_velocity d self dt w j (hlast j (by omega) h2)).2)
      simp only at r1 r2
      rw [b2, b3, r1, r2]
      exact ⟨e1, e2⟩
    · intro hs
      obtain ⟨e1, e2, e3⟩ := loopState_move d self dt w k hend hs
      refine ⟨e1, e2, e3, ?_⟩
      intro honly hnospecial
      have r1 := loopState_range (fun x => (x.controllers self).pos) d self dt w (k + 1)
        (w.level.anims (w.controllers self).animIndex).acCount.toNat (by omega)
        (fun j h1 h2 => loopState_pos d self dt w j (honly j h2 (by omega)))
      have r0 := loopState_range (fun x => (x.controllers self).pos) d self dt w 0 k
        (Nat.zero_le k)
        (fun j h1 h2 => loopState_pos d self dt w j (honly j (by omega) (by omega)))
      have a0 := loopState_range (fun x => (x.controllers self).angle) d self dt w 0 k
        (Nat.zero_le k)
        (fun j h1 h2 => loopState_angle d self dt w j (hnospecial j h2))
      simp only at r1 r0 a0
      rw [b1, r1, e1, r0, a0, loopState_zero]
      simp only [setController, Function.update_same]

end Controller

/-- A tick of 1/30 s from clock 0 computes the frame index 1. -/
theorem tickFrame_first (c : Controller) (h : c.animTime = 0) :
    Controller.tickFrame c (1 / 30) = 1 := by
  unfold Controller.tickFrame
  rw [h]
  rw [show fadd 0 (1 / 30) = 8947849 / 268435456 from
    fadd_eval 0 (1 / 30) (-5) 8947849 (8947849 / 268435456) (by norm_num) (by norm_num)
      (by norm_num) (by norm_num) (by norm_num) (by norm_num)]
  rw [show fmul (8947849 / 268435456) 30 = 1 from
    fmul_eval (8947849 / 268435456) 30 0 8388608 1 (by norm_num) (by norm_num) (by norm_num)
      (by norm_num) (by norm_num) (by norm_num)]
  exact truncToInt_eval 1 1 (by norm_num) (by norm_num) (by norm_num)

/-- C18 on `jumpWorld`: a tick of 1/30 s computes frame index 1 on the single
frame clip, an end-of-clip tick; `updateAnimation(true)` returns a controller
with the velocity (0, -30, 10) and the stand AIR of the record SPEED(-30, 10),
moved from the origin to (1, 2, 3) by the record MOVE(1, 2, 3) at yaw 0. -/
theorem updateAnimation_move_speed_witness :
    ∃ w1, Controller.updateAnimation Defs.sample baseHooks 0 1 true (1 / 30) jumpWorld =
        some w1 ∧
      Controller.tickEnd jumpWorld.level (jumpWorld.controllers 0) (1 / 30) = true ∧
      (w1.controllers 0).velocity = ⟨0, -30, 10⟩ ∧
      (w1.controllers 0).stand = Stand.STAND_AIR ∧
      (w1.controllers 0).pos = ⟨1, 2, 3⟩ := by
  obtain ⟨w1, h1, _, _, h4⟩ := Controller.updateAnimation_move_speed Defs.sample baseHooks 0 0
    (1 / 30) jumpWorld Controller.keepsBody_activate
    (by simp [jumpWorld, World.blank, Controller.blank, Controller.chainEnds])
  have hend : Controller.tickEnd jumpWorld.level (jumpWorld.controllers 0) (1 / 30) = true := by
    unfold Controller.tickEnd
    rw [tickFrame_first _ (by simp [jumpWorld, World.blank, Controller.blank])]
    simp [jumpWorld, World.blank, Controller.blank]
  have c0 : jumpWorld.level.commands (Controller.cmdPtr Defs.sample jumpWorld.level.commands
      (jumpWorld.level.anims (jumpWorld.controllers 0).animIndex).animCommand 0) = 2 := by
    simp [jumpWorld, Controller.cmdPtr]
  have p1 : Controller.cmdPtr Defs.sample jumpWorld.level.commands
      (jumpWorld.level.anims (jumpWorld.controllers 0).animIndex).animCommand 1 = 3 := by
    simp [jumpWorld, Controller.cmdPtr, Controller.nextPtr, Defs.sample]
  have p0 : Controller.cmdPtr Defs.sample jumpWorld.level.commands
      (jumpWorld.level.anims (jumpWorld.controllers 0).animIndex).animCommand 0 = 0 := by
    simp [jumpWorld, Controller.cmdPtr]
  have hn : (jumpWorld.level.anims (jumpWorld.controllers 0).animIndex).acCount.toNat = 2 := by
    simp [jumpWorld]
  have hS := ((h4 hend 0 (by rw [hn]; decide)).1 (by rw [c0]; rfl)).2.2.2 (by
    intro j hj1 hj2
    have : j = 1 := by omega
    subst this
    rw [p1]
    simp [jumpWorld, Defs.sample])
  have hM := ((h4 hend 1 (by rw [hn]; decide)).2 (by rw [p1]; simp [jumpWorld, Defs.sample])).2.2.2
    (by
      intro j hj1 hj2
      have : j = 0 := by omega
      subst this
      rw [c0]
      simp [Defs.sample])
    (by
      intro j hj
      have : j = 0 := by omega
      subst this
      rw [c0]
      simp [Defs.sample])
  refine ⟨w1, h1, hend, ?_, hS.2, ?_⟩
  · rw [hS.1, p0]
    have e1 : fmul 1 10 = 10 :=
      fmul_eval 1 10 3 10485760 10 (by norm_num) (by norm_num) (by norm_num) (by norm_num)
        (by norm_num) (by norm_num)
    simp [jumpWorld, World.blank, Controller.blank, Defs.sample, fmul_zero_left, e1]
  · rw [hM, p1]
    have e1 : fadd 0 1 = 1 :=
      fadd_eval 0 1 0 8388608 1 (by norm_num) (by norm_num) (by norm_num) (by norm_num)
        (by norm_num) (by norm_num)
    have e2 : fadd 0 2 = 2 :=
      fadd_eval 0 2 1 8388608 2 (by norm_num) (by norm_num) (by norm_num) (by norm_num)
        (by norm_num) (by norm_num)
    have e3 : fadd 0 3 = 3 :=
      fadd_eval 0 3 1 12582912 3 (by norm_num) (by norm_num) (by norm_num) (by norm_num)
        (by norm_num) (by norm_num)
    simp [jumpWorld, World.blank, Controller.blank, Defs.sample, vec3.add, e1, e2, e3]

namespace Controller

/-- The pass of the command loop at a SPECIAL record of frame `F` runs the
record's operation exactly when the test of the record holds on that tick. -/
theorem loopState_special (d : Defs) (self : Nat) (dt : ℚ) (w : World) (i : Nat) (F op : Int)
    (hrec : SpecialRecord d self w i F op) :
    loopState d self dt w (i + 1) =
      if specialHit w.level (w.controllers self) dt F = true then
        if op = d.ANIM_CMD_SPECIAL_FLIP then
          setController (loopState d self dt w i) self
            { (loopState d self dt w i).controllers self with
              angle := { ((loopState d self dt w i).controllers self).angle with
                y := fadd ((loopState d self dt w i).controllers self).angle.y d.PI } }
        else if op = d.ANIM_CMD_SPECIAL_BUBBLE then
          playSound (loopState d self dt w i) d.SND_BUBBLE (some i)
        else loopState d self dt w i
      else loopState d self dt w i := by
  obtain ⟨_, h2, h3, h4⟩ := hrec
  obtain ⟨_, k2, _, _, _, _, k7, _⟩ := loopState_keeps d self dt w i
  simp only [setController, Function.update_same] at k2 k7
  rw [loopState_succ,
    animCommand_special d self _ _ _ i _ (loopState d self dt w i) (by rw [k2]; exact h2)]
  simp only [k2, k7, h3, h4, specialHit, decide_eq_true_eq]

/-- The calls that the command loop records for a SPECIAL record with loop index
`i`: one call when the test of the record holds and the operation is BUBBLE,
none otherwise. -/
theorem loopState_special_site (d : Defs) (self : Nat) (dt : ℚ) (w : World) (i : Nat)
    (F op : Int) (hrec : SpecialRecord d self w i F op) :
    siteCount i (loopState d self dt w
        (w.level.anims (w.controllers self).animIndex).acCount.toNat).sounds =
      siteCount i w.sounds +
        (if specialHit w.level (w.controllers self) dt F = true ∧
            op = d.ANIM_CMD_SPECIAL_BUBBLE then 1 else 0) := by
  have hi := hrec.1
  have r1 := loopState_range (fun x => siteCount i x.sounds) d self dt w (i + 1)
    (w.level.anims (w.controllers self).animIndex).acCount.toNat (by omega)
    (fun j h1 _ => loopState_site_ne d self dt w i j (by omega))
  have r0 := loopState_range (fun x => siteCount i x.sounds) d self dt w 0 i (Nat.zero_le i)
    (fun j _ h2 => loopState_site_ne d self dt w i j (by omega))
  simp only at r1 r0
  have hl := d.specialLabels
  simp only [List.nodup_cons, List.mem_cons, List.mem_singleton, not_or] at hl
  have hfb : d.ANIM_CMD_SPECIAL_FLIP ≠ d.ANIM_CMD_SPECIAL_BUBBLE := hl.1.1
  have h0 : siteCount i (loopState d self dt w 0).sounds = siteCount i w.sounds := rfl
  have hp : siteCount i (playSound (loopState d self dt w i) d.SND_BUBBLE (some i)).sounds =
      siteCount i (loopState d self dt w i).sounds + 1 := by
    simp [playSound, siteCount, List.countP_append]
  rw [r1, loopState_special d self dt w i F op hrec]
  by_cases hh : specialHit w.level (w.controllers self) dt F = true
  · by_cases hf : op = d.ANIM_CMD_SPECIAL_FLIP
    · have hnb : ¬ op = d.ANIM_CMD_SPECIAL_BUBBLE := fun h => hfb (hf.symm.trans h)
      rw [if_pos hh, if_pos hf, if_neg (fun h => hnb h.2)]
      show siteCount i (loopState d self dt w i).sounds = _
      rw [r0, h0, Nat.add_zero]
    · by_cases hb : op = d.ANIM_CMD_SPECIAL_BUBBLE
      · rw [if_pos hh, if_neg hf, if_pos hb, if_pos ⟨hh, hb⟩, hp, r0, h0]
      · rw [if_pos hh, if_neg hf, if_neg hb, if_neg (fun h => hb h.2), r0, h0, Nat.add_zero]
  · rw [if_neg hh, if_neg (fun h => hh h.1), r0, h0, Nat.add_zero]

/-- The angles that the command loop leaves when the SPECIAL record with loop
index `i` is the only SPECIAL record of the clip: the yaw is increased by `PI`
when the test of the record holds and the operation is FLIP. -/
theorem loopState_special_angle (d : Defs) (self : Nat) (dt : ℚ) (w : World) (i : Nat)
    (F op : Int) (hrec : SpecialRecord d self w i F op)
    (honly : ∀ j, j < (w.level.anims (w.controllers self).animIndex).acCount.toNat → j ≠ i →
      w.level.commands (cmdPtr d w.level.commands
        (w.level.anims (w.controllers self).animIndex).animCommand j) ≠ d.ANIM_CMD_SPECIAL) :
    ((loopState d self dt w
        (w.level.anims (w.controllers self).animIndex).acCount.toNat).controllers self).angle =
      if specialHit w.level (w.controllers self) dt F = true ∧ op = d.ANIM_CMD_SPECIAL_FLIP then
        { (w.controllers self).angle with y := fadd (w.controllers self).angle.y d.PI }
      else (w.controllers self).angle := by
  have hi := hrec.1
  have r1 := loopState_range (fun x => (x.controllers self).angle) d self dt w (i + 1)
    (w.level.anims (w.controllers self).animIndex).acCount.toNat (by omega)
    (fun j h1 h2 => loopState_angle d self dt w j (honly j h2 (by omega)))
  have r0 := loopState_range (fun x => (x.controllers self).angle) d self dt w 0 i
    (Nat.zero_le i)
    (fun j _ h2 => loopState_angle d self dt w j (honly j (by omega) (by omega)))
  simp only at r1 r0
  have h0 : ((loopState d self dt w 0).controllers self).angle = (w.controllers self).angle := by
    rw [loopState_zero]; simp [setController]
  rw [r1, loopState_special d self dt w i F op hrec]
  by_cases hh : specialHit w.level (w.controllers self) dt F = true
  · by_cases hf : op = d.ANIM_CMD_SPECIAL_FLIP
    · simp only [hh, hf, if_true, and_self, setController, Function.update_same]
      rw [r0, h0]
    · simp only [hh, hf, if_true, if_false, and_false]
      split_ifs
      · simp only [playSound]; rw [r0, h0]
      · rw [r0, h0]
  · simp only [hh, if_false, false_and, Bool.false_eq_true]
    rw [r0, h0]

/-- What one `updateAnimation(true)` tick records for loop index `i` is what its
command loop records. -/
theorem updateAnimation_site (d : Defs) (hk : Nat → Hooks) (self fuel : Nat) (dt : ℚ)
    (w w1 : World) (i : Nat) (h : updateAnimation d hk self fuel true dt w = some w1) :
    siteCount i w1.sounds =
      siteCount i (loopState d self dt w
        (w.level.anims (w.controllers self).animIndex).acCount.toNat).sounds := by
  rw [← animPass_eq_loopState]
  by_cases hend : tickEnd w.level (w.controllers self) dt = true
  · rw [updateAnimation_of_end d hk self fuel true dt w hend] at h
    rw [activateNext_siteCount d hk self i fuel _ _ h]
    rfl
  · have hne : tickEnd w.level (w.controllers self) dt = false := by simpa using hend
    rw [updateAnimation_of_not_end d hk self fuel true dt w hne] at h
    cases h
    rfl

/-- The ticks of a run on one clip keep the action commands and the chain cursor
of the controller: when no tick but the last is an end-of-clip tick, every proper
prefix of the run returns with both as before. -/
theorem runTicks_prefix_chain (d : Defs) (hk : Nat → Hooks) (self fuel : Nat)
    (commands : Bool) :
    ∀ (l : List ℚ) (w : World),
      (∀ f ∈ (tickFrames (w.controllers self).animTime l).dropLast,
        f ≤ (w.level.anims (w.controllers self).animIndex).frameEnd -
          (w.level.anims (w.controllers self).animIndex).frameStart) →
      ∀ j, j < l.length →
        ∃ wb, runTicks d hk self fuel commands (l.take j) w = some wb ∧
          wb.cmds = w.cmds ∧
          (wb.controllers self).actionCommand = (w.controllers self).actionCommand := by
  intro l
  induction l with
  | nil => intro w _ j hj; simp at hj
  | cons dt rest ih =>
    intro w hstay j hj
    cases j with
    | zero => exact ⟨w, rfl, rfl, rfl⟩
    | succ j =>
      have hj' : j < rest.length := by simpa using hj
      obtain ⟨dt2, rest2, hrest⟩ : ∃ a b, rest = a :: b := by
        cases rest with
        | nil => simp at hj'
        | cons a b => exact ⟨a, b, rfl⟩
      have hne : tickEnd w.level (w.controllers self) dt = false := by
        unfold tickEnd
        apply decide_eq_false
        have := hstay (tickFrame (w.controllers self) dt)
          (by rw [hrest]; simp [tickFrames, tickFrame, List.dropLast])
        omega
      obtain ⟨w1, hw1, t1, t2, t3, t4, t5⟩ :=
        updateAnimation_stay_clip d hk self fuel commands dt w hne
      have hw1' := hw1
      rw [updateAnimation_of_not_end d hk self fuel commands dt w hne] at hw1'
      obtain ⟨_, p2, _, _, _, p6⟩ := animPass_cursor d self commands dt w
      have c1 : w1.cmds = w.cmds := by
        cases hw1'; simp only [setController]; exact p2
      have c2 : (w1.controllers self).actionCommand = (w.controllers self).actionCommand := by
        cases hw1'; simp only [setController, Function.update_same]; exact p6
      have hstay1 : ∀ f ∈ (tickFrames (w1.controllers self).animTime rest).dropLast,
          f ≤ (w1.level.anims (w1.controllers self).animIndex).frameEnd -
            (w1.level.anims (w1.controllers self).animIndex).frameStart := by
        intro f hf
        rw [t3, t5]
        apply hstay
        rw [t1] at hf
        rw [hrest] at hf ⊢
        simp only [tickFrames, List.dropLast] at hf ⊢
        exact List.mem_cons_of_mem _ hf
      obtain ⟨wb, r1, r2, r3⟩ := ih w1 hstay1 j hj'
      refine ⟨wb, ?_, r2.trans c1, r3.trans c2⟩
      simp only [List.take_succ_cons, runTicks, hw1]
      exact r1

/-- C19: SPECIAL executes only on an exact, fresh frame hit. Take a run of
`updateAnimation(true)` ticks on one clip whose command `i` is a record
SPECIAL(F, op), with non-decreasing frame indices and no end-of-clip tick but
possibly the last, of a controller whose chain ends and whose own `activate`
leaves position, velocity, stand and angles alone. Every tick of the run returns,
with the record still in place; the record executes on the tick exactly when the
tick's frame index plus `frameStart` is `F` and the frame index differs from the
last processed frame. The state the tick returns has one more recorded sound call
of the record exactly when the record executes and `op` is BUBBLE, and, the
record being the only SPECIAL record of the clip, its angles are the old ones
with `PI` added to the yaw when the record executes and `op` is FLIP, and the old
ones otherwise. In the command loop the pass at the record changes nothing when
the record does not execute, FLIP adds `PI` to the yaw and changes nothing else,
and any other operation leaves every controller and the level as they are. The
record executes on at most one tick of the run, and on none when no frame index
of the run is `F - frameStart`. -/
theorem updateAnimation_special_once (d : Defs) (hk : Nat → Hooks) (self n i : Nat)
    (F op : Int) (l : List ℚ) (w : World) (hrec : SpecialRecord d self w i F op)
    (hmono : (tickFrames (w.controllers self).animTime l).Pairwise (· ≤ ·))
    (hstay : ∀ f ∈ (tickFrames (w.controllers self).animTime l).dropLast,
      f ≤ (w.level.anims (w.controllers self).animIndex).frameEnd -
        (w.level.anims (w.controllers self).animIndex).frameStart)
    (hact : KeepsBody (hk self).activate)
    (hfin : chainEnds w.cmds n (w.controllers self).actionCommand = true) :
    (∀ j, j < l.length →
      ∃ wb wa, runTicks d hk self (n + 1) true (l.take j) w = some wb ∧
        updateAnimation d hk self (n + 1) true (l.getD j 0) wb = some wa ∧
        runTicks d hk self (n + 1) true (l.take (j + 1)) w = some wa ∧
        SpecialRecord d self wb i F op ∧
        specialHit wb.level (wb.controllers self) (l.getD j 0) F =
          decide ((tickFrames (w.controllers self).animTime l).getD j 0 ≠
              (if j = 0 then (w.controllers self).animPrevFrame
               else (tickFrames (w.controllers self).animTime l).getD (j - 1) 0) ∧
            (tickFrames (w.controllers self).animTime l).getD j 0 +
              (w.level.anims (w.controllers self).animIndex).frameStart = F) ∧
        siteCount i wa.sounds =
          siteCount i wb.sounds +
            (if specialHit wb.level (wb.controllers self) (l.getD j 0) F = true ∧
                op = d.ANIM_CMD_SPECIAL_BUBBLE then 1 else 0) ∧
        ((∀ k, k < (wb.level.anims (wb.controllers self).animIndex).acCount.toNat → k ≠ i →
            wb.level.commands (cmdPtr d wb.level.commands
              (wb.level.anims (wb.controllers self).animIndex).animCommand k) ≠
              d.ANIM_CMD_SPECIAL) →
          (wa.controllers self).angle =
            if specialHit wb.level (wb.controllers self) (l.getD j 0) F = true ∧
                op = d.ANIM_CMD_SPECIAL_FLIP then
              { (wb.controllers self).angle with y := fadd (wb.controllers self).angle.y d.PI }
            else (wb.controllers self).angle) ∧
        (specialHit wb.level (wb.controllers self) (l.getD j 0) F = false →
          loopState d self (l.getD j 0) wb (i + 1) = loopState d self (l.getD j 0) wb i) ∧
        (specialHit wb.level (wb.controllers self) (l.getD j 0) F = true →
          op = d.ANIM_CMD_SPECIAL_FLIP →
          loopState d self (l.getD j 0) wb (i + 1) =
            setController (loopState d self (l.getD j 0) wb i) self
              { (loopState d self (l.getD j 0) wb i).controllers self with
                angle := { ((loopState d self (l.getD j 0) wb i).controllers self).angle with
                  y := fadd ((loopState d self (l.getD j 0) wb i).controllers self).angle.y
                    d.PI } }) ∧
        (specialHit wb.level (wb.controllers self) (l.getD j 0) F = true →
          op ≠ d.ANIM_CMD_SPECIAL_FLIP →
          (loopState d self (l.getD j 0) wb (i + 1)).controllers =
            (loopState d self (l.getD j 0) wb i).controllers ∧
          (loopState d self (l.getD j 0) wb (i + 1)).level =
            (loopState d self (l.getD j 0) wb i).level ∧
          (loopState d self (l.getD j 0) wb (i + 1)).cmds =
            (loopState d self (l.getD j 0) wb i).cmds ∧
          (loopState d self (l.getD j 0) wb (i + 1)).sounds =
            (if op = d.ANIM_CMD_SPECIAL_BUBBLE then
              (loopState d self (l.getD j 0) wb i).sounds ++ [⟨d.SND_BUBBLE, some i⟩]
             else (loopState d self (l.getD j 0) wb i).sounds))) ∧
    (∀ j j2 wb wb2, j < l.length → j2 < l.length →
      runTicks d hk self (n + 1) true (l.take j) w = some wb →
      runTicks d hk self (n + 1) true (l.take j2) w = some wb2 →
      specialHit wb.level (wb.controllers self) (l.getD j 0) F = true →
      specialHit wb2.level (wb2.controllers self) (l.getD j2 0) F = true → j = j2) ∧
    ((∀ f ∈ tickFrames (w.controllers self).animTime l,
        f ≠ F - (w.level.anims (w.controllers self).animIndex).frameStart) →
      ∀ j wb, j < l.length → runTicks d hk self (n + 1) true (l.take j) w = some wb →
        specialHit wb.level (wb.controllers self) (l.getD j 0) F = false) := by
  have hlen := tickFrames_length l (w.controllers self).animTime
  have hit : ∀ j wb, j < l.length → runTicks d hk self (n + 1) true (l.take j) w = some wb →
      SpecialRecord d self wb i F op ∧
      specialHit wb.level (wb.controllers self) (l.getD j 0) F =
        decide ((tickFrames (w.controllers self).animTime l).getD j 0 ≠
            (if j = 0 then (w.controllers self).animPrevFrame
             else (tickFrames (w.controllers self).animTime l).getD (j - 1) 0) ∧
          (tickFrames (w.controllers self).animTime l).getD j 0 +
            (w.level.anims (w.controllers self).animIndex).frameStart = F) := by
    intro j wb hj hrun
    obtain ⟨wb0, r1, r2, r3, r4, r5, r6⟩ :=
      runTicks_prefix d hk self (n + 1) true l w hstay j hj
    rw [hrun] at r1
    cases Option.some.inj r1
    obtain ⟨h1, h2, h3, h4⟩ := hrec
    refine ⟨⟨?_, ?_, ?_, ?_⟩, ?_⟩
    · rw [r2, r4]; exact h1
    · rw [r2, r3, r4]; exact h2
    · rw [r2, r3, r4]; exact h3
    · rw [r2, r3, r4]; exact h4
    · unfold specialHit
      rw [r5, r6, r2, r4]
  have once : ∀ j j2 wb wb2, j < j2 → j2 < l.length →
      runTicks d hk self (n + 1) true (l.take j) w = some wb →
      runTicks d hk self (n + 1) true (l.take j2) w = some wb2 →
      specialHit wb.level (wb.controllers self) (l.getD j 0) F = true →
      specialHit wb2.level (wb2.controllers self) (l.getD j2 0) F = true → False := by
    intro j j2 wb wb2 hlt hj2 hr hr2 ht ht2
    rw [(hit j wb (lt_trans hlt hj2) hr).2] at ht
    rw [(hit j2 wb2 hj2 hr2).2] at ht2
    simp only [decide_eq_true_eq] at ht ht2
    have hne : j2 ≠ 0 := by omega
    rw [if_neg hne] at ht2
    have a1 := pairwise_getD_le _ hmono j (j2 - 1) (by omega) (by omega)
    have a2 := pairwise_getD_le _ hmono (j2 - 1) j2 (by omega) (by omega)
    have := ht2.1
    omega
  refine ⟨?_, ?_, ?_⟩
  · intro j hj
    obtain ⟨wb, r1, c1, c2⟩ := runTicks_prefix_chain d hk self (n + 1) true l w hstay j hj
    obtain ⟨hrb, hh⟩ := hit j wb hj r1
    obtain ⟨wa, hwa⟩ := updateAnimation_returns d hk self n true (l.getD j 0) wb
      (by rw [c1, c2]; exact hfin)
    have hs := loopState_special d self (l.getD j 0) wb i F op hrb
    have hrun : runTicks d hk self (n + 1) true (l.take (j + 1)) w = some wa := by
      have e : l.take (j + 1) = l.take j ++ [l.getD j 0] := by
        rw [List.take_succ, List.getD_eq_getElem?_getD]
        rw [List.getElem?_eq_getElem hj]
        simp
      rw [e, runTicks_append, r1]
      simp only [Option.bind, runTicks, hwa]
    refine ⟨wb, wa, r1, hwa, hrun, hrb, hh, ?_, ?_, ?_, ?_, ?_⟩
    · rw [updateAnimation_site d hk self (n + 1) (l.getD j 0) wb wa i hwa]
      exact loopState_special_site d self (l.getD j 0) wb i F op hrb
    · intro honly
      rw [(updateAnimation_body d hk self (n + 1) (l.getD j 0) wb wa hact hwa).2.2.2]
      exact loopState_special_angle d self (l.getD j 0) wb i F op hrb honly
    · intro hf
      rw [hs, hf]; simp
    · intro ht hop
      rw [hs, ht, if_pos rfl, if_pos hop]
    · intro ht hop
      rw [hs, ht, if_pos rfl, if_neg hop]
      split_ifs <;> simp [playSound]
  · intro j j2 wb wb2 hj hj2 hr hr2 ht ht2
    rcases Nat.lt_trichotomy j j2 with h | h | h
    · exact (once j j2 wb wb2 h hj2 hr hr2 ht ht2).elim
    · exact h
    · exact (once j2 j wb2 wb h hj hr2 hr ht2 ht).elim
  · intro hno j wb hj hr
    rw [(hit j wb hj hr).2]
    apply decide_eq_false
    intro hc
    apply hno ((tickFrames (w.controllers self).animTime l).getD j 0)
    · rw [List.getD_eq_getElem _ 0 (by omega)]
      exact List.getElem_mem _
    · omega

end Controller

/-- C19 on `flipWorld`: three ticks of 1/30 s compute frame indices 1, 2, 3 on a
clip of frames 0..10 whose only command is SPECIAL for frame 2 with FLIP. The
tick that computes frame 2 executes the record and returns a controller with
`PI` added to the yaw; the tick that computes frame 3 does not and returns the
yaw as it was. -/
theorem updateAnimation_special_once_witness :
    (∃ wb wa, Controller.runTicks Defs.sample baseHooks 0 1 true [1 / 30] flipWorld = some wb ∧
      Controller.updateAnimation Defs.sample baseHooks 0 1 true (1 / 30) wb = some wa ∧
      Controller.specialHit wb.level (wb.controllers 0) (1 / 30) 2 = true ∧
      (wa.controllers 0).angle.y = fadd (wb.controllers 0).angle.y Defs.sample.PI) ∧
    (∃ wb wa, Controller.runTicks Defs.sample baseHooks 0 1 true [1 / 30, 1 / 30] flipWorld =
        some wb ∧
      Controller.updateAnimation Defs.sample baseHooks 0 1 true (1 / 30) wb = some wa ∧
      Controller.specialHit wb.level (wb.controllers 0) (1 / 30) 2 = false ∧
      (wa.controllers 0).angle = (wb.controllers 0).angle) := by
  have ht : (flipWorld.controllers 0).animTime = 0 := by
    simp [flipWorld, World.blank, Controller.blank]
  have h := (Controller.updateAnimation_special_once Defs.sample baseHooks 0 0 0 2 0
    [1 / 30, 1 / 30, 1 / 30] flipWorld
    (by
      refine ⟨?_, ?_, ?_, ?_⟩ <;>
      simp [flipWorld, World.blank, Controller.blank, TR.Level.blank, Controller.cmdPtr,
        Defs.sample])
    (by rw [ht, tickFrames_three]; simp)
    (by
      rw [ht, tickFrames_three]
      simp [flipWorld, World.blank, Controller.blank, TR.Level.blank])
    Controller.keepsBody_activate
    (by simp [flipWorld, World.blank, Controller.blank, Controller.chainEnds])).1
  constructor
  · obtain ⟨wb, wa, r1, r2, _, r4, r5, _, r7, _⟩ := h 1 (by simp)
    have hhit : Controller.specialHit wb.level (wb.controllers 0)
        ([1 / 30, 1 / 30, 1 / 30].getD 1 0) 2 = true := by
      rw [r5, ht, tickFrames_three]
      simp [flipWorld, World.blank, Controller.blank, TR.Level.blank]
    refine ⟨wb, wa, r1, r2, hhit, ?_⟩
    rw [r7 (fun k hk hk0 => by
      exfalso
      obtain ⟨wb0, q1, q2, _, q4, _⟩ := Controller.runTicks_prefix Defs.sample baseHooks 0 1 true
        [1 / 30, 1 / 30, 1 / 30] flipWorld (by
          rw [ht, tickFrames_three]
          simp [flipWorld, World.blank, Controller.blank, TR.Level.blank]) 1 (by simp)
      rw [r1] at q1
      cases Option.some.inj q1
      rw [q2, q4] at hk
      simp [flipWorld, World.blank, Controller.blank] at hk
      omega)]
    rw [if_pos ⟨hhit, by simp [Defs.sample]⟩]
  · obtain ⟨wb, wa, r1, r2, _, r4, r5, _, r7, _⟩ := h 2 (by simp)
    have hhit : Controller.specialHit wb.level (wb.controllers 0)
        ([1 / 30, 1 / 30, 1 / 30].getD 2 0) 2 = false := by
      rw [r5, ht, tickFrames_three]
      simp [flipWorld, World.blank, Controller.blank, TR.Level.blank]
    refine ⟨wb, wa, r1, r2, hhit, ?_⟩
    rw [r7 (fun k hk hk0 => by
      exfalso
      obtain ⟨wb0, q1, q2, _, q4, _⟩ := Controller.runTicks_prefix Defs.sample baseHooks 0 1 true
        [1 / 30, 1 / 30, 1 / 30] flipWorld (by
          rw [ht, tickFrames_three]
          simp [flipWorld, World.blank, Controller.blank, TR.Level.blank]) 2 (by simp)
      rw [r1] at q1
      cases Option.some.inj q1
      rw [q2, q4] at hk
      simp [flipWorld, World.blank, Controller.blank] at hk
      omega)]
    rw [if_neg (fun hc => by rw [hhit] at hc; exact absurd hc.1 (by decide))]

namespace Controller

/-- The loop of `getOverlap` over a list whose first entry flagged `end` is entry
`m`: with more than `m` units of fuel it returns, either the pair it started
with, no containing box of the list being nearer than the start distance, or
floor and distance of the earliest nearest containing box of the list, which is
nearer than the start distance. -/
theorem overlapLoop_spec (d : Defs) (lv : TR.Level) (fromY toX toZ : Int) (m : Nat) :
    ∀ (fuel : Nat) (o F0 D0 : Int), m < fuel → ListEnds lv o m →
      ∃ F D, overlapLoop d lv fromY toX toZ fuel o F0 D0 = some (F, D) ∧
        ((F = F0 ∧ D = D0 ∧ ∀ k, k ≤ m → d.boxContains (listedBox lv o k) toX toZ = true →
            D0 ≤ floorDist (listedBox lv o k).floor fromY) ∨
         (∃ k, k ≤ m ∧ d.boxContains (listedBox lv o k) toX toZ = true ∧
            floorDist (listedBox lv o k).floor fromY < D0 ∧
            F = (listedBox lv o k).floor ∧ D = floorDist (listedBox lv o k).floor fromY ∧
            (∀ k2, k2 ≤ m → d.boxContains (listedBox lv o k2) toX toZ = true →
              floorDist (listedBox lv o k).floor fromY ≤
                floorDist (listedBox lv o k2).floor fromY) ∧
            (∀ k2, k2 < k → d.boxContains (listedBox lv o k2) toX toZ = true →
              floorDist (listedBox lv o k).floor fromY <
                floorDist (listedBox lv o k2).floor fromY))) := by
  induction m with
  | zero =>
    intro fuel o F0 D0 hfuel hend
    obtain ⟨f, rfl⟩ : ∃ f, fuel = f + 1 := ⟨fuel - 1, by omega⟩
    have hlast : (lv.overlaps o).last = true := by simpa [ListEnds] using hend.1
    have hb : listedBox lv o 0 = lv.boxes (lv.overlaps o).boxIndex := by simp [listedBox]
    simp only [overlapLoop, hlast, if_true]
    by_cases hc : d.boxContains (lv.boxes (lv.overlaps o).boxIndex) toX toZ = true ∧
        floorDist (lv.boxes (lv.overlaps o).boxIndex).floor fromY < D0
    · refine ⟨_, _, by rw [if_pos hc.1, if_pos hc.2], Or.inr ⟨0, le_refl _, ?_⟩⟩
      rw [hb]
      refine ⟨hc.1, hc.2, rfl, rfl, ?_, ?_⟩
      · intro k2 hk2 _
        have : k2 = 0 := by omega
        rw [this, hb]
      · intro k2 hk2; omega
    · refine ⟨F0, D0, ?_, Or.inl ⟨rfl, rfl, ?_⟩⟩
      · by_cases h1 : d.boxContains (lv.boxes (lv.overlaps o).boxIndex) toX toZ = true
        · have h2 : ¬ floorDist (lv.boxes (lv.overlaps o).boxIndex).floor fromY < D0 :=
            fun h => hc ⟨h1, h⟩
          rw [if_pos h1, if_neg h2]
        · rw [if_neg h1]
      · intro k hk hcont
        have : k = 0 := by omega
        rw [this, hb] at hcont ⊢
        by_contra hlt
        exact hc ⟨hcont, by omega⟩
  | succ m ih =>
    intro fuel o F0 D0 hfuel hend
    obtain ⟨f, rfl⟩ : ∃ f, fuel = f + 1 := ⟨fuel - 1, by omega⟩
    have hlast : (lv.overlaps o).last = false := by
      have := hend.2 0 (by omega)
      simpa using this
    have hb : listedBox lv o 0 = lv.boxes (lv.overlaps o).boxIndex := by simp [listedBox]
    have hshift : ∀ k : Nat, listedBox lv (o + 1) k = listedBox lv o (k + 1) := by
      intro k
      simp only [listedBox]
      have : o + 1 + (k : Int) = o + ((k + 1 : Nat) : Int) := by push_cast; ring
      rw [this]
    have hend1 : ListEnds lv (o + 1) m := by
      constructor
      · have := hend.1
        have e : o + 1 + (m : Int) = o + ((m + 1 : Nat) : Int) := by push_cast; ring
        rw [e]; exact this
      · intro k hk
        have := hend.2 (k + 1) (by omega)
        have e : o + 1 + (k : Int) = o + ((k + 1 : Nat) : Int) := by push_cast; ring
        rw [e]; exact this
    simp only [overlapLoop, hlast, Bool.false_eq_true, if_false]
    by_cases hc : d.boxContains (lv.boxes (lv.overlaps o).boxIndex) toX toZ = true ∧
        floorDist (lv.boxes (lv.overlaps o).boxIndex).floor fromY < D0
    · rw [if_pos hc.1, if_pos hc.2]
      obtain ⟨F, D, hrun, hcase⟩ := ih f (o + 1) (lv.boxes (lv.overlaps o).boxIndex).floor
        (floorDist (lv.boxes (lv.overlaps o).boxIndex).floor fromY) (by omega) hend1
      refine ⟨F, D, hrun, Or.inr ?_⟩
      rcases hcase with ⟨hF, hD, hall⟩ | ⟨k, hk, hcont, hlt, hF, hD, hmin, hfirst⟩
      · refine ⟨0, by omega, ?_⟩
        rw [hb]
        refine ⟨hc.1, hc.2, hF, hD, ?_, ?_⟩
        · intro k2 hk2 hcont2
          cases k2 with
          | zero => rw [hb]
          | succ k2 =>
            have := hall k2 (by omega) (by rw [hshift]; exact hcont2)
            rw [hshift] at this
            exact this
        · intro k2 hk2; omega
      · rw [hshift] at hcont hlt hF hD
        refine ⟨k + 1, by omega, hcont, lt_trans hlt hc.2, hF, hD, ?_, ?_⟩
        · intro k2 hk2 hcont2
          cases k2 with
          | zero => rw [hb]; exact le_of_lt hlt
          | succ k2 =>
            have := hmin k2 (by omega) (by rw [hshift]; exact hcont2)
            rw [hshift, hshift] at this
            exact this
        · intro k2 hk2 hcont2
          cases k2 with
          | zero => rw [hb]; exact hlt
          | succ k2 =>
            have := hfirst k2 (by omega) (by rw [hshift]; exact hcont2)
            rw [hshift, hshift] at this
            exact this
    · have hstep : (if d.boxContains (lv.boxes (lv.overlaps o).boxIndex) toX toZ = true then
            if floorDist (lv.boxes (lv.overlaps o).boxIndex).floor fromY < D0 then
              ((lv.boxes (lv.overlaps o).boxIndex).floor,
                floorDist (lv.boxes (lv.overlaps o).boxIndex).floor fromY)
            else (F0, D0)
          else (F0, D0)) = (F0, D0) := by
        by_cases h1 : d.boxContains (lv.boxes (lv.overlaps o).boxIndex) toX toZ = true
        · have h2 : ¬ floorDist (lv.boxes (lv.overlaps o).boxIndex).floor fromY < D0 :=
            fun h => hc ⟨h1, h⟩
          rw [if_pos h1, if_neg h2]
        · rw [if_neg h1]
      rw [hstep]
      have h0 : d.boxContains (listedBox lv o 0) toX toZ = true →
          D0 ≤ floorDist (listedBox lv o 0).floor fromY := by
        intro hcont
        rw [hb] at hcont ⊢
        by_contra hlt
        exact hc ⟨hcont, by omega⟩
      obtain ⟨F, D, hrun, hcase⟩ := ih f (o + 1) F0 D0 (by omega) hend1
      refine ⟨F, D, hrun, ?_⟩
      rcases hcase with ⟨hF, hD, hall⟩ | ⟨k, hk, hcont, hlt, hF, hD, hmin, hfirst⟩
      · refine Or.inl ⟨hF, hD, ?_⟩
        intro k2 hk2 hcont2
        cases k2 with
        | zero => exact h0 hcont2
        | succ k2 =>
          have := hall k2 (by omega) (by rw [hshift]; exact hcont2)
          rw [hshift] at this
          exact this
      · rw [hshift] at hcont hlt hF hD
        refine Or.inr ⟨k + 1, by omega, hcont, hlt, hF, hD, ?_, ?_⟩
        · intro k2 hk2 hcont2
          cases k2 with
          | zero => exact le_trans (le_of_lt hlt) (h0 hcont2)
          | succ k2 =>
            have := hmin k2 (by omega) (by rw [hshift]; exact hcont2)
            rw [hshift, hshift] at this
            exact this
        · intro k2 hk2 hcont2
          cases k2 with
          | zero => exact lt_of_lt_of_le hlt (h0 hcont2)
          | succ k2 =>
            have := hfirst k2 (by omega) (by rw [hshift]; exact hcont2)
            rw [hshift, hshift] at this
            exact this

end Controller

/-- A value of the 32-bit range is the value a 32-bit `int` holds for it. -/
theorem wrap32_of_range (x : Int) (h1 : -2147483648 ≤ x) (h2 : x ≤ 2147483647) :
    wrap32 x = x := by
  unfold wrap32
  omega

namespace Controller

/-- For a floor and a height below `2^30` in absolute value the distance that
`getOverlap` computes is the distance of the two, a value below `NO_OVERLAP`. -/
theorem floorDist_eq (f y : Int) (hf : |f| < 1073741824) (hy : |y| < 1073741824) :
    floorDist f y = |f - y| ∧ |f - y| < NO_OVERLAP := by
  have h1 := abs_lt.mp hf
  have h2 := abs_lt.mp hy
  have h3 : |f - y| < 2147483647 := by
    rw [abs_lt]; constructor <;> omega
  have h4 := abs_nonneg (f - y)
  unfold floorDist
  rw [wrap32_of_range (f - y) (by omega) (by omega), wrap32_of_range |f - y| (by omega) (by omega)]
  exact ⟨rfl, h3⟩

/-- C20: `getOverlap` selects the nearest overlapping floor. It returns
`NO_OVERLAP` and leaves `delta` alone when the source sector has no box; it
returns the source box's floor with `delta = 0` when that box contains the
target. Otherwise, the first entry flagged `end` of the box's overlap list being
entry `m`, the fuel exceeding `m`, and `fromY` and the floors of the source box
and of the listed boxes being below `2^30` in absolute value, it returns: with no
listed box containing the target, `NO_OVERLAP`, with `delta` the 32-bit
difference of `NO_OVERLAP` and the source floor; else the floor of a listed box
that contains the target, with `delta` that floor minus the source floor, no
listed containing box being nearer to `fromY` and every earlier listed containing
box being farther. -/
theorem getOverlap_nearest (d : Defs) (lv : TR.Level) (c : Controller) (fuel : Nat)
    (fromX fromY fromZ toX toZ delta : Int) (m : Nat) :
    ((lv.getSector (getEntity lv c).room fromX fromZ).boxIndex = 0xFFFF →
      getOverlap d lv c fuel fromX fromY fromZ toX toZ delta = some (NO_OVERLAP, delta)) ∧
    ((lv.getSector (getEntity lv c).room fromX fromZ).boxIndex ≠ 0xFFFF →
      d.boxContains (lv.boxes (lv.getSector (getEntity lv c).room fromX fromZ).boxIndex)
        toX toZ = true →
      getOverlap d lv c fuel fromX fromY fromZ toX toZ delta =
        some ((lv.boxes (lv.getSector (getEntity lv c).room fromX fromZ).boxIndex).floor, 0)) ∧
    ((lv.getSector (getEntity lv c).room fromX fromZ).boxIndex ≠ 0xFFFF →
      d.boxContains (lv.boxes (lv.getSector (getEntity lv c).room fromX fromZ).boxIndex)
        toX toZ = false →
      ListEnds lv (((lv.boxes (lv.getSector (getEntity lv c).room fromX fromZ).boxIndex).overlap
        &&& 0x7FFF : Nat) : Int) m →
      m < fuel →
      |fromY| < 1073741824 →
      |(lv.boxes (lv.getSector (getEntity lv c).room fromX fromZ).boxIndex).floor| <
        1073741824 →
      (∀ k, k ≤ m →
        |(listedBox lv (((lv.boxes (lv.getSector (getEntity lv c).room
          fromX fromZ).boxIndex).overlap &&& 0x7FFF : Nat) : Int) k).floor| < 1073741824) →
      ((∀ k, k ≤ m →
          d.boxContains (listedBox lv (((lv.boxes (lv.getSector (getEntity lv c).room
            fromX fromZ).boxIndex).overlap &&& 0x7FFF : Nat) : Int) k) toX toZ = false) ∧
        getOverlap d lv c fuel fromX fromY fromZ toX toZ delta =
          some (NO_OVERLAP, wrap32 (NO_OVERLAP -
            (lv.boxes (lv.getSector (getEntity lv c).room fromX fromZ).boxIndex).floor))) ∨
      (∃ k, k ≤ m ∧
        d.boxContains (listedBox lv (((lv.boxes (lv.getSector (getEntity lv c).room
          fromX fromZ).boxIndex).overlap &&& 0x7FFF : Nat) : Int) k) toX toZ = true ∧
        getOverlap d lv c fuel fromX fromY fromZ toX toZ delta =
          some ((listedBox lv (((lv.boxes (lv.getSector (getEntity lv c).room
              fromX fromZ).boxIndex).overlap &&& 0x7FFF : Nat) : Int) k).floor,
            (listedBox lv (((lv.boxes (lv.getSector (getEntity lv c).room
              fromX fromZ).boxIndex).overlap &&& 0x7FFF : Nat) : Int) k).floor -
            (lv.boxes (lv.getSector (getEntity lv c).room fromX fromZ).boxIndex).floor) ∧
        (∀ k2, k2 ≤ m →
          d.boxContains (listedBox lv (((lv.boxes (lv.getSector (getEntity lv c).room
            fromX fromZ).boxIndex).overlap &&& 0x7FFF : Nat) : Int) k2) toX toZ = true →
          |(listedBox lv (((lv.boxes (lv.getSector (getEntity lv c).room
            fromX fromZ).boxIndex).overlap &&& 0x7FFF : Nat) : Int) k).floor - fromY| ≤
          |(listedBox lv (((lv.boxes (lv.getSector (getEntity lv c).room
            fromX fromZ).boxIndex).overlap &&& 0x7FFF : Nat) : Int) k2).floor - fromY|) ∧
        (∀ k2, k2 < k →
          d.boxContains (listedBox lv (((lv.boxes (lv.getSector (getEntity lv c).room
            fromX fromZ).boxIndex).overlap &&& 0x7FFF : Nat) : Int) k2) toX toZ = true →
          |(listedBox lv (((lv.boxes (lv.getSector (getEntity lv c).room
            fromX fromZ).boxIndex).overlap &&& 0x7FFF : Nat) : Int) k).floor - fromY| <
          |(listedBox lv (((lv.boxes (lv.getSector (getEntity lv c).room
            fromX fromZ).boxIndex).overlap &&& 0x7FFF : Nat) : Int) k2).floor - fromY|))) := by
  refine ⟨?_, ?_, ?_⟩
  · intro h
    simp only [getOverlap, h, if_true]
  · intro h hc
    simp only [getOverlap, if_neg h, hc, if_true]
  · intro h hc hend hfuel hY hB hL
    obtain ⟨F, D, hrun, hcase⟩ := overlapLoop_spec d lv fromY toX toZ m fuel _ NO_OVERLAP
      NO_OVERLAP hfuel hend
    have hget : getOverlap d lv c fuel fromX fromY fromZ toX toZ delta =
        some (F, wrap32 (F -
          (lv.boxes (lv.getSector (getEntity lv c).room fromX fromZ).boxIndex).floor)) := by
      simp only [getOverlap, if_neg h, hc, Bool.false_eq_true, if_false, hrun]
    rcases hcase with ⟨hF, _, hall⟩ | ⟨k, hk, hcont, _, hF, _, hmin, hfirst⟩
    · left
      refine ⟨?_, by rw [hget, hF]⟩
      intro k hk
      by_contra hcon
      have hcon2 : d.boxContains (listedBox lv (((lv.boxes (lv.getSector (getEntity lv c).room
          fromX fromZ).boxIndex).overlap &&& 0x7FFF : Nat) : Int) k) toX toZ = true := by
        simpa using hcon
      have h1 := hall k hk hcon2
      have h2 := floorDist_eq _ fromY (hL k hk) hY
      rw [h2.1] at h1
      exact absurd h2.2 (not_lt.mpr h1)
    · right
      have hb1 := abs_lt.mp hB
      have hk1 := abs_lt.mp (hL k hk)
      refine ⟨k, hk, hcont, ?_, ?_, ?_⟩
      · rw [hget, hF, wrap32_of_range _ (by omega) (by omega)]
      · intro k2 hk2 hc2
        have := hmin k2 hk2 hc2
        rw [(floorDist_eq _ fromY (hL k hk) hY).1, (floorDist_eq _ fromY (hL k2 hk2) hY).1] at this
        exact this
      · intro k2 hk2 hc2
        have := hfirst k2 hk2 hc2
        rw [(floorDist_eq _ fromY (hL k hk) hY).1,
          (floorDist_eq _ fromY (hL k2 (by omega)) hY).1] at this
        exact this

end Controller

/-- C20 on `stepLevel`: from height 0 the listed boxes that contain the target
(15, 15) have floors 300, -200 and 200; the second and the third are nearest, at
distance 200, and `getOverlap` returns the floor -200 of the earlier one, with
`delta` = -200 - 0. -/
theorem getOverlap_nearest_witness :
    Controller.getOverlap Defs.sample stepLevel Controller.blank 3 0 0 0 15 15 0 =
      some (-200, -200) := by
  have hl : ∀ k, k ≤ 2 →
      Defs.sample.boxContains (Controller.listedBox stepLevel ((0 &&& 0x7FFF : Nat) : Int) k)
        15 15 = true ∧
      (Controller.listedBox stepLevel ((0 &&& 0x7FFF : Nat) : Int) k).floor =
        (if k = 0 then 300 else if k = 1 then -200 else 200) := by
    intro k hk
    interval_cases k <;> simp [Controller.listedBox, stepLevel, Defs.sample]
  have hb : (stepLevel.boxes (stepLevel.getSector
      (Controller.getEntity stepLevel Controller.blank).room 0 0).boxIndex) =
      ⟨0, 0, 0, 0, 0, 0⟩ := by
    simp [stepLevel]
  have hcase := (Controller.getOverlap_nearest Defs.sample stepLevel
    Controller.blank 3 0 0 0 15 15 0 2).2.2
    (by simp [stepLevel])
    (by simp [stepLevel, Defs.sample])
    (by
      rw [hb]
      refine ⟨by simp [stepLevel], ?_⟩
      intro k hk
      interval_cases k <;> simp [stepLevel])
    (by omega)
    (by decide)
    (by rw [hb]; decide)
    (by
      intro k hk
      rw [hb, (hl k hk).2]
      interval_cases k <;> decide)
  rw [hb] at hcase
  rcases hcase with ⟨hnone, _⟩ | ⟨k, hk, _, hget, hmin, hfirst⟩
  · have := hnone 0 (by omega)
    rw [(hl 0 (by omega)).1] at this
    exact absurd this (by decide)
  · interval_cases k
    · have := hmin 1 (by omega) (hl 1 (by omega)).1
      rw [(hl 0 (by omega)).2, (hl 1 (by omega)).2] at this
      simp at this
    · rw [hget, (hl 1 (by omega)).2]
      simp
    · have := hfirst 1 (by omega) (hl 1 (by omega)).1
      rw [(hl 2 (by omega)).2, (hl 1 (by omega)).2] at this
      simp at this

/-- At the sentinel distance a listed box is not taken: on `farLevel` the one
listed box contains the target (15, 15) and has floor 0, but from height
2147483647 its distance is `NO_OVERLAP` itself, which is not below the start
value of `delta`, and `getOverlap` returns `NO_OVERLAP`. -/
theorem getOverlap_far_box_skipped :
    Controller.ListEnds farLevel 0 0 ∧
    Defs.sample.boxContains (Controller.listedBox farLevel 0 0) 15 15 = true ∧
    (Controller.listedBox farLevel 0 0).floor = 0 ∧
    Controller.getOverlap Defs.sample farLevel Controller.blank 1 0 2147483647 0 15 15 0 =
      some (Controller.NO_OVERLAP, Controller.NO_OVERLAP) := by
  refine ⟨⟨?_, ?_⟩, ?_, ?_, ?_⟩
  · simp [farLevel]
  · intro k hk; omega
  · simp [Controller.listedBox, farLevel, Defs.sample]
  · simp [Controller.listedBox, farLevel]
  · simp [Controller.getOverlap, Controller.overlapLoop, Controller.floorDist, wrap32, farLevel,
      Defs.sample, Controller.NO_OVERLAP, TR.Level.blank]

/-- With no listed box containing the target the final `delta` is the 32-bit
difference of `NO_OVERLAP` and the source floor: on `pitLevel`, whose source box
has floor -5, the target (5, 5) is in no box and `delta` is -2147483644. -/
theorem getOverlap_delta_wraps :
    Controller.getOverlap Defs.sample pitLevel Controller.blank 1 0 0 0 5 5 0 =
      some (Controller.NO_OVERLAP, -2147483644) := by
  simp [Controller.getOverlap, Controller.overlapLoop, Controller.floorDist, wrap32, pitLevel,
    Defs.sample, Controller.NO_OVERLAP, TR.Level.blank]

/-- The frame indices of 45 ticks of `1.0f / 30.0f` from clock 0: the clock lags
behind the tick count, the frame index of tick `k` is `k` up to tick 43, and 43
again on tick 44. -/
theorem tickFrames_thirtieth :
    Controller.tickFrames 0 (List.replicate 45 (fdiv 1 30)) =
      [1, 2, 3, 4, 5, 6, 7, 8, 9, 10, 11, 12, 13, 14, 15, 16, 17, 18, 19, 20,
        21, 22, 23, 24, 25, 26, 27, 28, 29, 30, 31, 32, 33, 34, 35, 36, 37, 38,
        39, 40, 41, 42, 43, 43, 44] := by
  rw [show fdiv 1 30 = 8947849 / 268435456 from
    fdiv_eval 1 30 (-5) 8947849 (8947849 / 268435456) (by norm_num) (by norm_num) (by norm_num)
      (by norm_num) (by norm_num) (by norm_num)]
  simp only [List.replicate, Controller.tickFrames]
  rw [show fadd 0 (8947849 / 268435456) = 8947849 / 268435456 from
    fadd_eval 0 (8947849 / 268435456) (-5) 8947849 (8947849 / 268435456) (by norm_num)
      (by norm_num) (by norm_num) (by norm_num) (by norm_num) (by norm_num)]
  rw [show fmul (8947849 / 268435456) 30 = 1 from
    fmul_eval (8947849 / 268435456) 30 0 8388608 1 (by norm_num) (by norm_num) (by norm_num)
      (by norm_num) (by norm_num) (by norm_num)]
  rw [show truncToInt 1 = 1 from
    truncToInt_eval 1 1 (by norm_num) (by norm_num) (by norm_num)]
  rw [show fadd (8947849 / 268435456) (8947849 / 268435456) = 8947849 / 134217728 from
    fadd_eval (8947849 / 268435456) (8947849 / 268435456) (-4) 8947849 (8947849 / 134217728)
      (by norm_num) (by norm_num) (by norm_num) (by norm_num) (by norm_num) (by norm_num)]
  rw [show fmul (8947849 / 134217728) 30 = 2 from
    fmul_eval (8947849 / 134217728) 30 1 8388608 2 (by norm_num) (by norm_num) (by norm_num)
      (by norm_num) (by norm_num) (by norm_num)]
  rw [show truncToInt 2 = 2 from
    truncToInt_eval 2 2 (by norm_num) (by norm_num) (by norm_num)]
  rw [show fadd (8947849 / 134217728) (8947849 / 268435456) = 6710887 / 67108864 from
    fadd_eval_tie (8947849 / 134217728) (8947849 / 268435456) (-4) 13421774 (6710887 / 67108864)
      (by norm_num) (by norm_num) (by norm_num) (by norm_num) (by norm_num) (by norm_num)]
  rw [show fmul (6710887 / 67108864) 30 = 12582913 / 4194304 from
    fmul_eval (6710887 / 67108864) 30 1 12582913 (12582913 / 4194304) (by norm_num)
      (by norm_num) (by norm_num) (by norm_num) (by norm_num) (by norm_num)]
  rw [show truncToInt (12582913 / 4194304) = 3 from
    truncToInt_eval (12582913 / 4194304) 3 (by norm_num) (by norm_num) (by norm_num)]
  rw [show fadd (6710887 / 67108864) (8947849 / 268435456) = 8947849 / 67108864 from
    fadd_eval (6710887 / 67108864) (8947849 / 268435456) (-3) 8947849 (8947849 / 67108864)
      (by norm_num) (by norm_num) (by norm_num) (by norm_num) (by norm_num) (by norm_num)]
  rw [show fmul (8947849 / 67108864) 30 = 4 from
    fmul_eval (8947849 / 67108864) 30 2 8388608 4 (by norm_num) (by norm_num) (by norm_num)
      (by norm_num) (by norm_num) (by norm_num)]
  rw [show truncToInt 4 = 4 from
    truncToInt_eval 4 4 (by norm_num) (by norm_num) (by norm_num)]
  rw [show fadd (8947849 / 67108864) (8947849 / 268435456) = 11184811 / 67108864 from
    fadd_eval (8947849 / 67108864) (8947849 / 268435456) (-3) 11184811 (11184811 / 67108864)
      (by norm_num) (by norm_num) (by norm_num) (by norm_num) (by norm_num) (by norm_num)]
  rw [show fmul (11184811 / 67108864) 30 = 5 from
    fmul_eval (11184811 / 67108864) 30 2 10485760 5 (by norm_num) (by norm_num) (by norm_num)
      (by norm_num) (by norm_num) (by norm_num)]
  rw [show truncToInt 5 = 5 from
    truncToInt_eval 5 5 (by norm_num) (by norm_num) (by norm_num)]
  rw [show fadd (11184811 / 67108864) (8947849 / 268435456) = 13421773 / 67108864 from
    fadd_eval (11184811 / 67108864) (8947849 / 268435456) (-3) 13421773 (13421773 / 67108864)
      (by norm_num) (by norm_num) (by norm_num) (by norm_num) (by norm_num) (by norm_num)]
  rw [show fmul (13421773 / 67108864) 30 = 6 from
    fmul_eval (13421773 / 67108864) 30 2 12582912 6 (by norm_num) (by norm_num) (by norm_num)
      (by norm_num) (by norm_num) (by norm_num)]
  rw [show truncToInt 6 = 6 from
    truncToInt_eval 6 6 (by norm_num) (by norm_num) (by norm_num)]
  rw [show fadd (13421773 / 67108864) (8947849 / 268435456) = 15658735 / 67108864 from
    fadd_eval (13421773 / 67108864) (8947849 / 268435456) (-3) 15658735 (15658735 / 67108864)
      (by norm_num) (by norm_num) (by norm_num) (by norm_num) (by norm_num) (by norm_num)]
  rw [show fmul (15658735 / 67108864) 30 = 7 from
    fmul_eval (15658735 / 67108864) 30 2 14680064 7 (by norm_num) (by norm_num) (by norm_num)
      (by norm_num) (by norm_num) (by norm_num)]
  rw [show truncToInt 7 = 7 from
    truncToInt_eval 7 7 (by norm_num) (by norm_num) (by norm_num)]
  rw [show fadd (15658735 / 67108864) (8947849 / 268435456) = 8947849 / 33554432 from
    fadd_eval (15658735 / 67108864) (8947849 / 268435456) (-2) 8947849 (8947849 / 33554432)
      (by norm_num) (by norm_num) (by norm_num) (by norm_num) (by norm_num) (by norm_num)]
  rw [show fmul (8947849 / 33554432) 30 = 8 from
    fmul_eval (8947849 / 33554432) 30 3 8388608 8 (by norm_num) (by norm_num) (by norm_num)
      (by norm_num) (by norm_num) (by norm_num)]
  rw [show truncToInt 8 = 8 from
    truncToInt_eval 8 8 (by norm_num) (by norm_num) (by norm_num)]
  rw [show fadd (8947849 / 33554432) (8947849 / 268435456) = 5033165 / 16777216 from
    fadd_eval (8947849 / 33554432) (8947849 / 268435456) (-2) 10066330 (5033165 / 16777216)
      (by norm_num) (by norm_num) (by norm_num) (by norm_num) (by norm_num) (by norm_num)]
  rw [show fmul (5033165 / 16777216) 30 = 9 from
    fmul_eval (5033165 / 16777216) 30 3 9437184 9 (by norm_num) (by norm_num) (by norm_num)
      (by norm_num) (by norm_num) (by norm_num)]
  rw [show truncToInt 9 = 9 from
    truncToInt_eval 9 9 (by norm_num) (by norm_num) (by norm_num)]
  rw [show fadd (5033165 / 16777216) (8947849 / 268435456) = 11184811 / 33554432 from
    fadd_eval (5033165 / 16777216) (8947849 / 268435456) (-2) 11184811 (11184811 / 33554432)
      (by norm_num) (by norm_num) (by norm_num) (by norm_num) (by norm_num) (by norm_num)]
  rw [show fmul (11184811 / 33554432) 30 = 10 from
    fmul_eval (11184811 / 33554432) 30 3 10485760 10 (by norm_num) (by norm_num) (by norm_num)
      (by norm_num) (by norm_num) (by norm_num)]
  rw [show truncToInt 10 = 10 from
    truncToInt_eval 10 10 (by norm_num) (by norm_num) (by norm_num)]
  rw [show fadd (11184811 / 33554432) (8947849 / 268435456) = 3075823 / 8388608 from
    fadd_eval (11184811 / 33554432) (8947849 / 268435456) (-2) 12303292 (3075823 / 8388608)
      (by norm_num) (by norm_num) (by norm_num) (by norm_num) (by norm_num) (by norm_num)]
  rw [show fmul (3075823 / 8388608) 30 = 11 from
    fmul_eval (3075823 / 8388608) 30 3 11534336 11 (by norm_num) (by norm_num) (by norm_num)
      (by norm_num) (by norm_num) (by norm_num)]
  rw [show truncToInt 11 = 11 from
    truncToInt_eval 11 11 (by norm_num) (by norm_num) (by norm_num)]
  rw [show fadd (3075823 / 8388608) (8947849 / 268435456) = 13421773 / 33554432 from
    fadd_eval (3075823 / 8388608) (8947849 / 268435456) (-2) 13421773 (13421773 / 33554432)
      (by norm_num) (by norm_num) (by norm_num) (by norm_num) (by norm_num) (by norm_num)]
  rw [show fmul (13421773 / 33554432) 30 = 12 from
    fmul_eval (13421773 / 33554432) 30 3 12582912 12 (by norm_num) (by norm_num) (by norm_num)
      (by norm_num) (by norm_num) (by norm_num)]
  rw [show truncToInt 12 = 12 from
    truncToInt_eval 12 12 (by norm_num) (by norm_num) (by norm_num)]
  rw [show fadd (13421773 / 33554432) (8947849 / 268435456) = 7270127 / 16777216 from
    fadd_eval (13421773 / 33554432) (8947849 / 268435456) (-2) 14540254 (7270127 / 16777216)
      (by norm_num) (by norm_num) (by norm_num) (by norm_num) (by norm_num) (by norm_num)]
  rw [show fmul (7270127 / 16777216) 30 = 13 from
    fmul_eval (7270127 / 16777216) 30 3 13631488 13 (by norm_num) (by norm_num) (by norm_num)
      (by norm_num) (by norm_num) (by norm_num)]
  rw [show truncToInt 13 = 13 from
    truncToInt_eval 13 13 (by norm_num) (by norm_num) (by norm_num)]
  rw [show fadd (7270127 / 16777216) (8947849 / 268435456) = 15658735 / 33554432 from
    fadd_eval (7270127 / 16777216) (8947849 / 268435456) (-2) 15658735 (15658735 / 33554432)
      (by norm_num) (by norm_num) (by norm_num) (by norm_num) (by norm_num) (by norm_num)]
  rw [show fmul (15658735 / 33554432) 30 = 14 from
    fmul_eval (15658735 / 33554432) 30 3 14680064 14 (by norm_num) (by norm_num) (by norm_num)
      (by norm_num) (by norm_num) (by norm_num)]
  rw [show truncToInt 14 = 14 from
    truncToInt_eval 14 14 (by norm_num) (by norm_num) (by norm_num)]
  rw [show fadd (15658735 / 33554432) (8947849 / 268435456) = 1 / 2 from
    fadd_eval (15658735 / 33554432) (8947849 / 268435456) (-1) 8388608 (1 / 2) (by norm_num)
      (by norm_num) (by norm_num) (by norm_num) (by norm_num) (by norm_num)]
  rw [show fmul (1 / 2) 30 = 15 from
    fmul_eval (1 / 2) 30 3 15728640 15 (by norm_num) (by norm_num) (by norm_num) (by norm_num)
      (by norm_num) (by norm_num)]
  rw [show truncToInt 15 = 15 from
    truncToInt_eval 15 15 (by norm_num) (by norm_num) (by norm_num)]
  rw [show fadd (1 / 2) (8947849 / 268435456) = 8947849 / 16777216 from
    fadd_eval (1 / 2) (8947849 / 268435456) (-1) 8947849 (8947849 / 16777216) (by norm_num)
      (by norm_num) (by norm_num) (by norm_num) (by norm_num) (by norm_num)]
  rw [show fmul (8947849 / 16777216) 30 = 16 from
    fmul_eval (8947849 / 16777216) 30 4 8388608 16 (by norm_num) (by norm_num) (by norm_num)
      (by norm_num) (by norm_num) (by norm_num)]
  rw [show truncToInt 16 = 16 from
    truncToInt_eval 16 16 (by norm_num) (by norm_num) (by norm_num)]
  rw [show fadd (8947849 / 16777216) (8947849 / 268435456) = 4753545 / 8388608 from
    fadd_eval (8947849 / 16777216) (8947849 / 268435456) (-1) 9507090 (4753545 / 8388608)
      (by norm_num) (by norm_num) (by norm_num) (by norm_num) (by norm_num) (by norm_num)]
  rw [show fmul (4753545 / 8388608) 30 = 8912897 / 524288 from
    fmul_eval (4753545 / 8388608) 30 4 8912897 (8912897 / 524288) (by norm_num) (by norm_num)
      (by norm_num) (by norm_num) (by norm_num) (by norm_num)]
  rw [show truncToInt (8912897 / 524288) = 17 from
    truncToInt_eval (8912897 / 524288) 17 (by norm_num) (by norm_num) (by norm_num)]
  rw [show fadd (4753545 / 8388608) (8947849 / 268435456) = 10066331 / 16777216 from
    fadd_eval (4753545 / 8388608) (8947849 / 268435456) (-1) 10066331 (10066331 / 16777216)
      (by norm_num) (by norm_num) (by norm_num) (by norm_num) (by norm_num) (by norm_num)]
  rw [show fmul (10066331 / 16777216) 30 = 9437185 / 524288 from
    fmul_eval (10066331 / 16777216) 30 4 9437185 (9437185 / 524288) (by norm_num) (by norm_num)
      (by norm_num) (by norm_num) (by norm_num) (by norm_num)]
  rw [show truncToInt (9437185 / 524288) = 18 from
    truncToInt_eval (9437185 / 524288) 18 (by norm_num) (by norm_num) (by norm_num)]
  rw [show fadd (10066331 / 16777216) (8947849 / 268435456) = 2656393 / 4194304 from
    fadd_eval (10066331 / 16777216) (8947849 / 268435456) (-1) 10625572 (2656393 / 4194304)
      (by norm_num) (by norm_num) (by norm_num) (by norm_num) (by norm_num) (by norm_num)]
  rw [show fmul (2656393 / 4194304) 30 = 4980737 / 262144 from
    fmul_eval (2656393 / 4194304) 30 4 9961474 (4980737 / 262144) (by norm_num) (by norm_num)
      (by norm_num) (by norm_num) (by norm_num) (by norm_num)]
  rw [show truncToInt (4980737 / 262144) = 19 from
    truncToInt_eval (4980737 / 262144) 19 (by norm_num) (by norm_num) (by norm_num)]
  rw [show fadd (2656393 / 4194304) (8947849 / 268435456) = 11184813 / 16777216 from
    fadd_eval (2656393 / 4194304) (8947849 / 268435456) (-1) 11184813 (11184813 / 16777216)
      (by norm_num) (by norm_num) (by norm_num) (by norm_num) (by norm_num) (by norm_num)]
  rw [show fmul (11184813 / 16777216) 30 = 5242881 / 262144 from
    fmul_eval (11184813 / 16777216) 30 4 10485762 (5242881 / 262144) (by norm_num) (by norm_num)
      (by norm_num) (by norm_num) (by norm_num) (by norm_num)]
  rw [show truncToInt (5242881 / 262144) = 20 from
    truncToInt_eval (5242881 / 262144) 20 (by norm_num) (by norm_num) (by norm_num)]
  rw [show fadd (11184813 / 16777216) (8947849 / 268435456) = 5872027 / 8388608 from
    fadd_eval (11184813 / 16777216) (8947849 / 268435456) (-1) 11744054 (5872027 / 8388608)
      (by norm_num) (by norm_num) (by norm_num) (by norm_num) (by norm_num) (by norm_num)]
  rw [show fmul (5872027 / 8388608) 30 = 11010051 / 524288 from
    fmul_eval (5872027 / 8388608) 30 4 11010051 (11010051 / 524288) (by norm_num) (by norm_num)
      (by norm_num) (by norm_num) (by norm_num) (by norm_num)]
  rw [show truncToInt (11010051 / 524288) = 21 from
    truncToInt_eval (11010051 / 524288) 21 (by norm_num) (by norm_num) (by norm_num)]
  rw [show fadd (5872027 / 8388608) (8947849 / 268435456) = 12303295 / 16777216 from
    fadd_eval (5872027 / 8388608) (8947849 / 268435456) (-1) 12303295 (12303295 / 16777216)
      (by norm_num) (by norm_num) (by norm_num) (by norm_num) (by norm_num) (by norm_num)]
  rw [show fmul (12303295 / 16777216) 30 = 11534339 / 524288 from
    fmul_eval (12303295 / 16777216) 30 4 11534339 (11534339 / 524288) (by norm_num)
      (by norm_num) (by norm_num) (by norm_num) (by norm_num) (by norm_num)]
  rw [show truncToInt (11534339 / 524288) = 22 from
    truncToInt_eval (11534339 / 524288) 22 (by norm_num) (by norm_num) (by norm_num)]
  rw [show fadd (12303295 / 16777216) (8947849 / 268435456) = 1607817 / 2097152 from
    fadd_eval (12303295 / 16777216) (8947849 / 268435456) (-1) 12862536 (1607817 / 2097152)
      (by norm_num) (by norm_num) (by norm_num) (by norm_num) (by norm_num) (by norm_num)]
  rw [show fmul (1607817 / 2097152) 30 = 3014657 / 131072 from
    fmul_eval_tie (1607817 / 2097152) 30 4 12058628 (3014657 / 131072) (by norm_num)
      (by norm_num) (by norm_num) (by norm_num) (by norm_num) (by norm_num)]
  rw [show truncToInt (3014657 / 131072) = 23 from
    truncToInt_eval (3014657 / 131072) 23 (by norm_num) (by norm_num) (by norm_num)]
  rw [show fadd (1607817 / 2097152) (8947849 / 268435456) = 13421777 / 16777216 from
    fadd_eval (1607817 / 2097152) (8947849 / 268435456) (-1) 13421777 (13421777 / 16777216)
      (by norm_num) (by norm_num) (by norm_num) (by norm_num) (by norm_num) (by norm_num)]
  rw [show fmul (13421777 / 16777216) 30 = 3145729 / 131072 from
    fmul_eval (13421777 / 16777216) 30 4 12582916 (3145729 / 131072) (by norm_num) (by norm_num)
      (by norm_num) (by norm_num) (by norm_num) (by norm_num)]
  rw [show truncToInt (3145729 / 131072) = 24 from
    truncToInt_eval (3145729 / 131072) 24 (by norm_num) (by norm_num) (by norm_num)]
  rw [show fadd (13421777 / 16777216) (8947849 / 268435456) = 6990509 / 8388608 from
    fadd_eval (13421777 / 16777216) (8947849 / 268435456) (-1) 13981018 (6990509 / 8388608)
      (by norm_num) (by norm_num) (by norm_num) (by norm_num) (by norm_num) (by norm_num)]
  rw [show fmul (6990509 / 8388608) 30 = 3276801 / 131072 from
    fmul_eval (6990509 / 8388608) 30 4 13107204 (3276801 / 131072) (by norm_num) (by norm_num)
      (by norm_num) (by norm_num) (by norm_num) (by norm_num)]
  rw [show truncToInt (3276801 / 131072) = 25 from
    truncToInt_eval (3276801 / 131072) 25 (by norm_num) (by norm_num) (by norm_num)]
  rw [show fadd (6990509 / 8388608) (8947849 / 268435456) = 14540259 / 16777216 from
    fadd_eval (6990509 / 8388608) (8947849 / 268435456) (-1) 14540259 (14540259 / 16777216)
      (by norm_num) (by norm_num) (by norm_num) (by norm_num) (by norm_num) (by norm_num)]
  rw [show fmul (14540259 / 16777216) 30 = 13631493 / 524288 from
    fmul_eval (14540259 / 16777216) 30 4 13631493 (13631493 / 524288) (by norm_num)
      (by norm_num) (by norm_num) (by norm_num) (by norm_num) (by norm_num)]
  rw [show truncToInt (13631493 / 524288) = 26 from
    truncToInt_eval (13631493 / 524288) 26 (by norm_num) (by norm_num) (by norm_num)]
  rw [show fadd (14540259 / 16777216) (8947849 / 268435456) = 3774875 / 4194304 from
    fadd_eval (14540259 / 16777216) (8947849 / 268435456) (-1) 15099500 (3774875 / 4194304)
      (by norm_num) (by norm_num) (by norm_num) (by norm_num) (by norm_num) (by norm_num)]
  rw [show fmul (3774875 / 4194304) 30 = 14155781 / 524288 from
    fmul_eval (3774875 / 4194304) 30 4 14155781 (14155781 / 524288) (by norm_num) (by norm_num)
      (by norm_num) (by norm_num) (by norm_num) (by norm_num)]
  rw [show truncToInt (14155781 / 524288) = 27 from
    truncToInt_eval (14155781 / 524288) 27 (by norm_num) (by norm_num) (by norm_num)]
  rw [show fadd (3774875 / 4194304) (8947849 / 268435456) = 15658741 / 16777216 from
    fadd_eval (3774875 / 4194304) (8947849 / 268435456) (-1) 15658741 (15658741 / 16777216)
      (by norm_num) (by norm_num) (by norm_num) (by norm_num) (by norm_num) (by norm_num)]
  rw [show fmul (15658741 / 16777216) 30 = 7340035 / 262144 from
    fmul_eval (15658741 / 16777216) 30 4 14680070 (7340035 / 262144) (by norm_num) (by norm_num)
      (by norm_num) (by norm_num) (by norm_num) (by norm_num)]
  rw [show truncToInt (7340035 / 262144) = 28 from
    truncToInt_eval (7340035 / 262144) 28 (by norm_num) (by norm_num) (by norm_num)]
  rw [show fadd (15658741 / 16777216) (8947849 / 268435456) = 8108991 / 8388608 from
    fadd_eval (15658741 / 16777216) (8947849 / 268435456) (-1) 16217982 (8108991 / 8388608)
      (by norm_num) (by norm_num) (by norm_num) (by norm_num) (by norm_num) (by norm_num)]
  rw [show fmul (8108991 / 8388608) 30 = 7602179 / 262144 from
    fmul_eval (8108991 / 8388608) 30 4 15204358 (7602179 / 262144) (by norm_num) (by norm_num)
      (by norm_num) (by norm_num) (by norm_num) (by norm_num)]
  rw [show truncToInt (7602179 / 262144) = 29 from
    truncToInt_eval (7602179 / 262144) 29 (by norm_num) (by norm_num) (by norm_num)]
  rw [show fadd (8108991 / 8388608) (8947849 / 268435456) = 8388611 / 8388608 from
    fadd_eval (8108991 / 8388608) (8947849 / 268435456) 0 8388611 (8388611 / 8388608)
      (by norm_num) (by norm_num) (by norm_num) (by norm_num) (by norm_num) (by norm_num)]
  rw [show fmul (8388611 / 8388608) 30 = 7864323 / 262144 from
    fmul_eval (8388611 / 8388608) 30 4 15728646 (7864323 / 262144) (by norm_num) (by norm_num)
      (by norm_num) (by norm_num) (by norm_num) (by norm_num)]
  rw [show truncToInt (7864323 / 262144) = 30 from
    truncToInt_eval (7864323 / 262144) 30 (by norm_num) (by norm_num) (by norm_num)]
  rw [show fadd (8388611 / 8388608) (8947849 / 268435456) = 8668231 / 8388608 from
    fadd_eval (8388611 / 8388608) (8947849 / 268435456) 0 8668231 (8668231 / 8388608)
      (by norm_num) (by norm_num) (by norm_num) (by norm_num) (by norm_num) (by norm_num)]
  rw [show fmul (8668231 / 8388608) 30 = 16252933 / 524288 from
    fmul_eval (8668231 / 8388608) 30 4 16252933 (16252933 / 524288) (by norm_num) (by norm_num)
      (by norm_num) (by norm_num) (by norm_num) (by norm_num)]
  rw [show truncToInt (16252933 / 524288) = 31 from
    truncToInt_eval (16252933 / 524288) 31 (by norm_num) (by norm_num) (by norm_num)]
  rw [show fadd (8668231 / 8388608) (8947849 / 268435456) = 8947851 / 8388608 from
    fadd_eval (8668231 / 8388608) (8947849 / 268435456) 0 8947851 (8947851 / 8388608)
      (by norm_num) (by norm_num) (by norm_num) (by norm_num) (by norm_num) (by norm_num)]
  rw [show fmul (8947851 / 8388608) 30 = 4194305 / 131072 from
    fmul_eval (8947851 / 8388608) 30 5 8388610 (4194305 / 131072) (by norm_num) (by norm_num)
      (by norm_num) (by norm_num) (by norm_num) (by norm_num)]
  rw [show truncToInt (4194305 / 131072) = 32 from
    truncToInt_eval (4194305 / 131072) 32 (by norm_num) (by norm_num) (by norm_num)]
  rw [show fadd (8947851 / 8388608) (8947849 / 268435456) = 9227471 / 8388608 from
    fadd_eval (8947851 / 8388608) (8947849 / 268435456) 0 9227471 (9227471 / 8388608)
      (by norm_num) (by norm_num) (by norm_num) (by norm_num) (by norm_num) (by norm_num)]
  rw [show fmul (9227471 / 8388608) 30 = 4325377 / 131072 from
    fmul_eval (9227471 / 8388608) 30 5 8650754 (4325377 / 131072) (by norm_num) (by norm_num)
      (by norm_num) (by norm_num) (by norm_num) (by norm_num)]
  rw [show truncToInt (4325377 / 131072) = 33 from
    truncToInt_eval (4325377 / 131072) 33 (by norm_num) (by norm_num) (by norm_num)]
  rw [show fadd (9227471 / 8388608) (8947849 / 268435456) = 9507091 / 8388608 from
    fadd_eval (9227471 / 8388608) (8947849 / 268435456) 0 9507091 (9507091 / 8388608)
      (by norm_num) (by norm_num) (by norm_num) (by norm_num) (by norm_num) (by norm_num)]
  rw [show fmul (9507091 / 8388608) 30 = 4456449 / 131072 from
    fmul_eval (9507091 / 8388608) 30 5 8912898 (4456449 / 131072) (by norm_num) (by norm_num)
      (by norm_num) (by norm_num) (by norm_num) (by norm_num)]
  rw [show truncToInt (4456449 / 131072) = 34 from
    truncToInt_eval (4456449 / 131072) 34 (by norm_num) (by norm_num) (by norm_num)]
  rw [show fadd (9507091 / 8388608) (8947849 / 268435456) = 9786711 / 8388608 from
    fadd_eval (9507091 / 8388608) (8947849 / 268435456) 0 9786711 (9786711 / 8388608)
      (by norm_num) (by norm_num) (by norm_num) (by norm_num) (by norm_num) (by norm_num)]
  rw [show fmul (9786711 / 8388608) 30 = 4587521 / 131072 from
    fmul_eval (9786711 / 8388608) 30 5 9175042 (4587521 / 131072) (by norm_num) (by norm_num)
      (by norm_num) (by norm_num) (by norm_num) (by norm_num)]
  rw [show truncToInt (4587521 / 131072) = 35 from
    truncToInt_eval (4587521 / 131072) 35 (by norm_num) (by norm_num) (by norm_num)]
  rw [show fadd (9786711 / 8388608) (8947849 / 268435456) = 10066331 / 8388608 from
    fadd_eval (9786711 / 8388608) (8947849 / 268435456) 0 10066331 (10066331 / 8388608)
      (by norm_num) (by norm_num) (by norm_num) (by norm_num) (by norm_num) (by norm_num)]
  rw [show fmul (10066331 / 8388608) 30 = 9437185 / 262144 from
    fmul_eval (10066331 / 8388608) 30 5 9437185 (9437185 / 262144) (by norm_num) (by norm_num)
      (by norm_num) (by norm_num) (by norm_num) (by norm_num)]
  rw [show truncToInt (9437185 / 262144) = 36 from
    truncToInt_eval (9437185 / 262144) 36 (by norm_num) (by norm_num) (by norm_num)]
  rw [show fadd (10066331 / 8388608) (8947849 / 268435456) = 10345951 / 8388608 from
    fadd_eval (10066331 / 8388608) (8947849 / 268435456) 0 10345951 (10345951 / 8388608)
      (by norm_num) (by norm_num) (by norm_num) (by norm_num) (by norm_num) (by norm_num)]
  rw [show fmul (10345951 / 8388608) 30 = 9699329 / 262144 from
    fmul_eval (10345951 / 8388608) 30 5 9699329 (9699329 / 262144) (by norm_num) (by norm_num)
      (by norm_num) (by norm_num) (by norm_num) (by norm_num)]
  rw [show truncToInt (9699329 / 262144) = 37 from
    truncToInt_eval (9699329 / 262144) 37 (by norm_num) (by norm_num) (by norm_num)]
  rw [show fadd (10345951 / 8388608) (8947849 / 268435456) = 10625571 / 8388608 from
    fadd_eval (10345951 / 8388608) (8947849 / 268435456) 0 10625571 (10625571 / 8388608)
      (by norm_num) (by norm_num) (by norm_num) (by norm_num) (by norm_num) (by norm_num)]
  rw [show fmul (10625571 / 8388608) 30 = 9961473 / 262144 from
    fmul_eval (10625571 / 8388608) 30 5 9961473 (9961473 / 262144) (by norm_num) (by norm_num)
      (by norm_num) (by norm_num) (by norm_num) (by norm_num)]
  rw [show truncToInt (9961473 / 262144) = 38 from
    truncToInt_eval (9961473 / 262144) 38 (by norm_num) (by norm_num) (by norm_num)]
  rw [show fadd (10625571 / 8388608) (8947849 / 268435456) = 10905191 / 8388608 from
    fadd_eval (10625571 / 8388608) (8947849 / 268435456) 0 10905191 (10905191 / 8388608)
      (by norm_num) (by norm_num) (by norm_num) (by norm_num) (by norm_num) (by norm_num)]
  rw [show fmul (10905191 / 8388608) 30 = 10223617 / 262144 from
    fmul_eval (10905191 / 8388608) 30 5 10223617 (10223617 / 262144) (by norm_num) (by norm_num)
      (by norm_num) (by norm_num) (by norm_num) (by norm_num)]
  rw [show truncToInt (10223617 / 262144) = 39 from
    truncToInt_eval (10223617 / 262144) 39 (by norm_num) (by norm_num) (by norm_num)]
  rw [show fadd (10905191 / 8388608) (8947849 / 268435456) = 11184811 / 8388608 from
    fadd_eval (10905191 / 8388608) (8947849 / 268435456) 0 11184811 (11184811 / 8388608)
      (by norm_num) (by norm_num) (by norm_num) (by norm_num) (by norm_num) (by norm_num)]
  rw [show fmul (11184811 / 8388608) 30 = 40 from
    fmul_eval (11184811 / 8388608) 30 5 10485760 40 (by norm_num) (by norm_num) (by norm_num)
      (by norm_num) (by norm_num) (by norm_num)]
  rw [show truncToInt 40 = 40 from
    truncToInt_eval 40 40 (by norm_num) (by norm_num) (by norm_num)]
  rw [show fadd (11184811 / 8388608) (8947849 / 268435456) = 11464431 / 8388608 from
    fadd_eval (11184811 / 8388608) (8947849 / 268435456) 0 11464431 (11464431 / 8388608)
      (by norm_num) (by norm_num) (by norm_num) (by norm_num) (by norm_num) (by norm_num)]
  rw [show fmul (11464431 / 8388608) 30 = 41 from
    fmul_eval (11464431 / 8388608) 30 5 10747904 41 (by norm_num) (by norm_num) (by norm_num)
      (by norm_num) (by norm_num) (by norm_num)]
  rw [show truncToInt 41 = 41 from
    truncToInt_eval 41 41 (by norm_num) (by norm_num) (by norm_num)]
  rw [show fadd (11464431 / 8388608) (8947849 / 268435456) = 11744051 / 8388608 from
    fadd_eval (11464431 / 8388608) (8947849 / 268435456) 0 11744051 (11744051 / 8388608)
      (by norm_num) (by norm_num) (by norm_num) (by norm_num) (by norm_num) (by norm_num)]
  rw [show fmul (11744051 / 8388608) 30 = 42 from
    fmul_eval (11744051 / 8388608) 30 5 11010048 42 (by norm_num) (by norm_num) (by norm_num)
      (by norm_num) (by norm_num) (by norm_num)]
  rw [show truncToInt 42 = 42 from
    truncToInt_eval 42 42 (by norm_num) (by norm_num) (by norm_num)]
  rw [show fadd (11744051 / 8388608) (8947849 / 268435456) = 12023671 / 8388608 from
    fadd_eval (11744051 / 8388608) (8947849 / 268435456) 0 12023671 (12023671 / 8388608)
      (by norm_num) (by norm_num) (by norm_num) (by norm_num) (by norm_num) (by norm_num)]
  rw [show fmul (12023671 / 8388608) 30 = 43 from
    fmul_eval (12023671 / 8388608) 30 5 11272192 43 (by norm_num) (by norm_num) (by norm_num)
      (by norm_num) (by norm_num) (by norm_num)]
  rw [show truncToInt 43 = 43 from
    truncToInt_eval 43 43 (by norm_num) (by norm_num) (by norm_num)]
  rw [show fadd (12023671 / 8388608) (8947849 / 268435456) = 12303291 / 8388608 from
    fadd_eval (12023671 / 8388608) (8947849 / 268435456) 0 12303291 (12303291 / 8388608)
      (by norm_num) (by norm_num) (by norm_num) (by norm_num) (by norm_num) (by norm_num)]
  rw [show fmul (12303291 / 8388608) 30 = 11534335 / 262144 from
    fmul_eval (12303291 / 8388608) 30 5 11534335 (11534335 / 262144) (by norm_num) (by norm_num)
      (by norm_num) (by norm_num) (by norm_num) (by norm_num)]
  rw [show truncToInt (11534335 / 262144) = 43 from
    truncToInt_eval (11534335 / 262144) 43 (by norm_num) (by norm_num) (by norm_num)]
  rw [show fadd (12303291 / 8388608) (8947849 / 268435456) = 12582911 / 8388608 from
    fadd_eval (12303291 / 8388608) (8947849 / 268435456) 0 12582911 (12582911 / 8388608)
      (by norm_num) (by norm_num) (by norm_num) (by norm_num) (by norm_num) (by norm_num)]
  rw [show fmul (12582911 / 8388608) 30 = 11796479 / 262144 from
    fmul_eval (12582911 / 8388608) 30 5 11796479 (11796479 / 262144) (by norm_num) (by norm_num)
      (by norm_num) (by norm_num) (by norm_num) (by norm_num)]
  rw [show truncToInt (11796479 / 262144) = 44 from
    truncToInt_eval (11796479 / 262144) 44 (by norm_num) (by norm_num) (by norm_num)]

/-- An entry of a prefix of a list is the entry of the list. -/
theorem getD_take_of_lt {α : Type} (X : List α) (a : α) :
    ∀ (k i : Nat), i < k → (X.take k).getD i a = X.getD i a := by
  induction X with
  | nil => intro k i _; simp
  | cons x X ih =>
    intro k i h
    cases k with
    | zero => omega
    | succ k =>
      cases i with
      | zero => simp
      | succ i =>
        simp only [List.take_succ_cons, List.getD_cons_succ]
        exact ih k i (by omega)

/-- The entries of a prefix without its last entry are entries of the list at
the indices before the last index of the prefix. -/
theorem mem_dropLast_take (X : List Int) :
    ∀ (j : Nat), j < X.length → ∀ f, f ∈ (X.take (j + 1)).dropLast →
      ∃ i, i < j ∧ X.getD i 0 = f := by
  induction X with
  | nil => intro j hj; simp at hj
  | cons x X ih =>
    intro j hj f hf
    cases j with
    | zero => simp at hf
    | succ j =>
      have hj' : j < X.length := by simpa using hj
      obtain ⟨y, Y, hY⟩ : ∃ y Y, X.take (j + 1) = y :: Y := by
        cases X with
        | nil => simp at hj'
        | cons y Y => exact ⟨y, Y.take j, rfl⟩
      rw [List.take_succ_cons, hY, List.dropLast_cons₂] at hf
      rcases List.mem_cons.mp hf with h | h
      · exact ⟨0, by omega, by simp [h]⟩
      · obtain ⟨i, hi, hfi⟩ := ih j hj' f (by rw [hY]; exact h)
        exact ⟨i + 1, by omega, by simpa using hfi⟩

namespace Controller

/-- The frame indices of a prefix of a run are a prefix of the frame indices of
the run. -/
theorem tickFrames_take (l : List ℚ) :
    ∀ (t : ℚ) (k : Nat), tickFrames t (l.take k) = (tickFrames t l).take k := by
  induction l with
  | nil => intro t k; simp [tickFrames]
  | cons dt l ih =>
    intro t k
    cases k with
    | zero => simp [tickFrames]
    | succ k => simp [tickFrames, ih]

/-- The first end-of-clip tick of a run: on a clip with
`frameEnd = frameStart + N`, with a chain that ends and a controller whose own
`activate` leaves the animation cursor alone, the tick with index `j` is the
first end-of-clip tick when its frame index is the first one above `N`. -/
theorem updateAnimation_first_exceed (d : Defs) (hk : Nat → Hooks) (self n : Nat)
    (commands : Bool) (w : World) (N : Nat) (l : List ℚ) (j : Nat)
    (hN : (w.level.anims (w.controllers self).animIndex).frameEnd =
      (w.level.anims (w.controllers self).animIndex).frameStart + N)
    (hact : KeepsClip (hk self).activate)
    (hfin : chainEnds w.cmds n (w.controllers self).actionCommand = true)
    (hj : j < l.length)
    (hbefore : ∀ i, i < j → (tickFrames (w.controllers self).animTime l).getD i 0 ≤ N)
    (hfire : (N : Int) < (tickFrames (w.controllers self).animTime l).getD j 0) :
    EndOfClipOn d hk self (n + 1) commands w l j := by
  have hlen : (l.take (j + 1)).length = j + 1 := by
    rw [List.length_take]; omega
  have hlenF := tickFrames_length l (w.controllers self).animTime
  have hstay : ∀ f ∈ (tickFrames (w.controllers self).animTime (l.take (j + 1))).dropLast,
      f ≤ (w.level.anims (w.controllers self).animIndex).frameEnd -
        (w.level.anims (w.controllers self).animIndex).frameStart := by
    intro f hf
    rw [tickFrames_take] at hf
    obtain ⟨i, hi, hfi⟩ := mem_dropLast_take _ j (by omega) f hf
    have := hbefore i hi
    rw [hfi] at this
    omega
  have key : ∀ i, i ≤ j →
      ∃ wi, runTicks d hk self (n + 1) commands (l.take i) w = some wi ∧
        wi.level.anims = w.level.anims ∧
        (wi.controllers self).animIndex = (w.controllers self).animIndex ∧
        wi.cmds = w.cmds ∧
        (wi.controllers self).actionCommand = (w.controllers self).actionCommand ∧
        tickEnd wi.level (wi.controllers self) (l.getD i 0) =
          decide ((tickFrames (w.controllers self).animTime l).getD i 0 > N) := by
    intro i hi
    obtain ⟨wi, r1, r2, _, r4, _, r6⟩ := runTicks_prefix d hk self (n + 1) commands
      (l.take (j + 1)) w hstay i (by omega)
    obtain ⟨wi2, q1, q2, q3⟩ := runTicks_prefix_chain d hk self (n + 1) commands
      (l.take (j + 1)) w hstay i (by omega)
    rw [r1] at q1
    cases Option.some.inj q1
    have et : (l.take (j + 1)).take i = l.take i := by
      rw [List.take_take]; congr 1; omega
    rw [et] at r1
    rw [getD_take_of_lt l 0 (j + 1) i (by omega), tickFrames_take,
      getD_take_of_lt _ 0 (j + 1) i (by omega)] at r6
    refine ⟨wi, r1, r2, r4, q2, q3, ?_⟩
    unfold tickEnd
    rw [r6, r2, r4, hN]
    apply decide_eq_decide.mpr
    constructor <;> intro h <;> omega
  constructor
  · intro i hi
    obtain ⟨wi, h1, _, h3, _, _, h6⟩ := key i (by omega)
    refine ⟨wi, h1, h3, ?_⟩
    rw [h6]
    apply decide_eq_false
    have := hbefore i hi
    omega
  · obtain ⟨wb, h1, h2, h3, h4, h5, h6⟩ := key j (le_refl j)
    have hend : tickEnd wb.level (wb.controllers self) (l.getD j 0) = true := by
      rw [h6]; exact decide_eq_true hfire
    obtain ⟨p1, p2, _, _, _, p6⟩ := animPass_cursor d self commands (l.getD j 0) wb
    have hup := updateAnimation_of_end d hk self (n + 1) commands (l.getD j 0) wb hend
    rw [h2, h3] at hup
    obtain ⟨wa, hE⟩ := activateNext_returns d hk self n
      (setController (animPass d self commands (l.getD j 0) wb) self
        (setAnimation (animPass d self commands (l.getD j 0) wb).level
          ((animPass d self commands (l.getD j 0) wb).controllers self)
          (w.level.anims (w.controllers self).animIndex).nextAnimation
          (w.level.anims (w.controllers self).animIndex).nextFrame)) (by
        simp only [setController, Function.update_same, setAnimation]
        rw [p2, h4, p6, h5]
        exact hfin)
    obtain ⟨q1, q2, q3, q4⟩ := activateNext_keepsClip d hk self hact (n + 1) _ _ hE
    simp only [setController, Function.update_same, setAnimation] at q1 q2 q3 q4
    rw [p1, h2] at q1 q3
    refine ⟨wb, wa, h1, h3, hend, ?_, hE, q2, ?_, q4, q1⟩
    · have e : l.take (j + 1) = l.take j ++ [l.getD j 0] := by
        rw [List.take_succ, List.getD_eq_getElem?_getD]
        rw [List.getElem?_eq_getElem hj]
        simp
      rw [e, runTicks_append, h1]
      simp only [Option.bind, runTicks]
      rw [hup, hE]
    · rw [q3]
      simp only [setAnimation]

/-- The frame indices of up to 45 ticks of `1.0f / 30.0f` from clock 0. -/
theorem tickFrames_thirtieth_take (k : Nat) (hk : k ≤ 45) :
    tickFrames 0 (List.replicate k (fdiv 1 30)) =
      [1, 2, 3, 4, 5, 6, 7, 8, 9, 10, 11, 12, 13, 14, 15, 16, 17, 18, 19, 20,
        21, 22, 23, 24, 25, 26, 27, 28, 29, 30, 31, 32, 33, 34, 35, 36, 37, 38,
        39, 40, 41, 42, 43, 43, 44].take k := by
  rw [← tickFrames_thirtieth, ← tickFrames_take, List.take_replicate]
  congr 2
  omega

end Controller

/-- The frame index of tick `i + 1` of `1.0f / 30.0f` from clock 0 is `i + 1` up
to tick 43. -/
theorem frames_thirtieth_getD (i : Nat) (hi : i < 43) :
    ([1, 2, 3, 4, 5, 6, 7, 8, 9, 10, 11, 12, 13, 14, 15, 16, 17, 18, 19, 20,
      21, 22, 23, 24, 25, 26, 27, 28, 29, 30, 31, 32, 33, 34, 35, 36, 37, 38,
      39, 40, 41, 42, 43, 43, 44] : List Int).getD i 0 = i + 1 := by
  interval_cases i <;> rfl

/-- C2 (fails as stated): with `Core::deltaTime = 1.0f / 30.0f` the `float` clock
lags behind the tick count. On `reelWorld`, whose clip 0 has
`frameEnd = frameStart + 43`, the controller is still on clip 0 after 43 ticks
from time 0 and tick 44 computes the frame index 43: it is no end-of-clip tick.
The first end-of-clip tick is tick 45. -/
theorem updateAnimation_tick_44_no_end :
    (reelWorld.level.anims (reelWorld.controllers 0).animIndex).frameEnd =
      (reelWorld.level.anims (reelWorld.controllers 0).animIndex).frameStart + 43 ∧
    (reelWorld.controllers 0).animTime = 0 ∧
    (∃ w43, Controller.runTicks Defs.sample baseHooks 0 1 true
        (List.replicate 43 (fdiv 1 30)) reelWorld = some w43 ∧
      (w43.controllers 0).animIndex = 0 ∧
      Controller.tickEnd w43.level (w43.controllers 0) (fdiv 1 30) = false) ∧
    (∃ w44, Controller.runTicks Defs.sample baseHooks 0 1 true
        (List.replicate 44 (fdiv 1 30)) reelWorld = some w44 ∧
      (w44.controllers 0).animIndex = 0 ∧
      Controller.tickEnd w44.level (w44.controllers 0) (fdiv 1 30) = true) := by
  have ht : (reelWorld.controllers 0).animTime = 0 := by
    simp [reelWorld, World.blank, Controller.blank]
  have hN : (reelWorld.level.anims (reelWorld.controllers 0).animIndex).frameEnd =
      (reelWorld.level.anims (reelWorld.controllers 0).animIndex).frameStart + (43 : Nat) := by
    simp [reelWorld, World.blank, Controller.blank]
  have hidx : (reelWorld.controllers 0).animIndex = 0 := by
    simp [reelWorld, World.blank, Controller.blank]
  obtain ⟨h1, wb, _, h2, h3, h4, _⟩ := Controller.updateAnimation_first_exceed Defs.sample
    baseHooks 0 0 true reelWorld 43 (List.replicate 45 (fdiv 1 30)) 44 hN
    Controller.keepsClip_activate
    (by simp [reelWorld, World.blank, Controller.blank, Controller.chainEnds])
    (by simp)
    (by
      intro i hi
      rw [ht, tickFrames_thirtieth]
      rcases Nat.lt_or_ge i 43 with h | h
      · rw [frames_thirtieth_getD i h]; omega
      · have : i = 43 := by omega
        subst this
        decide)
    (by rw [ht, tickFrames_thirtieth]; decide)
  refine ⟨by simpa using hN, ht, ?_, ?_⟩
  · obtain ⟨wi, g1, g2, g3⟩ := h1 43 (by omega)
    refine ⟨wi, ?_, by rw [g2, hidx], ?_⟩
    · rw [List.take_replicate] at g1
      exact g1
    · simpa using g3
  · refine ⟨wb, ?_, by rw [h3, hidx], ?_⟩
    · rw [List.take_replicate] at h2
      exact h2
    · simpa using h4

/-- C2 (amended): on a clip with `frameEnd = frameStart + N`, with a chain that
ends and a controller whose own `activate` leaves the animation cursor alone,
end-of-clip fires on the first tick whose frame index `int(animTime * 30.0f)` is
above `N` and on no tick before it, whatever the tick deltas; that tick returns
the result of one `activateNext` call on the state with the clip's
`nextAnimation` entered at `nextFrame`, and the tick after it tests the clip
entered. With `Core::deltaTime = 1.0f / 30.0f` from time 0 that tick is tick
`N + 1` for every `N` up to 42. -/
theorem updateAnimation_end_of_clip (d : Defs) (hk : Nat → Hooks) (self n : Nat)
    (commands : Bool) (w : World) (N : Nat)
    (hN : (w.level.anims (w.controllers self).animIndex).frameEnd =
      (w.level.anims (w.controllers self).animIndex).frameStart + N)
    (hact : Controller.KeepsClip (hk self).activate)
    (hfin : Controller.chainEnds w.cmds n (w.controllers self).actionCommand = true) :
    (∀ (l : List ℚ) (j : Nat), j < l.length →
      (∀ i, i < j → (Controller.tickFrames (w.controllers self).animTime l).getD i 0 ≤ N) →
      (N : Int) < (Controller.tickFrames (w.controllers self).animTime l).getD j 0 →
      Controller.EndOfClipOn d hk self (n + 1) commands w l j) ∧
    ((w.controllers self).animTime = 0 → N ≤ 42 →
      Controller.EndOfClipOn d hk self (n + 1) commands w
        (List.replicate (N + 1) (fdiv 1 30)) N) ∧
    (∀ (wa : World) (dt : ℚ),
      (wa.controllers self).animIndex =
        (w.level.anims (w.controllers self).animIndex).nextAnimation →
      wa.level.anims = w.level.anims →
      Controller.tickEnd wa.level (wa.controllers self) dt =
        decide (Controller.tickFrame (wa.controllers self) dt >
          (w.level.anims (w.level.anims (w.controllers self).animIndex).nextAnimation).frameEnd -
          (w.level.anims
            (w.level.anims (w.controllers self).animIndex).nextAnimation).frameStart)) := by
  refine ⟨?_, ?_, ?_⟩
  · intro l j hj hbefore hfire
    exact Controller.updateAnimation_first_exceed d hk self n commands w N l j hN hact hfin hj
      hbefore hfire
  · intro ht hN42
    apply Controller.updateAnimation_first_exceed d hk self n commands w N _ N hN hact hfin
      (by simp)
    · intro i hi
      rw [ht, Controller.tickFrames_thirtieth_take (N + 1) (by omega)]
      rw [getD_take_of_lt _ 0 (N + 1) i (by omega), frames_thirtieth_getD i (by omega)]
      omega
    · rw [ht, Controller.tickFrames_thirtieth_take (N + 1) (by omega)]
      rw [getD_take_of_lt _ 0 (N + 1) N (by omega), frames_thirtieth_getD N (by omega)]
      omega
  · intro wa dt h1 h2
    unfold Controller.tickEnd
    rw [h2, h1]

/-- C2 (amended) on `longWorld`, where clip 0 has `frameEnd = frameStart + 2` and
leads to frame 10 of clip 1 (frames 10..15): with ticks of `1.0f / 30.0f` the
third tick is the first end-of-clip tick, it enters clip 1 at time 0 with no
frame processed, and the fourth tick is no end-of-clip tick. -/
theorem updateAnimation_end_of_clip_witness :
    ∃ wE, Controller.runTicks Defs.sample baseHooks 0 1 true (List.replicate 3 (fdiv 1 30))
        longWorld = some wE ∧
      (wE.controllers 0).animIndex = 1 ∧ (wE.controllers 0).animTime = 0 ∧
      (wE.controllers 0).animPrevFrame = -1 ∧
      Controller.tickEnd wE.level (wE.controllers 0) (fdiv 1 30) = false := by
  have hthm := updateAnimation_end_of_clip Defs.sample baseHooks 0 0 true longWorld 2
    (by simp [longWorld, World.blank, Controller.blank])
    Controller.keepsClip_activate
    (by simp [longWorld, World.blank, Controller.blank, Controller.chainEnds])
  obtain ⟨_, wb, wa, _, _, _, h4, _, h6, h7, h8, h9⟩ := hthm.2.1
    (by simp [longWorld, World.blank, Controller.blank]) (by omega)
  have h4' : Controller.runTicks Defs.sample baseHooks 0 1 true (List.replicate 3 (fdiv 1 30))
      longWorld = some wa := by
    rw [List.take_replicate] at h4
    exact h4
  have ht : (wa.controllers 0).animTime = 0 := by
    rw [h7]
    simp [Controller.setAnimation, longWorld, World.blank, Controller.blank, fdiv_zero_left]
  have hi : (wa.controllers 0).animIndex = 1 := by
    rw [h6]; simp [longWorld, World.blank, Controller.blank]
  refine ⟨wa, h4', hi, ht, h8, ?_⟩
  rw [hthm.2.2 wa (fdiv 1 30) h6 h9]
  unfold Controller.tickFrame
  rw [ht]
  rw [show fdiv 1 30 = 8947849 / 268435456 from
    fdiv_eval 1 30 (-5) 8947849 (8947849 / 268435456) (by norm_num) (by norm_num) (by norm_num)
      (by norm_num) (by norm_num) (by norm_num)]
  rw [show fadd 0 (8947849 / 268435456) = 8947849 / 268435456 from
    fadd_eval 0 (8947849 / 268435456) (-5) 8947849 (8947849 / 268435456) (by norm_num)
      (by norm_num) (by norm_num) (by norm_num) (by norm_num) (by norm_num)]
  rw [show fmul (8947849 / 268435456) 30 = 1 from
    fmul_eval (8947849 / 268435456) 30 0 8388608 1 (by norm_num) (by norm_num) (by norm_num)
      (by norm_num) (by norm_num) (by norm_num)]
  rw [show truncToInt 1 = 1 from truncToInt_eval 1 1 (by norm_num) (by norm_num) (by norm_num)]
  simp [longWorld, World.blank, Controller.blank]
